import Mathlib

/-!
# NuPlayer playback controller

A shallow embedding of `media/libmediaplayerservice/nuplayer/NuPlayer.cpp`.

* The controller object is the structure `NuPlayer`; every member function that
  mutates it is a function `NuPlayer → Except Fault NuPlayer`.
* A failed `CHECK` / `LOG_ALWAYS_FATAL` / `TRESPASS` and a member call through an
  empty handle end the run; they are the two constructors of `Fault`, tagged with
  the source line.
* Everything the controller sends (commands to the source, the decoders and the
  renderer, notifications to the driver, posted messages) is appended, in order,
  to the field `trace`, each with a snapshot of the flush statuses and the
  completion matrix at that moment, so that the order of sends and state changes
  inside one handler can be stated.
* Answers of the collaborators that the controller reads back are the fields of
  `Env`; one `Env` holds the answers given while one message is handled.
* The preprocessor switches are the fields of `Build`: both branches of every
  `#ifdef` are embedded.
* `int32_t` / `int64_t` counters and times are `Int`; `float` rates are `ℚ`
  (the controller only compares them with the constants 0 and 1).
-/

namespace android

/-! ## Platform constants (utils/Errors.h, MediaErrors.h, mediaplayer.h) -/

abbrev status_t := Int

abbrev OK : status_t := 0
abbrev UNKNOWN_ERROR : status_t := -2147483648
abbrev NO_INIT : status_t := -19
abbrev BAD_VALUE : status_t := -22
abbrev INVALID_OPERATION : status_t := -38
abbrev BAD_TYPE : status_t := -2147483647
abbrev EWOULDBLOCK : Int := 11
abbrev ECANCELED : Int := 125
abbrev ERROR_CANNOT_CONNECT : status_t := -1003
abbrev ERROR_MALFORMED : status_t := -1007
abbrev ERROR_UNSUPPORTED : status_t := -1010
abbrev ERROR_END_OF_STREAM : status_t := -1011
abbrev INFO_DISCONTINUITY : status_t := -1013
abbrev ERROR_DRM_NO_LICENSE : status_t := -2001

abbrev MEDIA_PLAYBACK_COMPLETE : Int := 2
abbrev MEDIA_BUFFERING_UPDATE : Int := 3
abbrev MEDIA_SET_VIDEO_SIZE : Int := 5
abbrev MEDIA_STARTED : Int := 6
abbrev MEDIA_TIMED_TEXT : Int := 99
abbrev MEDIA_ERROR : Int := 100
abbrev MEDIA_INFO : Int := 200
abbrev MEDIA_SUBTITLE_DATA : Int := 201
abbrev MEDIA_META_DATA : Int := 202

abbrev MEDIA_ERROR_UNKNOWN : Int := 1
abbrev MEDIA_INFO_RENDERING_START : Int := 3
abbrev MEDIA_INFO_BUFFERING_START : Int := 701
abbrev MEDIA_INFO_BUFFERING_END : Int := 702
abbrev MEDIA_INFO_NETWORK_BANDWIDTH : Int := 703
abbrev MEDIA_INFO_NOT_SEEKABLE : Int := 801
abbrev MEDIA_INFO_METADATA_UPDATE : Int := 802

/-- The preprocessor switches of NuPlayer.cpp, and the vendor constants that the
code under `MTK_AOSP_ENHANCEMENT` names but no file of the repository defines. -/
structure Build where
  MTK_AOSP_ENHANCEMENT : Bool
  MTK_AUDIO_TUNNELING_SUPPORT : Bool
  MTK_CLEARMOTION_SUPPORT : Bool
  MEDIA_PLAY_COMPLETE : Int
  MEDIA_INFO_HAS_UNSUPPORT_AUDIO : Int
  MEDIA_INFO_HAS_UNSUPPORT_VIDEO : Int
  MEDIA_ERROR_TYPE_NOT_SUPPORTED : Int
  MEDIA_ERROR_BAD_FILE : Int
  MEDIA_ERROR_CANNOT_CONNECT_TO_SERVER : Int
  MEDIA_ERROR_INVALID_CONNECTION : Int
  MEDIA_ERROR_NOT_VALID_FOR_PROGRESSIVE_PLAYBACK : Int
  ERROR_FORBIDDEN : Int
  ERROR_POOR_INTERLACE : Int
  deriving DecidableEq, Repr

/-! ## Data model -/

/-- How a run of the controller ends abnormally. -/
inductive Fault where
  /-- A `CHECK`, `CHECK_EQ`, `LOG_ALWAYS_FATAL_IF` or `TRESPASS` at this line fired. -/
  | check (line : Nat)
  /-- A member function was called through an empty handle at this line. -/
  | nullDeref (line : Nat)
  /-- An integer division by zero at this line. -/
  | divideByZero (line : Nat)
  /-- The bound of the deferred-action loop was used up. -/
  | fuel
  deriving DecidableEq, Repr

inductive FlushStatus where
  | NONE
  | FLUSHING_DECODER
  | FLUSHING_DECODER_SHUTDOWN
  | SHUTTING_DOWN_DECODER
  | FLUSHED
  | SHUT_DOWN
  deriving DecidableEq, Repr

inductive FlushCommand where
  | FLUSH_CMD_NONE
  | FLUSH_CMD_FLUSH
  | FLUSH_CMD_SHUTDOWN
  deriving DecidableEq, Repr

/-- The concrete class behind `sp<Source>`. -/
inductive Source where
  | StreamingSource
  | HTTPLiveSource
  | RTSPSource
  | GenericSource
  deriving DecidableEq, Repr

inductive DataSourceType where
  | SOURCE_Default
  | SOURCE_HttpLive
  | SOURCE_Local
  | SOURCE_Rtsp
  | SOURCE_Http
  deriving DecidableEq, Repr

inductive PrepareState where
  | UNPREPARED
  | PREPARING
  | PREPARED
  deriving DecidableEq, Repr

/-- Source::Flags, one field per bit the controller tests. -/
structure SourceFlags where
  FLAG_CAN_SEEK : Bool
  FLAG_DYNAMIC_DURATION : Bool
  FLAG_SECURE : Bool
  FLAG_PROTECTED : Bool
  deriving DecidableEq, Repr

/-- The concrete class behind `sp<DecoderBase>`. -/
inductive DecoderClass where
  | Decoder
  | DecoderPassThrough
  deriving DecidableEq, Repr

/-- A decoder object: its class, the track it serves and the value of
"generation" in the notify message it was constructed with. -/
structure DecoderBase where
  cls : DecoderClass
  audio : Bool
  generation : Int
  deriving DecidableEq, Repr

/-- A renderer object: the "generation" of its notify message and its flags. -/
structure Renderer where
  generation : Int
  FLAG_REAL_TIME : Bool
  FLAG_OFFLOAD_AUDIO : Bool
  deriving DecidableEq, Repr

abbrev Surface := Nat
abbrev AudioSink := Nat
/-- An `sp<AMessage>` or `sp<AReplyToken>` owned by somebody else, named by a number. -/
abbrev AMessageId := Nat

structure AudioPlaybackRate where
  mSpeed : ℚ
  mPitch : ℚ
  mStretchMode : Nat
  mFallbackMode : Nat
  deriving DecidableEq, Repr

abbrev AUDIO_PLAYBACK_RATE_DEFAULT : AudioPlaybackRate := ⟨1, 1, 0, 0⟩

/-- The keys of a format message that the controller reads. -/
structure Format where
  err : Option Int
  mime : Bool
  width : Option Int
  height : Option Int
  crop : Option (Int × Int × Int × Int)
  sarWidth : Option Int
  sarHeight : Option Int
  rotationDegrees : Option Int
  widthRatio : Option Int
  heightRatio : Option Int
  NotUpdateVideoSize : Option Int
  rtspUri : Bool
  rtspSdp : Bool
  deriving DecidableEq, Repr

inductive SimpleFunc where
  | performScanSources
  | performReset
  deriving DecidableEq, Repr

/-- NuPlayer::Action and its subclasses; the fields are the members of each. -/
inductive Action where
  | SeekAction (mSeekTimeUs : Int)
  | ResumeDecoderAction (mNeedNotify : Bool)
  | SetSurfaceAction (mSurface : Option Surface)
  | FlushDecoderAction (mAudio : FlushCommand) (mVideo : FlushCommand)
  | PostMessageAction (mMessage : AMessageId)
  | SimpleAction (mFunc : SimpleFunc)
  deriving DecidableEq, Repr

/-- mFlushComplete[2][2]: first index the track (1 = audio), second index 1 = decoder,
0 = renderer. -/
structure FlushComplete where
  videoRenderer : Bool
  videoDecoder : Bool
  audioRenderer : Bool
  audioDecoder : Bool
  deriving DecidableEq, Repr

def FlushComplete.get (f : FlushComplete) (audio isDecoder : Bool) : Bool :=
  match audio, isDecoder with
  | false, false => f.videoRenderer
  | false, true => f.videoDecoder
  | true, false => f.audioRenderer
  | true, true => f.audioDecoder

def FlushComplete.set (f : FlushComplete) (audio isDecoder : Bool) (v : Bool) : FlushComplete :=
  match audio, isDecoder with
  | false, false => { f with videoRenderer := v }
  | false, true => { f with videoDecoder := v }
  | true, false => { f with audioRenderer := v }
  | true, true => { f with audioDecoder := v }

/-! ## Messages -/

/-- The payload of a decoder notification ("what" and the keys read for it). -/
inductive DecoderWhat where
  | kWhatInputDiscontinuity (formatChange : Bool)
  | kWhatEOS (err : Int)
  | kWhatFlushCompleted
  | kWhatVideoSizeChanged (format : Format)
  | kWhatShutdownCompleted
  | kWhatResumeCompleted
  | kWhatError (err : Option Int) (errACodec : Option Int)
  | other (what : Int)
  deriving DecidableEq, Repr

inductive AudioTearDownReason where
  | kDueToError
  | kDueToTimeout
  | kForceNonOffload
  deriving DecidableEq, Repr

/-- The payload of a renderer notification. -/
inductive RendererWhat where
  | kWhatEOS (audio : Bool) (finalResult : Int)
  | kWhatFlushComplete (audio : Bool)
  | kWhatVideoRenderingStart
  | kWhatMediaRenderingStart
  | kWhatAudioTearDown (reason : AudioTearDownReason) (positionUs : Option Int)
  | kWhatRetryAudioOffload (positionUs : Int)
  | other (what : Int)
  deriving DecidableEq, Repr

/-- The payload of a source notification. Buffers are given by the meta keys read. -/
inductive SourceWhat where
  | kWhatInstantiateSecureDecoders (reply : AMessageId)
  | kWhatPrepared (err : Int)
  | kWhatFlagsChanged (flags : SourceFlags)
  | kWhatVideoSizeChanged (format : Format)
  | kWhatBufferingUpdate (percentage : Int)
  | kWhatPauseOnBufferingStart
  | kWhatResumeOnBufferingEnd
  | kWhatCacheStats (bandwidth : Int)
  | kWhatSubtitleData (trackIndex : Int) (timeUs : Int) (durationUs : Int)
  | kWhatTimedMetaData (timeUs : Option Int)
  | kWhatTimedTextData (generation : Option Int) (timeUs : Int) (size : Nat)
  | kWhatQueueDecoderShutdown (audio : Bool) (video : Bool) (reply : AMessageId)
  | kWhatDrmNoLicense
  | kWhatDurationUpdate (durationUs : Int)
  | kWhatSourceError (err : Int)
  | kWhatBufferNotify (bufRate : Int)
  | kWhatSeekDone
  | kWhatPicture
  | other (what : Int)
  deriving DecidableEq, Repr

inductive CCWhat where
  | kWhatClosedCaptionData (trackIndex : Int) (timeUs : Int) (durationUs : Int)
  | kWhatTrackAdded
  | other (what : Int)
  deriving DecidableEq, Repr

/-- The messages of the controller's own queue, with the keys each handler reads. -/
inductive Msg where
  | kWhatSetDataSource (source : Option Source) (result : Option Int)
  | kWhatPrepare
  | kWhatGetTrackInfo (replyID : AMessageId)
  | kWhatGetSelectedTrack (type : Int) (replyID : AMessageId)
  | kWhatSelectTrack (trackIndex : Nat) (select : Bool) (timeUs : Int) (replyID : AMessageId)
  | kWhatPollDuration (generation : Int)
  | kWhatSetVideoSurface (surface : Option Surface)
  | kWhatSetAudioSink (sink : Option AudioSink)
  | kWhatStart
  | kWhatConfigPlayback (rate : AudioPlaybackRate) (replyID : AMessageId)
  | kWhatGetPlaybackSettings (replyID : AMessageId)
  | kWhatConfigSync (sync : Nat) (videoFpsHint : ℚ) (replyID : AMessageId)
  | kWhatGetSyncSettings (replyID : AMessageId)
  | kWhatScanSources (generation : Int)
  | kWhatDecoderNotify (audio : Bool) (generation : Int) (reply : Option AMessageId)
      (what : DecoderWhat)
  | kWhatRendererNotify (generation : Int) (what : RendererWhat)
  | kWhatMoreDataQueued
  | kWhatReset
  | kWhatSeek (seekTimeUs : Int) (needNotify : Bool)
  | kWhatPause
  | kWhatSourceNotify (what : SourceWhat)
  | kWhatClosedCaptionNotify (what : CCWhat)
  deriving DecidableEq, Repr

/-! ## What the controller sends -/

inductive SourceCmd where
  | prepareAsync
  | start
  | stop
  | pause
  | resume
  | seekTo (seekTimeUs : Int)
  | setOffloadAudio (offload : Bool)
  | selectTrack (trackIndex : Nat) (select : Bool) (timeUs : Int)
  | setBuffers
  | stopTrack (audio : Bool)
  | setParamsIsMtkMusic
  | setParamsDecoderError (value : Int)
  deriving DecidableEq, Repr

inductive DecoderCmd where
  | init (d : DecoderBase)
  | configure
  | setRenderer
  | setParameters
  | setVideoSurface (surface : Option Surface)
  | signalFlush
  | signalResume (needNotify : Bool)
  | initiateShutdown
  | pause
  deriving DecidableEq, Repr

inductive RendererCmd where
  | create (r : Renderer)
  | registerHandler
  | unregisterHandler
  | setPlaybackSettings (rate : AudioPlaybackRate)
  | setSyncSettings (sync : Nat) (videoFpsHint : ℚ)
  | setVideoFrameRate
  | setFlagHasVideoAudio
  | setUseSyncQueues (enable : Bool)
  | setUseFlushAudioSyncQueues
  | setLateVideoToDisplay (enable : Bool)
  | queueEOS (audio : Bool) (err : Int)
  | flush (audio : Bool) (notifyComplete : Bool)
  | pause
  | resume
  | openAudioSink
  | closeAudioSink
  | signalEnableOffloadAudio
  | signalDisableOffloadAudio
  | signalRetryOffload
  | notifyBufferingStart
  | notifyBufferingEnd
  deriving DecidableEq, Repr

inductive DriverCall where
  /-- notifyListener(msg, ext1, ext2, in); the list holds the integers written to the
  Parcel in (empty when there is none; buffer sizes and bytes are left out). -/
  | notifyListener (msg : Int) (ext1 : Int) (ext2 : Int) (parcel : List Int)
  | notifySetDataSourceCompleted (err : Int)
  | notifyPrepareCompleted (err : Int)
  | notifyDuration (durationUs : Int)
  | notifyUpdateDuration (durationUs : Int)
  | notifyFlagsChanged (flags : SourceFlags)
  | notifySetSurfaceComplete
  | notifySeekComplete
  | notifyResetComplete
  deriving DecidableEq, Repr

/-- One thing sent by the controller. -/
inductive Event where
  | source (c : SourceCmd)
  | decoder (audio : Bool) (c : DecoderCmd)
  | ccDecoderSelectTrack (trackIndex : Nat) (select : Bool)
  | renderer (c : RendererCmd)
  | driver (c : DriverCall)
  /-- response->postReply(replyID), with the "err" of the response if it has one. -/
  | postReply (replyID : AMessageId) (err : Option Int)
  /-- The reply to kWhatGetPlaybackSettings: "err" and, on OK, the rate written. -/
  | postReplyPlaybackSettings (replyID : AMessageId) (err : Int)
      (rate : Option AudioPlaybackRate)
  /-- The reply to kWhatGetSyncSettings: "err" and, on OK, the settings written. -/
  | postReplySyncSettings (replyID : AMessageId) (err : Int) (sync : Option (Nat × ℚ))
  /-- msg->post() on a message of another component, with the "err" set on it if any. -/
  | postMessage (msg : AMessageId) (err : Option Int)
  /-- msg->post(delayUs) on a message of the controller itself. -/
  | post (msg : Msg) (delayUs : Int)
  /-- reply->writeInt32 on the Parcel of a track query. -/
  | parcelWriteInt32 (v : Int)
  /-- The four writes of writeTrackInfo for one track, and the three more of a subtitle track. -/
  | parcelWriteTrackInfo (trackType : Int) (subtitle : Option (Int × Int × Int))
  | sendMetaDataToHal
  | setThrottleBufferLimitCount (n : Nat)
  | nativeWindowSetScalingMode (mode : Int)
  | prepareAsync
  /-- An ALOGE line of flushDecoder: it was called for a track whose flush status
  was not NONE. -/
  | logFlushDecoderInState (audio : Bool) (status : FlushStatus)
  deriving DecidableEq, Repr

/-- One entry of the trace: what was sent, and the two flush statuses and the
completion matrix of the controller at the moment it was sent. -/
structure Sent where
  event : Event
  flushingAudio : FlushStatus
  flushingVideo : FlushStatus
  flushComplete : FlushComplete
  deriving DecidableEq, Repr

/-- The keys of a track-info message read by writeTrackInfo. -/
structure TrackInfo where
  trackType : Option Int
  mime : Bool
  language : Bool
  subtitleFlags : Option (Int × Int × Int)
  deriving DecidableEq, Repr

/-- The answers of the collaborators while one message is handled. -/
structure Env where
  /-- mDriver.promote() != NULL -/
  driverAlive : Bool
  /-- driver->getCurrentPosition, in ms -/
  driverPositionMs : Int
  /-- mSource->getFormat(true) and mSource->getFormat(false) -/
  sourceAudioFormat : Option Format
  sourceVideoFormat : Option Format
  /-- mSource->getFormatMeta(audio) != NULL -/
  sourceAudioMeta : Bool
  sourceVideoMeta : Bool
  /-- kKeyFrameRate of the video meta and of the file meta; file meta present -/
  videoMetaFrameRate : Option Int
  fileMeta : Bool
  fileMetaFrameRate : Option Int
  fileMetaTemporalLayerCount : Option Int
  fileMetaHasUnsupportVideo : Option Int
  sourceIsRealTime : Bool
  sourceIsStreaming : Bool
  sourceHasVideo : Bool
  /-- mSource->getDuration: the duration when it returns OK -/
  sourceDuration : Option Int
  sourceFeedMoreTSData : status_t
  sourceTrackCount : Nat
  sourceTrackInfo : Nat → Option TrackInfo
  sourceSelectTrack : status_t
  sourceSelectedTrack : Int
  sourceSetBuffers : status_t
  sourceInitCheck : status_t
  sourceFinalStatus : status_t
  sourceDataSourceType : DataSourceType
  sourceNotifyCanNotConnectServerIfPossible : Bool
  ccTrackCount : Nat
  ccTrackInfo : Nat → Option TrackInfo
  ccSelectTrack : status_t
  /-- mVideoDecoder->setVideoSurface -/
  decoderSetVideoSurface : status_t
  decoderGetInputBuffers : status_t
  /-- renderer->getCurrentPosition: the position when it returns OK -/
  rendererPosition : Option Int
  rendererSetPlaybackSettings : status_t
  /-- mRenderer->getPlaybackSettings: status and the rate written on OK -/
  rendererGetPlaybackSettings : status_t × AudioPlaybackRate
  rendererSetSyncSettings : status_t
  rendererGetSyncSettings : status_t × Nat × ℚ
  /-- mRenderer->openAudioSink(offloadOnly): status and the value written to the flag -/
  rendererOpenAudioSink : status_t × Bool
  /-- canOffloadStream(audioMeta, hasVideo, isStreaming, streamType) -/
  canOffloadStream : Bool
  nativeWindowSetScalingMode : status_t
  /-- property persist.sys.media.avsync is "1" or "true" -/
  propertyAvsync : Bool

/-! ## The controller object -/

/-- The data members of NuPlayer, and the trace of what it has sent. -/
structure NuPlayer where
  /-- mDriver != NULL (a weak pointer was set by setDriver) -/
  mDriver : Bool
  mSource : Option Source
  mSourceFlags : SourceFlags
  mSurface : Option Surface
  mAudioSink : Option AudioSink
  mVideoDecoder : Option DecoderBase
  mAudioDecoder : Option DecoderBase
  mCCDecoder : Bool
  mRenderer : Option Renderer
  mRendererLooper : Bool
  mOffloadAudio : Bool
  mAudioDecoderGeneration : Int
  mVideoDecoderGeneration : Int
  mRendererGeneration : Int
  mPreviousSeekTimeUs : Int
  mAudioEOS : Bool
  mVideoEOS : Bool
  mScanSourcesPending : Bool
  mScanSourcesGeneration : Int
  mPollDurationGeneration : Int
  mTimedTextGeneration : Int
  mFlushingAudio : FlushStatus
  mFlushingVideo : FlushStatus
  mFlushComplete : FlushComplete
  mDeferredActions : List Action
  mResumePending : Bool
  mVideoScalingMode : Int
  mPlaybackSettings : AudioPlaybackRate
  mSyncSettings : Nat
  mVideoFpsHint : ℚ
  mStarted : Bool
  mPrepared : Bool
  mResetting : Bool
  mSourceStarted : Bool
  mPaused : Bool
  mPausedByClient : Bool
  mPausedForBuffering : Bool
  -- members that exist under MTK_AOSP_ENHANCEMENT
  mPrepare : PrepareState
  mDataSourceType : DataSourceType
  mIsStreamSource : Bool
  mIsMtkPlayback : Bool
  mSourceSeekDone : Bool
  mHaveSanSources : Bool
  mDebugDisableTrackId : Int
  mAudioOnly : Bool
  mVideoOnly : Bool
  mVideoinfoNotify : Bool
  mAudioinfoNotify : Bool
  mNotifyListenerVideodecoderIsNull : Bool
  m_i4ContainerWidth : Int
  m_i4ContainerHeight : Int
  /-- Everything sent so far, oldest first. -/
  trace : List Sent
  deriving DecidableEq

abbrev NATIVE_WINDOW_SCALING_MODE_SCALE_TO_WINDOW : Int := 1

/-- NuPlayer::NuPlayer together with init_ext; the argument is the value of the
property nuplayer.debug.disable.track (0 when unset), and setDriver has been called. -/
def NuPlayer.new (debugDisableTrack : Int) : NuPlayer where
  mDriver := true
  mSource := none
  mSourceFlags := ⟨false, false, false, false⟩
  mSurface := none
  mAudioSink := none
  mVideoDecoder := none
  mAudioDecoder := none
  mCCDecoder := false
  mRenderer := none
  mRendererLooper := false
  mOffloadAudio := false
  mAudioDecoderGeneration := 0
  mVideoDecoderGeneration := 0
  mRendererGeneration := 0
  mPreviousSeekTimeUs := 0
  mAudioEOS := false
  mVideoEOS := false
  mScanSourcesPending := false
  mScanSourcesGeneration := 0
  mPollDurationGeneration := 0
  mTimedTextGeneration := 0
  mFlushingAudio := .NONE
  mFlushingVideo := .NONE
  mFlushComplete := ⟨false, false, false, false⟩
  mDeferredActions := []
  mResumePending := false
  mVideoScalingMode := NATIVE_WINDOW_SCALING_MODE_SCALE_TO_WINDOW
  mPlaybackSettings := AUDIO_PLAYBACK_RATE_DEFAULT
  mSyncSettings := 0
  mVideoFpsHint := -1
  mStarted := false
  mPrepared := false
  mResetting := false
  mSourceStarted := false
  mPaused := false
  mPausedByClient := true
  mPausedForBuffering := false
  mPrepare := .UNPREPARED
  mDataSourceType := .SOURCE_Default
  mIsStreamSource := false
  mIsMtkPlayback := false
  mSourceSeekDone := true
  mHaveSanSources := false
  mDebugDisableTrackId := debugDisableTrack
  mAudioOnly := false
  mVideoOnly := false
  mVideoinfoNotify := false
  mAudioinfoNotify := false
  mNotifyListenerVideodecoderIsNull := false
  m_i4ContainerWidth := -1
  m_i4ContainerHeight := -1
  trace := []

/-! ## Small helpers -/

/-- Record that e is sent now. -/
def emit (e : Event) (m : NuPlayer) : NuPlayer :=
  { m with trace := m.trace ++ [⟨e, m.mFlushingAudio, m.mFlushingVideo, m.mFlushComplete⟩] }

/-- The events of the trace, without the snapshots. -/
def events (m : NuPlayer) : List Event :=
  m.trace.map Sent.event

/-- Modelled from the spec: getDecoder is an inline member of NuPlayer.h, which is not
among the files; it selects the handle of the track kind. -/
def getDecoder (audio : Bool) (m : NuPlayer) : Option DecoderBase :=
  if audio then m.mAudioDecoder else m.mVideoDecoder

/-- Modelled from the spec: clearFlushComplete is an inline member of NuPlayer.h, which
is not among the files; the completion matrix is "cleared at the start of every flush
cycle", all four entries false. -/
def clearFlushComplete (m : NuPlayer) : NuPlayer :=
  { m with mFlushComplete := ⟨false, false, false, false⟩ }

def reviseNotifyErrorCode (b : Build) (env : Env) (m : NuPlayer) (msg ext1 ext2 : Int) :
    Int × Int :=
  let httpCase : Bool :=
    m.mIsMtkPlayback && m.mSource.isSome && (m.mDataSourceType == .SOURCE_Http
      && (msg == MEDIA_ERROR || msg == b.MEDIA_PLAY_COMPLETE
          || ext1 == b.MEDIA_INFO_HAS_UNSUPPORT_AUDIO
          || ext1 == b.MEDIA_INFO_HAS_UNSUPPORT_VIDEO))
  let cache_stat := env.sourceFinalStatus
  let bCacheSuccess : Bool := cache_stat == OK || cache_stat == ERROR_END_OF_STREAM
  if httpCase && !bCacheSuccess && cache_stat == -ECANCELED then
    (ext1, ext2)
  else
    let r : Int × Int × Int :=
      if httpCase && !bCacheSuccess then
        ((if b.MEDIA_PLAY_COMPLETE == msg then MEDIA_ERROR else msg),
         (if cache_stat == b.ERROR_FORBIDDEN then b.MEDIA_ERROR_INVALID_CONNECTION
          else if cache_stat == b.ERROR_POOR_INTERLACE then
            b.MEDIA_ERROR_NOT_VALID_FOR_PROGRESSIVE_PLAYBACK
          else b.MEDIA_ERROR_CANNOT_CONNECT_TO_SERVER),
         cache_stat)
      else (msg, ext1, ext2)
    let msg1 := r.1
    let e1 := r.2.1
    let e2 := r.2.2
    if msg1 == MEDIA_ERROR && e1 == MEDIA_ERROR_UNKNOWN then
      if e2 == ERROR_MALFORMED then (b.MEDIA_ERROR_BAD_FILE, e2)
      else if e2 == ERROR_CANNOT_CONNECT then (b.MEDIA_ERROR_CANNOT_CONNECT_TO_SERVER, e2)
      else if e2 == ERROR_UNSUPPORTED then (b.MEDIA_ERROR_TYPE_NOT_SUPPORTED, e2)
      else if e2 == b.ERROR_FORBIDDEN then (b.MEDIA_ERROR_INVALID_CONNECTION, e2)
      else (e1, e2)
    else (e1, e2)

/-- notifyListener(msg, ext1, ext2, in) with a Parcel. -/
def notifyListenerParcel (b : Build) (env : Env) (msg ext1 ext2 : Int) (parcel : List Int)
    (m : NuPlayer) : NuPlayer :=
  if m.mDriver = false then m
  else if env.driverAlive = false then m
  else
    let ext := if b.MTK_AOSP_ENHANCEMENT then reviseNotifyErrorCode b env m msg ext1 ext2
               else (ext1, ext2)
    emit (.driver (.notifyListener msg ext.1 ext.2 parcel)) m

/-- notifyListener(msg, ext1, ext2) without a Parcel. -/
def notifyListener (b : Build) (env : Env) (msg ext1 ext2 : Int) (m : NuPlayer) : NuPlayer :=
  notifyListenerParcel b env msg ext1 ext2 [] m

/-- getCurrentPosition: the position when the call returns OK. -/
def getCurrentPosition (env : Env) (m : NuPlayer) : Option Int :=
  if m.mRenderer = none then none else env.rendererPosition

def getFrameRate (env : Env) : Int :=
  if env.sourceVideoMeta = false then 0
  else match env.videoMetaFrameRate with
    | some rate => rate
    | none =>
      if env.fileMeta = false then -1
      else match env.fileMetaFrameRate with
        | some fileMetaRate => fileMetaRate
        | none => -1

def IsFlushingState (state : FlushStatus) : Bool :=
  match state with
  | .FLUSHING_DECODER => true
  | .FLUSHING_DECODER_SHUTDOWN => true
  | .SHUTTING_DOWN_DECODER => true
  | _ => false

def isRTSPSource (env : Env) (m : NuPlayer) : Bool × NuPlayer :=
  let m := if m.mDataSourceType = .SOURCE_Default ∧ m.mSource ≠ none then
      { m with mDataSourceType := env.sourceDataSourceType } else m
  (m.mDataSourceType == .SOURCE_Rtsp, m)

def isHttpLiveSource (env : Env) (m : NuPlayer) : Bool × NuPlayer :=
  let m := if m.mDataSourceType = .SOURCE_Default ∧ m.mSource ≠ none then
      { m with mDataSourceType := env.sourceDataSourceType } else m
  (m.mDataSourceType == .SOURCE_HttpLive, m)

def notifyDriverSeekComplete (env : Env) (m : NuPlayer) : NuPlayer :=
  if m.mDriver = true ∧ env.driverAlive = true then emit (.driver .notifySeekComplete) m
  else m

def finishResume (env : Env) (m : NuPlayer) : NuPlayer :=
  if m.mResumePending = true then
    notifyDriverSeekComplete env { m with mResumePending := false }
  else m

def onPause (m : NuPlayer) : NuPlayer :=
  if m.mPaused = true then m
  else
    let m := { m with mPaused := true }
    let m := if m.mSource ≠ none then emit (.source .pause) m else m
    if m.mRenderer ≠ none then emit (.renderer .pause) m else m

def audioDecoderStillNeeded (m : NuPlayer) : Bool :=
  (m.mFlushingAudio != .SHUT_DOWN) && (m.mFlushingAudio != .SHUTTING_DOWN_DECODER)

def postScanSources (m : NuPlayer) : NuPlayer :=
  if m.mScanSourcesPending = true then m
  else
    let m := emit (.post (.kWhatScanSources m.mScanSourcesGeneration) 0) m
    { m with mScanSourcesPending := true }

def schedulePollDuration (m : NuPlayer) : NuPlayer :=
  emit (.post (.kWhatPollDuration m.mPollDurationGeneration) 0) m

def cancelPollDuration (m : NuPlayer) : NuPlayer :=
  { m with mPollDurationGeneration := m.mPollDurationGeneration + 1 }

def setVideoScalingMode (mode : Int) (m : NuPlayer) : NuPlayer :=
  let m := { m with mVideoScalingMode := mode }
  if m.mSurface ≠ none then emit (.nativeWindowSetScalingMode m.mVideoScalingMode) m else m

/-! ## Audio mode and decoder instantiation -/

def tryOpenAudioSinkForOffload (env : Env) (m : NuPlayer) : Except Fault NuPlayer :=
  if m.mRenderer = none then .error (.nullDeref 1756)
  else
    let m := emit (.renderer .openAudioSink) m
    let m := { m with mOffloadAudio := env.rendererOpenAudioSink.2 }
    if env.rendererOpenAudioSink.1 ≠ OK then .ok { m with mOffloadAudio := false }
    else if m.mOffloadAudio = true then .ok (emit .sendMetaDataToHal m)
    else .ok m

def determineAudioModeChange (env : Env) (m : NuPlayer) : Except Fault NuPlayer :=
  if m.mSource = none ∨ m.mAudioSink = none then .ok m
  else if m.mRenderer = none then .ok { m with mOffloadAudio := false }
  else
    let canOffload : Bool := env.canOffloadStream
      && (m.mPlaybackSettings.mSpeed == 1 && m.mPlaybackSettings.mPitch == 1)
    if canOffload = true then
      let m := if m.mOffloadAudio = false then emit (.renderer .signalEnableOffloadAudio) m
               else m
      tryOpenAudioSinkForOffload env m
    else if m.mOffloadAudio = true then
      .ok { emit (.renderer .signalDisableOffloadAudio) m with mOffloadAudio := false }
    else .ok m

/-- instantiateDecoder(audio, decoder, checkAudioModeChange): every call in the file
passes the handle of the same track kind as audio, so the handle is chosen by audio.
The result is the returned status and the controller afterwards. -/
def instantiateDecoder (b : Build) (env : Env) (audio : Bool) (checkAudioModeChange : Bool)
    (m : NuPlayer) : Except Fault (status_t × NuPlayer) :=
  if getDecoder audio m ≠ none ∨ (audio = true ∧ m.mFlushingAudio = .SHUT_DOWN) then
    .ok (OK, m)
  else if m.mSource = none then .error (.nullDeref 1854)
  else
    match (if audio then env.sourceAudioFormat else env.sourceVideoFormat) with
    | none => .ok (UNKNOWN_ERROR, m)
    | some format =>
      if format.err.isSome ∧ format.err ≠ some 0 then .ok (format.err.getD 0, m)
      else if b.MTK_AOSP_ENHANCEMENT = true ∧ m.mDebugDisableTrackId = 1 ∧ audio = true then
        .ok (-EWOULDBLOCK, m)
      else if b.MTK_AOSP_ENHANCEMENT = true ∧ m.mDebugDisableTrackId = 2 ∧ audio = false then
        .ok (-EWOULDBLOCK, m)
      else if audio = true then do
        let m := { m with mAudioDecoderGeneration := m.mAudioDecoderGeneration + 1 }
        let m ← (if checkAudioModeChange = true then determineAudioModeChange env m else pure m)
        let m := emit (.source (.setOffloadAudio m.mOffloadAudio)) m
        let d : DecoderBase :=
          ⟨if m.mOffloadAudio = true then .DecoderPassThrough else .Decoder, true,
            m.mAudioDecoderGeneration⟩
        let m := { m with mAudioDecoder := some d }
        let m := emit (.decoder true (.init d)) m
        let m := emit (.decoder true .configure) m
        pure (OK, m)
      else
        if format.mime = false then .error (.check 1892)
        else
          let m := { m with mCCDecoder := true }
          let m := { m with mVideoDecoderGeneration := m.mVideoDecoderGeneration + 1 }
          let d : DecoderBase := ⟨.Decoder, false, m.mVideoDecoderGeneration⟩
          let m := { m with mVideoDecoder := some d }
          let m := emit (.decoder false (.init d)) m
          let m := emit (.decoder false .configure) m
          if m.mSourceFlags.FLAG_SECURE = true ∧ env.decoderGetInputBuffers ≠ OK then
            .error (.check 1971)
          else
            let m := if m.mSourceFlags.FLAG_SECURE = true then emit (.source .setBuffers) m
                     else m
            if m.mSourceFlags.FLAG_SECURE = true ∧ env.sourceSetBuffers ≠ OK then
              .ok (env.sourceSetBuffers, m)
            else
              let hasParams : Bool := decide (getFrameRate env > 0)
                || (env.fileMeta && (match env.fileMetaTemporalLayerCount with
                                      | some n => decide (n > 0)
                                      | none => false))
              let m := if hasParams = true then emit (.decoder false .setParameters) m else m
              .ok (OK, m)

/-! ## Deferred actions -/

def performSeek_l (seekTimeUs : Int) (m : NuPlayer) : Except Fault NuPlayer :=
  if seekTimeUs = -1 then .error (.check 3386)
  else
    let m := { m with mAudioEOS := false, mVideoEOS := false, mPreviousSeekTimeUs := seekTimeUs }
    if m.mSource = none then .error (.nullDeref 3394)
    else .ok (emit (.source (.seekTo seekTimeUs)) m)

def performSeek (b : Build) (seekTimeUs : Int) (m : NuPlayer) : Except Fault NuPlayer :=
  if m.mSource = none then
    if m.mAudioDecoder ≠ none ∨ m.mVideoDecoder ≠ none then .error (.check 2326)
    else .ok m
  else do
    let m ← (if b.MTK_AOSP_ENHANCEMENT = true then performSeek_l seekTimeUs m
            else pure (emit (.source (.seekTo seekTimeUs))
                        { m with mPreviousSeekTimeUs := seekTimeUs }))
    pure { m with mTimedTextGeneration := m.mTimedTextGeneration + 1 }

def flushDecoder (audio needShutdown : Bool) (m : NuPlayer) : NuPlayer :=
  if getDecoder audio m = none then m
  else
    let m := { m with mScanSourcesGeneration := m.mScanSourcesGeneration + 1 }
    let m := if m.mScanSourcesPending = true then
        { m with mDeferredActions := m.mDeferredActions ++ [.SimpleAction .performScanSources],
                 mScanSourcesPending := false }
      else m
    let m := emit (.decoder audio .signalFlush) m
    let newStatus : FlushStatus :=
      if needShutdown = true then .FLUSHING_DECODER_SHUTDOWN else .FLUSHING_DECODER
    let m := { m with mFlushComplete :=
      (m.mFlushComplete.set audio false (decide (m.mRenderer = none))).set audio true false }
    if audio = true then
      let m := if m.mFlushingAudio ≠ .NONE then
          emit (.logFlushDecoderInState true m.mFlushingAudio) m else m
      { m with mFlushingAudio := newStatus }
    else
      let m := if m.mFlushingVideo ≠ .NONE then
          emit (.logFlushDecoderInState false m.mFlushingVideo) m else m
      { m with mFlushingVideo := newStatus }

def performDecoderFlush (audio video : FlushCommand) (m : NuPlayer) : NuPlayer :=
  if (audio = .FLUSH_CMD_NONE ∨ m.mAudioDecoder = none)
      ∧ (video = .FLUSH_CMD_NONE ∨ m.mVideoDecoder = none) then m
  else
    let m := if audio ≠ .FLUSH_CMD_NONE ∧ m.mAudioDecoder ≠ none then
        flushDecoder true (decide (audio = .FLUSH_CMD_SHUTDOWN)) m else m
    if video ≠ .FLUSH_CMD_NONE ∧ m.mVideoDecoder ≠ none then
      flushDecoder false (decide (video = .FLUSH_CMD_SHUTDOWN)) m
    else m

def performReset (env : Env) (m : NuPlayer) : Except Fault NuPlayer :=
  if m.mAudioDecoder ≠ none then .error (.check 2363)
  else if m.mVideoDecoder ≠ none then .error (.check 2364)
  else
    let m := cancelPollDuration m
    let m := { m with mScanSourcesGeneration := m.mScanSourcesGeneration + 1,
                      mScanSourcesPending := false }
    let m : NuPlayer := if m.mRendererLooper = true then
        { (if m.mRenderer ≠ none then emit (.renderer .unregisterHandler) m else m) with
          mRendererLooper := false }
      else m
    let m : NuPlayer :=
      { m with mRenderer := none, mRendererGeneration := m.mRendererGeneration + 1 }
    let m : NuPlayer :=
      if m.mSource ≠ none then { emit (.source .stop) m with mSource := none } else m
    let m : NuPlayer := if m.mDriver = true ∧ env.driverAlive = true then
        emit (.driver .notifyResetComplete) m else m
    .ok { m with mStarted := false, mPrepared := false, mResetting := false,
                 mSourceStarted := false }

def performScanSources (m : NuPlayer) : NuPlayer :=
  if m.mStarted = false then m
  else if m.mAudioDecoder = none ∨ m.mVideoDecoder = none then postScanSources m
  else m

def performSetSurface (b : Build) (env : Env) (surface : Option Surface) (m : NuPlayer) :
    NuPlayer :=
  let m := { m with mSurface := surface }
  let m := if b.MTK_AOSP_ENHANCEMENT = true ∧ m.mSurface = none then m
           else setVideoScalingMode m.mVideoScalingMode m
  if m.mDriver = true ∧ env.driverAlive = true then emit (.driver .notifySetSurfaceComplete) m
  else m

def performResumeDecoders (b : Build) (env : Env) (needNotify : Bool) (m : NuPlayer) :
    NuPlayer :=
  let m := if needNotify = true then
      let m := { m with mResumePending := true }
      if m.mVideoDecoder = none then
        if b.MTK_AOSP_ENHANCEMENT = true ∧ m.mDataSourceType = .SOURCE_Http then
          { m with mResumePending := false }
        else finishResume env m
      else m
    else m
  let m := if m.mVideoDecoder ≠ none then emit (.decoder false (.signalResume needNotify)) m
           else m
  if m.mAudioDecoder ≠ none then emit (.decoder true (.signalResume false)) m else m

/-- Action::execute of each subclass. -/
def Action.execute (b : Build) (env : Env) (action : Action) (m : NuPlayer) :
    Except Fault NuPlayer :=
  match action with
  | .SeekAction mSeekTimeUs => performSeek b mSeekTimeUs m
  | .ResumeDecoderAction mNeedNotify => .ok (performResumeDecoders b env mNeedNotify m)
  | .SetSurfaceAction mSurface => .ok (performSetSurface b env mSurface m)
  | .FlushDecoderAction mAudio mVideo => .ok (performDecoderFlush mAudio mVideo m)
  | .PostMessageAction mMessage => .ok (emit (.postMessage mMessage none) m)
  | .SimpleAction .performScanSources => .ok (performScanSources m)
  | .SimpleAction .performReset => performReset env m

/-- The while loop of processDeferredActions; the first argument bounds the number of
actions executed. -/
def processDeferredActionsLoop (b : Build) (env : Env) : Nat → NuPlayer → Except Fault NuPlayer
  | 0, m =>
    if m.mDeferredActions = [] ∨ m.mFlushingAudio ≠ .NONE ∨ m.mFlushingVideo ≠ .NONE then .ok m
    else .error .fuel
  | fuel + 1, m =>
    match m.mDeferredActions with
    | [] => .ok m
    | action :: rest =>
      if m.mFlushingAudio ≠ .NONE ∨ m.mFlushingVideo ≠ .NONE then .ok m
      else
        action.execute b env { m with mDeferredActions := rest }
          >>= processDeferredActionsLoop b env fuel

/-- processDeferredActions: the loop, bounded by the number of queued actions. -/
def processDeferredActions (b : Build) (env : Env) (m : NuPlayer) : Except Fault NuPlayer :=
  processDeferredActionsLoop b env m.mDeferredActions.length m

/-! ## The flush / shutdown state machine -/

def handleFlushComplete (audio isDecoder : Bool) (m : NuPlayer) : Except Fault NuPlayer :=
  let m := { m with mFlushComplete := m.mFlushComplete.set audio isDecoder true }
  if m.mFlushComplete.get audio (!isDecoder) = false then .ok m
  else
    match (if audio = true then m.mFlushingAudio else m.mFlushingVideo) with
    | .FLUSHING_DECODER =>
      if audio = true then .ok { m with mFlushingAudio := .FLUSHED }
      else .ok { m with mFlushingVideo := .FLUSHED }
    | .FLUSHING_DECODER_SHUTDOWN =>
      let m := if audio = true then { m with mFlushingAudio := .SHUTTING_DOWN_DECODER }
               else { m with mFlushingVideo := .SHUTTING_DOWN_DECODER }
      let m := if audio = false ∧ m.mSource ≠ none ∧ m.mSourceFlags.FLAG_SECURE = true then
          { emit (.source .stop) m with mSourceStarted := false }
        else m
      if getDecoder audio m = none then .error (.nullDeref 1694)
      else .ok (emit (.decoder audio .initiateShutdown) m)
    | _ => if isDecoder = true then .error (.check 1700) else .ok m

def finishFlushIfPossible (b : Build) (env : Env) (m : NuPlayer) : Except Fault NuPlayer :=
  if m.mFlushingAudio ≠ .NONE ∧ m.mFlushingAudio ≠ .FLUSHED ∧ m.mFlushingAudio ≠ .SHUT_DOWN then
    .ok m
  else if m.mFlushingVideo ≠ .NONE ∧ m.mFlushingVideo ≠ .FLUSHED
      ∧ m.mFlushingVideo ≠ .SHUT_DOWN then .ok m
  else do
    let m ←
      (if b.MTK_AOSP_ENHANCEMENT = true ∧ m.mAudioDecoder ≠ none ∧ m.mFlushingAudio = .FLUSHED
          ∧ m.mVideoDecoder ≠ none ∧ m.mFlushingVideo = .FLUSHED then
        if m.mRenderer = none then .error (.nullDeref 1727)
        else pure (emit (.renderer .setFlagHasVideoAudio) m)
      else pure m)
    let m := { m with mFlushingAudio := .NONE, mFlushingVideo := .NONE }
    let m := clearFlushComplete m
    processDeferredActions b env m

def closeAudioSink (m : NuPlayer) : Except Fault NuPlayer :=
  if m.mRenderer = none then .error (.nullDeref 1767)
  else .ok (emit (.renderer .closeAudioSink) m)

def restartAudio (b : Build) (env : Env) (currentPositionUs : Int)
    (forceNonOffload needsToCreateAudioDecoder : Bool) (m : NuPlayer) : Except Fault NuPlayer := do
  let m := if m.mAudioDecoder ≠ none then
      { emit (.decoder true .pause) m with
        mAudioDecoder := none, mAudioDecoderGeneration := m.mAudioDecoderGeneration + 1 }
    else m
  let r ←
    (if m.mFlushingAudio = .FLUSHING_DECODER then do
      let m := { m with mFlushComplete := m.mFlushComplete.set true true true,
                        mFlushingAudio := .FLUSHED }
      let m ← finishFlushIfPossible b env m
      pure (m, needsToCreateAudioDecoder)
    else if m.mFlushingAudio = .FLUSHING_DECODER_SHUTDOWN
        ∨ m.mFlushingAudio = .SHUTTING_DOWN_DECODER then do
      let m := { m with mFlushComplete := m.mFlushComplete.set true true true,
                        mFlushingAudio := .SHUT_DOWN }
      let m ← finishFlushIfPossible b env m
      pure (m, false)
    else pure (m, needsToCreateAudioDecoder))
  let m := r.1
  let needsToCreateAudioDecoder := r.2
  if m.mRenderer = none then pure m
  else do
    let m ← closeAudioSink m
    let m := emit (.renderer (.flush true false)) m
    let m := if m.mVideoDecoder ≠ none then emit (.renderer (.flush false false)) m else m
    let m ← performSeek b currentPositionUs m
    let m := if forceNonOffload = true then
        { emit (.renderer .signalDisableOffloadAudio) m with mOffloadAudio := false }
      else m
    if needsToCreateAudioDecoder = true then do
      let r ← instantiateDecoder b env true (!forceNonOffload) m
      pure r.2
    else pure m

/-! ## Start, resume, scanning -/

def onResume (b : Build) (env : Env) (m : NuPlayer) : Except Fault NuPlayer :=
  if m.mPaused = false ∨ m.mResetting = true then .ok m
  else do
    let m := { m with mPaused := false }
    let m := if m.mSource ≠ none then emit (.source .resume) m else m
    let m ←
      (if audioDecoderStillNeeded m = true ∧ m.mAudioDecoder = none then do
        let r ← instantiateDecoder b env true true m
        pure r.2
      else pure m)
    pure (if m.mRenderer ≠ none then emit (.renderer .resume) m else m)

def onInstantiateSecureDecoders (b : Build) (env : Env) (m : NuPlayer) :
    Except Fault (status_t × NuPlayer) :=
  if m.mSourceFlags.FLAG_SECURE = false then .ok (BAD_TYPE, m)
  else if m.mRenderer ≠ none then .ok (UNKNOWN_ERROR, m)
  else do
    let r ← (if m.mSurface ≠ none then instantiateDecoder b env false true m else pure (OK, m))
    if r.1 ≠ OK then pure r
    else
      let m := r.2
      if m.mAudioSink ≠ none then instantiateDecoder b env true true m else pure (OK, m)

/-- onStart(startPositionUs); the header gives the parameter the default -1. -/
def onStart (b : Build) (env : Env) (startPositionUs : Int) (m : NuPlayer) :
    Except Fault NuPlayer := do
  let m ←
    (if m.mSourceStarted = false then
      let m := { m with mSourceStarted := true }
      if m.mSource ≠ none then pure (emit (.source .start) m)
      else if b.MTK_AOSP_ENHANCEMENT = true then pure m
      else .error (.nullDeref 1538)
    else pure m)
  let m ← (if startPositionUs > 0 then performSeek b startPositionUs m else pure m)
  if startPositionUs > 0 ∧ m.mSource = none then .error (.nullDeref 1543)
  else if startPositionUs > 0 ∧ env.sourceVideoFormat = none then pure m
  else
    let m := { m with mOffloadAudio := false, mAudioEOS := false, mVideoEOS := false,
                      mStarted := true, mPaused := false }
    if m.mSource = none then .error (.nullDeref 1556)
    else if env.sourceAudioMeta = false ∧ env.sourceVideoMeta = false then
      let m := emit (.source .stop) m
      let m := { m with mSourceStarted := false }
      pure (notifyListener b env MEDIA_ERROR MEDIA_ERROR_UNKNOWN ERROR_MALFORMED m)
    else
      let m := if b.MTK_AOSP_ENHANCEMENT = true ∧ env.sourceVideoFormat ≠ none then
          emit (.setThrottleBufferLimitCount 2) m else m
      let m := { m with mOffloadAudio := env.canOffloadStream
        && (m.mPlaybackSettings.mSpeed == 1 && m.mPlaybackSettings.mPitch == 1) }
      let m := { m with mRendererGeneration := m.mRendererGeneration + 1 }
      let r : Renderer := ⟨m.mRendererGeneration, env.sourceIsRealTime, m.mOffloadAudio⟩
      let m := emit (.renderer (.create r)) { m with mRenderer := some r }
      let m :=
        if b.MTK_AOSP_ENHANCEMENT = true then
          let q := isRTSPSource env m
          if q.1 = true then emit (.renderer (.setUseSyncQueues false)) q.2
          else
            let q := isHttpLiveSource env q.2
            if q.1 = true then emit (.renderer .setUseFlushAudioSyncQueues) q.2
            else emit (.renderer (.setUseSyncQueues true)) q.2
        else m
      let m := emit (.renderer .registerHandler) { m with mRendererLooper := true }
      let m := emit (.renderer (.setPlaybackSettings m.mPlaybackSettings)) m
      if env.rendererSetPlaybackSettings ≠ OK then
        let m := emit (.source .stop) m
        let m := { m with mSourceStarted := false }
        pure (notifyListener b env MEDIA_ERROR MEDIA_ERROR_UNKNOWN
                env.rendererSetPlaybackSettings m)
      else
        let m := if getFrameRate env > 0 then emit (.renderer .setVideoFrameRate) m else m
        let m := if m.mVideoDecoder ≠ none then emit (.decoder false .setRenderer) m else m
        let m := if m.mAudioDecoder ≠ none then emit (.decoder true .setRenderer) m else m
        let m := postScanSources m
        if b.MTK_AOSP_ENHANCEMENT = true then
          if m.mDataSourceType = .SOURCE_HttpLive then
            pure (emit (.renderer (.setLateVideoToDisplay false)) m)
          else
            let q := isRTSPSource env m
            if q.1 = true then pure (emit (.renderer (.setLateVideoToDisplay false)) q.2)
            else pure q.2
        else pure m

/-- onScanSources (the scan of the vendor build): whether to scan again, and the
controller afterwards. -/
def onScanSources (b : Build) (env : Env) (m : NuPlayer) : Except Fault (Bool × NuPlayer) := do
  let m := { m with mHaveSanSources := true }
  let hadAnySourcesBefore : Bool := m.mAudioDecoder.isSome || m.mVideoDecoder.isSome
  let r1 ← (if m.mSurface ≠ none then instantiateDecoder b env false true m else pure (OK, m))
  let rescan1 : Bool := m.mSurface.isSome && r1.1 == EWOULDBLOCK
  let m1 := r1.2
  let r2 ← (if m1.mAudioSink ≠ none then instantiateDecoder b env true true m1 else pure (OK, m1))
  let rescan : Bool := rescan1 || (m1.mAudioSink.isSome && r2.1 == EWOULDBLOCK)
  let m := r2.2
  let m :=
    if hadAnySourcesBefore = false ∧ (m.mAudioDecoder ≠ none ∨ m.mVideoDecoder ≠ none) then
      let m := if m.mSourceFlags.FLAG_DYNAMIC_DURATION = true then schedulePollDuration m else m
      if b.MTK_AOSP_ENHANCEMENT = true ∧ m.mIsMtkPlayback = true
          ∧ m.mDataSourceType = .SOURCE_Local ∧ m.mAudioDecoder ≠ none
          ∧ m.mVideoDecoder = none then schedulePollDuration m
      else m
    else m
  if m.mSource = none then .error (.nullDeref 3255)
  else if env.sourceFeedMoreTSData ≠ OK then
    if m.mAudioDecoder = none ∧ m.mVideoDecoder = none then
      if env.sourceFeedMoreTSData = ERROR_END_OF_STREAM then
        pure (false, notifyListener b env MEDIA_PLAYBACK_COMPLETE 0 0 m)
      else
        pure (false, notifyListener b env MEDIA_ERROR MEDIA_ERROR_UNKNOWN
                       env.sourceFeedMoreTSData m)
    else pure (false, m)
  else pure (rescan, m)

/-- scanSource_l(msg); msg is the scan message being handled. -/
def scanSource_l (b : Build) (env : Env) (generation : Int) (m : NuPlayer) :
    Except Fault NuPlayer := do
  let r ← onScanSources b env m
  let m := r.2
  if r.1 = true then
    pure { emit (.post (.kWhatScanSources generation) 100000) m with mScanSourcesPending := true }
  else if m.mDataSourceType = .SOURCE_HttpLive then
    if m.mSource = none then .error (.nullDeref 3280)
    else
      let m := { m with mAudioOnly := env.sourceVideoFormat.isNone,
                        mVideoOnly := env.sourceAudioFormat.isNone }
      let m := if m.mAudioOnly = true then notifyListener b env MEDIA_SET_VIDEO_SIZE 0 0 m else m
      if env.sourceVideoFormat = none ∧ env.sourceAudioFormat = none then
        pure (notifyListener b env MEDIA_ERROR MEDIA_ERROR_UNKNOWN 0 m)
      else pure m
  else
    let m := if m.mIsMtkPlayback = true ∧ m.mVideoDecoder = none then
        notifyListener b env MEDIA_SET_VIDEO_SIZE 0 0 m else m
    if m.mVideoDecoder = none ∧ m.mAudioDecoder = none then
      pure (notifyListener b env MEDIA_ERROR MEDIA_ERROR_UNKNOWN 0 m)
    else pure m

/-! ## Video size -/

/-- The value of an arithmetic result as int32_t: the result modulo 2^32 in the range
from -2^31 to 2^31 - 1. An overflow of a signed operation is undefined in C; this is the
value the compiled code computes. -/
def toInt32 (x : Int) : Int :=
  (x + 2147483648) % 4294967296 - 2147483648

/-- The display size taken from the "crop" rectangle of the decoder output format;
the line is that of the CHECK on findRect. -/
def cropSize (outputFormat : Format) (line : Nat) : Except Fault (Int × Int) :=
  match outputFormat.crop with
  | none => .error (.check line)
  | some (cropLeft, cropTop, cropRight, cropBottom) =>
    .ok (toInt32 (toInt32 (cropRight - cropLeft) + 1),
         toInt32 (toInt32 (cropBottom - cropTop) + 1))

def updataVideoSize_ext (b : Build) (outputFormat : Format) (m : NuPlayer) :
    Except Fault (Int × Int) :=
  if outputFormat.width = none then .error (.check 2988)
  else if outputFormat.height = none then .error (.check 2989)
  else if b.MTK_CLEARMOTION_SUPPORT = true then
    if outputFormat.NotUpdateVideoSize.getD 0 > 0 then
      if m.m_i4ContainerWidth > 0 ∧ m.m_i4ContainerHeight > 0 then
        .ok (m.m_i4ContainerWidth, m.m_i4ContainerHeight)
      else cropSize outputFormat 3011
    else cropSize outputFormat 3030
  else cropSize outputFormat 3048

/-- updateVideoSize(inputFormat, outputFormat); the header gives outputFormat the
default NULL. The sizes are int32_t. -/
def updateVideoSize (b : Build) (env : Env) (inputFormat outputFormat : Option Format)
    (m : NuPlayer) : Except Fault NuPlayer :=
  match inputFormat with
  | none => .ok (notifyListener b env MEDIA_SET_VIDEO_SIZE 0 0 m)
  | some inputFormat => do
    let r : (Int × Int) × NuPlayer ←
      (match outputFormat with
      | some outputFormat =>
        if outputFormat.width = none then .error (.check 2030)
        else if outputFormat.height = none then .error (.check 2031)
        else if b.MTK_AOSP_ENHANCEMENT = true then do
          let d ← updataVideoSize_ext b outputFormat m
          pure ((toInt32 (d.1 * outputFormat.widthRatio.getD 1),
                 toInt32 (d.2 * outputFormat.heightRatio.getD 1)), m)
        else do
          let d ← cropSize outputFormat 2039
          pure (d, m)
      | none =>
        match inputFormat.width, inputFormat.height with
        | none, _ => .error (.check 2066)
        | some _, none => .error (.check 2067)
        | some w, some h =>
          if b.MTK_AOSP_ENHANCEMENT = true then
            pure ((w, h), { m with m_i4ContainerWidth := w, m_i4ContainerHeight := h })
          else pure ((w, h), m))
    let m := r.2
    let displayHeight := r.1.2
    let displayWidth : Int ←
      (match inputFormat.sarWidth, inputFormat.sarHeight with
      | some sarWidth, some sarHeight =>
        if b.MTK_AOSP_ENHANCEMENT = true then
          if sarWidth > 0 ∧ sarHeight > 0 then
            pure (toInt32 (Int.tdiv (toInt32 (r.1.1 * sarWidth)) sarHeight))
          else pure r.1.1
        else if sarHeight = 0 then .error (.divideByZero 2089)
        else pure (toInt32 (Int.tdiv (toInt32 (r.1.1 * sarWidth)) sarHeight))
      | _, _ => pure r.1.1)
    let rotationDegrees := inputFormat.rotationDegrees.getD 0
    if rotationDegrees = 90 ∨ rotationDegrees = 270 then
      pure (notifyListener b env MEDIA_SET_VIDEO_SIZE displayHeight displayWidth m)
    else
      pure (notifyListener b env MEDIA_SET_VIDEO_SIZE displayWidth displayHeight m)

/-! ## Vendor helpers of the error and prepare paths -/

/-- handleForACodecError(audio, codecRequest); the two arguments after audio are the
keys "err" and "errACodec" of the request. -/
def handleForACodecError (b : Build) (env : Env) (audio : Bool) (err errACodec : Option Int)
    (m : NuPlayer) : Except Fault NuPlayer :=
  match err with
  | none => .error (.check 3120)
  | some err =>
    match errACodec with
    | none => .ok (notifyListener b env MEDIA_ERROR MEDIA_ERROR_UNKNOWN err m)
    | some err =>
      if m.mDataSourceType = .SOURCE_Local ∨ m.mDataSourceType = .SOURCE_Http then
        if m.mIsMtkPlayback = false then
          .ok (notifyListener b env MEDIA_ERROR MEDIA_ERROR_UNKNOWN err m)
        else
          let m := if m.mSource ≠ none then
              emit (.source (.setParamsDecoderError (if audio = true then 1 else 2))) m
            else m
          if audio = false then
            if m.mVideoinfoNotify = false then
              if m.mSource = none then .error (.nullDeref 3148)
              else
                let m :=
                  if env.sourceAudioFormat ≠ none then
                    if m.mAudioinfoNotify = false then
                      notifyListener b env MEDIA_INFO b.MEDIA_INFO_HAS_UNSUPPORT_VIDEO 0
                        (notifyListener b env MEDIA_SET_VIDEO_SIZE 0 0 m)
                    else notifyListener b env MEDIA_ERROR b.MEDIA_ERROR_TYPE_NOT_SUPPORTED 0 m
                  else notifyListener b env MEDIA_ERROR b.MEDIA_ERROR_TYPE_NOT_SUPPORTED 0 m
                .ok { m with mVideoinfoNotify := true }
            else .ok m
          else
            if m.mAudioinfoNotify = false then
              let m :=
                if m.mVideoDecoder ≠ none then
                  if m.mVideoinfoNotify = false then
                    notifyListener b env MEDIA_INFO b.MEDIA_INFO_HAS_UNSUPPORT_AUDIO 0 m
                  else notifyListener b env MEDIA_ERROR b.MEDIA_ERROR_TYPE_NOT_SUPPORTED 0 m
                else notifyListener b env MEDIA_ERROR b.MEDIA_ERROR_TYPE_NOT_SUPPORTED 0 m
              .ok { m with mAudioinfoNotify := true }
            else .ok m
      else
        let m := if audio = false then notifyListener b env MEDIA_SET_VIDEO_SIZE 0 0 m else m
        .ok (notifyListener b env MEDIA_INFO
          (if audio = true then b.MEDIA_INFO_HAS_UNSUPPORT_AUDIO
           else b.MEDIA_INFO_HAS_UNSUPPORT_VIDEO) 0 m)

def handleForRenderError1 (b : Build) (env : Env) (finalResult : Int) (audio : Bool)
    (m : NuPlayer) : NuPlayer :=
  let m := if m.mSource ≠ none then emit (.source (.stopTrack audio)) m else m
  if audio = true then
    notifyListener b env MEDIA_INFO b.MEDIA_INFO_HAS_UNSUPPORT_AUDIO finalResult m
  else
    notifyListener b env MEDIA_INFO b.MEDIA_INFO_HAS_UNSUPPORT_VIDEO finalResult
      (notifyListener b env MEDIA_SET_VIDEO_SIZE 0 0 m)

/-- finishPrepare(err); the header gives err the default OK. -/
def finishPrepare (b : Build) (env : Env) (err : Int) (m : NuPlayer) : Except Fault NuPlayer :=
  let m := { m with mPrepare := if err = OK then .PREPARED else .UNPREPARED }
  if m.mDriver = false then .ok m
  else if env.driverAlive = false then .ok m
  else
    let m := match env.sourceDuration with
      | some durationUs =>
        if m.mSource ≠ none then emit (.driver (.notifyDuration durationUs)) m else m
      | none => m
    let m := emit (.driver (.notifyPrepareCompleted err)) m
    if m.mSource = none then .error (.nullDeref 3324)
    else
      if env.fileMeta = true ∧ env.fileMetaHasUnsupportVideo.isSome
          ∧ env.fileMetaHasUnsupportVideo ≠ some 0 then
        .ok (notifyListener b env MEDIA_INFO b.MEDIA_INFO_HAS_UNSUPPORT_VIDEO 0
              (notifyListener b env MEDIA_SET_VIDEO_SIZE 0 0 m))
      else .ok m

/-- tyrToChangeDataSourceForLocalSdp: whether the source was replaced, and the
controller afterwards. -/
def tyrToChangeDataSourceForLocalSdp (env : Env) (m : NuPlayer) :
    Except Fault (Bool × NuPlayer) :=
  if m.mSource = none then .error (.nullDeref 3088)
  else
    match env.sourceVideoFormat with
    | some format =>
      if format.rtspUri = true ∧ format.rtspSdp = true then
        .ok (true, { m with mSource := some .RTSPSource })
      else .ok (false, m)
    | none => .ok (false, m)

def onSourcePrepard (b : Build) (env : Env) (err : Int) (m : NuPlayer) :
    Except Fault NuPlayer := do
  let r ← tyrToChangeDataSourceForLocalSdp env m
  let m := r.2
  if r.1 = true then
    pure (emit (.post .kWhatPrepare 0)
      { m with mPrepare := .UNPREPARED, mDataSourceType := .SOURCE_Rtsp })
  else if m.mPrepare = .PREPARED then pure m
  else if err ≠ OK then finishPrepare b env err m
  else if m.mSource = none then finishPrepare b env UNKNOWN_ERROR m
  else finishPrepare b env OK m

/-! ## Track queries -/

abbrev MEDIA_TRACK_TYPE_VIDEO : Int := 1
abbrev MEDIA_TRACK_TYPE_AUDIO : Int := 2
abbrev MEDIA_TRACK_TYPE_TIMEDTEXT : Int := 3
abbrev MEDIA_TRACK_TYPE_SUBTITLE : Int := 4

def writeTrackInfo (format : Option TrackInfo) (m : NuPlayer) : Except Fault NuPlayer :=
  match format with
  | none => .ok m
  | some format =>
    match format.trackType with
    | none => .ok m
    | some trackType =>
      if format.mime = false ∧ trackType ≠ MEDIA_TRACK_TYPE_AUDIO
          ∧ trackType ≠ MEDIA_TRACK_TYPE_VIDEO then .ok m
      else if format.language = false then .ok m
      else if trackType = MEDIA_TRACK_TYPE_SUBTITLE then
        match format.subtitleFlags with
        | none => .error (.check 515)
        | some flags => .ok (emit (.parcelWriteTrackInfo trackType (some flags)) m)
      else .ok (emit (.parcelWriteTrackInfo trackType none) m)

/-! ## Source and closed-caption notifications -/

def sendSubtitleData (b : Build) (env : Env) (trackIndex timeUs durationUs : Int)
    (baseIndex : Int) (m : NuPlayer) : NuPlayer :=
  notifyListenerParcel b env MEDIA_SUBTITLE_DATA 0 0
    [trackIndex + baseIndex, timeUs, durationUs] m

def queueDecoderShutdown (b : Build) (env : Env) (audio video : Bool) (reply : AMessageId)
    (m : NuPlayer) : Except Fault NuPlayer :=
  processDeferredActions b env
    { m with mDeferredActions := m.mDeferredActions ++
        [.FlushDecoderAction (if audio = true then .FLUSH_CMD_SHUTDOWN else .FLUSH_CMD_NONE)
            (if video = true then .FLUSH_CMD_SHUTDOWN else .FLUSH_CMD_NONE),
         .SimpleAction .performScanSources,
         .PostMessageAction reply] }

def onSourceNotify_ext (b : Build) (env : Env) (what : SourceWhat) (m : NuPlayer) :
    Except Fault NuPlayer :=
  match what with
  | .kWhatDurationUpdate durationUs =>
    if m.mDataSourceType ≠ .SOURCE_Local then .ok m
    else if m.mDriver = true ∧ env.driverAlive = true then
      .ok (emit (.driver (.notifyUpdateDuration durationUs)) m)
    else .ok m
  | .kWhatSourceError err =>
    if m.mIsMtkPlayback = false ∧ m.mDataSourceType = .SOURCE_Http then .ok m
    else .ok (notifyListener b env MEDIA_ERROR err 0 m)
  | .kWhatBufferNotify bufRate => .ok (notifyListener b env MEDIA_BUFFERING_UPDATE bufRate 0 m)
  | .kWhatSeekDone =>
    if m.mDataSourceType = .SOURCE_Http ∧ m.mSourceSeekDone = false then
      let m := { m with mSourceSeekDone := true }
      .ok (notifyDriverSeekComplete env m)
    else .ok m
  | .kWhatPicture => .ok (notifyListener b env MEDIA_INFO MEDIA_INFO_METADATA_UPDATE 0 m)
  | _ => .error (.check 2726)

def onSourceNotify (b : Build) (env : Env) (what : SourceWhat) (m : NuPlayer) :
    Except Fault NuPlayer :=
  match what with
  | .kWhatInstantiateSecureDecoders reply =>
    if m.mSource = none then .ok m
    else do
      let r ← onInstantiateSecureDecoders b env m
      pure (emit (.postMessage reply (some r.1)) r.2)
  | .kWhatPrepared err =>
    if m.mSource = none then .ok m
    else do
      let m ←
        (if err ≠ OK then
          processDeferredActions b env
            { m with mDeferredActions := m.mDeferredActions ++
                [.FlushDecoderAction .FLUSH_CMD_SHUTDOWN .FLUSH_CMD_SHUTDOWN] }
        else pure { m with mPrepared := true })
      if b.MTK_AOSP_ENHANCEMENT = true then onSourcePrepard b env err m
      else if m.mDriver = true ∧ env.driverAlive = true then
        if m.mSource = none then .error (.nullDeref 2532)
        else
          let m := match env.sourceDuration with
            | some durationUs => emit (.driver (.notifyDuration durationUs)) m
            | none => m
          pure (emit (.driver (.notifyPrepareCompleted err)) m)
      else pure m
  | .kWhatFlagsChanged flags =>
    let m := if m.mDriver = true ∧ env.driverAlive = true then
        let m := if flags.FLAG_CAN_SEEK = false then
            emit (.driver (.notifyListener MEDIA_INFO MEDIA_INFO_NOT_SEEKABLE 0 [])) m else m
        emit (.driver (.notifyFlagsChanged flags)) m
      else m
    let m :=
      if m.mSourceFlags.FLAG_DYNAMIC_DURATION = true ∧ flags.FLAG_DYNAMIC_DURATION = false then
        cancelPollDuration m
      else if m.mSourceFlags.FLAG_DYNAMIC_DURATION = false ∧ flags.FLAG_DYNAMIC_DURATION = true
          ∧ (m.mAudioDecoder ≠ none ∨ m.mVideoDecoder ≠ none) then
        schedulePollDuration m
      else m
    .ok { m with mSourceFlags := flags }
  | .kWhatVideoSizeChanged format => updateVideoSize b env (some format) none m
  | .kWhatBufferingUpdate percentage =>
    .ok (notifyListener b env MEDIA_BUFFERING_UPDATE percentage 0 m)
  | .kWhatPauseOnBufferingStart =>
    let q := if b.MTK_AOSP_ENHANCEMENT = true then isRTSPSource env m else (false, m)
    let m := q.2
    if q.1 = true then
      let m := notifyListener b env MEDIA_INFO MEDIA_INFO_BUFFERING_START 0 m
      .ok (if m.mRenderer ≠ none then emit (.renderer .notifyBufferingStart) m else m)
    else
      let m := if m.mStarted = true then onPause { m with mPausedForBuffering := true } else m
      .ok (notifyListener b env MEDIA_INFO MEDIA_INFO_BUFFERING_START 0 m)
  | .kWhatResumeOnBufferingEnd =>
    let q := if b.MTK_AOSP_ENHANCEMENT = true then isRTSPSource env m else (false, m)
    let m := q.2
    if q.1 = true then
      let m := notifyListener b env MEDIA_INFO MEDIA_INFO_BUFFERING_END 0 m
      .ok (if m.mRenderer ≠ none then emit (.renderer .notifyBufferingEnd) m else m)
    else do
      let m ←
        (if m.mStarted = true then
          let m := { m with mPausedForBuffering := false }
          if m.mPausedByClient = false then onResume b env m else pure m
        else pure m)
      pure (notifyListener b env MEDIA_INFO MEDIA_INFO_BUFFERING_END 0 m)
  | .kWhatCacheStats bandwidth =>
    .ok (notifyListener b env MEDIA_INFO MEDIA_INFO_NETWORK_BANDWIDTH bandwidth m)
  | .kWhatSubtitleData trackIndex timeUs durationUs =>
    .ok (sendSubtitleData b env trackIndex timeUs durationUs 0 m)
  | .kWhatTimedMetaData timeUs =>
    match timeUs with
    | none => .ok (notifyListener b env MEDIA_INFO MEDIA_INFO_METADATA_UPDATE 0 m)
    | some timeUs => .ok (notifyListenerParcel b env MEDIA_META_DATA 0 0 [timeUs] m)
  | .kWhatTimedTextData generation timeUs size =>
    if generation.isSome ∧ generation ≠ some m.mTimedTextGeneration then .ok m
    else if m.mDriver = false ∨ env.driverAlive = false then .ok m
    else
      let posUs : Int := env.driverPositionMs * 1000
      if posUs < timeUs then
        .ok (emit (.post (.kWhatSourceNotify
          (.kWhatTimedTextData (some (generation.getD m.mTimedTextGeneration)) timeUs size))
          (timeUs - posUs)) m)
      else .ok (notifyListener b env MEDIA_TIMED_TEXT 0 0 m)
  | .kWhatQueueDecoderShutdown audio video reply => queueDecoderShutdown b env audio video reply m
  | .kWhatDrmNoLicense =>
    .ok (notifyListener b env MEDIA_ERROR MEDIA_ERROR_UNKNOWN ERROR_DRM_NO_LICENSE m)
  | other =>
    if b.MTK_AOSP_ENHANCEMENT = true then onSourceNotify_ext b env other m
    else .error (.check 2726)

def onClosedCaptionNotify (b : Build) (env : Env) (what : CCWhat) (m : NuPlayer) :
    Except Fault NuPlayer :=
  match what with
  | .kWhatClosedCaptionData trackIndex timeUs durationUs =>
    let inbandTracks : Nat := if m.mSource ≠ none then env.sourceTrackCount else 0
    .ok (sendSubtitleData b env trackIndex timeUs durationUs inbandTracks m)
  | .kWhatTrackAdded => .ok (notifyListener b env MEDIA_INFO MEDIA_INFO_METADATA_UPDATE 0 m)
  | .other _ => .error (.check 2758)

/-! ## The message loop -/

/-- The kWhatVideoNotify / kWhatAudioNotify case of onMessageReceived once the
generation has been found current. -/
def onDecoderNotify (b : Build) (env : Env) (audio : Bool) (what : DecoderWhat) (m : NuPlayer) :
    Except Fault NuPlayer :=
  match what with
  | .kWhatInputDiscontinuity formatChange =>
    let m := if formatChange = true then
        { m with mDeferredActions := m.mDeferredActions ++
            [.FlushDecoderAction (if audio = true then .FLUSH_CMD_SHUTDOWN else .FLUSH_CMD_NONE)
              (if audio = true then .FLUSH_CMD_NONE else .FLUSH_CMD_SHUTDOWN)] }
      else m
    processDeferredActions b env
      { m with mDeferredActions := m.mDeferredActions ++ [.SimpleAction .performScanSources] }
  | .kWhatEOS err =>
    if m.mRenderer = none then .error (.nullDeref 1118)
    else .ok (emit (.renderer (.queueEOS audio err)) m)
  | .kWhatFlushCompleted => handleFlushComplete audio true m >>= finishFlushIfPossible b env
  | .kWhatVideoSizeChanged format =>
    if m.mSource = none then .error (.nullDeref 1130)
    else
      updateVideoSize b env env.sourceVideoFormat (some format)
        (setVideoScalingMode m.mVideoScalingMode m)
  | .kWhatShutdownCompleted =>
    if audio = true then
      let m := { m with mAudioDecoder := none,
                        mAudioDecoderGeneration := m.mAudioDecoderGeneration + 1 }
      if m.mFlushingAudio ≠ .SHUTTING_DOWN_DECODER then .error (.check 1140)
      else finishFlushIfPossible b env { m with mFlushingAudio := .SHUT_DOWN }
    else
      let m := { m with mVideoDecoder := none,
                        mVideoDecoderGeneration := m.mVideoDecoderGeneration + 1 }
      if m.mFlushingVideo ≠ .SHUTTING_DOWN_DECODER then .error (.check 1146)
      else
        let m := { m with mFlushingVideo := .SHUT_DOWN }
        let m := if b.MTK_AOSP_ENHANCEMENT = true then emit (.setThrottleBufferLimitCount 1) m
                 else m
        finishFlushIfPossible b env m
  | .kWhatResumeCompleted => .ok (finishResume env m)
  | .kWhatError msgErr errACodec => do
    let err : Int := if msgErr = none ∨ msgErr = some OK then UNKNOWN_ERROR else msgErr.getD 0
    let m ←
      (if b.MTK_AOSP_ENHANCEMENT = true ∧ m.mRenderer ≠ none then
        if m.mDataSourceType = .SOURCE_Local ∨ m.mDataSourceType = .SOURCE_Http then
          if m.mSource = none then .error (.nullDeref 1181)
          else if env.sourceAudioFormat ≠ none then
            pure (emit (.renderer (.queueEOS audio ERROR_END_OF_STREAM)) m)
          else pure m
        else pure (emit (.renderer (.queueEOS audio err)) m)
      else pure m)
    let m ←
      (match (if audio = true then m.mFlushingAudio else m.mFlushingVideo) with
      | .NONE =>
        processDeferredActions b env
          { m with mDeferredActions := m.mDeferredActions ++
              [.FlushDecoderAction
                (if audio = true then .FLUSH_CMD_SHUTDOWN else .FLUSH_CMD_NONE)
                (if audio = true then .FLUSH_CMD_NONE else .FLUSH_CMD_SHUTDOWN)] }
      | .FLUSHING_DECODER =>
        if audio = true then pure { m with mFlushingAudio := .FLUSHING_DECODER_SHUTDOWN }
        else pure { m with mFlushingVideo := .FLUSHING_DECODER_SHUTDOWN }
      | .FLUSHING_DECODER_SHUTDOWN => pure m
      | .SHUTTING_DOWN_DECODER => pure m
      | .FLUSHED =>
        let m := if audio = false ∧ m.mSource ≠ none ∧ m.mSourceFlags.FLAG_SECURE = true then
            { emit (.source .stop) m with mSourceStarted := false }
          else m
        if getDecoder audio m = none then .error (.nullDeref 1213)
        else
          let m := emit (.decoder audio .initiateShutdown) m
          if audio = true then pure { m with mFlushingAudio := .SHUTTING_DOWN_DECODER }
          else pure { m with mFlushingVideo := .SHUTTING_DOWN_DECODER }
      | .SHUT_DOWN => finishFlushIfPossible b env m)
    if b.MTK_AOSP_ENHANCEMENT = true then handleForACodecError b env audio msgErr errACodec m
    else pure (notifyListener b env MEDIA_ERROR MEDIA_ERROR_UNKNOWN err m)
  | .other _ => .ok m

/-- The kWhatRendererNotify case of onMessageReceived once the generation has been
found current. -/
def onRendererNotify (b : Build) (env : Env) (what : RendererWhat) (m : NuPlayer) :
    Except Fault NuPlayer :=
  match what with
  | .kWhatEOS audio finalResult =>
    let m := if audio = true then { m with mAudioEOS := true } else { m with mVideoEOS := true }
    let m :=
      if finalResult = ERROR_END_OF_STREAM then m
      else if b.MTK_AOSP_ENHANCEMENT = true then handleForRenderError1 b env finalResult audio m
      else notifyListener b env MEDIA_ERROR MEDIA_ERROR_UNKNOWN finalResult m
    if (m.mAudioEOS = true ∨ m.mAudioDecoder = none)
        ∧ (m.mVideoEOS = true ∨ m.mVideoDecoder = none) then
      if b.MTK_AOSP_ENHANCEMENT = true ∧ m.mIsMtkPlayback = true
          ∧ finalResult = ERROR_END_OF_STREAM then
        if m.mSource = none then .error (.nullDeref 1286)
        else if env.sourceNotifyCanNotConnectServerIfPossible = true then .ok m
        else .ok (notifyListener b env MEDIA_PLAYBACK_COMPLETE 0 0 m)
      else .ok (notifyListener b env MEDIA_PLAYBACK_COMPLETE 0 0 m)
    else .ok m
  | .kWhatFlushComplete audio =>
    let m := if audio = true then { m with mAudioEOS := false }
             else { m with mVideoEOS := false }
    if audio = true ∧ (m.mFlushingAudio = .NONE ∨ m.mFlushingAudio = .FLUSHED
        ∨ m.mFlushingAudio = .SHUT_DOWN) then .ok m
    else handleFlushComplete audio false m >>= finishFlushIfPossible b env
  | .kWhatVideoRenderingStart =>
    .ok (notifyListener b env MEDIA_INFO MEDIA_INFO_RENDERING_START 0 m)
  | .kWhatMediaRenderingStart => .ok (notifyListener b env MEDIA_STARTED 0 0 m)
  | .kWhatAudioTearDown reason msgPositionUs =>
    if reason = .kDueToTimeout ∧ ¬ (m.mPaused = true ∧ m.mOffloadAudio = true) then .ok m
    else
      let positionUs : Int := msgPositionUs.getD m.mPreviousSeekTimeUs
      if b.MTK_AOSP_ENHANCEMENT = true then
        restartAudio b env positionUs
          (decide (reason = .kForceNonOffload) || decide (reason = .kDueToError))
          (decide (reason ≠ .kDueToTimeout)) m
      else
        restartAudio b env positionUs (decide (reason = .kForceNonOffload))
          (decide (reason ≠ .kDueToTimeout)) m
  | .kWhatRetryAudioOffload positionUs =>
    if b.MTK_AUDIO_TUNNELING_SUPPORT = true then do
      let m ← closeAudioSink m
      let m := { m with mAudioDecoder := none,
                        mAudioDecoderGeneration := m.mAudioDecoderGeneration + 1 }
      let m := emit (.renderer (.flush true false)) m
      let m := if m.mVideoDecoder ≠ none then emit (.renderer (.flush false false)) m else m
      performSeek b positionUs m
    else .ok m
  | .other _ => .ok m

/-- The scan of kWhatScanSources in the stock code path (after the generation test). -/
def scanSources (b : Build) (env : Env) (generation : Int) (m : NuPlayer) :
    Except Fault NuPlayer := do
  let mHadAnySourcesBefore : Bool := m.mAudioDecoder.isSome || m.mVideoDecoder.isSome
  let r1 ← (if m.mSurface ≠ none then instantiateDecoder b env false true m else pure (OK, m))
  let rescan1 : Bool := m.mSurface.isSome && r1.1 == -EWOULDBLOCK
  let m1 := r1.2
  let r2 ←
    (if m1.mAudioSink ≠ none ∧ m1.mAudioDecoder = none then instantiateDecoder b env true true m1
    else pure (OK, m1))
  let rescan : Bool :=
    rescan1 || (m1.mAudioSink.isSome && m1.mAudioDecoder.isNone && r2.1 == -EWOULDBLOCK)
  let m := r2.2
  let m :=
    if mHadAnySourcesBefore = false ∧ (m.mAudioDecoder ≠ none ∨ m.mVideoDecoder ≠ none)
        ∧ m.mSourceFlags.FLAG_DYNAMIC_DURATION = true then schedulePollDuration m
    else m
  if m.mSource = none then .error (.nullDeref 1038)
  else if env.sourceFeedMoreTSData ≠ OK then
    if m.mAudioDecoder = none ∧ m.mVideoDecoder = none then
      if env.sourceFeedMoreTSData = ERROR_END_OF_STREAM then
        pure (notifyListener b env MEDIA_PLAYBACK_COMPLETE 0 0 m)
      else pure (notifyListener b env MEDIA_ERROR MEDIA_ERROR_UNKNOWN env.sourceFeedMoreTSData m)
    else pure m
  else if rescan = true then
    pure { emit (.post (.kWhatScanSources generation) 100000) m with mScanSourcesPending := true }
  else pure m

/-- NuPlayer::onMessageReceived. -/
def onMessageReceived (b : Build) (env : Env) (msg : Msg) (m : NuPlayer) :
    Except Fault NuPlayer :=
  match msg with
  | .kWhatSetDataSource source result =>
    if b.MTK_AOSP_ENHANCEMENT = true ∧ m.mSource = none ∧ result.isSome then
      if m.mDriver = false ∨ env.driverAlive = false then .error (.nullDeref 537)
      else .ok (emit (.driver (.notifySetDataSourceCompleted (result.getD 0))) m)
    else if m.mSource ≠ none then .error (.check 543)
    else
      let m := { m with mSource := source }
      let err : Int := if source.isSome then OK else UNKNOWN_ERROR
      if m.mDriver = false then .error (.check 555)
      else if env.driverAlive = true then
        .ok (emit (.driver (.notifySetDataSourceCompleted err)) m)
      else .ok m
  | .kWhatPrepare =>
    if b.MTK_AOSP_ENHANCEMENT = true then
      if m.mPrepare = .PREPARING then .ok m
      else
        let m := { m with mPrepare := .PREPARING }
        if m.mSource = none then finishPrepare b env UNKNOWN_ERROR m
        else
          let m := if m.mIsMtkPlayback = true then emit (.source .setParamsIsMtkMusic) m else m
          .ok (emit (.source .prepareAsync) m)
    else if m.mSource = none then .error (.nullDeref 587)
    else .ok (emit (.source .prepareAsync) m)
  | .kWhatGetTrackInfo replyID => do
    let inbandTracks : Nat := if m.mSource ≠ none then env.sourceTrackCount else 0
    let ccTracks : Nat := if m.mCCDecoder = true then env.ccTrackCount else 0
    let m := emit (.parcelWriteInt32 (inbandTracks + ccTracks)) m
    let m ← (List.range inbandTracks).foldlM
      (fun m i => writeTrackInfo (env.sourceTrackInfo i) m) m
    let m ← (List.range ccTracks).foldlM (fun m i => writeTrackInfo (env.ccTrackInfo i) m) m
    pure (emit (.postReply replyID none) m)
  | .kWhatGetSelectedTrack _type replyID =>
    if m.mSource ≠ none then
      .ok (emit (.postReply replyID (some OK)) (emit (.parcelWriteInt32 env.sourceSelectedTrack) m))
    else .ok (emit (.postReply replyID (some INVALID_OPERATION)) m)
  | .kWhatSelectTrack trackIndex select timeUs replyID =>
    let inbandTracks : Nat := if m.mSource ≠ none then env.sourceTrackCount else 0
    let ccTracks : Nat := if m.mCCDecoder = true then env.ccTrackCount else 0
    if trackIndex < inbandTracks then
      let m := emit (.source (.selectTrack trackIndex select timeUs)) m
      let err := env.sourceSelectTrack
      let isTimedText : Bool := match env.sourceTrackInfo trackIndex with
        | some info => info.trackType == some MEDIA_TRACK_TYPE_TIMEDTEXT
        | none => false
      let m := if select = false ∧ err = OK ∧ isTimedText = true then
          { m with mTimedTextGeneration := m.mTimedTextGeneration + 1 } else m
      .ok (emit (.postReply replyID (some err)) m)
    else if trackIndex - inbandTracks < ccTracks then
      let m := emit (.ccDecoderSelectTrack (trackIndex - inbandTracks) select) m
      .ok (emit (.postReply replyID (some env.ccSelectTrack)) m)
    else .ok (emit (.postReply replyID (some INVALID_OPERATION)) m)
  | .kWhatPollDuration generation =>
    if generation ≠ m.mPollDurationGeneration then .ok m
    else if m.mDriver = true ∧ m.mSource = none then .error (.nullDeref 712)
    else
      let m := match env.sourceDuration with
        | some durationUs =>
          if m.mDriver = true ∧ env.driverAlive = true then
            if b.MTK_AOSP_ENHANCEMENT = true ∧ m.mIsMtkPlayback = true
                ∧ m.mDataSourceType = .SOURCE_Local then
              emit (.driver (.notifyUpdateDuration durationUs)) m
            else emit (.driver (.notifyDuration durationUs)) m
          else m
        | none => m
      .ok (emit (.post (.kWhatPollDuration generation) 1000000) m)
  | .kWhatSetVideoSurface surface =>
    let early : Bool :=
      if b.MTK_AOSP_ENHANCEMENT = true then
        m.mSource.isNone || !m.mStarted
          || (m.mDataSourceType == .SOURCE_Http && !env.sourceHasVideo)
          || (m.mDataSourceType != .SOURCE_Http && env.sourceVideoFormat.isNone)
      else m.mSource.isNone || !m.mStarted || env.sourceVideoFormat.isNone
    if early = true then .ok (performSetSurface b env surface m)
    else
      let m := if m.mVideoDecoder ≠ none then emit (.decoder false (.setVideoSurface surface)) m
               else m
      if m.mVideoDecoder ≠ none ∧ env.decoderSetVideoSurface = OK then
        .ok (performSetSurface b env surface m)
      else
        let seek : List Action :=
          match (if m.mStarted = true then getCurrentPosition env m else none) with
          | some currentPositionUs => [.SeekAction currentPositionUs]
          | none => []
        let pushed : List Action :=
          [.FlushDecoderAction .FLUSH_CMD_FLUSH .FLUSH_CMD_SHUTDOWN, .SetSurfaceAction surface]
            ++ (if surface ≠ none ∨ m.mAudioDecoder ≠ none then
                  seek ++ [.SimpleAction .performScanSources]
                else [])
            ++ [.ResumeDecoderAction false]
        processDeferredActions b env
          { m with mDeferredActions := m.mDeferredActions ++ pushed }
  | .kWhatSetAudioSink sink => .ok { m with mAudioSink := sink }
  | .kWhatStart => do
    let m ←
      (if m.mStarted = true then
        if m.mPausedForBuffering = false then do
          let m ←
            (if b.MTK_AOSP_ENHANCEMENT = true ∧ m.mIsMtkPlayback = true
                ∧ m.mHaveSanSources = false
                ∧ (m.mDataSourceType = .SOURCE_Local ∨ m.mDataSourceType = .SOURCE_Http) then do
              let r ← onScanSources b env m
              pure r.2
            else pure m)
          onResume b env m
        else pure m
      else onStart b env (-1) m)
    pure { m with mPausedByClient := false }
  | .kWhatConfigPlayback rate replyID => do
    let r : status_t × NuPlayer ←
      (if m.mRenderer ≠ none then do
        let m ←
          (if m.mOffloadAudio = true ∧ ((rate.mSpeed ≠ 0 ∧ rate.mSpeed ≠ 1) ∨ rate.mPitch ≠ 1)
          then do
            let currentPositionUs : Int := (getCurrentPosition env m).getD m.mPreviousSeekTimeUs
            let m := { m with mPlaybackSettings := rate }
            let m := if m.mPaused = false then emit (.renderer .pause) m else m
            let m ← restartAudio b env currentPositionUs true true m
            if m.mPaused = false then
              if m.mRenderer = none then .error (.nullDeref 864)
              else pure (emit (.renderer .resume) m)
            else pure m
          else pure m)
        if m.mRenderer = none then .error (.nullDeref 868)
        else pure (env.rendererSetPlaybackSettings, emit (.renderer (.setPlaybackSettings rate)) m)
      else pure (OK, m))
    let err := r.1
    let m := r.2
    let m ←
      (if err = OK then
        if rate.mSpeed = 0 then
          let m := onPause m
          let m := { m with mPausedByClient := true }
          pure { m with mPlaybackSettings := { rate with mSpeed := m.mPlaybackSettings.mSpeed } }
        else do
          let m := { m with mPlaybackSettings := rate }
          let m ←
            (if m.mStarted = true then
              if m.mPausedForBuffering = false then onResume b env m else pure m
            else if m.mPrepared = true then onStart b env (-1) m
            else pure m)
          pure { m with mPausedByClient := false }
      else pure m)
    let m := if m.mVideoDecoder ≠ none then emit (.decoder false .setParameters) m else m
    pure (emit (.postReply replyID (some err)) m)
  | .kWhatGetPlaybackSettings replyID =>
    let r : status_t × AudioPlaybackRate :=
      if m.mRenderer ≠ none then env.rendererGetPlaybackSettings else (OK, m.mPlaybackSettings)
    let m := if r.1 = OK then { m with mPlaybackSettings := r.2 } else m
    let rate : AudioPlaybackRate := if m.mPaused = true then { r.2 with mSpeed := 0 } else r.2
    .ok (emit (.postReplyPlaybackSettings replyID r.1 (if r.1 = OK then some rate else none)) m)
  | .kWhatConfigSync sync videoFpsHint replyID =>
    let m := if m.mRenderer ≠ none then emit (.renderer (.setSyncSettings sync videoFpsHint)) m
             else m
    let err : status_t := if m.mRenderer ≠ none then env.rendererSetSyncSettings else OK
    let m := if err = OK then { m with mSyncSettings := sync, mVideoFpsHint := videoFpsHint }
             else m
    .ok (emit (.postReply replyID (some err)) m)
  | .kWhatGetSyncSettings replyID =>
    let err : status_t := if m.mRenderer ≠ none then env.rendererGetSyncSettings.1 else OK
    let m := if m.mRenderer ≠ none ∧ err = OK then
        { m with mSyncSettings := env.rendererGetSyncSettings.2.1,
                 mVideoFpsHint := env.rendererGetSyncSettings.2.2 }
      else m
    .ok (emit (.postReplySyncSettings replyID err
      (if err = OK then some (m.mSyncSettings, m.mVideoFpsHint) else none)) m)
  | .kWhatScanSources generation =>
    if generation ≠ m.mScanSourcesGeneration then .ok m
    else
      let m := { m with mScanSourcesPending := false }
      if b.MTK_AOSP_ENHANCEMENT = true ∧ m.mIsStreamSource = false ∧ m.mOffloadAudio = false
      then do
        let m ← scanSource_l b env generation m
        let m := if m.mVideoDecoder ≠ none ∧ m.mAudioDecoder ≠ none ∧ m.mRenderer ≠ none then
            emit (.renderer .setFlagHasVideoAudio) m else m
        if m.mVideoDecoder = none ∧ m.mAudioDecoder ≠ none ∧ m.mRenderer ≠ none then
          let m := if m.mIsMtkPlayback = true ∧ m.mNotifyListenerVideodecoderIsNull = false then
              notifyListener b env MEDIA_SET_VIDEO_SIZE 0 0 m else m
          pure { m with mNotifyListenerVideodecoderIsNull := true }
        else pure m
      else scanSources b env generation m
  | .kWhatDecoderNotify audio requesterGeneration reply what =>
    let currentDecoderGeneration : Int :=
      if audio = true then m.mAudioDecoderGeneration else m.mVideoDecoderGeneration
    if requesterGeneration ≠ currentDecoderGeneration then
      match reply with
      | none => .ok m
      | some reply => .ok (emit (.postMessage reply (some INFO_DISCONTINUITY)) m)
    else onDecoderNotify b env audio what m
  | .kWhatRendererNotify requesterGeneration what =>
    if requesterGeneration ≠ m.mRendererGeneration then .ok m
    else onRendererNotify b env what m
  | .kWhatMoreDataQueued => .ok m
  | .kWhatReset =>
    processDeferredActions b env
      { m with mResetting := true,
               mDeferredActions := m.mDeferredActions ++
                 [.FlushDecoderAction .FLUSH_CMD_SHUTDOWN .FLUSH_CMD_SHUTDOWN,
                  .SimpleAction .performReset] }
  | .kWhatSeek seekTimeUs needNotify =>
    if m.mStarted = false then do
      let m ← onStart b env seekTimeUs m
      let m := if m.mStarted = true then { onPause m with mPausedByClient := true } else m
      pure (if needNotify = true then notifyDriverSeekComplete env m else m)
    else
      let m := { m with mDeferredActions := m.mDeferredActions ++
        [.FlushDecoderAction .FLUSH_CMD_FLUSH .FLUSH_CMD_FLUSH] }
      let m : NuPlayer := if b.MTK_AOSP_ENHANCEMENT = true ∧ m.mDataSourceType = .SOURCE_Http
          ∧ needNotify = true ∧ m.mVideoDecoder = none then
          { m with mSourceSeekDone := false } else m
      processDeferredActions b env
        { m with mDeferredActions := m.mDeferredActions ++
            [.SeekAction seekTimeUs, .ResumeDecoderAction needNotify] }
  | .kWhatPause =>
    let m := if b.MTK_AOSP_ENHANCEMENT = true ∧ b.MTK_AUDIO_TUNNELING_SUPPORT = true
        ∧ m.mOffloadAudio = true ∧ m.mRenderer ≠ none then
        emit (.renderer .signalRetryOffload) m else m
    .ok { onPause m with mPausedByClient := true }
  | .kWhatSourceNotify what => onSourceNotify b env what m
  | .kWhatClosedCaptionNotify what => onClosedCaptionNotify b env what m

/-! ## Runs and observations used by the theorems -/

/-- Handling a list of messages in order, each with the answers its handler gets. -/
def run (b : Build) : List (Env × Msg) → NuPlayer → Except Fault NuPlayer
  | [], m => .ok m
  | (env, msg) :: rest, m => onMessageReceived b env msg m >>= run b rest

/-- Some track is in a flush status other than NONE: the condition under which
processDeferredActions postpones. -/
def flushing (m : NuPlayer) : Prop :=
  m.mFlushingAudio ≠ .NONE ∨ m.mFlushingVideo ≠ .NONE

instance (m : NuPlayer) : Decidable (flushing m) := by unfold flushing; infer_instance

/-- The stock build and a vendor build, with sample values for the vendor constants. -/
def stockBuild : Build := ⟨false, false, false, 2, 860, 861, 262, 260, 261, 263, 200, -1100, -1101⟩

def vendorBuild : Build := ⟨true, false, false, 2, 860, 861, 262, 260, 261, 263, 200, -1100, -1101⟩

/-- A format with a mime type and a size, and no other key. -/
def sampleFormat : Format :=
  ⟨none, true, some 640, some 480, none, none, none, none, none, none, none, false, false⟩

/-- Answers of a local source with an audio and a video track, a live driver and a
renderer that accepts every call; audio offload is not available. -/
def sampleEnv : Env where
  driverAlive := true
  driverPositionMs := 0
  sourceAudioFormat := some sampleFormat
  sourceVideoFormat := some sampleFormat
  sourceAudioMeta := true
  sourceVideoMeta := true
  videoMetaFrameRate := none
  fileMeta := false
  fileMetaFrameRate := none
  fileMetaTemporalLayerCount := none
  fileMetaHasUnsupportVideo := none
  sourceIsRealTime := false
  sourceIsStreaming := false
  sourceHasVideo := true
  sourceDuration := none
  sourceFeedMoreTSData := OK
  sourceTrackCount := 0
  sourceTrackInfo := fun _ => none
  sourceSelectTrack := OK
  sourceSelectedTrack := 0
  sourceSetBuffers := OK
  sourceInitCheck := OK
  sourceFinalStatus := OK
  sourceDataSourceType := .SOURCE_Local
  sourceNotifyCanNotConnectServerIfPossible := false
  ccTrackCount := 0
  ccTrackInfo := fun _ => none
  ccSelectTrack := OK
  decoderSetVideoSurface := OK
  decoderGetInputBuffers := OK
  rendererPosition := some 0
  rendererSetPlaybackSettings := OK
  rendererGetPlaybackSettings := (OK, AUDIO_PLAYBACK_RATE_DEFAULT)
  rendererSetSyncSettings := OK
  rendererGetSyncSettings := (OK, 0, 0)
  rendererOpenAudioSink := (OK, false)
  canOffloadStream := false
  nativeWindowSetScalingMode := OK
  propertyAvsync := false

/-- The messages that take a fresh controller to playback with both decoders live:
data source, surface, audio sink, start, and the first scan. -/
def startPlayback : List Msg :=
  [.kWhatSetDataSource (some .GenericSource) none, .kWhatSetVideoSurface (some 1),
   .kWhatSetAudioSink (some 1), .kWhatStart, .kWhatScanSources 0]

/-- No session is active: no source, no decoders, no renderer, both flush statuses
NONE and nothing in the deferred queue. -/
def NoActiveSession (m : NuPlayer) : Prop :=
  m.mSource = none ∧ m.mAudioDecoder = none ∧ m.mVideoDecoder = none ∧ m.mRenderer = none
    ∧ m.mFlushingAudio = .NONE ∧ m.mFlushingVideo = .NONE ∧ m.mDeferredActions = []

/-- The clean state: no active session, and started, prepared, resetting and
sourceStarted all false. -/
def CleanState (m : NuPlayer) : Prop :=
  NoActiveSession m ∧ m.mStarted = false ∧ m.mPrepared = false ∧ m.mResetting = false
    ∧ m.mSourceStarted = false

/-- The flush status of a track kind. -/
def flushStatus (audio : Bool) (m : NuPlayer) : FlushStatus :=
  if audio = true then m.mFlushingAudio else m.mFlushingVideo

/-- The decoder generation counter of a track kind. -/
def decoderGeneration (audio : Bool) (m : NuPlayer) : Int :=
  if audio = true then m.mAudioDecoderGeneration else m.mVideoDecoderGeneration

/-- How often the event e has been sent so far. -/
def sentCount (e : Event) (m : NuPlayer) : Nat :=
  (events m).count e

/-- What a run can establish: x, if it returns, returns something satisfying P. -/
def Post {σ : Type} (x : Except Fault σ) (P : σ → Prop) : Prop :=
  ∀ a, x = .ok a → P a

/-- The decoder handle of a track kind. -/
def decoderHandle (audio : Bool) (m : NuPlayer) : Option DecoderBase :=
  getDecoder audio m

/-- How the generation counter and the handle of one track kind may differ between
two states: either both are the same, or the counter is strictly larger and the handle
is empty or holds a decoder tagged with the new counter value. -/
def GenStep (audio : Bool) (m m1 : NuPlayer) : Prop :=
  (decoderGeneration audio m1 = decoderGeneration audio m
      ∧ decoderHandle audio m1 = decoderHandle audio m)
  ∨ (decoderGeneration audio m < decoderGeneration audio m1
      ∧ ∀ d, decoderHandle audio m1 = some d → d.generation = decoderGeneration audio m1)

/-- GenStep for both track kinds. -/
def GenRel (m m1 : NuPlayer) : Prop :=
  GenStep true m m1 ∧ GenStep false m m1

/-- The flush statuses, the completion matrix and the deferred queue are the same in
both states, and the decoder generations and handles are related by GenRel. -/
def Ordinary (m m1 : NuPlayer) : Prop :=
  m1.mFlushingAudio = m.mFlushingAudio ∧ m1.mFlushingVideo = m.mFlushingVideo
    ∧ m1.mFlushComplete = m.mFlushComplete ∧ m1.mDeferredActions = m.mDeferredActions
    ∧ GenRel m m1

/-- The members the flush machine, the deferred queue and the decoder bookkeeping
consist of. -/
def machine (m : NuPlayer) : FlushStatus × FlushStatus × FlushComplete × List Action
    × Int × Int × Option DecoderBase × Option DecoderBase :=
  (m.mFlushingAudio, m.mFlushingVideo, m.mFlushComplete, m.mDeferredActions,
   m.mAudioDecoderGeneration, m.mVideoDecoderGeneration, m.mAudioDecoder, m.mVideoDecoder)

/-- The generation counters and the handles of the two decoders. -/
def decoders (m : NuPlayer) : Int × Int × Option DecoderBase × Option DecoderBase :=
  (m.mAudioDecoderGeneration, m.mVideoDecoderGeneration, m.mAudioDecoder, m.mVideoDecoder)

/-- A flush status in which a decoder flush is in flight: FLUSHING_DECODER or
FLUSHING_DECODER_SHUTDOWN. -/
def inFlush (s : FlushStatus) : Prop :=
  s = .FLUSHING_DECODER ∨ s = .FLUSHING_DECODER_SHUTDOWN

instance (s : FlushStatus) : Decidable (inFlush s) := by unfold inFlush; infer_instance

/-- A track whose flush is in flight before is still in flight after. -/
def Stay (audio : Bool) (m m1 : NuPlayer) : Prop :=
  inFlush (flushStatus audio m) → inFlush (flushStatus audio m1)

/-- The decoder bookkeeping moves as GenRel allows and no track leaves a flush that is
in flight. -/
def Safe (m m1 : NuPlayer) : Prop :=
  GenRel m m1 ∧ Stay true m m1 ∧ Stay false m m1

/-- The message is the second of the two flush completions of track k: the decoder's
flush-completed of the current generation when the renderer's bit is already set, or the
renderer's flush-complete of the current generation when the decoder's bit is already
set. -/
def completesFlush (k : Bool) (m : NuPlayer) : Msg → Prop
  | .kWhatDecoderNotify audio generation _ .kWhatFlushCompleted =>
    audio = k ∧ generation = decoderGeneration k m ∧ m.mFlushComplete.get k false = true
  | .kWhatRendererNotify generation (.kWhatFlushComplete audio) =>
    audio = k ∧ generation = m.mRendererGeneration ∧ m.mFlushComplete.get k true = true
  | _ => False

/-- The message makes the controller call restartAudio: an audio tear-down of the
current renderer generation that is not ignored, or a playback-rate change that offload
cannot serve. -/
def restartsAudio (m : NuPlayer) : Msg → Prop
  | .kWhatRendererNotify generation (.kWhatAudioTearDown reason _) =>
    generation = m.mRendererGeneration
      ∧ (reason = .kDueToTimeout → m.mPaused = true ∧ m.mOffloadAudio = true)
  | .kWhatConfigPlayback rate _ =>
    m.mRenderer ≠ none ∧ m.mOffloadAudio = true
      ∧ ((rate.mSpeed ≠ 0 ∧ rate.mSpeed ≠ 1) ∨ rate.mPitch ≠ 1)
  | _ => False

/-- The state in which a run of messages from the fresh controller ends, every handler
getting the sample answers; the fresh controller itself if the run does not return. -/
def reached (b : Build) (msgs : List Msg) : NuPlayer :=
  match run b (msgs.map (fun x => (sampleEnv, x))) (NuPlayer.new 0) with
  | .ok m => m
  | .error _ => NuPlayer.new 0

/-- Playback is started and a seek is handled: both decoders are being flushed. -/
def startAndSeek : List Msg :=
  startPlayback ++ [.kWhatSeek 5000000 true]

/-- An audio tear-down from the renderer of generation 1, because of an error, at
position 0. -/
def audioTearDown : Msg :=
  .kWhatRendererNotify 1 (.kWhatAudioTearDown .kDueToError (some 0))

/-- The flush of one track as the shutdown scenario sees it: the flush status, the
decoder and the renderer completion bit, and how often initiateShutdown has been sent to
the track's decoder. -/
def flushView (audio : Bool) (m : NuPlayer) : FlushStatus × Bool × Bool × Nat :=
  (flushStatus audio m, m.mFlushComplete.get audio true, m.mFlushComplete.get audio false,
   sentCount (.decoder audio .initiateShutdown) m)

/-- What else the handling of decoder and renderer notifications of a track reads: the
decoder handle and generation of the track, the renderer generation and the source
handle. -/
def shutdownFrame (audio : Bool) (m : NuPlayer) :
    Option DecoderBase × Int × Int × Option Source :=
  (getDecoder audio m, decoderGeneration audio m, m.mRendererGeneration, m.mSource)

/-- The run returns, and what it returns satisfies P. -/
def Returns {σ : Type} (x : Except Fault σ) (P : σ → Prop) : Prop :=
  ∃ a, x = .ok a ∧ P a

/-- A decoder error notification of track k that carries the generation current in m:
the keys "err" and "errACodec" as given, no reply expected. -/
def decoderError (k : Bool) (m : NuPlayer) (err errACodec : Option Int) : Msg :=
  .kWhatDecoderNotify k (decoderGeneration k m) none (.kWhatError err errACodec)

/-- The decoder's flush-completed notification of track k, of the generation current
in m. -/
def decoderFlushed (k : Bool) (m : NuPlayer) : Msg :=
  .kWhatDecoderNotify k (decoderGeneration k m) none .kWhatFlushCompleted

/-- The renderer's flush-complete notification for track k, of the renderer generation
current in m. -/
def rendererFlushed (k : Bool) (m : NuPlayer) : Msg :=
  .kWhatRendererNotify m.mRendererGeneration (.kWhatFlushComplete k)

/-- The number of initiateShutdown calls the decoder of track k has received. -/
def shutdowns (k : Bool) (m : NuPlayer) : Nat :=
  sentCount (.decoder k .initiateShutdown) m

/-- One of the four flush completions, named by track kind and by who completed:
the decoder's flush-completed or the renderer's flush-complete, of the generations
current in m. -/
def completion (m : NuPlayer) (c : Bool × Bool) : Msg :=
  if c.2 = true then decoderFlushed c.1 m else rendererFlushed c.1 m

/-- The video decoder's resume-completed notification, of the generation current in m. -/
def videoResumed (m : NuPlayer) : Msg :=
  .kWhatDecoderNotify false m.mVideoDecoderGeneration none .kWhatResumeCompleted

/-- What the seek scenario keeps fixed: the decoder handles and generations, the
renderer and its generation, the source, the driver, and the started flag. -/
def seekFrame (m : NuPlayer) : Option DecoderBase × Option DecoderBase × Int × Int
    × Option Renderer × Int × Option Source × Bool × Bool :=
  (m.mAudioDecoder, m.mVideoDecoder, m.mAudioDecoderGeneration, m.mVideoDecoderGeneration,
   m.mRenderer, m.mRendererGeneration, m.mSource, m.mDriver, m.mStarted)

/-- The flush of a seek is in flight: nothing of seekFrame has changed since m, the
deferred queue is q, nothing has been sent since m, and each track is FLUSHED if both
its completion bits are set and in FLUSHING_DECODER otherwise. -/
def SeekPending (m : NuPlayer) (q : List Action) (a : NuPlayer) : Prop :=
  seekFrame a = seekFrame m ∧ a.mDeferredActions = q ∧ a.trace = m.trace
    ∧ a.mFlushingAudio = (if a.mFlushComplete.audioDecoder = true
        ∧ a.mFlushComplete.audioRenderer = true then .FLUSHED else .FLUSHING_DECODER)
    ∧ a.mFlushingVideo = (if a.mFlushComplete.videoDecoder = true
        ∧ a.mFlushComplete.videoRenderer = true then .FLUSHED else .FLUSHING_DECODER)

/-- Answers as in sampleEnv, but the stream can be offloaded and the audio sink opens
in offload mode. -/
def offloadEnv : Env :=
  { sampleEnv with canOffloadStream := true, rendererOpenAudioSink := (OK, true) }

/-- Answers as in sampleEnv, but the source reports no audio format. -/
def noAudioEnv : Env :=
  { sampleEnv with sourceAudioFormat := none }

/-- The state in which a run of messages from the fresh controller ends, every handler
getting the answers env; the fresh controller itself if the run does not return. -/
def reachedWith (env : Env) (b : Build) (msgs : List Msg) : NuPlayer :=
  match run b (msgs.map (fun x => (env, x))) (NuPlayer.new 0) with
  | .ok m => m
  | .error _ => NuPlayer.new 0

/-- The stock build with the audio tunneling support switched on. -/
def tunnelBuild : Build :=
  { stockBuild with MTK_AUDIO_TUNNELING_SUPPORT := true }

/-- Playback is started, a seek is handled, and then the video decoder fails and is shut
down: its error, the two flush completions and shutdown-completed, all of generation 1.
The audio flush of the seek is still in flight. -/
def videoShutDown : List Msg :=
  startAndSeek ++ [.kWhatDecoderNotify false 1 none (.kWhatError (some (-1)) none),
    .kWhatRendererNotify 1 (.kWhatFlushComplete false),
    .kWhatDecoderNotify false 1 none .kWhatFlushCompleted,
    .kWhatDecoderNotify false 1 none .kWhatShutdownCompleted]

/-- Playback is started, a seek is handled, the audio decoder fails and is told to shut
down, and before it has shut down the renderer asks to retry audio offload. -/
def audioRetry : List Msg :=
  startAndSeek ++ [.kWhatDecoderNotify true 1 none (.kWhatError (some (-1)) none),
    .kWhatRendererNotify 1 (.kWhatFlushComplete true),
    .kWhatDecoderNotify true 1 none .kWhatFlushCompleted,
    .kWhatRendererNotify 1 (.kWhatRetryAudioOffload 0)]

/-- Only the data source has been set. -/
def sourceSet : List Msg :=
  [.kWhatSetDataSource (some .GenericSource) none]

/-- Playback is started and the source then reports that its buffer runs low. -/
def startAndBuffer : List Msg :=
  startPlayback ++ [.kWhatSourceNotify .kWhatPauseOnBufferingStart]

/-- What a seek before the start must leave alone or count: the deferred queue, the
driver reference, and how often seek-complete has been notified. -/
def seekReport (m : NuPlayer) : List Action × Bool × Nat :=
  (m.mDeferredActions, m.mDriver, sentCount (.driver .notifySeekComplete) m)

/-- Source, surface and audio sink are set; the controller is not started. -/
def prepared : List Msg :=
  [.kWhatSetDataSource (some .GenericSource) none, .kWhatSetVideoSurface (some 1),
   .kWhatSetAudioSink (some 1)]

/-- setIsMtkPlayback(setting), called by the driver on the controller object. -/
def setIsMtkPlayback (setting : Bool) (m : NuPlayer) : NuPlayer :=
  { m with mIsMtkPlayback := setting }

/-- Answers as in sampleEnv, but the source reports that the server cannot be reached
any more. -/
def unreachableServerEnv : Env :=
  { sampleEnv with sourceNotifyCanNotConnectServerIfPossible := true }

/-- How often playback-complete has been notified to the client so far. -/
def playbackCompleteCount (m : NuPlayer) : Nat :=
  (events m).countP (fun e =>
    match e with
    | .driver (.notifyListener msg _ _ _) => msg == MEDIA_PLAYBACK_COMPLETE
    | _ => false)

/-- The state in which a run of messages ends in the vendor build when the driver has
called setIsMtkPlayback(true) on the fresh controller; the fresh controller itself if the
run does not return. -/
def mtkReached (env : Env) (msgs : List Msg) : NuPlayer :=
  match run vendorBuild (msgs.map (fun x => (env, x)))
      (setIsMtkPlayback true (NuPlayer.new 0)) with
  | .ok m => m
  | .error _ => NuPlayer.new 0

/-- Playback is started and the renderer reports the end of the audio stream. -/
def playToAudioEOS : List Msg :=
  startPlayback ++ [.kWhatRendererNotify 1 (.kWhatEOS true ERROR_END_OF_STREAM)]

/-- Every live track is at its end: each track has its EOS flag set or no decoder. -/
def allTracksEnded (m : NuPlayer) : Prop :=
  (m.mAudioEOS = true ∨ m.mAudioDecoder = none) ∧ (m.mVideoEOS = true ∨ m.mVideoDecoder = none)

instance (m : NuPlayer) : Decidable (allTracksEnded m) := by
  unfold allTracksEnded; infer_instance

/-- The vendor build's gate before playback-complete: for an MTK playback whose track
ended with end-of-stream the source is asked, and it answers that the server cannot be
reached. -/
def serverLost (b : Build) (env : Env) (m : NuPlayer) (finalResult : Int) : Prop :=
  b.MTK_AOSP_ENHANCEMENT = true ∧ m.mIsMtkPlayback = true ∧ finalResult = ERROR_END_OF_STREAM
    ∧ env.sourceNotifyCanNotConnectServerIfPossible = true

instance (b : Build) (env : Env) (m : NuPlayer) (finalResult : Int) :
    Decidable (serverLost b env m finalResult) := by
  unfold serverLost; infer_instance

/-- Answers as in sampleEnv, but the source says that it is an RTSP source. -/
def rtspEnv : Env :=
  { sampleEnv with sourceDataSourceType := .SOURCE_Rtsp }

/-- Whether the buffering handlers take the vendor build's RTSP branch, which only
notifies: the build is the vendor build and isRTSPSource answers true. -/
def rtspBuffering (b : Build) (env : Env) (m : NuPlayer) : Bool :=
  (if b.MTK_AOSP_ENHANCEMENT = true then isRTSPSource env m else (false, m)).1

/-- How often pause and resume have been sent to the source and to the renderer. -/
def pauseResumeSent (m : NuPlayer) : Nat × Nat × Nat × Nat :=
  (sentCount (.source .pause) m, sentCount (.renderer .pause) m,
   sentCount (.source .resume) m, sentCount (.renderer .resume) m)

/-- What the buffering handlers read or set besides the flag pausedForBuffering: paused,
pausedByClient, started, resetting, the renderer, the source, and the pause and resume
calls sent so far. -/
def bufferView (m : NuPlayer) :
    Bool × Bool × Bool × Bool × Option Renderer × Option Source × (Nat × Nat × Nat × Nat) :=
  (m.mPaused, m.mPausedByClient, m.mStarted, m.mResetting, m.mRenderer, m.mSource,
   pauseResumeSent m)

/-- The stored playback rate is the unity rate: speed 1 and pitch 1. -/
def unityRate (m : NuPlayer) : Prop :=
  m.mPlaybackSettings.mSpeed = 1 ∧ m.mPlaybackSettings.mPitch = 1

instance (m : NuPlayer) : Decidable (unityRate m) := by
  unfold unityRate; infer_instance

/-- Audio offload is selected only at the unity rate. -/
def offloadAtUnity (m : NuPlayer) : Prop :=
  m.mOffloadAudio = true → unityRate m

instance (m : NuPlayer) : Decidable (offloadAtUnity m) := by
  unfold offloadAtUnity; infer_instance

/-- Playback with audio offload: started with the answers of offloadEnv, the audio
decoder is a pass-through decoder. -/
def offloadPlayback : NuPlayer :=
  reachedWith offloadEnv stockBuild startPlayback

/-- A playback rate of double speed at unity pitch. -/
def doubleSpeed : AudioPlaybackRate :=
  ⟨2, 1, 0, 0⟩

/-- Whether an event is a seekTo call on the source. -/
def isSeekTo : Event → Bool
  | .source (.seekTo _) => true
  | _ => false

/-- Whether an event is a signalResume call on a decoder. -/
def isResume : Event → Bool
  | .decoder _ (.signalResume _) => true
  | _ => false

/-- The seekTo calls that were sent while a track was in one of the statuses
FLUSHING_DECODER, FLUSHING_DECODER_SHUTDOWN or SHUTTING_DOWN_DECODER. -/
def seeksWhileFlushing (m : NuPlayer) : List Sent :=
  m.trace.filter (fun s => isSeekTo s.event
    && (IsFlushingState s.flushingAudio || IsFlushingState s.flushingVideo))

/-- The mark an event leaves in seekResumeOrder: true for seekTo(t), false for a
signalResume, none for any other event. -/
def seekMark (t : Int) (e : Event) : Option Bool :=
  if e = .source (.seekTo t) then some true
  else if isResume e = true then some false
  else none

/-- The order in which seekTo(t) and signalResume calls were sent: true for each
seekTo(t), false for each signalResume. -/
def seekResumeOrder (t : Int) (m : NuPlayer) : List Bool :=
  m.trace.filterMap (fun s => seekMark t s.event)

/-- What code that neither seeks nor resumes leaves alone: the seekTo calls sent while
flushing, the order of seekTo(t) and signalResume calls, and the source. -/
def seekView (t : Int) (m : NuPlayer) : List Sent × List Bool × Option Source :=
  (seeksWhileFlushing m, seekResumeOrder t m, m.mSource)

/-- A player without a source has no decoder. -/
def DecodersNeedSource (m : NuPlayer) : Prop :=
  m.mSource = none → m.mAudioDecoder = none ∧ m.mVideoDecoder = none

/-- Nothing of seekView has changed, the deferred queue has only been appended to, and no
decoder has appeared without a source. -/
def SeekFrame (t : Int) (m a : NuPlayer) : Prop :=
  seekView t a = seekView t m ∧ (∃ app, a.mDeferredActions = m.mDeferredActions ++ app)
    ∧ (DecodersNeedSource m → DecodersNeedSource a)

/-- Whether an action is a ResumeDecoders action. -/
def isResumeAction : Action → Bool
  | .ResumeDecoderAction _ => true
  | _ => false

/-- Where things stood when a seek queued Seek(t) and ResumeDecoders(notify): the order
of seekTo(t) and signalResume calls then, the number of signalResume calls that the
ResumeDecoders actions queued in front can send (two for each), and the number of Seek(t)
actions queued in front. -/
structure SeekStart where
  order : List Bool
  resumes : Nat
  seeks : Nat
  notify : Bool

/-- What is known of the order of calls since a seek queued Seek(t) and
ResumeDecoders(notify). Either the source has been released and there is no decoder, and
the signalResume calls added so far stay within the number allowed at the start; or
Seek(t) still waits in the queue with its ResumeDecoders(notify) right behind it, and the
signalResume calls added so far and those that the ResumeDecoders actions in front can
still send stay within the number allowed at the start; or the seekTo(t) of that action
has been sent, after no more signalResume calls than allowed at the start and after the
seekTo(t) of every Seek(t) action that was queued in front. -/
def SeekOrdered (t : Int) (r0 : SeekStart) (a : NuPlayer) : Prop :=
  (a.mSource = none ∧ a.mAudioDecoder = none ∧ a.mVideoDecoder = none
      ∧ ∃ early, seekResumeOrder t a = r0.order ++ early ∧ early.count false ≤ r0.resumes)
  ∨ (∃ pre rest early,
      a.mDeferredActions = pre ++ .SeekAction t :: .ResumeDecoderAction r0.notify :: rest
      ∧ seekResumeOrder t a = r0.order ++ early
      ∧ early.count false + 2 * pre.countP isResumeAction ≤ r0.resumes
      ∧ r0.seeks ≤ early.count true + pre.count (.SeekAction t))
  ∨ (∃ early tail, seekResumeOrder t a = r0.order ++ early ++ true :: tail
      ∧ early.count false ≤ r0.resumes ∧ r0.seeks ≤ early.count true)

/-- A notification of a decoder, or of the renderer. -/
def isNotification : Msg → Bool
  | .kWhatDecoderNotify _ _ _ _ => true
  | .kWhatRendererNotify _ _ => true
  | _ => false

/-- A notification of a decoder, or of the renderer other than the two requests that
restart audio: audio tear-down and, in a build with MTK_AUDIO_TUNNELING_SUPPORT, retry of
audio offload. -/
def isPlainNotification (b : Build) : Msg → Bool
  | .kWhatDecoderNotify _ _ _ _ => true
  | .kWhatRendererNotify _ (.kWhatAudioTearDown _ _) => false
  | .kWhatRendererNotify _ (.kWhatRetryAudioOffload _) => !b.MTK_AUDIO_TUNNELING_SUPPORT
  | .kWhatRendererNotify _ _ => true
  | _ => false

/-- The order of seekTo(t) and signalResume calls has only been appended to. -/
def OrderExt (t : Int) (m a : NuPlayer) : Prop :=
  ∃ new, seekResumeOrder t a = seekResumeOrder t m ++ new

/-- No seekTo has been sent while a track was flushing or shutting down. -/
def NoBadSeek (m a : NuPlayer) : Prop :=
  seeksWhileFlushing a = seeksWhileFlushing m

/-- Whatever held of the order of seekTo(t) and signalResume before holds after. -/
def KeepsOrder (t : Int) (m a : NuPlayer) : Prop :=
  ∀ r0, SeekOrdered t r0 m → SeekOrdered t r0 a

/-- No seekTo was sent while flushing, and the order of seekTo(t) and signalResume is
kept. -/
def Keeps (t : Int) (m a : NuPlayer) : Prop :=
  NoBadSeek m a ∧ KeepsOrder t m a

/-- The four flush completions of generation 1: the renderer's and the decoder's, for
audio and for video. -/
def flushCompletions : List Msg :=
  [.kWhatRendererNotify 1 (.kWhatFlushComplete true),
   .kWhatDecoderNotify true 1 none .kWhatFlushCompleted,
   .kWhatRendererNotify 1 (.kWhatFlushComplete false),
   .kWhatDecoderNotify false 1 none .kWhatFlushCompleted]

/-- Playback is started, a seek to 5000000 is handled, and before its flush has completed
a second seek, to 7000000, is handled. -/
def seekTwice : List Msg :=
  startAndSeek ++ [.kWhatSeek 7000000 true]

/-- The renderer asks for an audio tear-down and reports the position 5000000. -/
def audioTearDownAt : Msg :=
  .kWhatRendererNotify 1 (.kWhatAudioTearDown .kDueToError (some 5000000))

/-- The renderer asks to retry audio offload and reports the position 5000000. -/
def retryOffloadAt : Msg :=
  .kWhatRendererNotify 1 (.kWhatRetryAudioOffload 5000000)

/-- Playback is started, the audio decoder fails and is shut down (its error, the two
flush completions and shutdown-completed of generation 1), and the client resets: the
video decoder is being flushed for shutdown and performReset waits in the queue. -/
def resetAfterAudioLoss : List Msg :=
  startPlayback ++ [.kWhatDecoderNotify true 1 none (.kWhatError (some (-1)) none),
    .kWhatRendererNotify 1 (.kWhatFlushComplete true),
    .kWhatDecoderNotify true 1 none .kWhatFlushCompleted,
    .kWhatDecoderNotify true 1 none .kWhatShutdownCompleted,
    .kWhatReset]

/-- The video decoder completes the shutdown that the reset asked for. -/
def videoShutdownCompletes : List Msg :=
  [.kWhatRendererNotify 1 (.kWhatFlushComplete false),
   .kWhatDecoderNotify false 1 none .kWhatFlushCompleted,
   .kWhatDecoderNotify false 1 none .kWhatShutdownCompleted]

/-- A track format that is not ready yet: it carries the key "err" with the would-block
status. -/
def wouldBlockFormat : Format :=
  { sampleFormat with err := some (-EWOULDBLOCK) }

/-- Answers as in sampleEnv, but the formats of both tracks are not ready yet. -/
def wouldBlockEnv : Env :=
  { sampleEnv with sourceAudioFormat := some wouldBlockFormat,
                   sourceVideoFormat := some wouldBlockFormat }

/-- Source, surface and audio sink are set and start has been handled: the first scan
message, of generation 0, is posted and not yet handled. -/
def started : List Msg :=
  prepared ++ [.kWhatStart]

/-- Playback is started, the client resets, and the video decoder completes the shutdown
that the reset asked for: the audio decoder is still being flushed and performReset
waits in the queue. -/
def resetWithVideoDown : List Msg :=
  startPlayback ++ [.kWhatReset] ++ videoShutdownCompletes

/-- Whether an event is left by a call of flushDecoder on a live decoder: the
signalFlush it sends, or its ALOGE line about a status that is not NONE. -/
def isFlushCall : Event → Bool
  | .decoder _ .signalFlush => true
  | .logFlushDecoderInState _ _ => true
  | _ => false

/-- Whether a trace entry records a call of flushDecoder for a track whose flush status
was not NONE: the ALOGE line of such a call, or a signalFlush sent while the status of
its track was not NONE. -/
def isBadFlushCall (s : Sent) : Bool :=
  match s.event with
  | .logFlushDecoderInState _ _ => true
  | .decoder audio .signalFlush =>
    decide ((if audio = true then s.flushingAudio else s.flushingVideo) ≠ .NONE)
  | _ => false

/-- The calls of flushDecoder made so far for a track whose flush status was not NONE. -/
def badFlushCalls (m : NuPlayer) : List Sent :=
  m.trace.filter isBadFlushCall

/-- There is nothing for finishFlushIfPossible to finish: both flush statuses are NONE,
or one of them is a status in which it returns at once (FLUSHING_DECODER,
FLUSHING_DECODER_SHUTDOWN or SHUTTING_DOWN_DECODER). -/
def NothingToFinish (m : NuPlayer) : Prop :=
  (m.mFlushingAudio = .NONE ∧ m.mFlushingVideo = .NONE)
    ∨ IsFlushingState m.mFlushingAudio = true ∨ IsFlushingState m.mFlushingVideo = true

instance (m : NuPlayer) : Decidable (NothingToFinish m) := by
  unfold NothingToFinish; infer_instance

/-- No flushDecoder call for a track outside NONE has been added, and if there was
nothing to finish before there is nothing to finish after. -/
def Calm (m a : NuPlayer) : Prop :=
  (NothingToFinish m → NothingToFinish a) ∧ badFlushCalls a = badFlushCalls m

/-- What calm code leaves alone: the two flush statuses and the bad flush calls. -/
def calmView (m : NuPlayer) : FlushStatus × FlushStatus × List Sent :=
  (m.mFlushingAudio, m.mFlushingVideo, badFlushCalls m)

/-- Playback is started, the source reports that its buffer runs low, the client resets,
and both decoders complete the shutdown that the reset asked for: performReset has run. -/
def bufferThenReset : List Msg :=
  startPlayback ++ [.kWhatSourceNotify .kWhatPauseOnBufferingStart, .kWhatReset,
    .kWhatRendererNotify 1 (.kWhatFlushComplete true),
    .kWhatDecoderNotify true 1 none .kWhatFlushCompleted,
    .kWhatDecoderNotify true 1 none .kWhatShutdownCompleted] ++ videoShutdownCompletes

/-- A second session after a reset: a new data source, start, and the scan that start
posts (its generation is 3 after one session and its reset). -/
def secondSession : List Msg :=
  [.kWhatSetDataSource (some .GenericSource) none, .kWhatStart, .kWhatScanSources 3]

/-- The client pauses and starts again. -/
def pauseThenStart : List Msg :=
  [.kWhatPause, .kWhatStart]

/-- A rate change that pauses (speed 0) and changes the pitch to 2. -/
def pauseWithPitch : AudioPlaybackRate :=
  ⟨0, 2, 0, 0⟩

/-- An input format whose sample aspect ratio has the height 0. -/
def zeroSarFormat : Format :=
  { sampleFormat with sarWidth := some 1, sarHeight := some 0 }

/-- A number in the range of int32_t. -/
def fitsInt32 (x : Int) : Prop :=
  -2147483648 ≤ x ∧ x ≤ 2147483647

instance (x : Int) : Decidable (fitsInt32 x) := by
  unfold fitsInt32; infer_instance

/-- The base size of the reference definition: the crop size of the output format when
there is one, the size of the input format when not. -/
def referenceBaseSize (input : Format) (outputFormat : Option Format) : Int × Int :=
  match outputFormat with
  | some output =>
    (match output.crop with
    | some (cropLeft, _, cropRight, _) => cropRight - cropLeft + 1
    | none => 0,
     match output.crop with
    | some (_, cropTop, _, cropBottom) => cropBottom - cropTop + 1
    | none => 0)
  | none => (input.width.getD 0, input.height.getD 0)

/-- The size that updateVideoSize is said to report, written after the description and
not after the code: (0, 0) without an input format; otherwise the base size is the crop
size of the output format when there is one and the size of the input format when not,
the width is scaled by the sample aspect ratio when both of its keys are present
(division of C, truncating toward zero), and the pair is swapped exactly for a rotation
of 90 or 270 degrees. The numbers are mathematical integers. -/
def referenceVideoSize (inputFormat outputFormat : Option Format) : Int × Int :=
  match inputFormat with
  | none => (0, 0)
  | some input =>
    let base : Int × Int := referenceBaseSize input outputFormat
    let width : Int :=
      match input.sarWidth, input.sarHeight with
      | some sarWidth, some sarHeight => Int.tdiv (base.1 * sarWidth) sarHeight
      | _, _ => base.1
    if input.rotationDegrees.getD 0 = 90 ∨ input.rotationDegrees.getD 0 = 270 then
      (base.2, width)
    else (width, base.2)

/-- The vendor build with MTK_CLEARMOTION_SUPPORT. -/
def clearMotionBuild : Build :=
  { vendorBuild with MTK_CLEARMOTION_SUPPORT := true }

/-- An output format of 640 x 480 whose width-ratio is 2. -/
def wideOutputFormat : Format :=
  { sampleFormat with crop := some (0, 0, 639, 479), widthRatio := some 2 }

/-- An input format with the sample aspect ratio 4 : 3, rotated by 90 degrees. -/
def rotatedFormat : Format :=
  { sampleFormat with sarWidth := some 4, sarHeight := some 3, rotationDegrees := some 90 }

/-- An output format of 640 x 480 with a crop rectangle of 320 x 240. -/
def croppedOutputFormat : Format :=
  { sampleFormat with crop := some (10, 20, 329, 259) }

/-- An input format whose sample aspect ratio has the width 0. -/
def zeroSarWidthFormat : Format :=
  { sampleFormat with sarWidth := some 0, sarHeight := some 1 }

/-- The cropped output format with the key NotUpdateVideoSize set. -/
def keepSizeOutputFormat : Format :=
  { croppedOutputFormat with NotUpdateVideoSize := some 1 }

/-- Playback has started and the source has reported its video size. -/
def sizeReported : List Msg :=
  startPlayback ++ [.kWhatSourceNotify (.kWhatVideoSizeChanged sampleFormat)]

/-- An input format of width 4096 with the sample aspect ratio 1000000 : 1000000. -/
def largeSarFormat : Format :=
  { sampleFormat with width := some 4096, height := some 2160,
                      sarWidth := some 1000000, sarHeight := some 1000000 }

/-! ## URLs and the choice of the source

A C string is modelled by the list of its characters before the terminating NUL. -/

/-- The function tolower of the C library in the C locale: an upper-case ASCII letter is
mapped to its lower-case letter, every other character to itself; the result is an int. -/
def tolower (c : Char) : Int :=
  (c.toLower.toNat : Int)

/-- The function strlen of the C library. -/
def strlen (s : List Char) : Nat :=
  s.length

/-- The function strncasecmp of the C library: at most n characters are compared without
regard to case; the result is 0 for equal strings and the difference of the first two
lower-cased characters that differ otherwise, the end of a string counting as NUL. -/
def strncasecmp : List Char → List Char → Nat → Int
  | _, _, 0 => 0
  | [], [], _ + 1 => 0
  | [], c2 :: _, _ + 1 => 0 - tolower c2
  | c1 :: _, [], _ + 1 => tolower c1 - 0
  | c1 :: s1, c2 :: s2, n + 1 =>
    if tolower c1 ≠ tolower c2 then tolower c1 - tolower c2 else strncasecmp s1 s2 n

/-- The function strcasecmp of the C library: strncasecmp without the bound. -/
def strcasecmp : List Char → List Char → Int
  | [], [] => 0
  | [], c2 :: _ => 0 - tolower c2
  | c1 :: _, [] => tolower c1 - 0
  | c1 :: s1, c2 :: s2 =>
    if tolower c1 ≠ tolower c2 then tolower c1 - tolower c2 else strcasecmp s1 s2

/-- The function strstr of the C library: the rest of the string from the first
occurrence of needle on, none (NULL) when there is no occurrence. -/
def strstr : List Char → List Char → Option (List Char)
  | [], needle => if needle = [] then some [] else none
  | c :: s, needle =>
    if (c :: s).take needle.length = needle then some (c :: s) else strstr s needle

def IsHTTPLiveURL (url : List Char) : Bool :=
  if strncasecmp "http://".toList url 7 = 0
      ∨ strncasecmp "https://".toList url 8 = 0
      ∨ strncasecmp "file://".toList url 7 = 0 then
    let len := strlen url
    if len ≥ 5 ∧ strcasecmp ".m3u8".toList (url.drop (len - 5)) = 0 then true
    else if (strstr url "m3u8".toList).isSome then true
    else false
  else false

def IsHttpURL (url : List Char) : Bool :=
  strncasecmp url "http://".toList 7 = 0 ∨ strncasecmp url "https://".toList 8 = 0

def IsRtspURL (url : List Char) : Bool :=
  strncasecmp url "rtsp://".toList 7 = 0

def IsRtspSDP (url : List Char) : Bool :=
  let len := strlen url
  let isSDP : Bool := (len ≥ 4 ∧ strcasecmp ".sdp".toList (url.drop (len - 4)) = 0)
    ∨ (strstr url ".sdp?".toList).isSome
  IsHttpURL url && isSDP

/-- setDataSourceAsync(httpService, url, headers): the state afterwards and the message
that is posted; setDataSource is the result of GenericSource::setDataSource. -/
def setDataSourceAsync (b : Build) (url : List Char) (setDataSource : Int) (m : NuPlayer) :
    NuPlayer × Msg :=
  let len := strlen url
  if IsHTTPLiveURL url = true then
    (if b.MTK_AOSP_ENHANCEMENT = true then { m with mDataSourceType := .SOURCE_HttpLive } else m,
      .kWhatSetDataSource (some .HTTPLiveSource) none)
  else if b.MTK_AOSP_ENHANCEMENT = true then
    if IsRtspURL url = true ∨ IsRtspSDP url = true then
      (m, .kWhatSetDataSource (some .RTSPSource) none)
    else
      let m := if strncasecmp url "http://".toList 7 = 0
            ∨ strncasecmp url "https://".toList 8 = 0 then
          { m with mDataSourceType := .SOURCE_Http }
        else { m with mDataSourceType := .SOURCE_Local }
      (m, .kWhatSetDataSource (if setDataSource = OK then some .GenericSource else none) none)
  else if strncasecmp url "rtsp://".toList 7 = 0 then
    (m, .kWhatSetDataSource (some .RTSPSource) none)
  else if (strncasecmp url "http://".toList 7 = 0 ∨ strncasecmp url "https://".toList 8 = 0)
      ∧ ((len ≥ 4 ∧ strcasecmp ".sdp".toList (url.drop (len - 4)) = 0)
        ∨ (strstr url ".sdp?".toList).isSome = true) then
    (m, .kWhatSetDataSource (some .RTSPSource) none)
  else
    (m, .kWhatSetDataSource (if setDataSource = OK then some .GenericSource else none) none)

/-- A url starts with p without regard to case. -/
def StartsWithNoCase (p url : List Char) : Prop :=
  ∃ head rest, url = head ++ rest ∧ head.map Char.toLower = p.map Char.toLower

/-- A url ends with p without regard to case. -/
def EndsWithNoCase (p url : List Char) : Prop :=
  ∃ front tail, url = front ++ tail ∧ tail.map Char.toLower = p.map Char.toLower

/-- A url contains p, case counting. -/
def ContainsString (p url : List Char) : Prop :=
  ∃ front rest, url = front ++ p ++ rest

/-! ## ADPCMWriter::threadFunc

The writer thread of ADPCMWriter.cpp. The members mStoped and mPaused are written by
stop(), pause() and start() on other threads; the values the loop reads are part of
the turns below. -/

/-- Modelled from the spec: the header ADPCMWriter.h is not among the files. The members
of mWaveHeader that threadFunc reads, as unsigned numbers. -/
structure WaveHeader where
  sample_rate : Nat
  block_align : Nat
  extra_data_size : Nat
  deriving DecidableEq, Repr

/-- What the writer thread sends to its listener and does to its file. -/
inductive WriterOp where
  | notifyMaxFilesizeReached
  | notifyMaxDurationReached
  | notifyCompletionStatus (err : status_t)
  /-- fwrite of range_length bytes that wrote n of them -/
  | fwrite (range_length n : Nat)
  | moveFilePointer (offset : Nat) (fromStart : Bool)
  | writeDWordToFile (data : Nat)
  | fflush
  | fclose
  deriving DecidableEq, Repr

/-- Modelled from the spec: the header ADPCMWriter.h is not among the files. The members
of the writer that threadFunc uses; ADPCM_U64 is taken as an unsigned integer of 64 bits,
the limits are the int64_t members of MediaWriter. -/
structure ADPCMWriter where
  mReachedEOS : Bool
  mEstimatedDurationUs : Nat
  mEstimatedSizeBytes : Nat
  mSamplesPerBlock : Nat
  mWaveHeader : WaveHeader
  mMaxFileSizeLimitBytes : Int
  mMaxFileDurationLimitUs : Int
  ops : List WriterOp
  deriving DecidableEq, Repr

/-- One turn of the loop of threadFunc that finds mStoped false: the result of
mSource->read, the range length of the buffer read, mPaused as the loop reads it, and
the result of fwrite. -/
structure Turn where
  read : status_t
  range_length : Nat
  paused : Bool
  written : Nat
  deriving DecidableEq, Repr

/-- The locals of threadFunc; ret is none while it is not initialised. -/
structure ThreadLocals where
  blockDurationUs : Nat
  fileDataSize : Nat
  stoppedPrematurely : Bool
  ret : Option status_t
  deriving DecidableEq, Repr

/-- The conversion of an int64_t to ADPCM_U64. -/
def toU64 (x : Int) : Nat :=
  (x % 2 ^ 64).toNat

def ADPCMWriter.op (o : WriterOp) (w : ADPCMWriter) : ADPCMWriter :=
  { w with ops := w.ops ++ [o] }

def ADPCMWriter.reachedFileSizeLimit (w : ADPCMWriter) : Bool :=
  if w.mMaxFileSizeLimitBytes = 0 then false
  else decide (w.mEstimatedSizeBytes ≥ toU64 w.mMaxFileSizeLimitBytes)

def ADPCMWriter.reachedFileDurationLimit (w : ADPCMWriter) : Bool :=
  if w.mMaxFileDurationLimitUs = 0 then false
  else decide (w.mEstimatedDurationUs ≥ toU64 w.mMaxFileDurationLimitUs)

/-- The while loop of threadFunc. The list holds the turns that find mStoped false; at
its end mStoped is read as true. -/
def ADPCMWriter.threadLoop :
    List Turn → ADPCMWriter → ThreadLocals → Except Fault (ADPCMWriter × ThreadLocals)
  | [], w, l => .ok (w, l)
  | t :: turns, w, l =>
    let l := { l with ret := some t.read }
    if t.read ≠ OK then .ok (w, l)
    else if t.paused = true then ADPCMWriter.threadLoop turns w l
    else
      let w := { w with mEstimatedSizeBytes := (w.mEstimatedSizeBytes + t.range_length) % 2 ^ 64 }
      if w.reachedFileSizeLimit = true then .ok (w.op .notifyMaxFilesizeReached, l)
      else if w.mWaveHeader.sample_rate = 0 then .error (.divideByZero 342)
      else
        let l := { l with blockDurationUs :=
          (1000000 * w.mSamplesPerBlock / w.mWaveHeader.sample_rate) % 2 ^ 64 }
        if w.mWaveHeader.block_align = 0 then .error (.divideByZero 343)
        else
          let w := { w with mEstimatedDurationUs :=
            (w.mEstimatedSizeBytes / w.mWaveHeader.block_align * l.blockDurationUs) % 2 ^ 64 }
          if w.reachedFileDurationLimit = true then .ok (w.op .notifyMaxDurationReached, l)
          else
            let w := w.op (.fwrite t.range_length t.written)
            if t.written < t.range_length then .ok (w, l)
            else
              let l := { l with fileDataSize := (l.fileDataSize + t.written) % 2 ^ 64,
                                stoppedPrematurely := false }
              ADPCMWriter.threadLoop turns w l

/-- threadFunc(): stoppedPrematurely is the value the local of that name happens to
hold, it is not initialised; the result is the status returned, none when ret was never
assigned. -/
def ADPCMWriter.threadFunc (w : ADPCMWriter) (stoppedPrematurely : Bool) (turns : List Turn) :
    Except Fault (Option status_t × ADPCMWriter) := do
  let r ← ADPCMWriter.threadLoop turns w ⟨0, 0, stoppedPrematurely, none⟩
  let w := r.1
  let l := r.2
  let w := if l.stoppedPrematurely = true then w.op (.notifyCompletionStatus UNKNOWN_ERROR) else w
  let w := w.op (.moveFilePointer 4 true)
  let w := w.op (.writeDWordToFile
    ((4 + 26 + w.mWaveHeader.extra_data_size + 20 + l.fileDataSize) % 2 ^ 32))
  let w := w.op (.moveFilePointer 8 false)
  let w := w.op (.writeDWordToFile ((16 + 2 + w.mWaveHeader.extra_data_size) % 2 ^ 32))
  let w := w.op (.moveFilePointer 8 false)
  if w.mEstimatedDurationUs = 0 then .error (.divideByZero 399)
  else
    let w := w.op (.writeDWordToFile
      ((l.fileDataSize * 100000 % 2 ^ 64 / w.mEstimatedDurationUs) % 2 ^ 32 * 8 % 2 ^ 32))
    let w := w.op (.moveFilePointer (12 + 26 + w.mWaveHeader.extra_data_size + 12 + 4) true)
    let w := w.op (.writeDWordToFile (l.fileDataSize % 2 ^ 32))
    let w := w.op .fflush
    let w := w.op .fclose
    let w := { w with mReachedEOS := true }
    if l.ret = some ERROR_END_OF_STREAM then pure (some OK, w) else pure (l.ret, w)

/-- The writer after its constructor and addSource for a source of 8000 Hz with blocks
of 256 bytes and 505 samples, without limits. -/
def sampleWriter : ADPCMWriter :=
  ⟨false, 0, 0, 505, ⟨8000, 256, 32⟩, 0, 0, []⟩

/-- The source is at its end at the first read. -/
def endAtOnce : List Turn :=
  [⟨ERROR_END_OF_STREAM, 0, false, 0⟩]

/-- One block is read and written, then the source is at its end. -/
def oneBlock : List Turn :=
  [⟨OK, 256, false, 256⟩, ⟨ERROR_END_OF_STREAM, 0, false, 0⟩]

/-- The sample writer for a source whose meta data give the sample rate 0. -/
def zeroRateWriter : ADPCMWriter :=
  { sampleWriter with mWaveHeader := ⟨0, 256, 32⟩ }

/-- The sample writer for a source whose meta data give the block alignment 0. -/
def zeroAlignWriter : ADPCMWriter :=
  { sampleWriter with mWaveHeader := ⟨8000, 0, 32⟩ }

/-! ## DRMSource::read

The media source of DRMExtractor.cpp that decrypts the buffers of another source. Bytes
are numbers below 256; size_t has the width bits. -/

/-- How a call of the DRM source can fail to return. -/
inductive DrmFault where
  /-- A `CHECK` or `CHECK_EQ` at this line fired. -/
  | check (line : Nat)
  /-- A member function was called through a null pointer at this line. -/
  | nullDeref (line : Nat)
  /-- A byte was stored at this index of a buffer that has no such index. -/
  | outOfBounds (index : Nat)
  /-- The bound of the loop over the NAL units was used up. -/
  | fuel
  deriving DecidableEq, Repr

/-- Modelled from the spec: MediaBuffer.h is not among the files. The bytes of the
buffer, whose number is its capacity size(), and its range. -/
structure MediaBuffer where
  data : List Nat
  range_offset : Nat
  range_length : Nat
  deriving DecidableEq, Repr

def MediaBuffer.size (b : MediaBuffer) : Nat :=
  b.data.length

def MediaBuffer.set_range (offset length : Nat) (b : MediaBuffer) : MediaBuffer :=
  { b with range_offset := offset, range_length := length }

/-- The members of DRMSource that read uses; isAVC says that the mime type of the format
is that of AVC video. -/
structure DRMSource where
  isAVC : Bool
  mNALLengthSize : Nat
  mWantsNALFragments : Bool
  deriving DecidableEq, Repr

def SIZE_MAX (bits : Nat) : Nat :=
  2 ^ bits - 1

/-- The value of a sum as size_t. -/
def size_t (bits : Nat) (x : Nat) : Nat :=
  x % 2 ^ bits

/-- Modelled from the spec: U16_AT of Utils.cpp, which is not among the files, reads a
big-endian number of two bytes. -/
def U16_AT (data : List Nat) : Nat :=
  data.getD 0 0 <<< 8 ||| data.getD 1 0

/-- Modelled from the spec: U32_AT of Utils.cpp, which is not among the files, reads a
big-endian number of four bytes. -/
def U32_AT (data : List Nat) : Nat :=
  data.getD 0 0 <<< 24 ||| data.getD 1 0 <<< 16 ||| data.getD 2 0 <<< 8 ||| data.getD 3 0

/-- The constructor of DRMSource: mime says whether the format has a mime type and
whether it is that of AVC video, avcC is the data under kKeyAVCC. -/
def DRMSource.new (mime : Option Bool) (avcC : Option (List Nat)) : Except DrmFault DRMSource :=
  match mime with
  | none => .error (.check 157)
  | some false => .ok ⟨false, 0, false⟩
  | some true =>
    match avcC with
    | none => .error (.check 163)
    | some ptr =>
      if ¬ ptr.length ≥ 7 then .error (.check 167)
      else if ptr.getD 0 0 ≠ 1 then .error (.check 168)
      else .ok ⟨true, 1 + (ptr.getD 4 0 &&& 3), false⟩

/-- One store `dstData[index] = v` into the bytes of a buffer. -/
def store (data : List Nat) (index v : Nat) : Except DrmFault (List Nat) :=
  if index < data.length then .ok (data.set index v) else .error (.outOfBounds index)

/-- The function memcpy of the C library: the bytes are stored one after the other from
index on. -/
def memcpy (data : List Nat) (index : Nat) : List Nat → Except DrmFault (List Nat)
  | [] => .ok data
  | v :: bytes => do
    let data ← store data index v
    memcpy data (index + 1) bytes

/-- The switch over mNALLengthSize that reads the length of a NAL unit; none is the
default case. -/
def nalLengthAt (mNALLengthSize : Nat) (data : List Nat) : Option Nat :=
  match mNALLengthSize with
  | 1 => some (data.getD 0 0)
  | 2 => some (U16_AT data)
  | 3 => some (data.getD 0 0 <<< 16 ||| U16_AT (data.drop 1))
  | 4 => some (U32_AT data)
  | _ => none

/-- The loop of read over the NAL units of the decrypted data and the two statements
after it. The sums that the code does not guard are taken as size_t; those it guards
cannot overflow. The result is the status and the buffer left to the caller. -/
def nalLoop (bits mNALLengthSize : Nat) (decrypted : List Nat) :
    Nat → Nat → Nat → MediaBuffer → Except DrmFault (status_t × Option MediaBuffer)
  | 0, _, _, _ => .error .fuel
  | fuel + 1, srcOffset, dstOffset, buffer =>
    let len := decrypted.length
    if ¬ srcOffset < len then
      if srcOffset ≠ len then .error (.check 385)
      else .ok (OK, some (buffer.set_range buffer.range_offset dstOffset))
    else if ¬ size_t bits (srcOffset + mNALLengthSize) ≤ len then .error (.check 326)
    else
      match nalLengthAt mNALLengthSize (decrypted.drop srcOffset) with
      | none => .error (.check 344)
      | some nalLength =>
        let srcOffset := size_t bits (srcOffset + mNALLengthSize)
        let end_ := size_t bits (srcOffset + nalLength)
        if end_ > len ∨ end_ < srcOffset then .ok (ERROR_MALFORMED, some buffer)
        else if nalLength = 0 then nalLoop bits mNALLengthSize decrypted fuel srcOffset dstOffset buffer
        else if dstOffset > SIZE_MAX bits - 4 ∨ dstOffset + 4 > SIZE_MAX bits - nalLength
            ∨ dstOffset + 4 + nalLength > buffer.size then .ok (ERROR_MALFORMED, none)
        else do
          let data ← store buffer.data (buffer.range_offset + dstOffset) 0
          let data ← store data (buffer.range_offset + (dstOffset + 1)) 0
          let data ← store data (buffer.range_offset + (dstOffset + 2)) 0
          let data ← store data (buffer.range_offset + (dstOffset + 3)) 1
          let data ← memcpy data (buffer.range_offset + (dstOffset + 4))
            ((decrypted.drop srcOffset).take nalLength)
          nalLoop bits mNALLengthSize decrypted fuel (srcOffset + nalLength)
            (dstOffset + 4 + nalLength) { buffer with data := data }

/-- DRMSource::read for a track that is not a PlayReady track: original is the result of
mOriginalMediaSource->read, decrypt the result of mDrmManagerClient->decrypt with the
decrypted data. -/
def DRMSource.read (bits : Nat) (s : DRMSource) (original : status_t × Option MediaBuffer)
    (decrypt : status_t × List Nat) : Except DrmFault (status_t × Option MediaBuffer) :=
  if original.1 ≠ OK then .ok original
  else
    match original.2 with
    | none => .error (.nullDeref 294)
    | some buffer =>
      if decrypt.1 ≠ OK then .ok (decrypt.1, some buffer)
      else if s.isAVC = true ∧ s.mWantsNALFragments = false then
        nalLoop bits s.mNALLengthSize decrypt.2 (decrypt.2.length + 1) 0 0 buffer
      else do
        let data ← memcpy buffer.data buffer.range_offset decrypt.2
        pure (OK, some ({ buffer with data := data }.set_range buffer.range_offset
          decrypt.2.length))

/-- The big-endian digits of k in n bytes. -/
def bigEndian : Nat → Nat → List Nat
  | 0, _ => []
  | n + 1, k => (k / 256 ^ n % 256) :: bigEndian n k

/-- A sequence of NAL units, each after its length in n big-endian bytes. -/
def lengthFramed (n : Nat) : List (List Nat) → List Nat
  | [] => []
  | u :: units => bigEndian n u.length ++ u ++ lengthFramed n units

/-- The NAL units that are not empty, each after the start code 00 00 00 01. -/
def startCoded : List (List Nat) → List Nat
  | [] => []
  | u :: units => if u = [] then startCoded units else [0, 0, 0, 1] ++ u ++ startCoded units

/-- An AVC source whose NAL lengths have one byte, as the constructor leaves it. -/
def oneByteLengths : DRMSource :=
  ⟨true, 1, false⟩

/-- An AVC source whose NAL lengths have two bytes, as the constructor leaves it. -/
def twoByteLengths : DRMSource :=
  ⟨true, 2, false⟩

/-- A buffer of capacity 16 whose range is the four bytes from offset 6 on. -/
def roomyBuffer : MediaBuffer :=
  ⟨[9, 9, 9, 9, 9, 9, 1, 170, 1, 187, 9, 9, 9, 9, 9, 9], 6, 4⟩

/-- A buffer of capacity 10 whose range is the four bytes from offset 6 on. -/
def tightBuffer : MediaBuffer :=
  ⟨[9, 9, 9, 9, 9, 9, 1, 170, 1, 187], 6, 4⟩

/-- A buffer of capacity 10 whose range is the four bytes from offset 0 on. -/
def frontBuffer : MediaBuffer :=
  ⟨[1, 170, 1, 187, 9, 9, 9, 9, 9, 9], 0, 4⟩

/-- The data under kKeyAVCC of a track whose NAL lengths have two bytes. -/
def sampleAvcC : List Nat :=
  [1, 66, 0, 30, 253, 225, 0]

/-- Three NAL units, the second of them empty. -/
def sampleUnits : List (List Nat) :=
  [[170], [], [187, 188]]

/-- A track whose flush status is SHUTTING_DOWN_DECODER still has its decoder. -/
def ShuttingDownHasDecoder (audio : Bool) (m : NuPlayer) : Prop :=
  flushStatus audio m = .SHUTTING_DOWN_DECODER → getDecoder audio m ≠ none

/-- If a track in SHUTTING_DOWN_DECODER had its decoder before, it has it after. -/
def Held (audio : Bool) (m a : NuPlayer) : Prop :=
  ShuttingDownHasDecoder audio m → ShuttingDownHasDecoder audio a

/-- Held for video, and for audio in a build without MTK_AUDIO_TUNNELING_SUPPORT. -/
def Firm (b : Build) (m a : NuPlayer) : Prop :=
  (b.MTK_AUDIO_TUNNELING_SUPPORT = false → Held true m a) ∧ Held false m a

/-- The decoder bookkeeping is the same and no track has entered SHUTTING_DOWN_DECODER. -/
def Tame (m a : NuPlayer) : Prop :=
  decoders a = decoders m
    ∧ ∀ k, flushStatus k a = .SHUTTING_DOWN_DECODER → flushStatus k m = .SHUTTING_DOWN_DECODER

/-- Ordinary, and a decoder that was there is still there. -/
def Grows (m a : NuPlayer) : Prop :=
  Ordinary m a ∧ ∀ k, getDecoder k m ≠ none → getDecoder k a ≠ none

/-- Playback is started, the client resets, and the audio track completes its flush: the
audio decoder has been told to shut down and has not yet reported it. -/
def audioShuttingDown : List Msg :=
  startPlayback ++ [.kWhatReset, .kWhatRendererNotify 1 (.kWhatFlushComplete true),
    .kWhatDecoderNotify true 1 none .kWhatFlushCompleted]

/-! ## Basic facts about `Except` -/

@[simp] theorem ok_bind {ε α β : Type} (a : α) (f : α → Except ε β) :
    (Except.ok a >>= f) = f a := rfl

@[simp] theorem error_bind {ε α β : Type} (e : ε) (f : α → Except ε β) :
    ((Except.error e : Except ε α) >>= f) = Except.error e := rfl

@[simp] theorem pure_eq_ok {ε α : Type} (a : α) : (pure a : Except ε α) = Except.ok a := rfl

theorem bind_eq_ok {ε α β : Type} (x : Except ε α) (f : α → Except ε β) (y : β) :
    (x >>= f) = Except.ok y ↔ ∃ a, x = Except.ok a ∧ f a = Except.ok y := by
  cases x <;> simp

/-! ## Field projections commute with if-then-else -/

@[simp] theorem ite_mDriver (c : Prop) [Decidable c] (x y : NuPlayer) :
    (if c then x else y).mDriver = if c then x.mDriver else y.mDriver := apply_ite _ _ _ _

@[simp] theorem ite_mSource (c : Prop) [Decidable c] (x y : NuPlayer) :
    (if c then x else y).mSource = if c then x.mSource else y.mSource := apply_ite _ _ _ _

@[simp] theorem ite_mSourceFlags (c : Prop) [Decidable c] (x y : NuPlayer) :
    (if c then x else y).mSourceFlags = if c then x.mSourceFlags else y.mSourceFlags := apply_ite _ _ _ _

@[simp] theorem ite_mSurface (c : Prop) [Decidable c] (x y : NuPlayer) :
    (if c then x else y).mSurface = if c then x.mSurface else y.mSurface := apply_ite _ _ _ _

@[simp] theorem ite_mAudioSink (c : Prop) [Decidable c] (x y : NuPlayer) :
    (if c then x else y).mAudioSink = if c then x.mAudioSink else y.mAudioSink := apply_ite _ _ _ _

@[simp] theorem ite_mVideoDecoder (c : Prop) [Decidable c] (x y : NuPlayer) :
    (if c then x else y).mVideoDecoder = if c then x.mVideoDecoder else y.mVideoDecoder := apply_ite _ _ _ _

@[simp] theorem ite_mAudioDecoder (c : Prop) [Decidable c] (x y : NuPlayer) :
    (if c then x else y).mAudioDecoder = if c then x.mAudioDecoder else y.mAudioDecoder := apply_ite _ _ _ _

@[simp] theorem ite_mCCDecoder (c : Prop) [Decidable c] (x y : NuPlayer) :
    (if c then x else y).mCCDecoder = if c then x.mCCDecoder else y.mCCDecoder := apply_ite _ _ _ _

@[simp] theorem ite_mRenderer (c : Prop) [Decidable c] (x y : NuPlayer) :
    (if c then x else y).mRenderer = if c then x.mRenderer else y.mRenderer := apply_ite _ _ _ _

@[simp] theorem ite_mRendererLooper (c : Prop) [Decidable c] (x y : NuPlayer) :
    (if c then x else y).mRendererLooper = if c then x.mRendererLooper else y.mRendererLooper := apply_ite _ _ _ _

@[simp] theorem ite_mOffloadAudio (c : Prop) [Decidable c] (x y : NuPlayer) :
    (if c then x else y).mOffloadAudio = if c then x.mOffloadAudio else y.mOffloadAudio := apply_ite _ _ _ _

@[simp] theorem ite_mAudioDecoderGeneration (c : Prop) [Decidable c] (x y : NuPlayer) :
    (if c then x else y).mAudioDecoderGeneration = if c then x.mAudioDecoderGeneration else y.mAudioDecoderGeneration := apply_ite _ _ _ _

@[simp] theorem ite_mVideoDecoderGeneration (c : Prop) [Decidable c] (x y : NuPlayer) :
    (if c then x else y).mVideoDecoderGeneration = if c then x.mVideoDecoderGeneration else y.mVideoDecoderGeneration := apply_ite _ _ _ _

@[simp] theorem ite_mRendererGeneration (c : Prop) [Decidable c] (x y : NuPlayer) :
    (if c then x else y).mRendererGeneration = if c then x.mRendererGeneration else y.mRendererGeneration := apply_ite _ _ _ _

@[simp] theorem ite_mPreviousSeekTimeUs (c : Prop) [Decidable c] (x y : NuPlayer) :
    (if c then x else y).mPreviousSeekTimeUs = if c then x.mPreviousSeekTimeUs else y.mPreviousSeekTimeUs := apply_ite _ _ _ _

@[simp] theorem ite_mAudioEOS (c : Prop) [Decidable c] (x y : NuPlayer) :
    (if c then x else y).mAudioEOS = if c then x.mAudioEOS else y.mAudioEOS := apply_ite _ _ _ _

@[simp] theorem ite_mVideoEOS (c : Prop) [Decidable c] (x y : NuPlayer) :
    (if c then x else y).mVideoEOS = if c then x.mVideoEOS else y.mVideoEOS := apply_ite _ _ _ _

@[simp] theorem ite_mScanSourcesPending (c : Prop) [Decidable c] (x y : NuPlayer) :
    (if c then x else y).mScanSourcesPending = if c then x.mScanSourcesPending else y.mScanSourcesPending := apply_ite _ _ _ _

@[simp] theorem ite_mScanSourcesGeneration (c : Prop) [Decidable c] (x y : NuPlayer) :
    (if c then x else y).mScanSourcesGeneration = if c then x.mScanSourcesGeneration else y.mScanSourcesGeneration := apply_ite _ _ _ _

@[simp] theorem ite_mPollDurationGeneration (c : Prop) [Decidable c] (x y : NuPlayer) :
    (if c then x else y).mPollDurationGeneration = if c then x.mPollDurationGeneration else y.mPollDurationGeneration := apply_ite _ _ _ _

@[simp] theorem ite_mTimedTextGeneration (c : Prop) [Decidable c] (x y : NuPlayer) :
    (if c then x else y).mTimedTextGeneration = if c then x.mTimedTextGeneration else y.mTimedTextGeneration := apply_ite _ _ _ _

@[simp] theorem ite_mFlushingAudio (c : Prop) [Decidable c] (x y : NuPlayer) :
    (if c then x else y).mFlushingAudio = if c then x.mFlushingAudio else y.mFlushingAudio := apply_ite _ _ _ _

@[simp] theorem ite_mFlushingVideo (c : Prop) [Decidable c] (x y : NuPlayer) :
    (if c then x else y).mFlushingVideo = if c then x.mFlushingVideo else y.mFlushingVideo := apply_ite _ _ _ _

@[simp] theorem ite_mFlushComplete (c : Prop) [Decidable c] (x y : NuPlayer) :
    (if c then x else y).mFlushComplete = if c then x.mFlushComplete else y.mFlushComplete := apply_ite _ _ _ _

@[simp] theorem ite_mDeferredActions (c : Prop) [Decidable c] (x y : NuPlayer) :
    (if c then x else y).mDeferredActions = if c then x.mDeferredActions else y.mDeferredActions := apply_ite _ _ _ _

@[simp] theorem ite_mResumePending (c : Prop) [Decidable c] (x y : NuPlayer) :
    (if c then x else y).mResumePending = if c then x.mResumePending else y.mResumePending := apply_ite _ _ _ _

@[simp] theorem ite_mVideoScalingMode (c : Prop) [Decidable c] (x y : NuPlayer) :
    (if c then x else y).mVideoScalingMode = if c then x.mVideoScalingMode else y.mVideoScalingMode := apply_ite _ _ _ _

@[simp] theorem ite_mPlaybackSettings (c : Prop) [Decidable c] (x y : NuPlayer) :
    (if c then x else y).mPlaybackSettings = if c then x.mPlaybackSettings else y.mPlaybackSettings := apply_ite _ _ _ _

@[simp] theorem ite_mSyncSettings (c : Prop) [Decidable c] (x y : NuPlayer) :
    (if c then x else y).mSyncSettings = if c then x.mSyncSettings else y.mSyncSettings := apply_ite _ _ _ _

@[simp] theorem ite_mVideoFpsHint (c : Prop) [Decidable c] (x y : NuPlayer) :
    (if c then x else y).mVideoFpsHint = if c then x.mVideoFpsHint else y.mVideoFpsHint := apply_ite _ _ _ _

@[simp] theorem ite_mStarted (c : Prop) [Decidable c] (x y : NuPlayer) :
    (if c then x else y).mStarted = if c then x.mStarted else y.mStarted := apply_ite _ _ _ _

@[simp] theorem ite_mPrepared (c : Prop) [Decidable c] (x y : NuPlayer) :
    (if c then x else y).mPrepared = if c then x.mPrepared else y.mPrepared := apply_ite _ _ _ _

@[simp] theorem ite_mResetting (c : Prop) [Decidable c] (x y : NuPlayer) :
    (if c then x else y).mResetting = if c then x.mResetting else y.mResetting := apply_ite _ _ _ _

@[simp] theorem ite_mSourceStarted (c : Prop) [Decidable c] (x y : NuPlayer) :
    (if c then x else y).mSourceStarted = if c then x.mSourceStarted else y.mSourceStarted := apply_ite _ _ _ _

@[simp] theorem ite_mPaused (c : Prop) [Decidable c] (x y : NuPlayer) :
    (if c then x else y).mPaused = if c then x.mPaused else y.mPaused := apply_ite _ _ _ _

@[simp] theorem ite_mPausedByClient (c : Prop) [Decidable c] (x y : NuPlayer) :
    (if c then x else y).mPausedByClient = if c then x.mPausedByClient else y.mPausedByClient := apply_ite _ _ _ _

@[simp] theorem ite_mPausedForBuffering (c : Prop) [Decidable c] (x y : NuPlayer) :
    (if c then x else y).mPausedForBuffering = if c then x.mPausedForBuffering else y.mPausedForBuffering := apply_ite _ _ _ _

@[simp] theorem ite_mPrepare (c : Prop) [Decidable c] (x y : NuPlayer) :
    (if c then x else y).mPrepare = if c then x.mPrepare else y.mPrepare := apply_ite _ _ _ _

@[simp] theorem ite_mDataSourceType (c : Prop) [Decidable c] (x y : NuPlayer) :
    (if c then x else y).mDataSourceType = if c then x.mDataSourceType else y.mDataSourceType := apply_ite _ _ _ _

@[simp] theorem ite_mIsStreamSource (c : Prop) [Decidable c] (x y : NuPlayer) :
    (if c then x else y).mIsStreamSource = if c then x.mIsStreamSource else y.mIsStreamSource := apply_ite _ _ _ _

@[simp] theorem ite_mIsMtkPlayback (c : Prop) [Decidable c] (x y : NuPlayer) :
    (if c then x else y).mIsMtkPlayback = if c then x.mIsMtkPlayback else y.mIsMtkPlayback := apply_ite _ _ _ _

@[simp] theorem ite_mSourceSeekDone (c : Prop) [Decidable c] (x y : NuPlayer) :
    (if c then x else y).mSourceSeekDone = if c then x.mSourceSeekDone else y.mSourceSeekDone := apply_ite _ _ _ _

@[simp] theorem ite_mHaveSanSources (c : Prop) [Decidable c] (x y : NuPlayer) :
    (if c then x else y).mHaveSanSources = if c then x.mHaveSanSources else y.mHaveSanSources := apply_ite _ _ _ _

@[simp] theorem ite_mDebugDisableTrackId (c : Prop) [Decidable c] (x y : NuPlayer) :
    (if c then x else y).mDebugDisableTrackId = if c then x.mDebugDisableTrackId else y.mDebugDisableTrackId := apply_ite _ _ _ _

@[simp] theorem ite_mAudioOnly (c : Prop) [Decidable c] (x y : NuPlayer) :
    (if c then x else y).mAudioOnly = if c then x.mAudioOnly else y.mAudioOnly := apply_ite _ _ _ _

@[simp] theorem ite_mVideoOnly (c : Prop) [Decidable c] (x y : NuPlayer) :
    (if c then x else y).mVideoOnly = if c then x.mVideoOnly else y.mVideoOnly := apply_ite _ _ _ _

@[simp] theorem ite_mVideoinfoNotify (c : Prop) [Decidable c] (x y : NuPlayer) :
    (if c then x else y).mVideoinfoNotify = if c then x.mVideoinfoNotify else y.mVideoinfoNotify := apply_ite _ _ _ _

@[simp] theorem ite_mAudioinfoNotify (c : Prop) [Decidable c] (x y : NuPlayer) :
    (if c then x else y).mAudioinfoNotify = if c then x.mAudioinfoNotify else y.mAudioinfoNotify := apply_ite _ _ _ _

@[simp] theorem ite_mNotifyListenerVideodecoderIsNull (c : Prop) [Decidable c] (x y : NuPlayer) :
    (if c then x else y).mNotifyListenerVideodecoderIsNull = if c then x.mNotifyListenerVideodecoderIsNull else y.mNotifyListenerVideodecoderIsNull := apply_ite _ _ _ _

@[simp] theorem ite_m_i4ContainerWidth (c : Prop) [Decidable c] (x y : NuPlayer) :
    (if c then x else y).m_i4ContainerWidth = if c then x.m_i4ContainerWidth else y.m_i4ContainerWidth := apply_ite _ _ _ _

@[simp] theorem ite_m_i4ContainerHeight (c : Prop) [Decidable c] (x y : NuPlayer) :
    (if c then x else y).m_i4ContainerHeight = if c then x.m_i4ContainerHeight else y.m_i4ContainerHeight := apply_ite _ _ _ _

@[simp] theorem ite_trace (c : Prop) [Decidable c] (x y : NuPlayer) :
    (if c then x else y).trace = if c then x.trace else y.trace := apply_ite _ _ _ _

/-! ## C1: stale decoder notifications -/

/-- C1: a decoder notification whose generation differs from the current generation
counter of its track kind leaves the controller unchanged; if it carries a reply
message, that reply is posted with err = INFO_DISCONTINUITY and nothing else is
sent, and if it carries none nothing is sent at all. -/
theorem stale_decoder_notification_discarded (b : Build) (env : Env) (m : NuPlayer)
    (audio : Bool) (generation : Int) (reply : Option AMessageId) (what : DecoderWhat)
    (hstale : generation ≠
      (if audio = true then m.mAudioDecoderGeneration else m.mVideoDecoderGeneration)) :
    onMessageReceived b env (.kWhatDecoderNotify audio generation reply what) m =
      .ok (match reply with
           | none => m
           | some r => emit (.postMessage r (some INFO_DISCONTINUITY)) m) := by
  cases reply <;> simp [onMessageReceived, hstale]

theorem stale_decoder_notification_discarded_witness :
    (5 : Int) ≠ (if true = true then (NuPlayer.new 0).mAudioDecoderGeneration
                 else (NuPlayer.new 0).mVideoDecoderGeneration)
    ∧ onMessageReceived stockBuild sampleEnv
        (.kWhatDecoderNotify true 5 (some 7) .kWhatFlushCompleted) (NuPlayer.new 0) =
      .ok (emit (.postMessage 7 (some INFO_DISCONTINUITY)) (NuPlayer.new 0)) :=
  ⟨by decide,
   stale_decoder_notification_discarded stockBuild sampleEnv (NuPlayer.new 0) true 5 (some 7)
     .kWhatFlushCompleted (by decide)⟩

/-! ## The deferred-action loop -/

theorem flushDecoder_of_none (audio needShutdown : Bool) (m : NuPlayer)
    (h : getDecoder audio m = none) : flushDecoder audio needShutdown m = m := by
  simp [flushDecoder, h]

theorem flushDecoder_flushing (audio needShutdown : Bool) (m : NuPlayer)
    (h : getDecoder audio m ≠ none) : flushing (flushDecoder audio needShutdown m) := by
  unfold flushDecoder flushing
  rw [if_neg h]
  cases audio <;> cases needShutdown <;> simp

theorem flushDecoder_flushing_mono (audio needShutdown : Bool) (m : NuPlayer)
    (h : flushing m) : flushing (flushDecoder audio needShutdown m) := by
  by_cases hd : getDecoder audio m = none
  · rw [flushDecoder_of_none _ _ _ hd]; exact h
  · exact flushDecoder_flushing _ _ _ hd

theorem performDecoderFlush_queue (audio video : FlushCommand) (m : NuPlayer) :
    performDecoderFlush audio video m = m ∨ flushing (performDecoderFlush audio video m) := by
  unfold performDecoderFlush
  split
  · exact Or.inl rfl
  · rename_i h
    right
    by_cases ha : audio ≠ .FLUSH_CMD_NONE ∧ m.mAudioDecoder ≠ none
    · rw [if_pos ha]
      have h1 : flushing (flushDecoder true (decide (audio = .FLUSH_CMD_SHUTDOWN)) m) :=
        flushDecoder_flushing _ _ _ (by simpa [getDecoder] using ha.2)
      dsimp only
      split
      · exact flushDecoder_flushing_mono _ _ _ h1
      · exact h1
    · rw [if_neg ha]
      dsimp only
      have hv : video ≠ .FLUSH_CMD_NONE ∧ m.mVideoDecoder ≠ none := by
        by_contra hv
        apply h
        constructor
        · by_contra hc; push_neg at hc; exact ha ⟨hc.1, hc.2⟩
        · by_contra hc; push_neg at hc; exact hv ⟨hc.1, hc.2⟩
      rw [if_pos hv]
      exact flushDecoder_flushing _ _ _ (by simpa [getDecoder] using hv.2)

/-- What performSeek does when it returns: nothing without a source, and otherwise the
seek is issued, the seek time stored and the timed-text generation bumped (the vendor
build also clears both EOS flags). -/
theorem performSeek_ok (b : Build) (t : Int) (m m1 : NuPlayer)
    (h : performSeek b t m = .ok m1) :
    (m.mSource = none ∧ m1 = m) ∨
    (m.mSource ≠ none ∧
      m1 = { m with
        mAudioEOS := if b.MTK_AOSP_ENHANCEMENT = true then false else m.mAudioEOS,
        mVideoEOS := if b.MTK_AOSP_ENHANCEMENT = true then false else m.mVideoEOS,
        mPreviousSeekTimeUs := t,
        mTimedTextGeneration := m.mTimedTextGeneration + 1,
        trace := m.trace ++
          [⟨.source (.seekTo t), m.mFlushingAudio, m.mFlushingVideo, m.mFlushComplete⟩] }) := by
  unfold performSeek at h
  by_cases hs : m.mSource = none
  · left
    rw [if_pos hs] at h
    split at h
    · cases h
    · cases h; exact ⟨hs, rfl⟩
  · right
    rw [if_neg hs] at h
    refine ⟨hs, ?_⟩
    by_cases hb : b.MTK_AOSP_ENHANCEMENT = true
    · simp only [hb, if_true, performSeek_l] at h
      by_cases ht : t = -1
      · simp [ht] at h
      · simp [ht, hs, emit] at h
        simp [hb, ← h]
    · simp only [hb, if_false, emit] at h
      simp at h
      simp [hb, ← h]

theorem execute_queue (b : Build) (env : Env) (action : Action) (m m1 : NuPlayer)
    (h : action.execute b env m = .ok m1) :
    m1.mDeferredActions = m.mDeferredActions ∨ flushing m1 := by
  cases action with
  | SeekAction t =>
    rcases performSeek_ok b t m m1 h with ⟨_, rfl⟩ | ⟨_, rfl⟩ <;> exact Or.inl rfl
  | ResumeDecoderAction n =>
    simp only [Action.execute, Except.ok.injEq] at h
    subst h
    left
    simp [performResumeDecoders, finishResume, notifyDriverSeekComplete, emit]
  | SetSurfaceAction s =>
    simp only [Action.execute, Except.ok.injEq] at h
    subst h
    left
    simp [performSetSurface, setVideoScalingMode, emit]
  | FlushDecoderAction a v =>
    simp only [Action.execute, Except.ok.injEq] at h
    subst h
    rcases performDecoderFlush_queue a v m with h | h
    · left; rw [h]
    · right; exact h
  | PostMessageAction msg =>
    simp only [Action.execute, Except.ok.injEq] at h
    subst h
    exact Or.inl rfl
  | SimpleAction f =>
    cases f with
    | performScanSources =>
      simp only [Action.execute, Except.ok.injEq] at h
      subst h
      left
      simp [performScanSources, postScanSources, emit]
    | performReset =>
      simp only [Action.execute] at h
      unfold performReset at h
      split_ifs at h
      simp only [Except.ok.injEq] at h
      subst h
      left
      simp [cancelPollDuration, emit]

theorem loop_of_flushing (b : Build) (env : Env) (n : Nat) (m : NuPlayer) (h : flushing m) :
    processDeferredActionsLoop b env n m = .ok m := by
  unfold flushing at h
  cases n with
  | zero => simp [processDeferredActionsLoop, h]
  | succ n =>
    unfold processDeferredActionsLoop
    split
    · rfl
    · rw [if_pos h]

theorem loop_of_nil (b : Build) (env : Env) (n : Nat) (m : NuPlayer)
    (h : m.mDeferredActions = []) : processDeferredActionsLoop b env n m = .ok m := by
  cases n with
  | zero => simp [processDeferredActionsLoop, h]
  | succ n => unfold processDeferredActionsLoop; rw [h]

/-- Any bound that is at least the queue length gives the same result. -/
theorem loop_fuel (b : Build) (env : Env) :
    ∀ (n1 n2 : Nat) (m : NuPlayer), m.mDeferredActions.length ≤ n1 →
      m.mDeferredActions.length ≤ n2 →
      processDeferredActionsLoop b env n1 m = processDeferredActionsLoop b env n2 m := by
  intro n1
  induction n1 with
  | zero =>
    intro n2 m h1 _
    have hq : m.mDeferredActions = [] := List.length_eq_zero.mp (Nat.le_zero.mp h1)
    rw [loop_of_nil b env 0 m hq, loop_of_nil b env n2 m hq]
  | succ k ih =>
    intro n2 m h1 h2
    by_cases hf : flushing m
    · rw [loop_of_flushing b env _ m hf, loop_of_flushing b env _ m hf]
    · cases hq : m.mDeferredActions with
      | nil => rw [loop_of_nil b env _ m hq, loop_of_nil b env _ m hq]
      | cons action rest =>
        cases n2 with
        | zero => rw [hq] at h2; simp at h2
        | succ j =>
          have hf2 : ¬ (m.mFlushingAudio ≠ .NONE ∨ m.mFlushingVideo ≠ .NONE) := hf
          simp only [processDeferredActionsLoop, hq, if_neg hf2]
          cases hx : action.execute b env { m with mDeferredActions := rest } with
          | error e => rfl
          | ok m1 =>
            simp only [ok_bind]
            rcases execute_queue b env action _ m1 hx with hlen | hfl
            · have hl : m1.mDeferredActions.length = rest.length := by rw [hlen]
              rw [hq] at h1 h2
              simp only [List.length_cons] at h1 h2
              exact ih j m1 (by omega) (by omega)
            · rw [loop_of_flushing b env _ m1 hfl, loop_of_flushing b env _ m1 hfl]

/-- With work to do and no flush in flight, the drain executes the first queued action
on the controller without it and goes on from the result. -/
theorem processDeferredActions_cons (b : Build) (env : Env) (m : NuPlayer) (action : Action)
    (rest : List Action) (hq : m.mDeferredActions = action :: rest) (hf : ¬ flushing m) :
    processDeferredActions b env m =
      action.execute b env { m with mDeferredActions := rest }
        >>= processDeferredActions b env := by
  have hf2 : ¬ (m.mFlushingAudio ≠ .NONE ∨ m.mFlushingVideo ≠ .NONE) := hf
  unfold processDeferredActions
  rw [hq]
  simp only [List.length_cons, processDeferredActionsLoop, hq, if_neg hf2]
  cases hx : action.execute b env { m with mDeferredActions := rest } with
  | error e => rfl
  | ok m1 =>
    simp only [ok_bind]
    rcases execute_queue b env action _ m1 hx with hlen | hfl
    · exact loop_fuel b env _ _ m1 (by rw [hlen]) (le_refl _)
    · rw [loop_of_flushing b env _ m1 hfl, loop_of_flushing b env _ m1 hfl]

/-- C5: processDeferredActions is first-in first-out and gated on both flush statuses
being NONE. With an empty queue, or with either status not NONE on entry, it returns
the controller as it is (queue, state and trace unchanged, so nothing is sent).
Otherwise the first queued action is removed from the queue, executed on the
controller without it, and the loop goes on from the result, where the same test is
made again before the next action is taken. -/
theorem processDeferredActions_fifo_gated (b : Build) (env : Env) (m : NuPlayer) :
    (m.mDeferredActions = [] → processDeferredActions b env m = .ok m)
    ∧ (flushing m → processDeferredActions b env m = .ok m)
    ∧ (∀ action rest, m.mDeferredActions = action :: rest → ¬ flushing m →
        processDeferredActions b env m =
          action.execute b env { m with mDeferredActions := rest }
            >>= processDeferredActions b env) :=
  ⟨fun h => loop_of_nil b env _ m h, fun h => loop_of_flushing b env _ m h,
   fun action rest hq hf => processDeferredActions_cons b env m action rest hq hf⟩

/-! ## C6: no double instantiation -/

theorem instantiateDecoder_of_live (b : Build) (env : Env) (audio c : Bool) (m : NuPlayer)
    (h : getDecoder audio m ≠ none) : instantiateDecoder b env audio c m = .ok (OK, m) := by
  unfold instantiateDecoder
  rw [if_pos (Or.inl h)]

/-- When instantiateDecoder returns, either it changed nothing or the handle of the
track is non-empty afterwards. -/
theorem instantiateDecoder_ok (b : Build) (env : Env) (audio c : Bool) (m m1 : NuPlayer)
    (st : status_t) (h : instantiateDecoder b env audio c m = .ok (st, m1)) :
    m1 = m ∨ getDecoder audio m1 ≠ none := by
  unfold instantiateDecoder at h
  by_cases h1 : getDecoder audio m ≠ none ∨ (audio = true ∧ m.mFlushingAudio = .SHUT_DOWN)
  · rw [if_pos h1] at h
    simp only [Except.ok.injEq, Prod.mk.injEq] at h; exact Or.inl h.2.symm
  rw [if_neg h1] at h
  by_cases h2 : m.mSource = none
  · rw [if_pos h2] at h; cases h
  rw [if_neg h2] at h
  cases hf : (if audio = true then env.sourceAudioFormat else env.sourceVideoFormat) with
  | none =>
    rw [hf] at h
    simp only [Except.ok.injEq, Prod.mk.injEq] at h; exact Or.inl h.2.symm
  | some format =>
    rw [hf] at h
    dsimp only at h
    by_cases h3 : format.err.isSome ∧ format.err ≠ some 0
    · rw [if_pos h3] at h
      simp only [Except.ok.injEq, Prod.mk.injEq] at h; exact Or.inl h.2.symm
    rw [if_neg h3] at h
    by_cases h4 : b.MTK_AOSP_ENHANCEMENT = true ∧ m.mDebugDisableTrackId = 1 ∧ audio = true
    · rw [if_pos h4] at h
      simp only [Except.ok.injEq, Prod.mk.injEq] at h; exact Or.inl h.2.symm
    rw [if_neg h4] at h
    by_cases h5 : b.MTK_AOSP_ENHANCEMENT = true ∧ m.mDebugDisableTrackId = 2 ∧ audio = false
    · rw [if_pos h5] at h
      simp only [Except.ok.injEq, Prod.mk.injEq] at h; exact Or.inl h.2.symm
    rw [if_neg h5] at h
    right
    by_cases ha : audio = true
    · rw [if_pos ha] at h
      subst ha
      simp only [bind_eq_ok, pure_eq_ok, Except.ok.injEq, Prod.mk.injEq] at h
      obtain ⟨m2, _, _, h2⟩ := h
      subst h2
      simp [getDecoder, emit]
    · rw [if_neg ha] at h
      have ha : audio = false := by simpa using ha
      subst ha
      by_cases h6 : format.mime = false
      · rw [if_pos h6] at h; cases h
      rw [if_neg h6] at h
      split_ifs at h <;> cases h <;> simp [getDecoder, emit]

/-- C6: when the decoder handle of a track is non-empty, instantiateDecoder for that
track returns OK and leaves the controller (handle, generation counter, every other
member, trace) unchanged, so no decoder is created. Hence, whenever a call returns,
a second call in a row ends in the same state as the first, and once the handle is
non-empty no further call creates a decoder, whatever the source answers. -/
theorem instantiateDecoder_no_double (b : Build) (env : Env) (audio : Bool) (m : NuPlayer) :
    (∀ c, getDecoder audio m ≠ none → instantiateDecoder b env audio c m = .ok (OK, m))
    ∧ (∀ c st m1, instantiateDecoder b env audio c m = .ok (st, m1) →
        (∃ st2, instantiateDecoder b env audio c m1 = .ok (st2, m1))
        ∧ (getDecoder audio m1 ≠ none →
            ∀ env2 c2, instantiateDecoder b env2 audio c2 m1 = .ok (OK, m1))) := by
  refine ⟨fun c h => instantiateDecoder_of_live b env audio c m h, ?_⟩
  intro c st m1 h
  refine ⟨?_, fun hl env2 c2 => instantiateDecoder_of_live b env2 audio c2 m1 hl⟩
  rcases instantiateDecoder_ok b env audio c m m1 st h with rfl | hl
  · exact ⟨st, h⟩
  · exact ⟨OK, instantiateDecoder_of_live b env audio c m1 hl⟩

/-! ## C7: reset without a session -/

/-- A reset handled with no active session finishes within the message: the result is
clean and the only thing sent is the reset-complete notification, if a driver is there
to take it. -/
theorem reset_of_no_session (b : Build) (env : Env) (m : NuPlayer) (h : NoActiveSession m) :
    ∃ m1, onMessageReceived b env .kWhatReset m = .ok m1 ∧ CleanState m1
      ∧ events m1 = events m ++
          (if m.mDriver = true ∧ env.driverAlive = true then [.driver .notifyResetComplete]
           else []) := by
  obtain ⟨hs, ha, hv, hr, hfa, hfv, hq⟩ := h
  by_cases hd : m.mDriver = true ∧ env.driverAlive = true
  · simp [onMessageReceived, processDeferredActions, processDeferredActionsLoop, hq, hfa, hfv,
      Action.execute, performDecoderFlush, ha, hv, performReset, cancelPollDuration, hr, hs, hd,
      emit, CleanState, NoActiveSession, events]
  · simp [onMessageReceived, processDeferredActions, processDeferredActionsLoop, hq, hfa, hfv,
      Action.execute, performDecoderFlush, ha, hv, performReset, cancelPollDuration, hr, hs, hd,
      emit, CleanState, NoActiveSession, events]

/-- C7: handling reset with no active session (no source, no decoders, no renderer,
both flush statuses NONE, empty deferred queue) and a live driver completes within
that one message: afterwards both flush statuses are NONE, the source, decoder and
renderer handles are empty, the deferred queue is empty, started, prepared, resetting
and sourceStarted are false, and exactly one thing was sent, the reset-complete
notification. A second reset handled right afterwards ends in the same clean state
(the same value of each of these members). -/
theorem reset_without_session_idempotent (b : Build) (env env2 : Env) (m : NuPlayer)
    (h : NoActiveSession m) (hd : m.mDriver = true) (halive : env.driverAlive = true) :
    ∃ m1, onMessageReceived b env .kWhatReset m = .ok m1 ∧ CleanState m1
      ∧ events m1 = events m ++ [.driver .notifyResetComplete]
      ∧ ∃ m2, onMessageReceived b env2 .kWhatReset m1 = .ok m2 ∧ CleanState m2 := by
  obtain ⟨m1, h1, hc1, ht1⟩ := reset_of_no_session b env m h
  obtain ⟨m2, h2, hc2, _⟩ := reset_of_no_session b env2 m1 hc1.1
  refine ⟨m1, h1, hc1, ?_, m2, h2, hc2⟩
  rw [ht1, if_pos ⟨hd, halive⟩]

theorem reset_without_session_idempotent_witness :
    NoActiveSession (NuPlayer.new 0) ∧ (NuPlayer.new 0).mDriver = true
    ∧ sampleEnv.driverAlive = true
    ∧ ∃ m1, onMessageReceived vendorBuild sampleEnv .kWhatReset (NuPlayer.new 0) = .ok m1
      ∧ CleanState m1
      ∧ events m1 = events (NuPlayer.new 0) ++ [.driver .notifyResetComplete]
      ∧ ∃ m2, onMessageReceived vendorBuild sampleEnv .kWhatReset m1 = .ok m2 ∧ CleanState m2 :=
  ⟨by simp [NoActiveSession, NuPlayer.new], rfl, rfl,
   reset_without_session_idempotent vendorBuild sampleEnv sampleEnv (NuPlayer.new 0)
     (by simp [NoActiveSession, NuPlayer.new]) rfl rfl⟩

/-! ## Postconditions -/

theorem post_ok {σ : Type} (a : σ) (P : σ → Prop) : Post (Except.ok a) P ↔ P a := by
  simp [Post]

theorem post_error {σ : Type} (e : Fault) (P : σ → Prop) :
    Post (Except.error e : Except Fault σ) P ↔ True := by
  simp [Post]

theorem post_ite {σ : Type} (c : Prop) [Decidable c] (x y : Except Fault σ) (P : σ → Prop) :
    Post (if c then x else y) P ↔ (c → Post x P) ∧ (¬ c → Post y P) := by
  by_cases h : c <;> simp [h]

theorem post_bind {σ τ : Type} (x : Except Fault σ) (f : σ → Except Fault τ) (Q : σ → Prop)
    (P : τ → Prop) (hx : Post x Q) (hf : ∀ a, Q a → Post (f a) P) : Post (x >>= f) P := by
  intro r h
  rw [bind_eq_ok] at h
  obtain ⟨a, ha, hb⟩ := h
  exact hf a (hx a ha) r hb

theorem post_mono {σ : Type} (x : Except Fault σ) (Q P : σ → Prop) (hx : Post x Q)
    (h : ∀ a, Q a → P a) : Post x P :=
  fun a ha => h a (hx a ha)

/-! ## Generation counters and handles: the relation GenRel -/

theorem GenStep.stepRefl (audio : Bool) (m : NuPlayer) : GenStep audio m m :=
  Or.inl ⟨rfl, rfl⟩

theorem GenStep.stepTrans {audio : Bool} {m m1 m2 : NuPlayer} (h1 : GenStep audio m m1)
    (h2 : GenStep audio m1 m2) : GenStep audio m m2 := by
  rcases h1 with ⟨hg1, hd1⟩ | ⟨hg1, hd1⟩ <;> rcases h2 with ⟨hg2, hd2⟩ | ⟨hg2, hd2⟩
  · exact Or.inl ⟨hg2.trans hg1, hd2.trans hd1⟩
  · exact Or.inr ⟨by omega, hd2⟩
  · refine Or.inr ⟨by omega, ?_⟩
    intro d hd
    rw [hg2]
    exact hd1 d (hd2 ▸ hd)
  · exact Or.inr ⟨by omega, hd2⟩

theorem GenRel.relRefl (m : NuPlayer) : GenRel m m :=
  ⟨GenStep.stepRefl _ _, GenStep.stepRefl _ _⟩

theorem GenRel.relTrans {m m1 m2 : NuPlayer} (h1 : GenRel m m1) (h2 : GenRel m1 m2) :
    GenRel m m2 :=
  ⟨h1.1.stepTrans h2.1, h1.2.stepTrans h2.2⟩

/-- A state with the same generation counters and decoder handles is GenRel-related. -/
theorem GenRel.of_decoders {m m1 : NuPlayer}
    (h1 : m1.mAudioDecoderGeneration = m.mAudioDecoderGeneration)
    (h2 : m1.mVideoDecoderGeneration = m.mVideoDecoderGeneration)
    (h3 : m1.mAudioDecoder = m.mAudioDecoder) (h4 : m1.mVideoDecoder = m.mVideoDecoder) :
    GenRel m m1 := by
  constructor
  · left; simp [decoderGeneration, decoderHandle, getDecoder, h1, h3]
  · left; simp [decoderGeneration, decoderHandle, getDecoder, h2, h4]

theorem Ordinary.refl (m : NuPlayer) : Ordinary m m :=
  ⟨rfl, rfl, rfl, rfl, GenRel.relRefl m⟩

theorem Ordinary.trans {m m1 m2 : NuPlayer} (h1 : Ordinary m m1) (h2 : Ordinary m1 m2) :
    Ordinary m m2 :=
  ⟨h2.1.trans h1.1, h2.2.1.trans h1.2.1, h2.2.2.1.trans h1.2.2.1,
   h2.2.2.2.1.trans h1.2.2.2.1, h1.2.2.2.2.relTrans h2.2.2.2.2⟩

/-- A state with the same machine members is Ordinary-related. -/
theorem Ordinary.of_eq {m m1 : NuPlayer} (h : machine m1 = machine m) : Ordinary m m1 := by
  simp only [machine, Prod.mk.injEq] at h
  obtain ⟨h1, h2, h3, h4, h5, h6, h7, h8⟩ := h
  exact ⟨h1, h2, h3, h4, GenRel.of_decoders h5 h6 h7 h8⟩

theorem emit_machine (e : Event) (m : NuPlayer) : machine (emit e m) = machine m := by
  simp [machine, emit]

theorem notifyListenerParcel_machine (b : Build) (env : Env) (msg e1 e2 : Int) (p : List Int)
    (m : NuPlayer) : machine (notifyListenerParcel b env msg e1 e2 p m) = machine m := by
  simp [machine, notifyListenerParcel, emit]

theorem notifyListener_machine (b : Build) (env : Env) (msg e1 e2 : Int) (m : NuPlayer) :
    machine (notifyListener b env msg e1 e2 m) = machine m :=
  notifyListenerParcel_machine b env msg e1 e2 [] m

theorem finishResume_machine (env : Env) (m : NuPlayer) :
    machine (finishResume env m) = machine m := by
  simp [machine, finishResume, notifyDriverSeekComplete, emit]

theorem onPause_machine (m : NuPlayer) : machine (onPause m) = machine m := by
  simp [machine, onPause, emit]

theorem postScanSources_machine (m : NuPlayer) : machine (postScanSources m) = machine m := by
  simp [machine, postScanSources, emit]

theorem performResumeDecoders_machine (b : Build) (env : Env) (n : Bool) (m : NuPlayer) :
    machine (performResumeDecoders b env n m) = machine m := by
  simp [machine, performResumeDecoders, finishResume, notifyDriverSeekComplete, emit]

theorem performSetSurface_machine (b : Build) (env : Env) (s : Option Surface) (m : NuPlayer) :
    machine (performSetSurface b env s m) = machine m := by
  simp [machine, performSetSurface, setVideoScalingMode, emit]

theorem handleForRenderError1_machine (b : Build) (env : Env) (r : Int) (a : Bool) (m : NuPlayer) :
    machine (handleForRenderError1 b env r a m) = machine m := by
  simp [machine, handleForRenderError1, notifyListener, notifyListenerParcel, emit]

theorem performSeek_machine (b : Build) (t : Int) (m : NuPlayer) :
    Post (performSeek b t m) (fun a => machine a = machine m) := by
  intro a h
  rcases performSeek_ok b t m a h with ⟨_, rfl⟩ | ⟨_, rfl⟩ <;> simp [machine]

theorem determineAudioModeChange_machine (env : Env) (m : NuPlayer) :
    Post (determineAudioModeChange env m) (fun a => machine a = machine m) := by
  simp only [determineAudioModeChange, tryOpenAudioSinkForOffload, post_ite, post_ok, post_error]
  simp [machine, emit]

theorem performReset_machine (env : Env) (m : NuPlayer) :
    Post (performReset env m) (fun a => machine a = machine m) := by
  simp only [performReset, post_ite, post_ok, post_error]
  simp [machine, emit, cancelPollDuration]

theorem closeAudioSink_machine (m : NuPlayer) :
    Post (closeAudioSink m) (fun a => machine a = machine m) := by
  simp only [closeAudioSink, post_ite, post_ok, post_error]
  simp [machine, emit]

theorem handleForACodecError_machine (b : Build) (env : Env) (audio : Bool) (e x : Option Int)
    (m : NuPlayer) :
    Post (handleForACodecError b env audio e x m) (fun a => machine a = machine m) := by
  unfold handleForACodecError
  cases e with
  | none => simp [post_error]
  | some e =>
    cases x with
    | none => simp [post_ok, notifyListener_machine]
    | some x =>
      simp only [post_ite, post_ok, post_error]
      simp [machine, emit, notifyListener, notifyListenerParcel]

theorem finishPrepare_machine (b : Build) (env : Env) (err : Int) (m : NuPlayer) :
    Post (finishPrepare b env err m) (fun a => machine a = machine m) := by
  unfold finishPrepare
  cases hd : env.sourceDuration <;>
  · simp only [post_ite, post_ok, post_error]
    simp [machine, emit, notifyListener, notifyListenerParcel]

theorem updateVideoSize_machine (b : Build) (env : Env) (i o : Option Format) (m : NuPlayer) :
    Post (updateVideoSize b env i o m) (fun a => machine a = machine m) := by
  intro a h
  unfold updateVideoSize at h
  cases i with
  | none =>
    simp only [Except.ok.injEq] at h
    subst h
    exact notifyListener_machine _ _ _ _ _ _
  | some i =>
    simp only [bind_eq_ok] at h
    obtain ⟨r, hr, w, _, h⟩ := h
    have hr2 : machine r.2 = machine m := by
      cases o with
      | none =>
        simp only at hr
        split at hr
        · cases hr
        · cases hr
        · split_ifs at hr <;> cases hr <;> simp [machine]
      | some o =>
        simp only at hr
        split_ifs at hr
        · simp only [bind_eq_ok, pure_eq_ok, Except.ok.injEq] at hr
          obtain ⟨_, _, rfl⟩ := hr
          rfl
        · simp only [bind_eq_ok, pure_eq_ok, Except.ok.injEq] at hr
          obtain ⟨_, _, rfl⟩ := hr
          rfl
    split_ifs at h <;> cases h <;> simp [notifyListener_machine, hr2]
theorem instantiateDecoder_ordinary (b : Build) (env : Env) (audio c : Bool) (m : NuPlayer) :
    Post (instantiateDecoder b env audio c m) (fun r => Ordinary m r.2) := by
  intro r h
  unfold instantiateDecoder at h
  by_cases h1 : getDecoder audio m ≠ none ∨ (audio = true ∧ m.mFlushingAudio = .SHUT_DOWN)
  · rw [if_pos h1] at h
    cases h; exact Ordinary.refl m
  rw [if_neg h1] at h
  by_cases h2 : m.mSource = none
  · rw [if_pos h2] at h; cases h
  rw [if_neg h2] at h
  cases hf : (if audio = true then env.sourceAudioFormat else env.sourceVideoFormat) with
  | none =>
    rw [hf] at h
    cases h; exact Ordinary.refl m
  | some format =>
    rw [hf] at h
    dsimp only at h
    by_cases h3 : format.err.isSome ∧ format.err ≠ some 0
    · rw [if_pos h3] at h
      cases h; exact Ordinary.refl m
    rw [if_neg h3] at h
    by_cases h4 : b.MTK_AOSP_ENHANCEMENT = true ∧ m.mDebugDisableTrackId = 1 ∧ audio = true
    · rw [if_pos h4] at h
      cases h; exact Ordinary.refl m
    rw [if_neg h4] at h
    by_cases h5 : b.MTK_AOSP_ENHANCEMENT = true ∧ m.mDebugDisableTrackId = 2 ∧ audio = false
    · rw [if_pos h5] at h
      cases h; exact Ordinary.refl m
    rw [if_neg h5] at h
    by_cases ha : audio = true
    · rw [if_pos ha] at h
      subst ha
      simp only [bind_eq_ok, pure_eq_ok, Except.ok.injEq] at h
      obtain ⟨m2, hm2, rfl⟩ := h
      have hk : machine m2 =
          machine { m with mAudioDecoderGeneration := m.mAudioDecoderGeneration + 1 } := by
        split_ifs at hm2
        · exact determineAudioModeChange_machine env _ m2 hm2
        · cases hm2; rfl
      simp only [machine, Prod.mk.injEq] at hk
      obtain ⟨k1, k2, k3, k4, k5, k6, k7, k8⟩ := hk
      refine ⟨by simp [emit, k1], by simp [emit, k2], by simp [emit, k3], by simp [emit, k4], ?_, ?_⟩
      · right
        simp [decoderGeneration, decoderHandle, getDecoder, emit, k5]
      · left
        simp [decoderGeneration, decoderHandle, getDecoder, emit, k6, k8]
    · rw [if_neg ha] at h
      have ha : audio = false := by simpa using ha
      subst ha
      by_cases h6 : format.mime = false
      · rw [if_pos h6] at h; cases h
      rw [if_neg h6] at h
      split_ifs at h <;> cases h <;>
      · refine ⟨by simp [emit], by simp [emit], by simp [emit], by simp [emit], ?_, ?_⟩
        · left
          simp [decoderGeneration, decoderHandle, getDecoder, emit]
        · right
          simp [decoderGeneration, decoderHandle, getDecoder, emit]

theorem onResume_ordinary (b : Build) (env : Env) (m : NuPlayer) :
    Post (onResume b env m) (Ordinary m) := by
  unfold onResume
  rw [post_ite]
  refine ⟨fun _ => (post_ok _ _).2 (Ordinary.refl m), fun _ => ?_⟩
  dsimp only
  refine post_bind _ _ (Ordinary m) _ ?_ ?_
  · rw [post_ite]
    constructor
    · intro _
      refine post_bind _ _ (fun r => Ordinary m r.2) _ ?_ ?_
      · exact post_mono _ _ _ (instantiateDecoder_ordinary _ _ _ _ _)
          (fun r hr => (Ordinary.of_eq (by simp [machine, emit])).trans hr)
      · intro r hr
        exact (post_ok _ _).2 hr
    · intro _
      exact (post_ok _ _).2 (Ordinary.of_eq (by simp [machine, emit]))
  · intro a ha
    exact (post_ok _ _).2 (ha.trans (Ordinary.of_eq (by simp [machine, emit])))

theorem onInstantiateSecureDecoders_ordinary (b : Build) (env : Env) (m : NuPlayer) :
    Post (onInstantiateSecureDecoders b env m) (fun r => Ordinary m r.2) := by
  unfold onInstantiateSecureDecoders
  rw [post_ite]
  refine ⟨fun _ => (post_ok _ _).2 (Ordinary.refl m), fun _ => ?_⟩
  rw [post_ite]
  refine ⟨fun _ => (post_ok _ _).2 (Ordinary.refl m), fun _ => ?_⟩
  refine post_bind _ _ (fun r => Ordinary m r.2) _ ?_ ?_
  · rw [post_ite]
    exact ⟨fun _ => instantiateDecoder_ordinary _ _ _ _ _,
           fun _ => (post_ok _ _).2 (Ordinary.refl m)⟩
  · intro r hr
    rw [post_ite]
    refine ⟨fun _ => (post_ok _ _).2 hr, fun _ => ?_⟩
    dsimp only
    rw [post_ite]
    exact ⟨fun _ => post_mono _ _ _ (instantiateDecoder_ordinary _ _ _ _ _)
              (fun r2 hr2 => hr.trans hr2),
           fun _ => (post_ok _ _).2 hr⟩

theorem onStart_ordinary (b : Build) (env : Env) (t : Int) (m : NuPlayer) :
    Post (onStart b env t m) (Ordinary m) := by
  unfold onStart
  refine post_bind _ _ (fun a => machine a = machine m) _ ?_ ?_
  · simp only [post_ite, post_ok, pure_eq_ok, post_error]
    simp [machine, emit]
  intro a ha
  refine post_bind _ _ (fun a => machine a = machine m) _ ?_ ?_
  · simp only [post_ite, post_ok, pure_eq_ok, post_error]
    exact ⟨fun _ => post_mono _ _ _ (performSeek_machine b t a) (fun _ h => h.trans ha),
           fun _ => ha⟩
  intro a2 ha2
  refine post_mono _ (fun a => machine a = machine m) _ ?_ (fun _ h => Ordinary.of_eq h)
  simp only [post_ite, post_ok, pure_eq_ok, post_error]
  simp [machine, emit, notifyListener, notifyListenerParcel, postScanSources, isRTSPSource,
    isHttpLiveSource] at ha2 ⊢
  simp [ha2]

theorem schedulePollDuration_machine (m : NuPlayer) :
    machine (schedulePollDuration m) = machine m := by
  simp [machine, schedulePollDuration, emit]

theorem onScanSources_ordinary (b : Build) (env : Env) (m : NuPlayer) :
    Post (onScanSources b env m) (fun r => Ordinary m r.2) := by
  unfold onScanSources
  dsimp only
  refine post_bind _ _ (fun r => Ordinary m r.2) _ ?_ ?_
  · rw [post_ite]
    exact ⟨fun _ => post_mono _ _ _ (instantiateDecoder_ordinary _ _ _ _ _)
              (fun r hr => (Ordinary.of_eq (by simp [machine])).trans hr),
           fun _ => (post_ok _ _).2 (Ordinary.of_eq (by simp [machine]))⟩
  intro r1 hr1
  refine post_bind _ _ (fun r => Ordinary m r.2) _ ?_ ?_
  · rw [post_ite]
    exact ⟨fun _ => post_mono _ _ _ (instantiateDecoder_ordinary _ _ _ _ _)
              (fun r hr => hr1.trans hr),
           fun _ => (post_ok _ _).2 hr1⟩
  intro r2 hr2
  refine post_mono _ (fun r => machine r.2 = machine r2.2) _ ?_
    (fun r h => hr2.trans (Ordinary.of_eq h))
  simp only [post_ite, post_ok, pure_eq_ok, post_error]
  simp [machine, emit, notifyListener, notifyListenerParcel, schedulePollDuration]

theorem scanSource_l_ordinary (b : Build) (env : Env) (g : Int) (m : NuPlayer) :
    Post (scanSource_l b env g m) (Ordinary m) := by
  unfold scanSource_l
  refine post_bind _ _ (fun r => Ordinary m r.2) _ (onScanSources_ordinary b env m) ?_
  intro r hr
  refine post_mono _ (fun a => machine a = machine r.2) _ ?_
    (fun a h => hr.trans (Ordinary.of_eq h))
  simp only [post_ite, post_ok, pure_eq_ok, post_error]
  simp [machine, emit, notifyListener, notifyListenerParcel]

theorem scanSources_ordinary (b : Build) (env : Env) (g : Int) (m : NuPlayer) :
    Post (scanSources b env g m) (Ordinary m) := by
  unfold scanSources
  dsimp only
  refine post_bind _ _ (fun r => Ordinary m r.2) _ ?_ ?_
  · rw [post_ite]
    exact ⟨fun _ => instantiateDecoder_ordinary _ _ _ _ _,
           fun _ => (post_ok _ _).2 (Ordinary.refl m)⟩
  intro r1 hr1
  refine post_bind _ _ (fun r => Ordinary m r.2) _ ?_ ?_
  · rw [post_ite]
    exact ⟨fun _ => post_mono _ _ _ (instantiateDecoder_ordinary _ _ _ _ _)
              (fun r hr => hr1.trans hr),
           fun _ => (post_ok _ _).2 hr1⟩
  intro r2 hr2
  refine post_mono _ (fun a => machine a = machine r2.2) _ ?_
    (fun a h => hr2.trans (Ordinary.of_eq h))
  simp only [post_ite, post_ok, pure_eq_ok, post_error]
  simp [machine, emit, notifyListener, notifyListenerParcel, schedulePollDuration]

theorem onSourcePrepard_machine (b : Build) (env : Env) (err : Int) (m : NuPlayer) :
    Post (onSourcePrepard b env err m) (fun a => machine a = machine m) := by
  unfold onSourcePrepard
  refine post_bind _ _ (fun r => machine r.2 = machine m) _ ?_ ?_
  · unfold tyrToChangeDataSourceForLocalSdp
    cases env.sourceVideoFormat <;>
    · simp only [post_ite, post_ok, post_error]
      simp [machine]
  intro r hr
  dsimp only
  simp only [post_ite, post_ok, pure_eq_ok]
  refine ⟨fun _ => by simpa [machine, emit] using hr, fun _ => ⟨fun _ => hr, fun _ => ?_⟩⟩
  exact ⟨fun _ => post_mono _ _ _ (finishPrepare_machine _ _ _ _) (fun _ h => h.trans hr),
    fun _ => ⟨fun _ => post_mono _ _ _ (finishPrepare_machine _ _ _ _) (fun _ h => h.trans hr),
              fun _ => post_mono _ _ _ (finishPrepare_machine _ _ _ _) (fun _ h => h.trans hr)⟩⟩

theorem writeTrackInfo_machine (f : Option TrackInfo) (m : NuPlayer) :
    Post (writeTrackInfo f m) (fun a => machine a = machine m) := by
  unfold writeTrackInfo
  cases f with
  | none => simp [post_ok]
  | some f =>
    cases hf : f.trackType with
    | none => simp [hf, post_ok]
    | some t =>
      cases hs : f.subtitleFlags <;>
      · simp only [hf, hs, post_ite, post_ok, post_error]
        simp [machine, emit]

theorem writeTrackInfos_machine (info : Nat → Option TrackInfo) (l : List Nat) (m : NuPlayer) :
    Post (l.foldlM (fun m i => writeTrackInfo (info i) m) m) (fun a => machine a = machine m) := by
  induction l generalizing m with
  | nil => simp [post_ok, List.foldlM]
  | cons i l ih =>
    rw [List.foldlM_cons]
    refine post_bind _ _ (fun a => machine a = machine m) _ (writeTrackInfo_machine _ _) ?_
    intro a ha
    exact post_mono _ _ _ (ih a) (fun _ h => h.trans ha)

theorem onSourceNotify_ext_machine (b : Build) (env : Env) (what : SourceWhat) (m : NuPlayer) :
    Post (onSourceNotify_ext b env what m) (fun a => machine a = machine m) := by
  unfold onSourceNotify_ext
  cases what <;>
  · simp only [post_ite, post_ok, post_error]
    try simp [machine, emit, notifyListener, notifyListenerParcel, notifyDriverSeekComplete]

theorem onClosedCaptionNotify_machine (b : Build) (env : Env) (what : CCWhat) (m : NuPlayer) :
    Post (onClosedCaptionNotify b env what m) (fun a => machine a = machine m) := by
  unfold onClosedCaptionNotify
  cases what <;>
  · simp only [post_ite, post_ok, post_error]
    try simp [machine, emit, notifyListener, notifyListenerParcel, sendSubtitleData]

/-! ## The flush machinery: what it does to the decoder bookkeeping and the statuses -/

theorem Stay.stayRefl (k : Bool) (m : NuPlayer) : Stay k m m := fun h => h

theorem Stay.stayTrans {k : Bool} {m m1 m2 : NuPlayer} (h1 : Stay k m m1) (h2 : Stay k m1 m2) :
    Stay k m m2 := fun h => h2 (h1 h)

theorem Safe.safeRefl (m : NuPlayer) : Safe m m :=
  ⟨GenRel.relRefl m, Stay.stayRefl _ m, Stay.stayRefl _ m⟩

theorem Safe.safeTrans {m m1 m2 : NuPlayer} (h1 : Safe m m1) (h2 : Safe m1 m2) : Safe m m2 :=
  ⟨h1.1.relTrans h2.1, h1.2.1.stayTrans h2.2.1, h1.2.2.stayTrans h2.2.2⟩

theorem Ordinary.safe {m m1 : NuPlayer} (h : Ordinary m m1) : Safe m m1 := by
  obtain ⟨h1, h2, _, _, h5⟩ := h
  refine ⟨h5, ?_, ?_⟩
  · simp [Stay, flushStatus, h1]
  · simp [Stay, flushStatus, h2]

/-- The decoder bookkeeping is the same and both flush statuses are the same. -/
theorem Safe.of_same {m m1 : NuPlayer} (hd : decoders m1 = decoders m)
    (ha : m1.mFlushingAudio = m.mFlushingAudio) (hv : m1.mFlushingVideo = m.mFlushingVideo) :
    Safe m m1 := by
  simp only [decoders, Prod.mk.injEq] at hd
  obtain ⟨h5, h6, h7, h8⟩ := hd
  refine ⟨GenRel.of_decoders h5 h6 h7 h8, ?_, ?_⟩
  · simp [Stay, flushStatus, ha]
  · simp [Stay, flushStatus, hv]

theorem machine_decoders {m m1 : NuPlayer} (h : machine m1 = machine m) :
    decoders m1 = decoders m := by
  simp only [machine, Prod.mk.injEq] at h
  obtain ⟨_, _, _, _, h5, h6, h7, h8⟩ := h
  simp [decoders, h5, h6, h7, h8]

theorem flushDecoder_decoders (audio needShutdown : Bool) (m : NuPlayer) :
    decoders (flushDecoder audio needShutdown m) = decoders m := by
  unfold flushDecoder
  cases audio <;> simp [decoders, emit]

theorem performDecoderFlush_decoders (audio video : FlushCommand) (m : NuPlayer) :
    decoders (performDecoderFlush audio video m) = decoders m := by
  unfold performDecoderFlush
  split
  · rfl
  · dsimp only
    split
    · split
      · rw [flushDecoder_decoders, flushDecoder_decoders]
      · rw [flushDecoder_decoders]
    · split
      · rw [flushDecoder_decoders]
      · rfl

theorem performScanSources_machine (m : NuPlayer) :
    machine (performScanSources m) = machine m := by
  simp [machine, performScanSources, postScanSources, emit]

theorem execute_decoders (b : Build) (env : Env) (action : Action) (m : NuPlayer) :
    Post (action.execute b env m) (fun a => decoders a = decoders m) := by
  cases action with
  | SeekAction t =>
    exact post_mono _ _ _ (performSeek_machine b t m) (fun _ h => machine_decoders h)
  | ResumeDecoderAction n =>
    exact (post_ok _ _).2 (machine_decoders (performResumeDecoders_machine b env n m))
  | SetSurfaceAction s =>
    exact (post_ok _ _).2 (machine_decoders (performSetSurface_machine b env s m))
  | FlushDecoderAction a v => exact (post_ok _ _).2 (performDecoderFlush_decoders a v m)
  | PostMessageAction r => exact (post_ok _ _).2 (machine_decoders (emit_machine _ m))
  | SimpleAction f =>
    cases f with
    | performScanSources => exact (post_ok _ _).2 (machine_decoders (performScanSources_machine m))
    | performReset =>
      exact post_mono _ _ _ (performReset_machine env m) (fun _ h => machine_decoders h)

theorem loop_decoders (b : Build) (env : Env) :
    ∀ (n : Nat) (m : NuPlayer),
      Post (processDeferredActionsLoop b env n m) (fun a => decoders a = decoders m) := by
  intro n
  induction n with
  | zero =>
    intro m
    unfold processDeferredActionsLoop
    simp only [post_ite, post_ok, post_error]
    simp
  | succ n ih =>
    intro m
    unfold processDeferredActionsLoop
    cases hq : m.mDeferredActions with
    | nil => simp [post_ok]
    | cons action rest =>
      simp only [post_ite, post_ok]
      refine ⟨fun _ => trivial, fun _ => ?_⟩
      refine post_bind _ _ (fun a => decoders a = decoders m) _ ?_ ?_
      · exact post_mono _ _ _ (execute_decoders b env action _) (fun a h => by simpa [decoders] using h)
      · intro a ha
        exact post_mono _ _ _ (ih a) (fun _ h => h.trans ha)

/-- A drain of the deferred queue keeps the decoder bookkeeping, and does nothing at
all while a flush status is not NONE. -/
theorem processDeferredActions_safe (b : Build) (env : Env) (m : NuPlayer) :
    Post (processDeferredActions b env m) (Safe m) := by
  intro a ha
  by_cases hf : flushing m
  · unfold processDeferredActions at ha
    rw [loop_of_flushing b env _ m hf] at ha
    cases ha
    exact Safe.safeRefl m
  · have hd := loop_decoders b env _ m a ha
    simp only [decoders, Prod.mk.injEq] at hd
    obtain ⟨h5, h6, h7, h8⟩ := hd
    simp only [flushing, not_or, not_not] at hf
    refine ⟨GenRel.of_decoders h5 h6 h7 h8, ?_, ?_⟩
    · simp [Stay, flushStatus, inFlush, hf.1]
    · simp [Stay, flushStatus, inFlush, hf.2]

theorem processDeferredActions_decoders (b : Build) (env : Env) (m : NuPlayer) :
    Post (processDeferredActions b env m) (fun a => decoders a = decoders m) :=
  loop_decoders b env _ m

theorem handleFlushComplete_spec (audio isDecoder : Bool) (m : NuPlayer) :
    Post (handleFlushComplete audio isDecoder m) (fun a =>
      decoders a = decoders m
      ∧ flushStatus (!audio) a = flushStatus (!audio) m
      ∧ (m.mFlushComplete.get audio (!isDecoder) = false →
          flushStatus audio a = flushStatus audio m)) := by
  unfold handleFlushComplete
  dsimp only
  cases audio
  · cases isDecoder <;> cases hv : m.mFlushingVideo <;>
    · simp [decoders, flushStatus, emit, getDecoder, FlushComplete.get, FlushComplete.set, hv,
        post_ok, post_error, post_ite]
      try tauto
  · cases isDecoder <;> cases ha : m.mFlushingAudio <;>
    · simp [decoders, flushStatus, emit, getDecoder, FlushComplete.get, FlushComplete.set, ha,
        post_ok, post_error, post_ite]
      try tauto

theorem finishFlushIfPossible_blocked (b : Build) (env : Env) (k : Bool) (m : NuPlayer)
    (h : flushStatus k m ≠ .NONE ∧ flushStatus k m ≠ .FLUSHED ∧ flushStatus k m ≠ .SHUT_DOWN) :
    finishFlushIfPossible b env m = .ok m := by
  unfold finishFlushIfPossible
  cases k
  · simp only [flushStatus, Bool.false_eq_true, if_false] at h
    split
    · rfl
    · rfl
  · simp only [flushStatus, if_true] at h
    rw [if_pos h]

theorem finishFlushIfPossible_decoders (b : Build) (env : Env) (m : NuPlayer) :
    Post (finishFlushIfPossible b env m) (fun a => decoders a = decoders m) := by
  unfold finishFlushIfPossible
  simp only [post_ite, post_ok]
  refine ⟨fun _ => trivial, fun _ => ⟨fun _ => trivial, fun _ => ?_⟩⟩
  refine post_bind _ _ (fun a => decoders a = decoders m) _ ?_ ?_
  · simp only [post_ite, post_ok, post_error, pure_eq_ok]
    simp [decoders, emit]
  · intro a ha
    refine post_mono _ _ _ (processDeferredActions_decoders b env _) (fun r hr => hr.trans ?_)
    simpa [decoders, clearFlushComplete] using ha

theorem finishFlushIfPossible_safe (b : Build) (env : Env) (m : NuPlayer) :
    Post (finishFlushIfPossible b env m) (Safe m) := by
  intro a ha
  have hd := finishFlushIfPossible_decoders b env m a ha
  simp only [decoders, Prod.mk.injEq] at hd
  obtain ⟨h5, h6, h7, h8⟩ := hd
  refine ⟨GenRel.of_decoders h5 h6 h7 h8, ?_, ?_⟩
  · intro hin
    have : finishFlushIfPossible b env m = .ok m :=
      finishFlushIfPossible_blocked b env true m (by
        rcases hin with h | h <;> simp [h])
    rw [this] at ha; cases ha; exact hin
  · intro hin
    have : finishFlushIfPossible b env m = .ok m :=
      finishFlushIfPossible_blocked b env false m (by
        rcases hin with h | h <;> simp [h])
    rw [this] at ha; cases ha; exact hin

/-- A flush completion that does not find the other bit set leaves both statuses as
they are; one for the other track never touches this track's status while it is in
flight. -/
theorem flushComplete_stay (b : Build) (env : Env) (audio isDecoder k : Bool) (m : NuPlayer)
    (h : k = audio → m.mFlushComplete.get audio (!isDecoder) = false) :
    Post (handleFlushComplete audio isDecoder m >>= finishFlushIfPossible b env)
      (Stay k m) := by
  refine post_bind _ _ _ _ (handleFlushComplete_spec audio isDecoder m) ?_
  intro a ⟨_, ho, hs⟩
  have hk : flushStatus k a = flushStatus k m := by
    by_cases hka : k = audio
    · subst hka; exact hs (h rfl)
    · have : k = !audio := by cases k <;> cases audio <;> simp_all
      subst this; exact ho
  intro r hr hin
  rw [← hk] at hin
  cases k
  · exact (finishFlushIfPossible_safe b env a r hr).2.2 hin
  · exact (finishFlushIfPossible_safe b env a r hr).2.1 hin

theorem flushComplete_genRel (b : Build) (env : Env) (audio isDecoder : Bool) (m : NuPlayer) :
    Post (handleFlushComplete audio isDecoder m >>= finishFlushIfPossible b env)
      (GenRel m) := by
  refine post_bind _ _ _ _ (handleFlushComplete_spec audio isDecoder m) ?_
  intro a ⟨hd, _, _⟩
  refine post_mono _ _ _ (finishFlushIfPossible_decoders b env a) (fun r hr => ?_)
  have := hr.trans hd
  simp only [decoders, Prod.mk.injEq] at this
  obtain ⟨h5, h6, h7, h8⟩ := this
  exact GenRel.of_decoders h5 h6 h7 h8

theorem closeAudioSink_ordinary (m : NuPlayer) : Post (closeAudioSink m) (Ordinary m) :=
  post_mono _ _ _ (closeAudioSink_machine m) (fun _ h => Ordinary.of_eq h)

/-- The part of restartAudio after the status has been settled: closing the sink,
flushing the renderer, seeking, and creating the decoder anew. -/
theorem restartAudio_tail (b : Build) (env : Env) (t : Int) (f n : Bool) (m : NuPlayer) :
    Post (if m.mRenderer = none then pure m
      else do
        let m ← closeAudioSink m
        let m := emit (.renderer (.flush true false)) m
        let m := if m.mVideoDecoder ≠ none then emit (.renderer (.flush false false)) m else m
        let m ← performSeek b t m
        let m := if f = true then
            { emit (.renderer .signalDisableOffloadAudio) m with mOffloadAudio := false }
          else m
        if n = true then do
          let r ← instantiateDecoder b env true (!f) m
          pure r.2
        else pure m) (Ordinary m) := by
  rw [post_ite]
  refine ⟨fun _ => (post_ok _ _).2 (Ordinary.refl m), fun _ => ?_⟩
  refine post_bind _ _ (fun a => machine a = machine m) _ (closeAudioSink_machine m) ?_
  intro a ha
  refine post_bind _ _ (fun a => machine a = machine m) _ ?_ ?_
  · refine post_mono _ _ _ (performSeek_machine b t _) (fun r hr => hr.trans ?_)
    simpa [machine, emit] using ha
  intro a2 ha2
  rw [post_ite]
  refine ⟨fun _ => ?_, fun _ => ?_⟩
  · refine post_bind _ _ (fun r => Ordinary m r.2) _ ?_ (fun r hr => (post_ok _ _).2 hr)
    refine post_mono _ _ _ (instantiateDecoder_ordinary _ _ _ _ _) (fun r hr => ?_)
    refine (Ordinary.of_eq ?_).trans hr
    simpa [machine, emit] using ha2
  · refine (post_ok _ _).2 (Ordinary.of_eq ?_)
    simpa [machine, emit] using ha2

/-- The part of restartAudio that settles the audio flush status. -/
theorem restartAudio_stage (b : Build) (env : Env) (n : Bool) (m : NuPlayer) :
    Post (if m.mFlushingAudio = .FLUSHING_DECODER then do
        let m := { m with mFlushComplete := m.mFlushComplete.set true true true,
                          mFlushingAudio := .FLUSHED }
        let m ← finishFlushIfPossible b env m
        pure (m, n)
      else if m.mFlushingAudio = .FLUSHING_DECODER_SHUTDOWN
          ∨ m.mFlushingAudio = .SHUTTING_DOWN_DECODER then do
        let m := { m with mFlushComplete := m.mFlushComplete.set true true true,
                          mFlushingAudio := .SHUT_DOWN }
        let m ← finishFlushIfPossible b env m
        pure (m, false)
      else pure (m, n))
      (fun r => decoders r.1 = decoders m ∧ Stay false m r.1) := by
  simp only [post_ite]
  refine ⟨fun _ => ?_, fun _ => ⟨fun _ => ?_, fun _ => ?_⟩⟩
  · refine post_bind _ _ (fun a => decoders a = decoders m ∧ Stay false m a) _ ?_
      (fun a ha => (post_ok _ _).2 ha)
    intro a ha
    have h1 := finishFlushIfPossible_decoders b env _ a ha
    have h2 := (finishFlushIfPossible_safe b env _ a ha).2.2
    exact ⟨by simpa [decoders] using h1, fun hin => h2 (by simpa [flushStatus] using hin)⟩
  · refine post_bind _ _ (fun a => decoders a = decoders m ∧ Stay false m a) _ ?_
      (fun a ha => (post_ok _ _).2 ha)
    intro a ha
    have h1 := finishFlushIfPossible_decoders b env _ a ha
    have h2 := (finishFlushIfPossible_safe b env _ a ha).2.2
    exact ⟨by simpa [decoders] using h1, fun hin => h2 (by simpa [flushStatus] using hin)⟩
  · exact (post_ok _ _).2 ⟨rfl, Stay.stayRefl _ _⟩

theorem restartAudio_spec (b : Build) (env : Env) (t : Int) (f n : Bool) (m : NuPlayer) :
    Post (restartAudio b env t f n m) (fun a => GenRel m a ∧ Stay false m a) := by
  unfold restartAudio
  dsimp only
  refine post_bind _ _ _ _ (restartAudio_stage b env n _) ?_
  intro r hr
  refine post_mono _ _ _ (restartAudio_tail b env t f r.2 r.1) (fun a ha => ?_)
  have h0 : GenRel m r.1 ∧ Stay false m r.1 := by
    obtain ⟨hd, hs⟩ := hr
    refine ⟨?_, ?_⟩
    · by_cases hdec : m.mAudioDecoder = none
      · simp only [hdec, ne_eq, not_true_eq_false, if_false] at hd
        simp only [decoders, Prod.mk.injEq] at hd
        obtain ⟨h5, h6, h7, h8⟩ := hd
        exact GenRel.of_decoders h5 h6 h7 h8
      · simp only [ne_eq, hdec, not_false_eq_true, if_true] at hd
        simp only [decoders, emit, Prod.mk.injEq] at hd
        obtain ⟨h5, h6, h7, h8⟩ := hd
        constructor
        · right
          simp [decoderGeneration, decoderHandle, getDecoder, h5, h7]
        · left
          simp [decoderGeneration, decoderHandle, getDecoder, h6, h8]
    · intro hin
      apply hs
      simpa [flushStatus, emit] using hin
  exact ⟨h0.1.relTrans ha.2.2.2.2, h0.2.stayTrans (Ordinary.safe ha).2.2⟩

/-- Appending to the deferred queue and draining it. -/
theorem drain_safe (b : Build) (env : Env) (m m0 : NuPlayer)
    (hd : decoders m0 = decoders m) (ha : m0.mFlushingAudio = m.mFlushingAudio)
    (hv : m0.mFlushingVideo = m.mFlushingVideo) :
    Post (processDeferredActions b env m0) (Safe m) :=
  post_mono _ _ _ (processDeferredActions_safe b env m0)
    (fun _ h => (Safe.of_same hd ha hv).safeTrans h)

theorem finish_safe (b : Build) (env : Env) (m m0 : NuPlayer) (h : Safe m m0) :
    Post (finishFlushIfPossible b env m0) (Safe m) :=
  post_mono _ _ _ (finishFlushIfPossible_safe b env m0) (fun _ h2 => h.safeTrans h2)

theorem shutdownCompleted_safe (b : Build) (env : Env) (audio : Bool) (m : NuPlayer) :
    Post (onDecoderNotify b env audio .kWhatShutdownCompleted m) (Safe m) := by
  unfold onDecoderNotify
  cases audio
  · simp only [Bool.false_eq_true, if_false, post_ite, post_error]
    refine ⟨fun _ => trivial, fun h => ?_⟩
    apply finish_safe
    simp only [ne_eq, not_not] at h
    refine ⟨⟨Or.inl ?_, Or.inr ?_⟩, ?_, ?_⟩
    · simp [decoderGeneration, decoderHandle, getDecoder, emit]
    · simp [decoderGeneration, decoderHandle, getDecoder, emit]
    · simp [Stay, flushStatus, emit]
    · simp [Stay, flushStatus, inFlush, h, emit]
  · simp only [if_true, post_ite, post_error]
    refine ⟨fun _ => trivial, fun h => ?_⟩
    apply finish_safe
    simp only [ne_eq, not_not] at h
    refine ⟨⟨Or.inr ?_, Or.inl ?_⟩, ?_, ?_⟩
    · simp [decoderGeneration, decoderHandle, getDecoder, emit]
    · simp [decoderGeneration, decoderHandle, getDecoder, emit]
    · simp [Stay, flushStatus, inFlush, h, emit]
    · simp [Stay, flushStatus, emit]

theorem decoderError_safe (b : Build) (env : Env) (audio : Bool) (e1 e2 : Option Int)
    (m : NuPlayer) :
    Post (onDecoderNotify b env audio (.kWhatError e1 e2) m) (Safe m) := by
  unfold onDecoderNotify
  dsimp only
  refine post_bind _ _ (fun a => machine a = machine m) _ ?_ ?_
  · simp only [post_ite, post_ok, post_error, pure_eq_ok]
    simp [machine, emit]
  intro a ha
  have hma : Safe m a := (Ordinary.of_eq ha).safe
  refine post_bind _ _ (Safe m) _ ?_ ?_
  · cases audio
    · simp only [Bool.false_eq_true, if_false]
      cases hs : a.mFlushingVideo
      · exact post_mono _ _ _ (drain_safe b env a _ (by simp [decoders]) (by simp [hs]) (by simp [hs])) (fun _ h => hma.safeTrans h)
      · refine (post_ok _ _).2 (hma.safeTrans ⟨GenRel.of_decoders (by simp) (by simp) (by simp) (by simp), ?_, ?_⟩)
        · simp [Stay, flushStatus]
        · simp [Stay, flushStatus, inFlush]
      · exact (post_ok _ _).2 hma
      · exact (post_ok _ _).2 hma
      · simp only [post_ite, post_ok, post_error, pure_eq_ok]
        refine ⟨fun _ => trivial, fun _ => hma.safeTrans ⟨?_, ?_, ?_⟩⟩
        · exact GenRel.of_decoders (by simp [emit]) (by simp [emit]) (by simp [emit]) (by simp [emit])
        · simp [Stay, flushStatus, emit]
        · simp [Stay, flushStatus, emit, inFlush, hs]
      · exact finish_safe b env m a hma
    · simp only [if_true]
      cases hs : a.mFlushingAudio
      · exact post_mono _ _ _ (drain_safe b env a _ (by simp [decoders]) (by simp [hs]) (by simp [hs])) (fun _ h => hma.safeTrans h)
      · refine (post_ok _ _).2 (hma.safeTrans ⟨GenRel.of_decoders (by simp) (by simp) (by simp) (by simp), ?_, ?_⟩)
        · simp [Stay, flushStatus, inFlush]
        · simp [Stay, flushStatus]
      · exact (post_ok _ _).2 hma
      · exact (post_ok _ _).2 hma
      · simp only [post_ite, post_ok, post_error, pure_eq_ok]
        refine ⟨fun _ => trivial, fun _ => hma.safeTrans ⟨?_, ?_, ?_⟩⟩
        · exact GenRel.of_decoders (by simp [emit]) (by simp [emit]) (by simp [emit]) (by simp [emit])
        · simp [Stay, flushStatus, emit, inFlush, hs]
        · simp [Stay, flushStatus, emit]
      · exact finish_safe b env m a hma
  intro a2 ha2
  rw [post_ite]
  refine ⟨fun _ => ?_, fun _ => ?_⟩
  · exact post_mono _ _ _ (handleForACodecError_machine _ _ _ _ _ _)
      (fun _ h => ha2.safeTrans (Ordinary.of_eq h).safe)
  · exact (post_ok _ _).2 (ha2.safeTrans (Ordinary.of_eq (notifyListener_machine _ _ _ _ _ _)).safe)

theorem onDecoderNotify_safe (b : Build) (env : Env) (audio : Bool) (what : DecoderWhat)
    (m : NuPlayer) (h : what ≠ .kWhatFlushCompleted) :
    Post (onDecoderNotify b env audio what m) (Safe m) := by
  cases what with
  | kWhatInputDiscontinuity fc =>
    unfold onDecoderNotify
    exact drain_safe b env m _ (by simp [decoders]) (by simp) (by simp)
  | kWhatEOS err =>
    unfold onDecoderNotify
    simp only [post_ite, post_ok, post_error]
    exact ⟨fun _ => trivial, fun _ => (Ordinary.of_eq (emit_machine _ m)).safe⟩
  | kWhatFlushCompleted => exact absurd rfl h
  | kWhatVideoSizeChanged format =>
    unfold onDecoderNotify
    simp only [post_ite, post_ok, post_error]
    refine ⟨fun _ => trivial, fun _ => ?_⟩
    refine post_mono _ _ _ (updateVideoSize_machine _ _ _ _ _)
      (fun _ hm => (Ordinary.of_eq (hm.trans ?_)).safe)
    simp [machine, setVideoScalingMode, emit]
  | kWhatShutdownCompleted => exact shutdownCompleted_safe b env audio m
  | kWhatResumeCompleted =>
    exact (post_ok _ _).2 (Ordinary.of_eq (finishResume_machine env m)).safe
  | kWhatError e1 e2 => exact decoderError_safe b env audio e1 e2 m
  | other w => exact (post_ok _ _).2 (Safe.safeRefl m)

theorem onRendererNotify_safe (b : Build) (env : Env) (what : RendererWhat) (m : NuPlayer)
    (h1 : ∀ audio, what ≠ .kWhatFlushComplete audio)
    (h2 : ∀ reason pos, what ≠ .kWhatAudioTearDown reason pos) :
    Post (onRendererNotify b env what m) (Safe m) := by
  cases what with
  | kWhatEOS audio finalResult =>
    refine post_mono _ (fun a => machine a = machine m) _ ?_ (fun _ hm => (Ordinary.of_eq hm).safe)
    unfold onRendererNotify
    dsimp only
    simp only [post_ite, post_ok, post_error]
    cases audio <;>
      simp [machine, emit, notifyListener, notifyListenerParcel, handleForRenderError1]
  | kWhatFlushComplete audio => exact absurd rfl (h1 audio)
  | kWhatVideoRenderingStart =>
    exact (post_ok _ _).2 (Ordinary.of_eq (notifyListener_machine _ _ _ _ _ m)).safe
  | kWhatMediaRenderingStart =>
    exact (post_ok _ _).2 (Ordinary.of_eq (notifyListener_machine _ _ _ _ _ m)).safe
  | kWhatAudioTearDown reason pos => exact absurd rfl (h2 reason pos)
  | kWhatRetryAudioOffload positionUs =>
    unfold onRendererNotify
    rw [post_ite]
    refine ⟨fun _ => ?_, fun _ => (post_ok _ _).2 (Safe.safeRefl m)⟩
    refine post_bind _ _ (fun a => machine a = machine m) _ (closeAudioSink_machine m) ?_
    intro a ha
    refine post_mono _ _ _ (performSeek_machine b positionUs _) (fun r hr => ?_)
    simp only [machine, emit, Prod.mk.injEq] at ha hr
    simp at hr
    obtain ⟨h1, h2, _, _, h5, h6, h7, h8⟩ := ha
    obtain ⟨k1, k2, _, _, k5, k6, k7, k8⟩ := hr
    refine ⟨⟨Or.inr ?_, Or.inl ?_⟩, ?_, ?_⟩
    · simp [decoderGeneration, decoderHandle, getDecoder, k5, k7, h5]
    · simp [decoderGeneration, decoderHandle, getDecoder, k6, k8, h6, h8]
    · simp [Stay, flushStatus, k1, h1]
    · simp [Stay, flushStatus, k2, h2]
  | other w => exact (post_ok _ _).2 (Safe.safeRefl m)

theorem onSourceNotify_safe (b : Build) (env : Env) (what : SourceWhat) (m : NuPlayer) :
    Post (onSourceNotify b env what m) (Safe m) := by
  have hext : ∀ w, Post (if b.MTK_AOSP_ENHANCEMENT = true then onSourceNotify_ext b env w m
      else .error (.check 2726)) (Safe m) := by
    intro w
    simp only [post_ite, post_error]
    exact ⟨fun _ => post_mono _ _ _ (onSourceNotify_ext_machine b env w m)
      (fun _ hm => (Ordinary.of_eq hm).safe), fun _ => trivial⟩
  have hm : ∀ {a : NuPlayer}, machine a = machine m → Safe m a :=
    fun h => (Ordinary.of_eq h).safe
  cases what with
  | kWhatInstantiateSecureDecoders reply =>
    unfold onSourceNotify
    simp only [post_ite, post_ok]
    refine ⟨fun _ => Safe.safeRefl m, fun _ => ?_⟩
    refine post_bind _ _ _ _ (onInstantiateSecureDecoders_ordinary b env m) ?_
    intro r hr
    exact (post_ok _ _).2 (hr.trans (Ordinary.of_eq (emit_machine _ _))).safe
  | kWhatPrepared err =>
    unfold onSourceNotify
    simp only [post_ite, post_ok]
    refine ⟨fun _ => Safe.safeRefl m, fun _ => ?_⟩
    refine post_bind _ _ (Safe m) _ ?_ ?_
    · simp only [post_ite, post_ok, pure_eq_ok]
      exact ⟨fun _ => drain_safe b env m _ (by simp [decoders]) (by simp) (by simp),
        fun _ => Safe.of_same (by simp [decoders]) (by simp) (by simp)⟩
    intro a ha
    refine post_mono _ (fun r => machine r = machine a) _ ?_ (fun r hr => ha.safeTrans (Ordinary.of_eq hr).safe)
    simp only [post_ite, post_ok, post_error, pure_eq_ok]
    refine ⟨fun _ => onSourcePrepard_machine b env err a, fun _ => ⟨fun _ => ⟨fun _ => trivial, fun _ => ?_⟩, fun _ => trivial⟩⟩
    cases env.sourceDuration <;> simp [machine, emit]
  | kWhatFlagsChanged flags =>
    refine (post_ok _ _).2 (hm ?_)
    simp [machine, emit, cancelPollDuration, schedulePollDuration]
  | kWhatVideoSizeChanged format =>
    unfold onSourceNotify
    exact post_mono _ _ _ (updateVideoSize_machine _ _ _ _ _) (fun _ h => hm h)
  | kWhatBufferingUpdate p => exact (post_ok _ _).2 (hm (notifyListener_machine _ _ _ _ _ m))
  | kWhatPauseOnBufferingStart =>
    unfold onSourceNotify
    dsimp only
    have hq : machine (if b.MTK_AOSP_ENHANCEMENT = true then isRTSPSource env m
        else (false, m)).2 = machine m := by
      by_cases hb : b.MTK_AOSP_ENHANCEMENT = true <;> simp [hb, machine, isRTSPSource]
    generalize (if b.MTK_AOSP_ENHANCEMENT = true then isRTSPSource env m else (false, m)) = q
      at hq ⊢
    simp only [post_ite, post_ok]
    refine ⟨fun _ => hm (Eq.trans ?_ hq), fun _ => hm (Eq.trans ?_ hq)⟩
    · simp [machine, emit, notifyListener, notifyListenerParcel]
    · simp [machine, emit, notifyListener, notifyListenerParcel, onPause]
  | kWhatResumeOnBufferingEnd =>
    unfold onSourceNotify
    dsimp only
    have hq : machine (if b.MTK_AOSP_ENHANCEMENT = true then isRTSPSource env m
        else (false, m)).2 = machine m := by
      by_cases hb : b.MTK_AOSP_ENHANCEMENT = true <;> simp [hb, machine, isRTSPSource]
    generalize (if b.MTK_AOSP_ENHANCEMENT = true then isRTSPSource env m else (false, m)) = q
      at hq ⊢
    simp only [post_ite, post_ok]
    refine ⟨fun _ => hm (Eq.trans ?_ hq), fun _ => ?_⟩
    · simp [machine, emit, notifyListener, notifyListenerParcel]
    · refine post_bind _ _ (Ordinary m) _ ?_ ?_
      · simp only [post_ite, post_ok, pure_eq_ok]
        refine ⟨fun _ => ⟨fun _ => ?_, fun _ => Ordinary.of_eq (Eq.trans ?_ hq)⟩,
          fun _ => Ordinary.of_eq hq⟩
        · refine post_mono _ _ _ (onResume_ordinary b env _)
            (fun r hr => (Ordinary.of_eq (Eq.trans ?_ hq)).trans hr)
          simp [machine]
        · simp [machine]
      · intro a ha
        exact (post_ok _ _).2 (ha.trans (Ordinary.of_eq (notifyListener_machine _ _ _ _ _ a))).safe
  | kWhatCacheStats bw => exact (post_ok _ _).2 (hm (notifyListener_machine _ _ _ _ _ m))
  | kWhatSubtitleData i t d =>
    refine (post_ok _ _).2 (hm ?_)
    simp [machine, emit, sendSubtitleData, notifyListenerParcel]
  | kWhatTimedMetaData t =>
    unfold onSourceNotify
    cases t <;>
    · refine (post_ok _ _).2 (hm ?_)
      simp [machine, emit, notifyListener, notifyListenerParcel]
  | kWhatTimedTextData g t s =>
    unfold onSourceNotify
    simp only [post_ite, post_ok]
    refine ⟨fun _ => Safe.safeRefl m, fun _ => ⟨fun _ => Safe.safeRefl m, fun _ => ⟨fun _ => hm ?_, fun _ => hm ?_⟩⟩⟩
    · simp [machine, emit]
    · simp [machine, emit, notifyListener, notifyListenerParcel]
  | kWhatQueueDecoderShutdown a v r =>
    exact drain_safe b env m _ (by simp [decoders]) (by simp) (by simp)
  | kWhatDrmNoLicense => exact (post_ok _ _).2 (hm (notifyListener_machine _ _ _ _ _ m))
  | kWhatDurationUpdate d => exact hext _
  | kWhatSourceError e => exact hext _
  | kWhatBufferNotify r => exact hext _
  | kWhatSeekDone => exact hext _
  | kWhatPicture => exact hext _
  | other w => exact hext _

theorem configPlayback_spec (b : Build) (env : Env) (rate : AudioPlaybackRate)
    (replyID : AMessageId) (m : NuPlayer) :
    Post (onMessageReceived b env (.kWhatConfigPlayback rate replyID) m) (fun a =>
      GenRel m a ∧ Stay false m a
        ∧ (¬ restartsAudio m (.kWhatConfigPlayback rate replyID) → Stay true m a)) := by
  unfold onMessageReceived
  dsimp only
  refine post_bind _ _ (fun r => GenRel m r.2 ∧ Stay false m r.2
    ∧ (¬ restartsAudio m (.kWhatConfigPlayback rate replyID) → Stay true m r.2)) _ ?_ ?_
  · rw [post_ite]
    refine ⟨fun hr => ?_, fun _ => (post_ok _ _).2 ⟨GenRel.relRefl m, Stay.stayRefl _ m, fun _ => Stay.stayRefl _ m⟩⟩
    refine post_bind _ _ (fun a => GenRel m a ∧ Stay false m a
      ∧ (¬ restartsAudio m (.kWhatConfigPlayback rate replyID) → Stay true m a)) _ ?_ ?_
    · rw [post_ite]
      refine ⟨fun hc => ?_, fun hc => (post_ok _ _).2 ⟨GenRel.relRefl m, Stay.stayRefl _ m, fun _ => Stay.stayRefl _ m⟩⟩
      refine post_bind _ _ (fun a => GenRel m a ∧ Stay false m a) _ ?_ ?_
      · refine post_mono _ _ _ (restartAudio_spec b env _ true true _) (fun a ha => ?_)
        have h0 : Safe m (if m.mPaused = false then
            emit (.renderer .pause) { m with mPlaybackSettings := rate }
            else { m with mPlaybackSettings := rate }) :=
          Safe.of_same (by simp [decoders, emit]) (by simp [emit]) (by simp [emit])
        exact ⟨h0.1.relTrans ha.1, h0.2.2.stayTrans ha.2⟩
      · intro a ha
        simp only [post_ite, post_ok, post_error, pure_eq_ok]
        have hres : restartsAudio m (.kWhatConfigPlayback rate replyID) := ⟨hr, hc.1, hc.2⟩
        have he : Safe a (emit (.renderer .resume) a) := (Ordinary.of_eq (emit_machine _ a)).safe
        exact ⟨fun _ => ⟨fun _ => trivial, fun _ => ⟨ha.1.relTrans he.1, ha.2.stayTrans he.2.2,
          fun hn => absurd hres hn⟩⟩, fun _ => ⟨ha.1, ha.2, fun hn => absurd hres hn⟩⟩
    · intro a ha
      simp only [post_ite, post_ok, post_error, pure_eq_ok]
      have he : Safe a (emit (.renderer (.setPlaybackSettings rate)) a) :=
        (Ordinary.of_eq (emit_machine _ a)).safe
      exact ⟨fun _ => trivial, fun _ => ⟨ha.1.relTrans he.1, ha.2.1.stayTrans he.2.2,
        fun hn => (ha.2.2 hn).stayTrans he.2.1⟩⟩
  intro r hr
  have key : ∀ a, Ordinary r.2 a → GenRel m a ∧ Stay false m a
      ∧ (¬ restartsAudio m (.kWhatConfigPlayback rate replyID) → Stay true m a) :=
    fun a ha => ⟨hr.1.relTrans ha.safe.1, hr.2.1.stayTrans ha.safe.2.2,
      fun hn => (hr.2.2 hn).stayTrans ha.safe.2.1⟩
  refine post_bind _ _ (Ordinary r.2) _ ?_ ?_
  · simp only [post_ite, post_ok, pure_eq_ok]
    refine ⟨fun _ => ⟨fun _ => Ordinary.of_eq ?_, fun _ => ?_⟩, fun _ => Ordinary.refl _⟩
    · simp [machine, onPause, emit]
    · refine post_bind _ _ (Ordinary r.2) _ ?_ ?_
      · simp only [post_ite, post_ok, pure_eq_ok]
        refine ⟨fun _ => ⟨fun _ => ?_, fun _ => Ordinary.of_eq ?_⟩,
          fun _ => ⟨fun _ => ?_, fun _ => Ordinary.of_eq ?_⟩⟩
        · exact post_mono _ _ _ (onResume_ordinary b env _)
            (fun a ha => (Ordinary.of_eq (by simp [machine])).trans ha)
        · simp [machine]
        · exact post_mono _ _ _ (onStart_ordinary b env _ _)
            (fun a ha => (Ordinary.of_eq (by simp [machine])).trans ha)
        · simp [machine]
      · intro a ha
        exact (post_ok _ _).2 (ha.trans (Ordinary.of_eq (by simp [machine])))
  · intro a ha
    refine (post_ok _ _).2 (key _ (ha.trans (Ordinary.of_eq ?_)))
    simp [machine, emit]

theorem decoderNotify_step (b : Build) (env : Env) (audio : Bool) (g : Int)
    (reply : Option AMessageId) (what : DecoderWhat) (m : NuPlayer) :
    Post (onMessageReceived b env (.kWhatDecoderNotify audio g reply what) m) (fun a =>
      GenRel m a ∧ ∀ k, Stay k m a
        ∨ completesFlush k m (.kWhatDecoderNotify audio g reply what)) := by
  unfold onMessageReceived
  dsimp only
  rw [post_ite]
  refine ⟨fun _ => ?_, fun hg => ?_⟩
  · cases reply with
    | none => exact (post_ok _ _).2 ⟨GenRel.relRefl m, fun k => Or.inl (Stay.stayRefl k m)⟩
    | some r =>
      have := (Ordinary.of_eq (emit_machine (.postMessage r (some INFO_DISCONTINUITY)) m)).safe
      exact (post_ok _ _).2 ⟨this.1, fun k => Or.inl (by cases k; exact this.2.2; exact this.2.1)⟩
  · by_cases hw : what = .kWhatFlushCompleted
    · subst hw
      intro a ha
      refine ⟨flushComplete_genRel b env audio true m a ha, fun k => ?_⟩
      by_cases hk : k = audio ∧ m.mFlushComplete.get audio false = true
      · right
        obtain ⟨rfl, hbit⟩ := hk
        refine ⟨rfl, ?_, hbit⟩
        simp only [ne_eq, not_not] at hg
        cases k <;> simpa [decoderGeneration] using hg
      · left
        refine flushComplete_stay b env audio true k m (fun h => ?_) a ha
        simp only [not_and, Bool.not_eq_true] at hk
        simpa using hk h
    · intro a ha
      have := onDecoderNotify_safe b env audio what m hw a ha
      exact ⟨this.1, fun k => Or.inl (by cases k; exact this.2.2; exact this.2.1)⟩

theorem rendererNotify_step (b : Build) (env : Env) (g : Int) (what : RendererWhat)
    (m : NuPlayer) :
    Post (onMessageReceived b env (.kWhatRendererNotify g what) m) (fun a =>
      GenRel m a ∧ ∀ k, Stay k m a
        ∨ completesFlush k m (.kWhatRendererNotify g what)
        ∨ (k = true ∧ restartsAudio m (.kWhatRendererNotify g what))) := by
  unfold onMessageReceived
  dsimp only
  rw [post_ite]
  refine ⟨fun _ => (post_ok _ _).2 ⟨GenRel.relRefl m, fun k => Or.inl (Stay.stayRefl k m)⟩, fun hg => ?_⟩
  simp only [ne_eq, not_not] at hg
  by_cases h1 : ∃ audio, what = .kWhatFlushComplete audio
  · obtain ⟨audio, rfl⟩ := h1
    unfold onRendererNotify
    dsimp only
    rw [post_ite]
    refine ⟨fun _ => (post_ok _ _).2 ?_, fun _ => ?_⟩
    · have : Safe m (if audio = true then { m with mAudioEOS := false }
          else { m with mVideoEOS := false }) :=
        Safe.of_same (by cases audio <;> simp [decoders]) (by cases audio <;> simp)
          (by cases audio <;> simp)
      exact ⟨this.1, fun k => Or.inl (by cases k; exact this.2.2; exact this.2.1)⟩
    · intro a ha
      have h0 : Safe m (if audio = true then { m with mAudioEOS := false }
          else { m with mVideoEOS := false }) :=
        Safe.of_same (by cases audio <;> simp [decoders]) (by cases audio <;> simp)
          (by cases audio <;> simp)
      refine ⟨h0.1.relTrans (flushComplete_genRel b env audio false _ a ha), fun k => ?_⟩
      by_cases hk : k = audio ∧ m.mFlushComplete.get audio true = true
      · right; left
        obtain ⟨rfl, hbit⟩ := hk
        exact ⟨rfl, hg, hbit⟩
      · left
        have hs : Stay k m (if audio = true then { m with mAudioEOS := false }
            else { m with mVideoEOS := false }) := by
          cases k
          · exact h0.2.2
          · exact h0.2.1
        refine hs.stayTrans (flushComplete_stay b env audio false k _ (fun h => ?_) a ha)
        simp only [not_and, Bool.not_eq_true] at hk
        have := hk h
        cases audio <;> simpa using this
  · by_cases h2 : ∃ reason pos, what = .kWhatAudioTearDown reason pos
    · obtain ⟨reason, pos, rfl⟩ := h2
      unfold onRendererNotify
      dsimp only
      rw [post_ite]
      refine ⟨fun _ => (post_ok _ _).2 ⟨GenRel.relRefl m, fun k => Or.inl (Stay.stayRefl k m)⟩,
        fun hc => ?_⟩
      have hres : restartsAudio m (.kWhatRendererNotify g (.kWhatAudioTearDown reason pos)) := by
        refine ⟨hg, fun hr => ?_⟩
        by_contra hn
        exact hc ⟨hr, hn⟩
      have key : ∀ f n, Post (restartAudio b env (pos.getD m.mPreviousSeekTimeUs) f n m)
          (fun a => GenRel m a ∧ ∀ k, Stay k m a
            ∨ completesFlush k m (.kWhatRendererNotify g (.kWhatAudioTearDown reason pos))
            ∨ (k = true ∧ restartsAudio m
                (.kWhatRendererNotify g (.kWhatAudioTearDown reason pos)))) := by
        intro f n a ha
        have := restartAudio_spec b env _ f n m a ha
        refine ⟨this.1, fun k => ?_⟩
        cases k
        · exact Or.inl this.2
        · exact Or.inr (Or.inr ⟨rfl, hres⟩)
      rw [post_ite]
      exact ⟨fun _ => key _ _, fun _ => key _ _⟩
    · intro a ha
      have := onRendererNotify_safe b env what m (fun audio h => h1 ⟨audio, h⟩)
        (fun r p h => h2 ⟨r, p, h⟩) a ha
      exact ⟨this.1, fun k => Or.inl (by cases k; exact this.2.2; exact this.2.1)⟩

theorem setVideoSurface_safe (b : Build) (env : Env) (surface : Option Surface) (m : NuPlayer) :
    Post (onMessageReceived b env (.kWhatSetVideoSurface surface) m) (Safe m) := by
  have hm : ∀ {a : NuPlayer}, machine a = machine m → Safe m a :=
    fun h => (Ordinary.of_eq h).safe
  unfold onMessageReceived
  dsimp only
  simp only [post_ite, post_ok]
  refine ⟨fun _ => hm (performSetSurface_machine _ _ _ _), fun _ =>
    ⟨fun _ => hm ((performSetSurface_machine _ _ _ _).trans ?_), fun _ => ?_⟩⟩
  · simp [machine, emit]
  · exact drain_safe b env m _ (by simp [decoders, emit]) (by simp [emit]) (by simp [emit])

theorem otherMessages_safe (b : Build) (env : Env) (msg : Msg) (m : NuPlayer)
    (h1 : ∀ a g r w, msg ≠ .kWhatDecoderNotify a g r w)
    (h2 : ∀ g w, msg ≠ .kWhatRendererNotify g w)
    (h3 : ∀ r i, msg ≠ .kWhatConfigPlayback r i) :
    Post (onMessageReceived b env msg m) (Safe m) := by
  have hm : ∀ {a : NuPlayer}, machine a = machine m → Safe m a :=
    fun h => (Ordinary.of_eq h).safe
  cases msg with
  | kWhatSetDataSource source result =>
    refine post_mono _ (fun a => machine a = machine m) _ ?_ (fun _ h => hm h)
    unfold onMessageReceived
    simp only [post_ite, post_ok, post_error]
    simp [machine, emit]
  | kWhatPrepare =>
    unfold onMessageReceived
    simp only [post_ite, post_ok, post_error]
    refine ⟨fun _ => ⟨fun _ => Safe.safeRefl m, fun _ => ⟨fun _ => ?_, fun _ => hm ?_⟩⟩,
      fun _ => ⟨fun _ => trivial, fun _ => hm ?_⟩⟩
    · refine post_mono _ _ _ (finishPrepare_machine _ _ _ _) (fun _ h => hm (h.trans ?_))
      simp [machine]
    · simp [machine, emit]
    · simp [machine, emit]
  | kWhatGetTrackInfo replyID =>
    unfold onMessageReceived
    dsimp only
    refine post_bind _ _ (fun a => machine a = machine m) _ ?_ ?_
    · exact post_mono _ _ _ (writeTrackInfos_machine _ _ _) (fun _ h => h.trans (emit_machine _ m))
    intro a ha
    refine post_bind _ _ (fun a => machine a = machine m) _ ?_ ?_
    · exact post_mono _ _ _ (writeTrackInfos_machine _ _ _) (fun _ h => h.trans ha)
    intro a2 ha2
    exact (post_ok _ _).2 (hm ((emit_machine _ a2).trans ha2))
  | kWhatGetSelectedTrack t replyID =>
    refine post_mono _ (fun a => machine a = machine m) _ ?_ (fun _ h => hm h)
    unfold onMessageReceived
    simp only [post_ite, post_ok, post_error]
    simp [machine, emit]
  | kWhatSelectTrack trackIndex select timeUs replyID =>
    refine post_mono _ (fun a => machine a = machine m) _ ?_ (fun _ h => hm h)
    unfold onMessageReceived
    dsimp only
    simp only [post_ite, post_ok, post_error]
    simp [machine, emit]
  | kWhatPollDuration generation =>
    refine post_mono _ (fun a => machine a = machine m) _ ?_ (fun _ h => hm h)
    unfold onMessageReceived
    simp only [post_ite, post_ok, post_error]
    cases env.sourceDuration <;> simp [machine, emit]
  | kWhatSetVideoSurface surface => exact setVideoSurface_safe b env surface m
  | kWhatSetAudioSink sink => exact (post_ok _ _).2 (hm (by simp [machine]))
  | kWhatStart =>
    unfold onMessageReceived
    refine post_bind _ _ (Ordinary m) _ ?_ ?_
    · simp only [post_ite, post_ok, pure_eq_ok]
      refine ⟨fun _ => ⟨fun _ => ?_, fun _ => Ordinary.refl m⟩, fun _ => onStart_ordinary b env _ m⟩
      refine post_bind _ _ (Ordinary m) _ ?_ (fun a ha => post_mono _ _ _ (onResume_ordinary b env a)
        (fun _ h => ha.trans h))
      simp only [post_ite, post_ok, pure_eq_ok]
      refine ⟨fun _ => ?_, fun _ => Ordinary.refl m⟩
      exact post_bind _ _ _ _ (onScanSources_ordinary b env m) (fun r hr => (post_ok _ _).2 hr)
    · intro a ha
      exact (post_ok _ _).2 (ha.trans (Ordinary.of_eq (by simp [machine]))).safe
  | kWhatConfigPlayback rate replyID => exact absurd rfl (h3 rate replyID)
  | kWhatGetPlaybackSettings replyID =>
    refine (post_ok _ _).2 (hm ?_)
    simp [machine, emit]
  | kWhatConfigSync sync videoFpsHint replyID =>
    refine (post_ok _ _).2 (hm ?_)
    simp [machine, emit]
  | kWhatGetSyncSettings replyID =>
    refine (post_ok _ _).2 (hm ?_)
    simp [machine, emit]
  | kWhatScanSources generation =>
    unfold onMessageReceived
    dsimp only
    simp only [post_ite, post_ok]
    refine ⟨fun _ => Safe.safeRefl m, fun _ => ⟨fun _ => ?_, fun _ => ?_⟩⟩
    · refine post_bind _ _ (Ordinary m) _ ?_ ?_
      · exact post_mono _ _ _ (scanSource_l_ordinary b env generation _)
          (fun _ h => (Ordinary.of_eq (by simp [machine])).trans h)
      · intro a ha
        refine post_mono _ (fun r => machine r = machine a) _ ?_
          (fun r hr => (ha.trans (Ordinary.of_eq hr)).safe)
        simp only [post_ite, post_ok, pure_eq_ok]
        simp [machine, emit, notifyListener, notifyListenerParcel]
    · exact post_mono _ _ _ (scanSources_ordinary b env generation _)
        (fun _ h => ((Ordinary.of_eq (by simp [machine])).trans h).safe)
  | kWhatDecoderNotify audio g reply what => exact absurd rfl (h1 audio g reply what)
  | kWhatRendererNotify g what => exact absurd rfl (h2 g what)
  | kWhatMoreDataQueued => exact (post_ok _ _).2 (Safe.safeRefl m)
  | kWhatReset =>
    exact drain_safe b env m _ (by simp [decoders]) (by simp) (by simp)
  | kWhatSeek seekTimeUs needNotify =>
    unfold onMessageReceived
    dsimp only
    rw [post_ite]
    refine ⟨fun _ => ?_, fun _ => drain_safe b env m _ (by simp [decoders]) (by simp) (by simp)⟩
    refine post_bind _ _ _ _ (onStart_ordinary b env seekTimeUs m) ?_
    intro a ha
    refine (post_ok _ _).2 (ha.trans (Ordinary.of_eq ?_)).safe
    simp [machine, emit, onPause, notifyDriverSeekComplete]
  | kWhatPause =>
    refine (post_ok _ _).2 (hm ?_)
    simp [machine, emit, onPause]
  | kWhatSourceNotify what => exact onSourceNotify_safe b env what m
  | kWhatClosedCaptionNotify what =>
    exact post_mono _ _ _ (onClosedCaptionNotify_machine b env what m) (fun _ h => hm h)

/-- What one message can do to the decoder bookkeeping and to a flush in flight. -/
theorem onMessageReceived_step (b : Build) (env : Env) (msg : Msg) (m : NuPlayer) :
    Post (onMessageReceived b env msg m) (fun a =>
      GenRel m a ∧ ∀ k, Stay k m a ∨ completesFlush k m msg
        ∨ (k = true ∧ restartsAudio m msg)) := by
  by_cases h1 : ∃ a g r w, msg = .kWhatDecoderNotify a g r w
  · obtain ⟨a, g, r, w, rfl⟩ := h1
    intro x hx
    have := decoderNotify_step b env a g r w m x hx
    exact ⟨this.1, fun k => (this.2 k).imp_right Or.inl⟩
  by_cases h2 : ∃ g w, msg = .kWhatRendererNotify g w
  · obtain ⟨g, w, rfl⟩ := h2
    exact rendererNotify_step b env g w m
  by_cases h3 : ∃ r i, msg = .kWhatConfigPlayback r i
  · obtain ⟨r, i, rfl⟩ := h3
    intro x hx
    have := configPlayback_spec b env r i m x hx
    refine ⟨this.1, fun k => ?_⟩
    cases k
    · exact Or.inl this.2.1
    · by_cases hr : restartsAudio m (.kWhatConfigPlayback r i)
      · exact Or.inr (Or.inr ⟨rfl, hr⟩)
      · exact Or.inl (this.2.2 hr)
  intro x hx
  have := otherMessages_safe b env msg m (fun a g r w h => h1 ⟨a, g, r, w, h⟩)
    (fun g w h => h2 ⟨g, w, h⟩) (fun r i h => h3 ⟨r, i, h⟩) x hx
  exact ⟨this.1, fun k => Or.inl (by cases k; exact this.2.2; exact this.2.1)⟩

theorem run_genRel (b : Build) :
    ∀ (msgs : List (Env × Msg)) (m : NuPlayer), Post (run b msgs m) (GenRel m) := by
  intro msgs
  induction msgs with
  | nil => intro m; exact (post_ok _ _).2 (GenRel.relRefl m)
  | cons x rest ih =>
    intro m
    unfold run
    refine post_bind _ _ (GenRel m) _ ?_ ?_
    · exact post_mono _ _ _ (onMessageReceived_step b x.1 x.2 m) (fun _ h => h.1)
    · intro a ha
      exact post_mono _ _ _ (ih a) (fun _ h => ha.relTrans h)

/-- C2: over any run of messages, for each track kind, the decoder generation counter
never decreases; if the decoder handle at the end differs from the one at the start
(it was cleared or replaced), the counter is strictly larger and a decoder held at the
end is tagged with the counter's final value; and once the counter has grown, a decoder
notification tagged with any generation up to the earlier counter value is discarded:
the state is unchanged apart from the reply, if any, posted with INFO_DISCONTINUITY. -/
theorem decoder_generation_monotone (b : Build) (msgs : List (Env × Msg)) (m m1 : NuPlayer)
    (h : run b msgs m = .ok m1) (audio : Bool) :
    decoderGeneration audio m ≤ decoderGeneration audio m1
    ∧ (decoderHandle audio m1 ≠ decoderHandle audio m →
        decoderGeneration audio m < decoderGeneration audio m1
        ∧ ∀ d, decoderHandle audio m1 = some d →
            d.generation = decoderGeneration audio m1)
    ∧ (decoderGeneration audio m < decoderGeneration audio m1 →
        ∀ g, g ≤ decoderGeneration audio m → ∀ env reply what,
          onMessageReceived b env (.kWhatDecoderNotify audio g reply what) m1 =
            .ok (match reply with
                 | none => m1
                 | some r => emit (.postMessage r (some INFO_DISCONTINUITY)) m1)) := by
  have hrel := run_genRel b msgs m m1 h
  have hstep : GenStep audio m m1 := by
    cases audio
    · exact hrel.2
    · exact hrel.1
  refine ⟨?_, ?_, ?_⟩
  · rcases hstep with ⟨h1, _⟩ | ⟨h1, _⟩
    · exact le_of_eq h1.symm
    · exact le_of_lt h1
  · intro hne
    rcases hstep with ⟨_, h2⟩ | h2
    · exact absurd h2 hne
    · exact h2
  · intro hlt g hg env reply what
    have hstale : g ≠ (if audio = true then m1.mAudioDecoderGeneration
        else m1.mVideoDecoderGeneration) := by
      have : g < decoderGeneration audio m1 := lt_of_le_of_lt hg hlt
      unfold decoderGeneration at this
      exact ne_of_lt this
    cases reply <;> simp [onMessageReceived, hstale]

theorem decoder_generation_monotone_witness :
    ∃ m1, run stockBuild (startPlayback.map (fun x => (sampleEnv, x))) (NuPlayer.new 0) = .ok m1
      ∧ decoderGeneration true (NuPlayer.new 0) ≤ decoderGeneration true m1
      ∧ (decoderHandle true m1 ≠ decoderHandle true (NuPlayer.new 0) →
          decoderGeneration true (NuPlayer.new 0) < decoderGeneration true m1
          ∧ ∀ d, decoderHandle true m1 = some d → d.generation = decoderGeneration true m1)
      ∧ (decoderGeneration true (NuPlayer.new 0) < decoderGeneration true m1 →
          ∀ g, g ≤ decoderGeneration true (NuPlayer.new 0) → ∀ env reply what,
            onMessageReceived stockBuild env (.kWhatDecoderNotify true g reply what) m1 =
              .ok (match reply with
                   | none => m1
                   | some r => emit (.postMessage r (some INFO_DISCONTINUITY)) m1)) :=
  ⟨_, rfl, decoder_generation_monotone stockBuild
    (startPlayback.map (fun x => (sampleEnv, x))) (NuPlayer.new 0) _ rfl true⟩

/-- C3 as stated fails on the audio restart path: in the state reached by starting
playback and seeking, the audio track is in FLUSHING_DECODER with neither completion bit
set; an audio tear-down of the current renderer then moves the audio status to FLUSHED
while flushComplete[audio][renderer] is still false. -/
theorem audio_restart_leaves_flush_without_renderer_bit :
    run stockBuild (startAndSeek.map (fun x => (sampleEnv, x))) (NuPlayer.new 0) =
        .ok (reached stockBuild startAndSeek)
    ∧ onMessageReceived stockBuild sampleEnv audioTearDown (reached stockBuild startAndSeek) =
        .ok (reached stockBuild (startAndSeek ++ [audioTearDown]))
    ∧ (reached stockBuild startAndSeek).mRendererGeneration = 1
    ∧ flushStatus true (reached stockBuild startAndSeek) = .FLUSHING_DECODER
    ∧ (reached stockBuild startAndSeek).mFlushComplete.get true true = false
    ∧ (reached stockBuild startAndSeek).mFlushComplete.get true false = false
    ∧ flushStatus true (reached stockBuild (startAndSeek ++ [audioTearDown])) = .FLUSHED
    ∧ (reached stockBuild (startAndSeek ++ [audioTearDown])).mFlushComplete.get true false
        = false :=
  ⟨rfl, rfl, by decide, by decide, by decide, by decide, by decide, by decide⟩

/-- C3 (amended): when handling a message takes the flush status of track k from
FLUSHING_DECODER or FLUSHING_DECODER_SHUTDOWN to a status outside these two, the
message is the second flush completion of k (the decoder's, of the current generation,
with the renderer bit already true, or the renderer's, of the current generation, with
the decoder bit already true), or k is audio and the message makes the controller call
restartAudio (an audio tear-down that is not ignored, or a playback-rate change that
offload cannot serve). -/
theorem flush_left_only_when_complete_or_audio_restart (b : Build) (env : Env) (msg : Msg)
    (m m1 : NuPlayer) (k : Bool) (h : onMessageReceived b env msg m = .ok m1)
    (hin : inFlush (flushStatus k m)) (hout : ¬ inFlush (flushStatus k m1)) :
    completesFlush k m msg ∨ (k = true ∧ restartsAudio m msg) := by
  rcases (onMessageReceived_step b env msg m m1 h).2 k with hs | hc
  · exact absurd (hs hin) hout
  · exact hc

theorem flush_left_only_when_complete_or_audio_restart_witness :
    onMessageReceived stockBuild sampleEnv
        (.kWhatDecoderNotify false 1 none .kWhatFlushCompleted)
        (reached stockBuild
          (startAndSeek ++ [.kWhatRendererNotify 1 (.kWhatFlushComplete false)])) =
      .ok (reached stockBuild
          (startAndSeek ++ [.kWhatRendererNotify 1 (.kWhatFlushComplete false),
            .kWhatDecoderNotify false 1 none .kWhatFlushCompleted]))
    ∧ inFlush (flushStatus false (reached stockBuild
          (startAndSeek ++ [.kWhatRendererNotify 1 (.kWhatFlushComplete false)])))
    ∧ ¬ inFlush (flushStatus false (reached stockBuild
          (startAndSeek ++ [.kWhatRendererNotify 1 (.kWhatFlushComplete false),
            .kWhatDecoderNotify false 1 none .kWhatFlushCompleted])))
    ∧ (completesFlush false (reached stockBuild
            (startAndSeek ++ [.kWhatRendererNotify 1 (.kWhatFlushComplete false)]))
          (.kWhatDecoderNotify false 1 none .kWhatFlushCompleted)
        ∨ (false = true ∧ restartsAudio (reached stockBuild
            (startAndSeek ++ [.kWhatRendererNotify 1 (.kWhatFlushComplete false)]))
          (.kWhatDecoderNotify false 1 none .kWhatFlushCompleted))) :=
  ⟨rfl, by decide, by decide,
   flush_left_only_when_complete_or_audio_restart stockBuild sampleEnv _ _ _ false rfl
     (by decide) (by decide)⟩

/-! ## Runs that return -/

theorem returns_ok {σ : Type} (a : σ) (P : σ → Prop) :
    Returns (Except.ok a : Except Fault σ) P ↔ P a := by
  simp [Returns]

theorem returns_error {σ : Type} (e : Fault) (P : σ → Prop) :
    Returns (Except.error e : Except Fault σ) P ↔ False := by
  simp [Returns]

theorem returns_ite {σ : Type} (c : Prop) [Decidable c] (x y : Except Fault σ)
    (P : σ → Prop) :
    Returns (if c then x else y) P ↔ (c → Returns x P) ∧ (¬ c → Returns y P) := by
  by_cases h : c <;> simp [h]

theorem returns_bind {σ τ : Type} (x : Except Fault σ) (f : σ → Except Fault τ)
    (Q : σ → Prop) (P : τ → Prop) (hx : Returns x Q) (hf : ∀ a, Q a → Returns (f a) P) :
    Returns (x >>= f) P := by
  obtain ⟨a, ha, hq⟩ := hx
  obtain ⟨r, hr, hp⟩ := hf a hq
  exact ⟨r, by rw [ha]; exact hr, hp⟩

theorem returns_mono {σ : Type} (x : Except Fault σ) (Q P : σ → Prop) (hx : Returns x Q)
    (h : ∀ a, Q a → P a) : Returns x P := by
  obtain ⟨a, ha, hq⟩ := hx
  exact ⟨a, ha, h a hq⟩

theorem returns_post {σ : Type} {x : Except Fault σ} {Q P : σ → Prop} (hx : Returns x Q)
    (hp : Post x P) : Returns x (fun a => Q a ∧ P a) := by
  obtain ⟨a, ha, hq⟩ := hx
  exact ⟨a, ha, hq, hp a ha⟩

/-! ## A decoder error during a flush -/

theorem sentCount_emit (e x : Event) (m : NuPlayer) :
    sentCount e (emit x m) = sentCount e m + (if x = e then 1 else 0) := by
  by_cases h : x = e <;> simp [sentCount, events, emit, List.count_singleton, h]

theorem decoderNotify_current (b : Build) (env : Env) (k : Bool) (reply : Option AMessageId)
    (what : DecoderWhat) (m : NuPlayer) :
    onMessageReceived b env (.kWhatDecoderNotify k (decoderGeneration k m) reply what) m =
      onDecoderNotify b env k what m := by
  simp [onMessageReceived, decoderGeneration]

theorem rendererNotify_current (b : Build) (env : Env) (what : RendererWhat) (m : NuPlayer) :
    onMessageReceived b env (.kWhatRendererNotify m.mRendererGeneration what) m =
      onRendererNotify b env what m := by
  simp [onMessageReceived]

theorem count_events_ite (e : Event) (c : Prop) [Decidable c] (x y : List Sent) :
    List.count e (List.map Sent.event (if c then x else y)) =
      if c then List.count e (List.map Sent.event x)
      else List.count e (List.map Sent.event y) := by
  split <;> rfl

theorem notifyListener_shutdownFrame (b : Build) (env : Env) (k : Bool) (msg e1 e2 : Int)
    (m : NuPlayer) :
    flushView k (notifyListener b env msg e1 e2 m) = flushView k m
    ∧ shutdownFrame k (notifyListener b env msg e1 e2 m) = shutdownFrame k m := by
  simp [notifyListener, notifyListenerParcel, shutdownFrame, flushView, flushStatus, getDecoder,
    decoderGeneration, sentCount, events, emit, count_events_ite]

theorem handleForACodecError_shutdownFrame (b : Build) (env : Env) (audio k : Bool)
    (e x : Option Int) (m : NuPlayer) :
    Post (handleForACodecError b env audio e x m) (fun a =>
      flushView k a = flushView k m ∧ shutdownFrame k a = shutdownFrame k m) := by
  unfold handleForACodecError
  cases e with
  | none => simp [post_error]
  | some e =>
    cases x with
    | none => simp [post_ok, notifyListener_shutdownFrame]
    | some x =>
      simp only [post_ite, post_ok, post_error]
      simp [notifyListener, notifyListenerParcel, shutdownFrame, flushView, flushStatus,
        getDecoder, decoderGeneration, sentCount, events, emit, count_events_ite]

theorem handleForACodecError_returns (b : Build) (env : Env) (audio k : Bool) (e : Int)
    (x : Option Int) (m : NuPlayer) (hsrc : m.mSource ≠ none) :
    Returns (handleForACodecError b env audio (some e) x m) (fun a =>
      flushView k a = flushView k m ∧ shutdownFrame k a = shutdownFrame k m) := by
  have h : Returns (handleForACodecError b env audio (some e) x m) (fun _ => True) := by
    unfold handleForACodecError
    cases x with
    | none => simp [returns_ok]
    | some x =>
      simp only [returns_ite, returns_ok, returns_error]
      simp [hsrc, emit]
  exact returns_mono _ _ _
    (returns_post h (handleForACodecError_shutdownFrame b env audio k (some e) x m))
    (fun _ h => h.2)

/-- A decoder error of the current generation while the track is in FLUSHING_DECODER:
the status becomes FLUSHING_DECODER_SHUTDOWN and nothing else of the flush changes. -/
theorem decoderError_in_flush (b : Build) (env : Env) (k : Bool) (e1 e2 : Option Int)
    (m : NuPlayer) (d r : Bool) (n : Nat)
    (hs : flushView k m = (.FLUSHING_DECODER, d, r, n))
    (hmtk : b.MTK_AOSP_ENHANCEMENT = true → m.mSource ≠ none ∧ e1 ≠ none) :
    Returns (onDecoderNotify b env k (.kWhatError e1 e2) m) (fun a =>
      flushView k a = (.FLUSHING_DECODER_SHUTDOWN, d, r, n)
        ∧ shutdownFrame k a = shutdownFrame k m) := by
  unfold onDecoderNotify
  dsimp only
  refine returns_bind _ _ (fun a => flushView k a = (.FLUSHING_DECODER, d, r, n)
    ∧ shutdownFrame k a = shutdownFrame k m) _ ?_ ?_
  · simp only [returns_ite, returns_ok, returns_error, pure_eq_ok]
    have he : ∀ x, flushView k (emit (.renderer x) m) = (.FLUSHING_DECODER, d, r, n)
        ∧ shutdownFrame k (emit (.renderer x) m) = shutdownFrame k m := by
      intro x
      refine ⟨hs ▸ ?_, ?_⟩
      · simp [flushView, flushStatus, sentCount, events, emit]
      · simp [shutdownFrame, getDecoder, decoderGeneration, emit]
    exact ⟨fun h => ⟨fun _ => ⟨fun hn => (hmtk h.1).1 hn, fun _ => ⟨fun _ => he _,
      fun _ => ⟨hs, trivial⟩⟩⟩, fun _ => he _⟩, fun _ => ⟨hs, trivial⟩⟩
  intro a ⟨ha, hfa⟩
  refine returns_bind _ _ (fun a => flushView k a = (.FLUSHING_DECODER_SHUTDOWN, d, r, n)
    ∧ shutdownFrame k a = shutdownFrame k m) _ ?_ ?_
  · simp only [flushView, Prod.mk.injEq] at ha
    obtain ⟨h1, h2, h3, h4⟩ := ha
    cases k
    · simp only [flushStatus, Bool.false_eq_true, if_false] at h1
      simp only [Bool.false_eq_true, if_false, h1, pure_eq_ok, returns_ok]
      refine ⟨?_, hfa ▸ ?_⟩
      · simp [flushView, flushStatus, ← h2, ← h3, ← h4, sentCount, events]
      · simp [shutdownFrame, getDecoder, decoderGeneration]
    · simp only [flushStatus, if_true] at h1
      simp only [if_true, h1, pure_eq_ok, returns_ok]
      refine ⟨?_, hfa ▸ ?_⟩
      · simp [flushView, flushStatus, ← h2, ← h3, ← h4, sentCount, events]
      · simp [shutdownFrame, getDecoder, decoderGeneration]
  intro a2 ⟨ha2, hfa2⟩
  rw [returns_ite]
  refine ⟨fun hb => ?_, fun _ => ?_⟩
  · obtain ⟨hsrc, he⟩ := hmtk hb
    obtain ⟨e, rfl⟩ := Option.ne_none_iff_exists'.1 he
    have hsrc2 : a2.mSource ≠ none := by
      have := congrArg (fun t => t.2.2.2) hfa2
      simp only [shutdownFrame] at this
      rw [this]; exact hsrc
    exact returns_mono _ _ _ (handleForACodecError_returns b env k k e e2 a2 hsrc2)
      (fun r hr => ⟨hr.1.trans ha2, hr.2.trans hfa2⟩)
  · rw [pure_eq_ok, returns_ok]
    exact ⟨(notifyListener_shutdownFrame b env k _ _ _ a2).1.trans ha2,
      (notifyListener_shutdownFrame b env k _ _ _ a2).2.trans hfa2⟩

/-- The first of the two flush completions of a track whose flush is in flight: its
bit is set and nothing else of the flush changes. -/
theorem completion_first (b : Build) (env : Env) (k isDecoder : Bool) (m : NuPlayer)
    (s : FlushStatus) (d r : Bool) (n : Nat) (hv : flushView k m = (s, d, r, n))
    (hs : inFlush s) (hother : m.mFlushComplete.get k (!isDecoder) = false) :
    Returns (handleFlushComplete k isDecoder m >>= finishFlushIfPossible b env) (fun a =>
      flushView k a = (s, (d || isDecoder), (r || !isDecoder), n)
        ∧ shutdownFrame k a = shutdownFrame k m) := by
  simp only [flushView, Prod.mk.injEq] at hv
  obtain ⟨h1, h2, h3, h4⟩ := hv
  have hfirst : handleFlushComplete k isDecoder m =
      .ok { m with mFlushComplete := m.mFlushComplete.set k isDecoder true } := by
    unfold handleFlushComplete
    cases k <;> cases isDecoder <;>
      simp_all [FlushComplete.get, FlushComplete.set]
  rw [hfirst, ok_bind]
  have hblocked := finishFlushIfPossible_blocked b env k
    { m with mFlushComplete := m.mFlushComplete.set k isDecoder true } (by
      have : flushStatus k { m with mFlushComplete := m.mFlushComplete.set k isDecoder true }
          = s := by rw [← h1]; simp [flushStatus]
      rw [this]
      rcases hs with h | h <;> simp [h])
  rw [hblocked, returns_ok]
  refine ⟨?_, ?_⟩
  · subst h1 h2 h3 h4
    cases k <;> cases isDecoder <;>
      simp_all [flushView, flushStatus, sentCount, events, FlushComplete.get, FlushComplete.set]
  · simp [shutdownFrame, getDecoder, decoderGeneration]

/-- The second flush completion of a track in FLUSHING_DECODER_SHUTDOWN: the decoder
is told to shut down, once, and the status becomes SHUTTING_DOWN_DECODER. -/
theorem completion_second (b : Build) (env : Env) (k isDecoder : Bool) (m : NuPlayer)
    (d r : Bool) (n : Nat)
    (hv : flushView k m = (.FLUSHING_DECODER_SHUTDOWN, d, r, n))
    (hother : m.mFlushComplete.get k (!isDecoder) = true) (hdec : getDecoder k m ≠ none) :
    Returns (handleFlushComplete k isDecoder m >>= finishFlushIfPossible b env) (fun a =>
      flushView k a = (.SHUTTING_DOWN_DECODER, (d || isDecoder), (r || !isDecoder), n + 1)
        ∧ shutdownFrame k a = shutdownFrame k m) := by
  simp only [flushView, Prod.mk.injEq] at hv
  obtain ⟨h1, h2, h3, h4⟩ := hv
  refine returns_bind _ _ (fun a =>
    flushView k a = (.SHUTTING_DOWN_DECODER, (d || isDecoder), (r || !isDecoder), n + 1)
      ∧ shutdownFrame k a = shutdownFrame k m) _ ?_ ?_
  · unfold handleFlushComplete
    subst h2 h3 h4
    cases k
    · simp only [flushStatus, Bool.false_eq_true, if_false] at h1
      cases isDecoder <;>
        simp_all [flushView, shutdownFrame, flushStatus, getDecoder, decoderGeneration,
          sentCount, events, emit, FlushComplete.get, FlushComplete.set, returns_ite,
          returns_ok, returns_error, count_events_ite]
    · simp only [flushStatus, if_true] at h1
      cases isDecoder <;>
        simp_all [flushView, shutdownFrame, flushStatus, getDecoder, decoderGeneration,
          sentCount, events, emit, FlushComplete.get, FlushComplete.set, returns_ite,
          returns_ok, returns_error, count_events_ite]
  · intro a ⟨ha, hfa⟩
    have hblocked := finishFlushIfPossible_blocked b env k a (by
      have : flushStatus k a = .SHUTTING_DOWN_DECODER := by
        have := congrArg (fun t => t.1) ha
        simpa [flushView] using this
      rw [this]; simp)
    rw [hblocked, returns_ok]
    exact ⟨ha, hfa⟩

theorem stepError (b : Build) (env : Env) (k : Bool) (e1 e2 : Option Int) (m a : NuPlayer)
    (d r : Bool) (n : Nat) (hf : shutdownFrame k a = shutdownFrame k m)
    (hv : flushView k a = (.FLUSHING_DECODER, d, r, n))
    (hmtk : b.MTK_AOSP_ENHANCEMENT = true → m.mSource ≠ none ∧ e1 ≠ none) :
    Returns (onMessageReceived b env (decoderError k m e1 e2) a) (fun a1 =>
      flushView k a1 = (.FLUSHING_DECODER_SHUTDOWN, d, r, n)
        ∧ shutdownFrame k a1 = shutdownFrame k m) := by
  simp only [shutdownFrame, Prod.mk.injEq] at hf
  obtain ⟨f1, f2, f3, f4⟩ := hf
  unfold decoderError
  rw [← f2, decoderNotify_current]
  refine returns_mono _ _ _ (decoderError_in_flush b env k e1 e2 a d r n hv
    (fun hb => ⟨f4 ▸ (hmtk hb).1, (hmtk hb).2⟩)) (fun a1 h => ⟨h.1, h.2.trans ?_⟩)
  simp [shutdownFrame, f1, f2, f3, f4]

theorem rendererFlushComplete_eq (b : Build) (env : Env) (k : Bool) (a : NuPlayer)
    (hs : inFlush (flushStatus k a)) :
    ∃ a0, onRendererNotify b env (.kWhatFlushComplete k) a =
        (handleFlushComplete k false a0 >>= finishFlushIfPossible b env)
      ∧ flushView k a0 = flushView k a ∧ shutdownFrame k a0 = shutdownFrame k a
      ∧ a0.mFlushComplete = a.mFlushComplete := by
  refine ⟨if k = true then { a with mAudioEOS := false } else { a with mVideoEOS := false },
    ?_, ?_, ?_, ?_⟩
  · unfold onRendererNotify
    dsimp only
    rw [if_neg]
    intro ⟨hk, h⟩
    subst hk
    simp only [if_true, flushStatus] at h hs
    rcases hs with h1 | h1 <;> simp [h1] at h
  · cases k <;> simp [flushView, flushStatus, sentCount, events]
  · cases k <;> simp [shutdownFrame, getDecoder, decoderGeneration]
  · cases k <;> simp

theorem stepCompletion (b : Build) (env : Env) (k isDecoder : Bool) (m a : NuPlayer)
    (s : FlushStatus) (d r : Bool) (n : Nat) (hf : shutdownFrame k a = shutdownFrame k m)
    (hv : flushView k a = (s, d, r, n)) (hdec : getDecoder k m ≠ none)
    (hs : s = .FLUSHING_DECODER_SHUTDOWN
      ∨ (s = .FLUSHING_DECODER ∧ (if isDecoder = true then r else d) = false)) :
    Returns (onMessageReceived b env
        (if isDecoder = true then decoderFlushed k m else rendererFlushed k m) a) (fun a1 =>
      flushView k a1 =
          (if (if isDecoder = true then r else d) = true then .SHUTTING_DOWN_DECODER else s,
           (d || isDecoder), (r || !isDecoder),
           if (if isDecoder = true then r else d) = true then n + 1 else n)
        ∧ shutdownFrame k a1 = shutdownFrame k m) := by
  have hin : inFlush s := by
    rcases hs with h | h
    · exact Or.inr h
    · exact Or.inl h.1
  have hfl : flushStatus k a = s := by
    have := congrArg (fun t => t.1) hv
    simpa [flushView] using this
  have hfv := hv
  simp only [flushView, Prod.mk.injEq] at hv
  obtain ⟨_, v2, v3, _⟩ := hv
  have hf' := hf
  simp only [shutdownFrame, Prod.mk.injEq] at hf
  obtain ⟨f1, f2, f3, f4⟩ := hf
  -- the handler is handleFlushComplete followed by finishFlushIfPossible on a state
  -- with the same flush view
  obtain ⟨a0, heq, hv0, hf0, hb0⟩ : ∃ a0, onMessageReceived b env
      (if isDecoder = true then decoderFlushed k m else rendererFlushed k m) a =
        (handleFlushComplete k isDecoder a0 >>= finishFlushIfPossible b env)
      ∧ flushView k a0 = flushView k a ∧ shutdownFrame k a0 = shutdownFrame k a
      ∧ a0.mFlushComplete = a.mFlushComplete := by
    cases isDecoder
    · simp only [Bool.false_eq_true, if_false]
      unfold rendererFlushed
      rw [← f3, rendererNotify_current]
      exact rendererFlushComplete_eq b env k a (hfl ▸ hin)
    · simp only [if_true]
      unfold decoderFlushed
      rw [← f2, decoderNotify_current]
      exact ⟨a, rfl, rfl, rfl, rfl⟩
  rw [heq]
  have hother : a0.mFlushComplete.get k (!isDecoder) = (if isDecoder = true then r else d) := by
    rw [hb0]
    cases isDecoder
    · simpa using v2
    · simpa using v3
  by_cases hc : (if isDecoder = true then r else d) = true
  · have hs2 : s = .FLUSHING_DECODER_SHUTDOWN := by
      rcases hs with h | h
      · exact h
      · rw [hc] at h; exact absurd h.2 (by simp)
    subst hs2
    simp only [hc, if_true]
    refine returns_mono _ _ _ (completion_second b env k isDecoder a0 d r n (hv0.trans hfv)
      (hother.trans hc) ?_) (fun a1 h => ⟨h.1, h.2.trans (hf0.trans hf')⟩)
    have := congrArg (fun t => t.1) hf0
    simp only [shutdownFrame] at this
    rw [this, f1]; exact hdec
  · simp only [hc, if_false]
    refine returns_mono _ _ _ (completion_first b env k isDecoder a0 s d r n (hv0.trans hfv)
      hin ?_) (fun a1 h => ⟨h.1, h.2.trans (hf0.trans hf')⟩)
    rw [hother]
    simpa using hc

theorem run_cons_returns (b : Build) (env : Env) (msg : Msg) (rest : List (Env × Msg))
    (m : NuPlayer) (Q P : NuPlayer → Prop) (h : Returns (onMessageReceived b env msg m) Q)
    (hrest : ∀ a, Q a → Returns (run b rest a) P) :
    Returns (run b ((env, msg) :: rest) m) P :=
  returns_bind _ _ Q P h hrest

theorem run_nil_returns (b : Build) (m : NuPlayer) (P : NuPlayer → Prop) (h : P m) :
    Returns (run b [] m) P :=
  ⟨m, rfl, h⟩

/-- C8: a decoder error of the current generation for a track in FLUSHING_DECODER is
handled by moving the track to FLUSHING_DECODER_SHUTDOWN without sending
initiateShutdown (in the vendor build the source must be set and the notification must
carry "err"); and if neither completion bit of the track was set and its decoder is
live, then in each of the four orders in which the error, the decoder's flush-completed
and the renderer's flush-complete can be handled with the error before the second
completion, the run ends with the status SHUTTING_DOWN_DECODER and exactly one more
initiateShutdown sent to that decoder. -/
theorem decoder_error_during_flush_shuts_down_once (b : Build) (env0 env1 env2 : Env)
    (k : Bool) (e1 e2 : Option Int) (m : NuPlayer)
    (hs : flushStatus k m = .FLUSHING_DECODER)
    (hmtk : b.MTK_AOSP_ENHANCEMENT = true → m.mSource ≠ none ∧ e1 ≠ none) :
    (∃ m1, onMessageReceived b env0 (decoderError k m e1 e2) m = .ok m1
      ∧ flushStatus k m1 = .FLUSHING_DECODER_SHUTDOWN ∧ shutdowns k m1 = shutdowns k m)
    ∧ (m.mFlushComplete.get k true = false → m.mFlushComplete.get k false = false →
        getDecoder k m ≠ none →
        ∀ order, order ∈
          [[decoderError k m e1 e2, decoderFlushed k m, rendererFlushed k m],
           [decoderError k m e1 e2, rendererFlushed k m, decoderFlushed k m],
           [decoderFlushed k m, decoderError k m e1 e2, rendererFlushed k m],
           [rendererFlushed k m, decoderError k m e1 e2, decoderFlushed k m]] →
        ∃ m3, run b (List.zip [env0, env1, env2] order) m = .ok m3
          ∧ flushStatus k m3 = .SHUTTING_DOWN_DECODER
          ∧ shutdowns k m3 = shutdowns k m + 1) := by
  have view : ∀ a s d r n, flushView k a = (s, d, r, n) →
      flushStatus k a = s ∧ shutdowns k a = n := by
    intro a s d r n h
    simp only [flushView, Prod.mk.injEq] at h
    exact ⟨h.1, h.2.2.2⟩
  constructor
  · obtain ⟨m1, h1, hv, _⟩ := stepError b env0 k e1 e2 m m
      (m.mFlushComplete.get k true) (m.mFlushComplete.get k false) (shutdowns k m) rfl
      (by simp [flushView, hs, shutdowns]) hmtk
    exact ⟨m1, h1, (view _ _ _ _ _ hv).1, (view _ _ _ _ _ hv).2⟩
  · intro hd hr hdec order horder
    have hv0 : flushView k m = (.FLUSHING_DECODER, false, false, shutdowns k m) := by
      simp [flushView, hs, hd, hr, shutdowns]
    have fin : ∀ a, (flushView k a = (.SHUTTING_DOWN_DECODER, true, true, shutdowns k m + 1)
        ∧ shutdownFrame k a = shutdownFrame k m) →
        Returns (run b [] a) (fun m3 => flushStatus k m3 = .SHUTTING_DOWN_DECODER
          ∧ shutdowns k m3 = shutdowns k m + 1) :=
      fun a h => run_nil_returns b a _ (view _ _ _ _ _ h.1)
    have hD := fun env a s d r n =>
      stepCompletion b env k true m a s d r n
    have hR := fun env a s d r n =>
      stepCompletion b env k false m a s d r n
    simp only [if_true, Bool.false_eq_true, if_false] at hD hR
    have hE := fun env a d r n => stepError b env k e1 e2 m a d r n
    suffices h : Returns (run b (List.zip [env0, env1, env2] order) m)
        (fun m3 => flushStatus k m3 = .SHUTTING_DOWN_DECODER
          ∧ shutdowns k m3 = shutdowns k m + 1) by
      obtain ⟨m3, h3, hp⟩ := h
      exact ⟨m3, h3, hp⟩
    simp only [List.mem_cons, List.mem_singleton, List.not_mem_nil, or_false] at horder
    rcases horder with rfl | rfl | rfl | rfl
    · refine run_cons_returns b _ _ _ m _ _ (hE env0 m _ _ _ rfl hv0 hmtk) (fun a1 h1 => ?_)
      refine run_cons_returns b _ _ _ a1 _ _
        (hD env1 a1 _ _ _ _ h1.2 h1.1 hdec (Or.inl rfl)) (fun a2 h2 => ?_)
      refine run_cons_returns b _ _ _ a2 _ _
        (hR env2 a2 _ _ _ _ h2.2 h2.1 hdec (Or.inl rfl)) (fun a3 h3 => ?_)
      exact fin a3 (by simpa using h3)
    · refine run_cons_returns b _ _ _ m _ _ (hE env0 m _ _ _ rfl hv0 hmtk) (fun a1 h1 => ?_)
      refine run_cons_returns b _ _ _ a1 _ _
        (hR env1 a1 _ _ _ _ h1.2 h1.1 hdec (Or.inl rfl)) (fun a2 h2 => ?_)
      refine run_cons_returns b _ _ _ a2 _ _
        (hD env2 a2 _ _ _ _ h2.2 h2.1 hdec (Or.inl rfl)) (fun a3 h3 => ?_)
      exact fin a3 (by simpa using h3)
    · refine run_cons_returns b _ _ _ m _ _
        (hD env0 m _ _ _ _ rfl hv0 hdec (Or.inr ⟨rfl, rfl⟩)) (fun a1 h1 => ?_)
      refine run_cons_returns b _ _ _ a1 _ _
        (hE env1 a1 _ _ _ h1.2 (by simpa using h1.1) hmtk) (fun a2 h2 => ?_)
      refine run_cons_returns b _ _ _ a2 _ _
        (hR env2 a2 _ _ _ _ h2.2 h2.1 hdec (Or.inl rfl)) (fun a3 h3 => ?_)
      exact fin a3 (by simpa using h3)
    · refine run_cons_returns b _ _ _ m _ _
        (hR env0 m _ _ _ _ rfl hv0 hdec (Or.inr ⟨rfl, rfl⟩)) (fun a1 h1 => ?_)
      refine run_cons_returns b _ _ _ a1 _ _
        (hE env1 a1 _ _ _ h1.2 (by simpa using h1.1) hmtk) (fun a2 h2 => ?_)
      refine run_cons_returns b _ _ _ a2 _ _
        (hD env2 a2 _ _ _ _ h2.2 h2.1 hdec (Or.inl rfl)) (fun a3 h3 => ?_)
      exact fin a3 (by simpa using h3)

theorem decoder_error_during_flush_shuts_down_once_witness :
    flushStatus false (reached stockBuild startAndSeek) = .FLUSHING_DECODER
    ∧ (∃ m1, onMessageReceived stockBuild sampleEnv
          (decoderError false (reached stockBuild startAndSeek) (some (-1)) none)
          (reached stockBuild startAndSeek) = .ok m1
        ∧ flushStatus false m1 = .FLUSHING_DECODER_SHUTDOWN
        ∧ shutdowns false m1 = shutdowns false (reached stockBuild startAndSeek))
    ∧ (∃ m3, run stockBuild (List.zip [sampleEnv, sampleEnv, sampleEnv]
          [decoderError false (reached stockBuild startAndSeek) (some (-1)) none,
           rendererFlushed false (reached stockBuild startAndSeek),
           decoderFlushed false (reached stockBuild startAndSeek)])
          (reached stockBuild startAndSeek) = .ok m3
        ∧ flushStatus false m3 = .SHUTTING_DOWN_DECODER
        ∧ shutdowns false m3 = shutdowns false (reached stockBuild startAndSeek) + 1) :=
  ⟨by decide,
   (decoder_error_during_flush_shuts_down_once stockBuild sampleEnv sampleEnv sampleEnv false
      (some (-1)) none (reached stockBuild startAndSeek) (by decide) (by decide)).1,
   (decoder_error_during_flush_shuts_down_once stockBuild sampleEnv sampleEnv sampleEnv false
      (some (-1)) none (reached stockBuild startAndSeek) (by decide) (by decide)).2
      (by decide) (by decide) (by decide) _ (by simp)⟩

/-! ## The seek scenario -/

theorem processDeferredActions_of_flushing (b : Build) (env : Env) (m : NuPlayer)
    (h : flushing m) : processDeferredActions b env m = .ok m :=
  loop_of_flushing b env _ m h

theorem processDeferredActions_of_nil (b : Build) (env : Env) (m : NuPlayer)
    (h : m.mDeferredActions = []) : processDeferredActions b env m = .ok m :=
  loop_of_nil b env _ m h

/-- Handling a seek while started, with both decoders live, no flush in flight and an
empty queue: both decoders are told to flush, nothing else is sent, and the seek and the
resume stay queued. -/
theorem seek_step (b : Build) (env : Env) (t : Int) (n : Bool) (m : NuPlayer)
    (hst : m.mStarted = true) (hA : m.mAudioDecoder ≠ none) (hV : m.mVideoDecoder ≠ none)
    (hR : m.mRenderer ≠ none) (hfa : m.mFlushingAudio = .NONE)
    (hfv : m.mFlushingVideo = .NONE) (hq : m.mDeferredActions = []) :
    Returns (onMessageReceived b env (.kWhatSeek t n) m) (fun a =>
      seekFrame a = seekFrame m
      ∧ a.mDeferredActions = [.SeekAction t, .ResumeDecoderAction n]
          ++ (if m.mScanSourcesPending = true then [.SimpleAction .performScanSources] else [])
      ∧ events a = events m ++ [.decoder true .signalFlush, .decoder false .signalFlush]
      ∧ a.mFlushingAudio = .FLUSHING_DECODER ∧ a.mFlushingVideo = .FLUSHING_DECODER
      ∧ a.mFlushComplete = ⟨false, false, false, false⟩) := by
  unfold onMessageReceived
  dsimp only
  rw [if_neg (by simp [hst])]
  rw [processDeferredActions_cons b env _ (.FlushDecoderAction .FLUSH_CMD_FLUSH .FLUSH_CMD_FLUSH)
    [.SeekAction t, .ResumeDecoderAction n] (by simp [hq]) (by simp [flushing, hfa, hfv])]
  simp only [Action.execute, ok_bind]
  rw [processDeferredActions_of_flushing]
  · rw [returns_ok]
    by_cases hp : m.mScanSourcesPending = true <;>
      simp [performDecoderFlush, flushDecoder, getDecoder, emit, events, seekFrame, hA, hV, hR,
        hfa, hfv, hp, FlushComplete.set]
  · simp [flushing, performDecoderFlush, flushDecoder, getDecoder, emit, hA, hV, hfa, hfv]

theorem handleFlushComplete_audio (d : Bool) (a : NuPlayer)
    (h : a.mFlushingAudio = .FLUSHING_DECODER) :
    handleFlushComplete true d a =
      .ok { a with mFlushComplete := a.mFlushComplete.set true d true,
                   mFlushingAudio := if a.mFlushComplete.get true (!d) = true then .FLUSHED
                                     else .FLUSHING_DECODER } := by
  unfold handleFlushComplete
  cases d <;> by_cases hb : a.mFlushComplete.audioDecoder = true <;>
    by_cases hc : a.mFlushComplete.audioRenderer = true <;>
    simp [FlushComplete.get, FlushComplete.set, h, hb, hc]

theorem handleFlushComplete_video (d : Bool) (a : NuPlayer)
    (h : a.mFlushingVideo = .FLUSHING_DECODER) :
    handleFlushComplete false d a =
      .ok { a with mFlushComplete := a.mFlushComplete.set false d true,
                   mFlushingVideo := if a.mFlushComplete.get false (!d) = true then .FLUSHED
                                     else .FLUSHING_DECODER } := by
  unfold handleFlushComplete
  cases d <;> by_cases hb : a.mFlushComplete.videoDecoder = true <;>
    by_cases hc : a.mFlushComplete.videoRenderer = true <;>
    simp [FlushComplete.get, FlushComplete.set, h, hb, hc]

/-- The handler of a flush completion, for a track that is in FLUSHING_DECODER, is
handleFlushComplete followed by finishFlushIfPossible, on a state that differs from the
given one in an EOS flag at most. -/
theorem completion_handler (b : Build) (env : Env) (m a : NuPlayer) (k d : Bool)
    (hf : seekFrame a = seekFrame m) (hs : flushStatus k a = .FLUSHING_DECODER) :
    ∃ a0, onMessageReceived b env (completion m (k, d)) a =
        (handleFlushComplete k d a0 >>= finishFlushIfPossible b env)
      ∧ seekFrame a0 = seekFrame a ∧ a0.mDeferredActions = a.mDeferredActions
      ∧ a0.trace = a.trace ∧ a0.mFlushingAudio = a.mFlushingAudio
      ∧ a0.mFlushingVideo = a.mFlushingVideo ∧ a0.mFlushComplete = a.mFlushComplete
      ∧ a0.mResumePending = a.mResumePending := by
  simp only [seekFrame, Prod.mk.injEq] at hf
  obtain ⟨_, _, g1, g2, _, g3, _, _, _⟩ := hf
  cases d
  · have hm : completion m (k, false) = .kWhatRendererNotify a.mRendererGeneration
        (.kWhatFlushComplete k) := by
      simp [completion, rendererFlushed, g3]
    rw [hm, rendererNotify_current]
    refine ⟨if k = true then { a with mAudioEOS := false } else { a with mVideoEOS := false },
      ?_, ?_⟩
    · unfold onRendererNotify
      dsimp only
      rw [if_neg]
      intro ⟨hk, h⟩
      subst hk
      simp only [if_true, flushStatus] at h hs
      simp [hs] at h
    · cases k <;> simp [seekFrame]
  · have hm : completion m (k, true) = .kWhatDecoderNotify k (decoderGeneration k a) none
        .kWhatFlushCompleted := by
      cases k <;> simp [completion, decoderFlushed, decoderGeneration, g1, g2]
    rw [hm, decoderNotify_current]
    exact ⟨a, rfl, rfl, rfl, rfl, rfl, rfl, rfl, rfl⟩

theorem seekPending_status (m : NuPlayer) (q : List Action) (a : NuPlayer) (k d : Bool)
    (h : SeekPending m q a) (hb : a.mFlushComplete.get k d = false) :
    flushStatus k a = .FLUSHING_DECODER := by
  obtain ⟨_, _, _, h4, h5⟩ := h
  cases k <;> cases d <;> simp_all [flushStatus, FlushComplete.get]

/-- A flush completion that is not the last of the four outstanding ones sets its bit;
the queue stays as it is and nothing is sent. -/
theorem completion_pending (b : Build) (env : Env) (m : NuPlayer) (q : List Action)
    (a : NuPlayer) (c c2 : Bool × Bool) (h : SeekPending m q a)
    (hb : a.mFlushComplete.get c.1 c.2 = false) (hne : c2 ≠ c)
    (hb2 : a.mFlushComplete.get c2.1 c2.2 = false) :
    Returns (onMessageReceived b env (completion m c) a) (fun a1 =>
      SeekPending m q a1 ∧ a1.mFlushComplete = a.mFlushComplete.set c.1 c.2 true
        ∧ a1.mResumePending = a.mResumePending) := by
  obtain ⟨k, d⟩ := c
  obtain ⟨k2, d2⟩ := c2
  have hs := seekPending_status m q a k d h hb
  have hs2 := seekPending_status m q a k2 d2 h hb2
  obtain ⟨hf, hq, ht, h4, h5⟩ := h
  obtain ⟨a0, heq, f0, q0, t0, sa0, sv0, fc0, rp0⟩ := completion_handler b env m a k d hf hs
  rw [heq]
  dsimp only at hb hb2
  cases k
  · -- a video completion
    simp only [flushStatus, Bool.false_eq_true, if_false] at hs
    rw [handleFlushComplete_video d a0 (sv0.trans hs), ok_bind]
    rw [finishFlushIfPossible_blocked b env (if a0.mFlushComplete.get false (!d) = true
      then true else false)]
    · rw [returns_ok]
      refine ⟨⟨f0.trans hf, q0.trans hq, t0.trans ht, ?_, ?_⟩, by rw [fc0], rp0⟩
      · rw [fc0]; dsimp only; rw [sa0, h4]
        cases d <;> simp [FlushComplete.set]
      · rw [fc0]; dsimp only
        cases d <;> simp [FlushComplete.get, FlushComplete.set] at hb ⊢
    · by_cases ho : a0.mFlushComplete.get false (!d) = true
      · -- the video track is flushed: the other outstanding completion is an audio one
        have hk2 : k2 = true := by
          rw [fc0] at ho
          cases k2
          · exfalso
            cases d <;> cases d2 <;> simp [FlushComplete.get] at ho hb hb2 hne <;> simp_all
          · rfl
        subst hk2
        simp only [flushStatus, if_true] at hs2
        simp [ho, flushStatus, sa0, hs2]
      · simp [ho, flushStatus]
  · -- an audio completion
    simp only [flushStatus, if_true] at hs
    rw [handleFlushComplete_audio d a0 (sa0.trans hs), ok_bind]
    rw [finishFlushIfPossible_blocked b env (if a0.mFlushComplete.get true (!d) = true
      then false else true)]
    · rw [returns_ok]
      refine ⟨⟨f0.trans hf, q0.trans hq, t0.trans ht, ?_, ?_⟩, by rw [fc0], rp0⟩
      · rw [fc0]; dsimp only
        cases d <;> simp [FlushComplete.get, FlushComplete.set] at hb ⊢
      · rw [fc0]; dsimp only; rw [sv0, h5]
        cases d <;> simp [FlushComplete.set]
    · by_cases ho : a0.mFlushComplete.get true (!d) = true
      · have hk2 : k2 = false := by
          rw [fc0] at ho
          cases k2
          · rfl
          · exfalso
            cases d <;> cases d2 <;> simp [FlushComplete.get] at ho hb hb2 hne <;> simp_all
        subst hk2
        simp only [flushStatus, Bool.false_eq_true, if_false] at hs2
        simp [ho, flushStatus, sv0, hs2]
      · simp [ho, flushStatus]

theorem performSeek_returns (b : Build) (t : Int) (m : NuPlayer) (hsrc : m.mSource ≠ none)
    (hmtk : b.MTK_AOSP_ENHANCEMENT = true → t ≠ -1) :
    Returns (performSeek b t m) (fun a =>
      seekFrame a = seekFrame m ∧ a.mDeferredActions = m.mDeferredActions
      ∧ events a = events m ++ [.source (.seekTo t)]
      ∧ a.mFlushingAudio = m.mFlushingAudio ∧ a.mFlushingVideo = m.mFlushingVideo
      ∧ a.mResumePending = m.mResumePending) := by
  unfold performSeek
  rw [if_neg hsrc]
  by_cases hb : b.MTK_AOSP_ENHANCEMENT = true
  · simp [hb, performSeek_l, hmtk hb, hsrc, returns_ok, returns_error, seekFrame, emit, events]
  · simp [hb, returns_ok, seekFrame, emit, events]

/-- The drain after the flush of a seek: the source is told to seek, then the decoders
are told to resume, the video decoder with the notify flag. -/
theorem drain_seek_resume (b : Build) (env : Env) (t : Int) (n p : Bool) (a : NuPlayer)
    (hq : a.mDeferredActions = [.SeekAction t, .ResumeDecoderAction n]
      ++ (if p = true then [.SimpleAction .performScanSources] else []))
    (hfa : a.mFlushingAudio = .NONE) (hfv : a.mFlushingVideo = .NONE)
    (hsrc : a.mSource ≠ none) (hA : a.mAudioDecoder ≠ none) (hV : a.mVideoDecoder ≠ none)
    (hmtk : b.MTK_AOSP_ENHANCEMENT = true → t ≠ -1) :
    Returns (processDeferredActions b env a) (fun a1 =>
      seekFrame a1 = seekFrame a ∧ a1.mDeferredActions = []
      ∧ events a1 = events a ++ [.source (.seekTo t), .decoder false (.signalResume n),
          .decoder true (.signalResume false)]
      ∧ a1.mFlushingAudio = .NONE ∧ a1.mFlushingVideo = .NONE
      ∧ (n = true → a1.mResumePending = true)) := by
  have hq0 : a.mDeferredActions = .SeekAction t :: (.ResumeDecoderAction n ::
      (if p = true then [.SimpleAction .performScanSources] else [])) := by
    rw [hq]; rfl
  rw [processDeferredActions_cons b env a _ _ hq0 (by simp [flushing, hfa, hfv])]
  refine returns_bind _ _ _ _ (performSeek_returns b t _ hsrc hmtk) ?_
  intro a1 ⟨f1, q1, e1, sa1, sv1, _⟩
  dsimp only at q1 e1 sa1 sv1
  simp only [seekFrame, Prod.mk.injEq] at f1
  obtain ⟨d1, d2, g1, g2, r1, g3, s1, dr1, st1⟩ := f1
  rw [processDeferredActions_cons b env a1 _ _ q1 (by simp [flushing, sa1, sv1, hfa, hfv])]
  simp only [Action.execute, ok_bind]
  have hA1 : a1.mAudioDecoder ≠ none := by rw [d1]; exact hA
  have hV1 : a1.mVideoDecoder ≠ none := by rw [d2]; exact hV
  have key : ∀ x : NuPlayer, performResumeDecoders b env n
      { a1 with mDeferredActions := if p = true then [.SimpleAction .performScanSources]
                                    else [] } = x →
      seekFrame x = seekFrame a ∧ events x = events a ++ [.source (.seekTo t),
          .decoder false (.signalResume n), .decoder true (.signalResume false)]
      ∧ x.mFlushingAudio = .NONE ∧ x.mFlushingVideo = .NONE
      ∧ (n = true → x.mResumePending = true)
      ∧ x.mDeferredActions = (if p = true then [.SimpleAction .performScanSources] else [])
      ∧ x.mAudioDecoder ≠ none ∧ x.mVideoDecoder ≠ none := by
    intro x hx
    subst hx
    simp only [events] at e1
    cases n <;>
      simp [performResumeDecoders, hA1, hV1, emit, events, seekFrame, e1, d1, d2, g1, g2, r1,
        g3, s1, dr1, st1, sa1, sv1, hfa, hfv, hA, hV]
  generalize hx : performResumeDecoders b env n
      { a1 with mDeferredActions := if p = true then [.SimpleAction .performScanSources]
                                    else [] } = x
  obtain ⟨k1, k2, k3, k4, k5, k6, k7, k8⟩ := key x hx
  by_cases hp : p = true
  · simp only [hp, if_true] at k6
    rw [processDeferredActions_cons b env x _ _ k6 (by simp [flushing, k3, k4])]
    simp only [Action.execute, ok_bind]
    have hscan : performScanSources { x with mDeferredActions := [] }
        = { x with mDeferredActions := [] } := by
      simp [performScanSources, k7, k8]
    rw [hscan, processDeferredActions_of_nil b env _ rfl, returns_ok]
    exact ⟨k1, rfl, k2, k3, k4, k5⟩
  · simp only [hp, if_false] at k6
    rw [processDeferredActions_of_nil b env _ k6, returns_ok]
    exact ⟨k1, k6, k2, k3, k4, k5⟩

theorem finishFlush_flushed (b : Build) (env : Env) (x : NuPlayer)
    (hfa : x.mFlushingAudio = .FLUSHED) (hfv : x.mFlushingVideo = .FLUSHED)
    (hA : x.mAudioDecoder ≠ none) (hV : x.mVideoDecoder ≠ none) (hR : x.mRenderer ≠ none) :
    ∃ y, finishFlushIfPossible b env x = processDeferredActions b env y
      ∧ seekFrame y = seekFrame x ∧ y.mDeferredActions = x.mDeferredActions
      ∧ events y = events x
          ++ (if b.MTK_AOSP_ENHANCEMENT = true then [.renderer .setFlagHasVideoAudio] else [])
      ∧ y.mFlushingAudio = .NONE ∧ y.mFlushingVideo = .NONE := by
  unfold finishFlushIfPossible
  rw [if_neg (by simp [hfa]), if_neg (by simp [hfv])]
  by_cases hb : b.MTK_AOSP_ENHANCEMENT = true
  · rw [if_pos ⟨hb, hA, hfa, hV, hfv⟩, if_neg hR]
    simp only [pure_eq_ok, ok_bind]
    exact ⟨_, rfl, by simp [seekFrame, clearFlushComplete, emit],
      by simp [clearFlushComplete, emit], by simp [events, clearFlushComplete, emit, hb],
      by simp [clearFlushComplete], by simp [clearFlushComplete]⟩
  · rw [if_neg (by simp [hb])]
    simp only [pure_eq_ok, ok_bind]
    exact ⟨_, rfl, by simp [seekFrame, clearFlushComplete],
      by simp [clearFlushComplete], by simp [events, clearFlushComplete, hb],
      by simp [clearFlushComplete], by simp [clearFlushComplete]⟩

/-- The last of the four flush completions: both tracks are flushed, so the statuses
return to NONE and the queued seek and resume are executed in this step. -/
theorem completion_last (b : Build) (env : Env) (m : NuPlayer) (t : Int) (n p : Bool)
    (a : NuPlayer) (c : Bool × Bool)
    (h : SeekPending m ([.SeekAction t, .ResumeDecoderAction n]
      ++ (if p = true then [.SimpleAction .performScanSources] else [])) a)
    (hb : a.mFlushComplete.get c.1 c.2 = false)
    (hall : ∀ c2 : Bool × Bool, c2 ≠ c → a.mFlushComplete.get c2.1 c2.2 = true)
    (hsrc : m.mSource ≠ none) (hA : m.mAudioDecoder ≠ none) (hV : m.mVideoDecoder ≠ none)
    (hR : m.mRenderer ≠ none) (hmtk : b.MTK_AOSP_ENHANCEMENT = true → t ≠ -1) :
    Returns (onMessageReceived b env (completion m c) a) (fun a1 =>
      seekFrame a1 = seekFrame m ∧ a1.mDeferredActions = []
      ∧ events a1 = events m
          ++ (if b.MTK_AOSP_ENHANCEMENT = true then [.renderer .setFlagHasVideoAudio] else [])
          ++ [.source (.seekTo t), .decoder false (.signalResume n),
              .decoder true (.signalResume false)]
      ∧ a1.mFlushingAudio = .NONE ∧ a1.mFlushingVideo = .NONE
      ∧ (n = true → a1.mResumePending = true)) := by
  obtain ⟨k, d⟩ := c
  have hs := seekPending_status m _ a k d h hb
  obtain ⟨hf, hq, ht, h4, h5⟩ := h
  obtain ⟨a0, heq, f0, q0, t0, sa0, sv0, fc0, rp0⟩ := completion_handler b env m a k d hf hs
  rw [heq]
  have hfm := f0.trans hf
  simp only [seekFrame, Prod.mk.injEq] at hfm
  obtain ⟨d1, d2, g1, g2, r1, g3, s1, dr1, st1⟩ := hfm
  have b1 : (true, true) ≠ (k, d) → a.mFlushComplete.audioDecoder = true := fun hne => by
    simpa [FlushComplete.get] using hall (true, true) hne
  have b2 : (true, false) ≠ (k, d) → a.mFlushComplete.audioRenderer = true := fun hne => by
    simpa [FlushComplete.get] using hall (true, false) hne
  have b3 : (false, true) ≠ (k, d) → a.mFlushComplete.videoDecoder = true := fun hne => by
    simpa [FlushComplete.get] using hall (false, true) hne
  have b4 : (false, false) ≠ (k, d) → a.mFlushComplete.videoRenderer = true := fun hne => by
    simpa [FlushComplete.get] using hall (false, false) hne
  -- the state after handleFlushComplete has both tracks FLUSHED
  obtain ⟨x, hx, fx, qx, tx, sax, svx⟩ : ∃ x, handleFlushComplete k d a0 = .ok x
      ∧ seekFrame x = seekFrame a0 ∧ x.mDeferredActions = a0.mDeferredActions
      ∧ x.trace = a0.trace ∧ x.mFlushingAudio = .FLUSHED ∧ x.mFlushingVideo = .FLUSHED := by
    cases k
    · simp only [flushStatus, Bool.false_eq_true, if_false] at hs
      refine ⟨_, handleFlushComplete_video d a0 (sv0.trans hs), rfl, rfl, rfl, ?_, ?_⟩
      · dsimp only
        rw [sa0, h4, b1 (by simp), b2 (by simp)]; simp
      · dsimp only
        rw [fc0]
        cases d
        · simp [FlushComplete.get, b3 (by simp)]
        · simp [FlushComplete.get, b4 (by simp)]
    · simp only [flushStatus, if_true] at hs
      refine ⟨_, handleFlushComplete_audio d a0 (sa0.trans hs), rfl, rfl, rfl, ?_, ?_⟩
      · dsimp only
        rw [fc0]
        cases d
        · simp [FlushComplete.get, b1 (by simp)]
        · simp [FlushComplete.get, b2 (by simp)]
      · dsimp only
        rw [sv0, h5, b3 (by simp), b4 (by simp)]; simp
  rw [hx, ok_bind]
  have hfx := fx
  simp only [seekFrame, Prod.mk.injEq] at hfx
  obtain ⟨x1, x2, _, _, x5, _, x7, _, _⟩ := hfx
  obtain ⟨y, hy, fy, qy, ey, say, svy⟩ := finishFlush_flushed b env x sax svx
    (by rw [x1, d1]; exact hA) (by rw [x2, d2]; exact hV) (by rw [x5, r1]; exact hR)
  rw [hy]
  have hfy := fy.trans fx
  simp only [seekFrame, Prod.mk.injEq] at hfy
  obtain ⟨y1, y2, _, _, _, _, y7, _, _⟩ := hfy
  refine returns_mono _ _ _ (drain_seek_resume b env t n p y
    (qy.trans (qx.trans (q0.trans hq))) say svy (by rw [y7, s1]; exact hsrc)
    (by rw [y1, d1]; exact hA) (by rw [y2, d2]; exact hV) hmtk) ?_
  intro a1 ⟨z1, z2, z3, z4, z5, z6⟩
  refine ⟨z1.trans (fy.trans (fx.trans (f0.trans hf))), z2, ?_, z4, z5, z6⟩
  rw [z3, ey]
  simp only [events, tx, t0, ht]

theorem FlushComplete.get_set (f : FlushComplete) (c c2 : Bool × Bool) (v : Bool) :
    (f.set c.1 c.2 v).get c2.1 c2.2 = if c2 = c then v else f.get c2.1 c2.2 := by
  obtain ⟨k, d⟩ := c
  obtain ⟨k2, d2⟩ := c2
  cases k <;> cases d <;> cases k2 <;> cases d2 <;> simp [FlushComplete.get, FlushComplete.set]

theorem four_completions_bool :
    ∀ a1 b1 a2 b2 a3 b3 a4 b4 a b : Bool,
      [(a1, b1), (a2, b2), (a3, b3), (a4, b4)].Nodup → (a, b) ≠ (a4, b4) →
      (a, b) = (a1, b1) ∨ (a, b) = (a2, b2) ∨ (a, b) = (a3, b3) := by
  decide

theorem four_completions (c1 c2 c3 c4 c : Bool × Bool) (h : [c1, c2, c3, c4].Nodup)
    (hc : c ≠ c4) : c = c1 ∨ c = c2 ∨ c = c3 :=
  four_completions_bool c1.1 c1.2 c2.1 c2.2 c3.1 c3.2 c4.1 c4.2 c.1 c.2 h hc

theorem videoResumed_step (b : Build) (env : Env) (m a : NuPlayer)
    (hf : seekFrame a = seekFrame m) (hp : a.mResumePending = true)
    (hdrv : m.mDriver = true) (halive : env.driverAlive = true) :
    Returns (onMessageReceived b env (videoResumed m) a) (fun a1 =>
      events a1 = events a ++ [.driver .notifySeekComplete]) := by
  simp only [seekFrame, Prod.mk.injEq] at hf
  obtain ⟨_, _, _, g2, _, _, _, dr, _⟩ := hf
  have hm : videoResumed m = .kWhatDecoderNotify false (decoderGeneration false a) none
      .kWhatResumeCompleted := by
    simp [videoResumed, decoderGeneration, g2]
  rw [hm, decoderNotify_current]
  simp [onDecoderNotify, finishResume, notifyDriverSeekComplete, hp, dr, hdrv, halive,
    returns_ok, events, emit]

/-- C9: from a started controller with live audio decoder, video decoder and renderer,
a source, both flush statuses NONE and an empty deferred queue, handling a seek to t
with needNotify sends signalFlush to both decoders and nothing else; the first three of
the four flush completions, in any order, send nothing; the fourth sends seekTo(t) to
the source and then signalResume(true) to the video decoder and signalResume(false) to
the audio decoder (in the vendor build after a setFlag call on the renderer); the video
decoder's resume-completed then makes the driver, attached and alive, deliver the
seek-complete notification, the only one of the scenario. Every step returns. -/
theorem seek_flushes_then_seeks_then_resumes (b : Build) (env : Env) (t : Int)
    (m : NuPlayer) (c1 c2 c3 c4 : Bool × Bool)
    (hst : m.mStarted = true) (hA : m.mAudioDecoder ≠ none) (hV : m.mVideoDecoder ≠ none)
    (hR : m.mRenderer ≠ none) (hsrc : m.mSource ≠ none)
    (hfa : m.mFlushingAudio = .NONE) (hfv : m.mFlushingVideo = .NONE)
    (hq : m.mDeferredActions = []) (hdrv : m.mDriver = true)
    (halive : env.driverAlive = true)
    (hmtk : b.MTK_AOSP_ENHANCEMENT = true → t ≠ -1)
    (hnodup : [c1, c2, c3, c4].Nodup) :
    ∃ m1 s1 s2 s3 m3 m4,
      onMessageReceived b env (.kWhatSeek t true) m = .ok m1
      ∧ events m1 = events m ++ [.decoder true .signalFlush, .decoder false .signalFlush]
      ∧ onMessageReceived b env (completion m c1) m1 = .ok s1 ∧ events s1 = events m1
      ∧ onMessageReceived b env (completion m c2) s1 = .ok s2 ∧ events s2 = events m1
      ∧ onMessageReceived b env (completion m c3) s2 = .ok s3 ∧ events s3 = events m1
      ∧ onMessageReceived b env (completion m c4) s3 = .ok m3
      ∧ events m3 = events m1
          ++ (if b.MTK_AOSP_ENHANCEMENT = true then [.renderer .setFlagHasVideoAudio] else [])
          ++ [.source (.seekTo t), .decoder false (.signalResume true),
              .decoder true (.signalResume false)]
      ∧ onMessageReceived b env (videoResumed m) m3 = .ok m4
      ∧ events m4 = events m3 ++ [.driver .notifySeekComplete]
      ∧ sentCount (.driver .notifySeekComplete) m4 =
          sentCount (.driver .notifySeekComplete) m + 1 := by
  simp only [List.nodup_cons, List.mem_cons, List.mem_singleton, List.not_mem_nil, not_or,
    List.nodup_nil, and_true, not_false_eq_true] at hnodup
  obtain ⟨⟨n12, n13, n14⟩, ⟨n23, n24⟩, n34⟩ := hnodup
  have hnd : [c1, c2, c3, c4].Nodup := by simp [n12, n13, n14, n23, n24, n34]
  obtain ⟨m1, h1, f1, q1, e1, sa1, sv1, fc1⟩ := seek_step b env t true m hst hA hV hR hfa hfv hq
  have hf1 := f1
  simp only [seekFrame, Prod.mk.injEq] at hf1
  obtain ⟨d1, d2, g1, g2, r1, g3, so1, dr1, st1⟩ := hf1
  -- the completions are named by the generations of m, which are those of m1
  have hcm : ∀ c, completion m c = completion m1 c := by
    intro c
    cases hc : c.2 <;> cases hk : c.1 <;>
      simp [completion, decoderFlushed, rendererFlushed, decoderGeneration, hc, hk, g1, g2, g3]
  have hp1 : SeekPending m1 ([.SeekAction t, .ResumeDecoderAction true]
      ++ (if m.mScanSourcesPending = true then [.SimpleAction .performScanSources] else []))
      m1 := ⟨rfl, q1, rfl, by simp [sa1, fc1], by simp [sv1, fc1]⟩
  have get1 : ∀ c : Bool × Bool, m1.mFlushComplete.get c.1 c.2 = false := by
    intro c; rw [fc1]; obtain ⟨k, d⟩ := c; cases k <;> cases d <;> rfl
  obtain ⟨s1, hs1, p1, fcs1, _⟩ := completion_pending b env m1 _ m1 c1 c2 hp1 (get1 c1)
    (Ne.symm n12) (get1 c2)
  have get2 : ∀ c : Bool × Bool, s1.mFlushComplete.get c.1 c.2 = if c = c1 then true else false := by
    intro c; rw [fcs1, FlushComplete.get_set, get1]
  obtain ⟨s2, hs2, p2, fcs2, _⟩ := completion_pending b env m1 _ s1 c2 c3 p1
    (by rw [get2, if_neg (Ne.symm n12)]) (Ne.symm n23) (by rw [get2, if_neg (Ne.symm n13)])
  have get3 : ∀ c : Bool × Bool, s2.mFlushComplete.get c.1 c.2 =
      if c = c2 then true else if c = c1 then true else false := by
    intro c; rw [fcs2, FlushComplete.get_set, get2]
  obtain ⟨s3, hs3, p3, fcs3, _⟩ := completion_pending b env m1 _ s2 c3 c4 p2
    (by rw [get3, if_neg (Ne.symm n23), if_neg (Ne.symm n13)]) (Ne.symm n34)
    (by rw [get3, if_neg (Ne.symm n24), if_neg (Ne.symm n14)])
  have get4 : ∀ c : Bool × Bool, s3.mFlushComplete.get c.1 c.2 =
      if c = c3 then true else if c = c2 then true else if c = c1 then true else false := by
    intro c; rw [fcs3, FlushComplete.get_set, get3]
  obtain ⟨m3, hm3, f3, q3, e3, sa3, sv3, rp3⟩ := completion_last b env m1 t true
    m.mScanSourcesPending s3 c4 p3
    (by rw [get4, if_neg (Ne.symm n34), if_neg (Ne.symm n24), if_neg (Ne.symm n14)])
    (by
      intro c hc
      rw [get4]
      rcases four_completions c1 c2 c3 c4 c hnd hc with h | h | h <;> simp [h])
    (by rw [so1]; exact hsrc) (by rw [d1]; exact hA) (by rw [d2]; exact hV)
    (by rw [r1]; exact hR) hmtk
  obtain ⟨m4, hm4, e4⟩ := videoResumed_step b env m m3 (f3.trans f1) (rp3 rfl) hdrv halive
  refine ⟨m1, s1, s2, s3, m3, m4, h1, e1, ?_, ?_, ?_, ?_, ?_, ?_, ?_, e3, hm4, e4, ?_⟩
  · rw [hcm]; exact hs1
  · simp only [events, p1.2.2.1]
  · rw [hcm]; exact hs2
  · simp only [events, p2.2.2.1]
  · rw [hcm]; exact hs3
  · simp only [events, p3.2.2.1]
  · rw [hcm]; exact hm3
  · simp only [sentCount, e4, e3, e1]
    by_cases hb : b.MTK_AOSP_ENHANCEMENT = true <;> simp [hb]

theorem seek_flushes_then_seeks_then_resumes_witness :
    ∃ m1 s1 s2 s3 m3 m4,
      onMessageReceived stockBuild sampleEnv (.kWhatSeek 5000000 true)
        (reached stockBuild startPlayback) = .ok m1
      ∧ events m1 = events (reached stockBuild startPlayback)
          ++ [.decoder true .signalFlush, .decoder false .signalFlush]
      ∧ onMessageReceived stockBuild sampleEnv
          (completion (reached stockBuild startPlayback) (true, true)) m1 = .ok s1
      ∧ events s1 = events m1
      ∧ onMessageReceived stockBuild sampleEnv
          (completion (reached stockBuild startPlayback) (false, false)) s1 = .ok s2
      ∧ events s2 = events m1
      ∧ onMessageReceived stockBuild sampleEnv
          (completion (reached stockBuild startPlayback) (true, false)) s2 = .ok s3
      ∧ events s3 = events m1
      ∧ onMessageReceived stockBuild sampleEnv
          (completion (reached stockBuild startPlayback) (false, true)) s3 = .ok m3
      ∧ events m3 = events m1
          ++ (if stockBuild.MTK_AOSP_ENHANCEMENT = true then [.renderer .setFlagHasVideoAudio]
              else [])
          ++ [.source (.seekTo 5000000), .decoder false (.signalResume true),
              .decoder true (.signalResume false)]
      ∧ onMessageReceived stockBuild sampleEnv (videoResumed (reached stockBuild startPlayback))
          m3 = .ok m4
      ∧ events m4 = events m3 ++ [.driver .notifySeekComplete]
      ∧ sentCount (.driver .notifySeekComplete) m4 =
          sentCount (.driver .notifySeekComplete) (reached stockBuild startPlayback) + 1 :=
  seek_flushes_then_seeks_then_resumes stockBuild sampleEnv 5000000
    (reached stockBuild startPlayback) (true, true) (false, false) (true, false) (false, true)
    (by decide) (by decide) (by decide) (by decide) (by decide) (by decide) (by decide)
    (by decide) (by decide) (by decide) (by decide) (by decide)

/-! ## Audio tear-down -/

/-- C12: a renderer notification whose generation is not the current renderer
generation is dropped: the handler returns the controller as it is, trace included, so
no member changes and nothing is sent, replied or notified. -/
theorem stale_renderer_notification_ignored (b : Build) (env : Env) (m : NuPlayer)
    (generation : Int) (what : RendererWhat) (hstale : generation ≠ m.mRendererGeneration) :
    onMessageReceived b env (.kWhatRendererNotify generation what) m = .ok m := by
  simp [onMessageReceived, hstale]

theorem stale_renderer_notification_ignored_witness :
    (0 : Int) ≠ (reached stockBuild startPlayback).mRendererGeneration
    ∧ onMessageReceived stockBuild sampleEnv (.kWhatRendererNotify 0 (.kWhatEOS true 0))
        (reached stockBuild startPlayback) = .ok (reached stockBuild startPlayback) :=
  ⟨by decide,
   stale_renderer_notification_ignored stockBuild sampleEnv (reached stockBuild startPlayback)
     0 (.kWhatEOS true 0) (by decide)⟩

/-- C13: a scan-sources message whose generation is not the current
scanSourcesGeneration, a poll-duration message whose generation is not the current
pollDurationGeneration, and a timed-text notification that carries a generation other
than the current timedTextGeneration are dropped: the handler returns the controller as
it is, trace included, so no decoder is created, nothing reaches the client and no
message is posted again. -/
theorem stale_generation_messages_dropped (b : Build) (env : Env) (m : NuPlayer)
    (generation : Int) :
    (generation ≠ m.mScanSourcesGeneration →
      onMessageReceived b env (.kWhatScanSources generation) m = .ok m)
    ∧ (generation ≠ m.mPollDurationGeneration →
      onMessageReceived b env (.kWhatPollDuration generation) m = .ok m)
    ∧ (generation ≠ m.mTimedTextGeneration → ∀ timeUs size,
      onMessageReceived b env
        (.kWhatSourceNotify (.kWhatTimedTextData (some generation) timeUs size)) m = .ok m) := by
  refine ⟨fun h => ?_, fun h => ?_, fun h timeUs size => ?_⟩
  · simp [onMessageReceived, h]
  · simp [onMessageReceived, h]
  · simp [onMessageReceived, onSourceNotify, h]

/-! ## instantiateDecoder during a shutdown and without a format -/

/-- C14 as stated fails for video in SHUT_DOWN and for a track in SHUTTING_DOWN_DECODER
whose handle has been dropped. After start, seek and the shutdown of the failed video
decoder the video status is SHUT_DOWN with an empty handle, and instantiateDecoder for
video creates a decoder with a new generation; with audio tunneling, after the audio
decoder was told to shut down and a retry of audio offload dropped it, the audio status
is SHUTTING_DOWN_DECODER and instantiateDecoder for audio creates a decoder. -/
theorem instantiateDecoder_creates_mid_shutdown :
    (run stockBuild (videoShutDown.map (fun x => (sampleEnv, x))) (NuPlayer.new 0) =
        .ok (reached stockBuild videoShutDown)
      ∧ flushStatus false (reached stockBuild videoShutDown) = .SHUT_DOWN
      ∧ (reached stockBuild videoShutDown).mVideoDecoder = none
      ∧ (reached stockBuild videoShutDown).mVideoDecoderGeneration = 2
      ∧ ∃ r, instantiateDecoder stockBuild sampleEnv false true
            (reached stockBuild videoShutDown) = .ok r
          ∧ r.1 = OK ∧ r.2.mVideoDecoder = some ⟨.Decoder, false, 3⟩
          ∧ r.2.mVideoDecoderGeneration = 3)
    ∧ (run tunnelBuild (audioRetry.map (fun x => (sampleEnv, x))) (NuPlayer.new 0) =
        .ok (reachedWith sampleEnv tunnelBuild audioRetry)
      ∧ flushStatus true (reachedWith sampleEnv tunnelBuild audioRetry)
          = .SHUTTING_DOWN_DECODER
      ∧ (reachedWith sampleEnv tunnelBuild audioRetry).mAudioDecoder = none
      ∧ (reachedWith sampleEnv tunnelBuild audioRetry).mAudioDecoderGeneration = 2
      ∧ ∃ r, instantiateDecoder tunnelBuild sampleEnv true true
            (reachedWith sampleEnv tunnelBuild audioRetry) = .ok r
          ∧ r.1 = OK ∧ r.2.mAudioDecoder = some ⟨.Decoder, true, 3⟩
          ∧ r.2.mAudioDecoderGeneration = 3) :=
  ⟨⟨rfl, by decide, by decide, by decide, _, rfl, by decide, by decide, by decide⟩,
   ⟨rfl, by decide, by decide, by decide, _, rfl, by decide, by decide, by decide⟩⟩

/-- C15 as stated fails: with a source set, no audio decoder, the audio track idle and
a source that reports no audio format, instantiateDecoder returns UNKNOWN_ERROR, which
is not -EWOULDBLOCK. -/
theorem instantiateDecoder_without_format_is_unknown_error :
    run stockBuild (sourceSet.map (fun x => (sampleEnv, x))) (NuPlayer.new 0) =
        .ok (reached stockBuild sourceSet)
    ∧ getDecoder true (reached stockBuild sourceSet) = none
    ∧ (reached stockBuild sourceSet).mFlushingAudio = .NONE
    ∧ (reached stockBuild sourceSet).mSource ≠ none
    ∧ noAudioEnv.sourceAudioFormat = none
    ∧ instantiateDecoder stockBuild noAudioEnv true true (reached stockBuild sourceSet)
        = .ok (UNKNOWN_ERROR, reached stockBuild sourceSet)
    ∧ UNKNOWN_ERROR ≠ -EWOULDBLOCK :=
  ⟨rfl, by decide, by decide, by decide, rfl, rfl, by decide⟩

/-- C15 (amended): when the source is set, no live decoder exists for a track, the track
is not audio in SHUT_DOWN, and the source reports no format for it, instantiateDecoder
returns UNKNOWN_ERROR, which is not the would-block status, and leaves the controller
as it is: no decoder is created and the generation counter is unchanged. -/
theorem instantiateDecoder_without_format (b : Build) (env : Env)
    (audio checkAudioModeChange : Bool) (m : NuPlayer)
    (hdec : getDecoder audio m = none)
    (hshut : ¬ (audio = true ∧ m.mFlushingAudio = .SHUT_DOWN))
    (hsrc : m.mSource ≠ none)
    (hfmt : (if audio then env.sourceAudioFormat else env.sourceVideoFormat) = none) :
    instantiateDecoder b env audio checkAudioModeChange m = .ok (UNKNOWN_ERROR, m)
    ∧ UNKNOWN_ERROR ≠ -EWOULDBLOCK := by
  refine ⟨?_, by decide⟩
  unfold instantiateDecoder
  rw [if_neg (by simp [hdec, hshut]), if_neg (by simpa using hsrc), hfmt]

theorem instantiateDecoder_without_format_witness :
    instantiateDecoder stockBuild noAudioEnv true true (reached stockBuild sourceSet)
        = .ok (UNKNOWN_ERROR, reached stockBuild sourceSet)
    ∧ UNKNOWN_ERROR ≠ -EWOULDBLOCK :=
  instantiateDecoder_without_format stockBuild noAudioEnv true true
    (reached stockBuild sourceSet) (by decide) (by decide) (by decide) rfl

/-! ## Start while buffering, and seek before the start -/

/-- C18: handling a client start while started and pausedForBuffering are both true
returns and changes nothing but pausedByClient, which becomes false: nothing is sent, so
no resume goes to the source or the renderer and no decoder is instantiated, and paused,
pausedForBuffering, the flush statuses, the decoder handles and generations and the
deferred queue are as before. -/
theorem start_while_buffering_changes_nothing (b : Build) (env : Env) (m : NuPlayer)
    (hs : m.mStarted = true) (hb : m.mPausedForBuffering = true) :
    onMessageReceived b env .kWhatStart m = .ok { m with mPausedByClient := false }
    ∧ ∃ a, onMessageReceived b env .kWhatStart m = .ok a
      ∧ a.trace = m.trace ∧ decoders a = decoders m
      ∧ a.mPaused = m.mPaused ∧ a.mPausedForBuffering = m.mPausedForBuffering
      ∧ a.mFlushingAudio = m.mFlushingAudio ∧ a.mFlushingVideo = m.mFlushingVideo
      ∧ a.mDeferredActions = m.mDeferredActions := by
  have h : onMessageReceived b env .kWhatStart m = .ok { m with mPausedByClient := false } := by
    simp [onMessageReceived, hs, hb]
  exact ⟨h, _, h, rfl, rfl, rfl, rfl, rfl, rfl, rfl⟩

theorem start_while_buffering_changes_nothing_witness :
    (reached stockBuild startAndBuffer).mStarted = true
    ∧ (reached stockBuild startAndBuffer).mPausedForBuffering = true
    ∧ (onMessageReceived stockBuild sampleEnv .kWhatStart (reached stockBuild startAndBuffer)
        = .ok { reached stockBuild startAndBuffer with mPausedByClient := false }
      ∧ ∃ a, onMessageReceived stockBuild sampleEnv .kWhatStart
            (reached stockBuild startAndBuffer) = .ok a
        ∧ a.trace = (reached stockBuild startAndBuffer).trace
        ∧ decoders a = decoders (reached stockBuild startAndBuffer)
        ∧ a.mPaused = (reached stockBuild startAndBuffer).mPaused
        ∧ a.mPausedForBuffering = (reached stockBuild startAndBuffer).mPausedForBuffering
        ∧ a.mFlushingAudio = (reached stockBuild startAndBuffer).mFlushingAudio
        ∧ a.mFlushingVideo = (reached stockBuild startAndBuffer).mFlushingVideo
        ∧ a.mDeferredActions = (reached stockBuild startAndBuffer).mDeferredActions) :=
  ⟨by decide, by decide,
   start_while_buffering_changes_nothing stockBuild sampleEnv
     (reached stockBuild startAndBuffer) (by decide) (by decide)⟩

theorem notifyListener_seekReport (b : Build) (env : Env) (msg e1 e2 : Int) (m : NuPlayer) :
    seekReport (notifyListener b env msg e1 e2 m) = seekReport m := by
  unfold notifyListener notifyListenerParcel
  split
  · rfl
  split
  · rfl
  simp [seekReport, sentCount, events, emit]

theorem notifyListener_seekReport_parts (b : Build) (env : Env) (msg e1 e2 : Int)
    (m : NuPlayer) :
    (notifyListener b env msg e1 e2 m).mDeferredActions = m.mDeferredActions
    ∧ (notifyListener b env msg e1 e2 m).mDriver = m.mDriver
    ∧ List.count (Event.driver DriverCall.notifySeekComplete)
        (List.map Sent.event (notifyListener b env msg e1 e2 m).trace)
      = List.count (Event.driver DriverCall.notifySeekComplete) (List.map Sent.event m.trace) := by
  have h := notifyListener_seekReport b env msg e1 e2 m
  simpa [seekReport, sentCount, events] using h

theorem onStart_seekReport (b : Build) (env : Env) (p : Int) (m : NuPlayer)
    (hsrc : m.mSource ≠ none) :
    Returns (onStart b env p m) (fun a => seekReport a = seekReport m) := by
  unfold onStart
  refine returns_bind _ _ (fun a => seekReport a = seekReport m ∧ a.mSource ≠ none) _ ?_ ?_
  · simp [returns_ite, returns_ok, hsrc, seekReport, sentCount, events, emit]
  rintro a ⟨ha, hs⟩
  refine returns_bind _ _ (fun a => seekReport a = seekReport m ∧ a.mSource ≠ none) _ ?_ ?_
  · simp only [returns_ite, pure_eq_ok, returns_ok]
    refine ⟨fun hp => ?_, fun _ => ⟨ha, hs⟩⟩
    have h1 := performSeek_returns b p a hs (fun _ => by omega)
    refine returns_mono _ _ _ h1 ?_
    rintro a1 ⟨h2, h3, h4, -⟩
    simp only [seekFrame, Prod.mk.injEq] at h2
    refine ⟨?_, ?_⟩
    · rw [← ha]
      simp [seekReport, sentCount, h3, h4, h2]
    · rw [h2.2.2.2.2.2.2.1]; exact hs
  rintro a2 ⟨ha2, hs2⟩
  simp only [returns_ite, pure_eq_ok, returns_ok, returns_error]
  simp [seekReport, sentCount, events, emit, notifyListener_seekReport_parts,
    postScanSources, isRTSPSource, isHttpLiveSource, hs2] at ha2 ⊢
  simp only [ha2, and_self, implies_true, true_and]
  intro _ _
  refine ⟨fun _ => ?_, fun _ => ?_⟩ <;> simp [count_events_ite, apply_ite (List.map Sent.event), apply_ite (List.count _), ha2]

/-- C16: a seek handled while the controller is not started and a source is set returns
(the driver being attached and alive); it leaves the deferred queue as it was, notifies
seek-complete exactly once in that step if needNotify is true and not at all otherwise,
and if the controller is started afterwards then paused and pausedByClient are true. -/
theorem seek_before_start_acknowledged_at_once (b : Build) (env : Env) (m : NuPlayer)
    (seekTimeUs : Int) (needNotify : Bool)
    (hst : m.mStarted = false) (hsrc : m.mSource ≠ none)
    (hdrv : m.mDriver = true) (halive : env.driverAlive = true) :
    Returns (onMessageReceived b env (.kWhatSeek seekTimeUs needNotify) m) (fun a =>
      a.mDeferredActions = m.mDeferredActions
      ∧ sentCount (.driver .notifySeekComplete) a
          = sentCount (.driver .notifySeekComplete) m + (if needNotify = true then 1 else 0)
      ∧ (a.mStarted = true → a.mPaused = true ∧ a.mPausedByClient = true)) := by
  simp only [onMessageReceived, hst, if_true]
  refine returns_bind _ _ _ _ (onStart_seekReport b env seekTimeUs m hsrc) ?_
  intro a1 h1
  simp only [seekReport, sentCount, events, Prod.mk.injEq] at h1
  obtain ⟨h1, h2, h3⟩ := h1
  rw [pure_eq_ok, returns_ok]
  cases needNotify <;> cases hs : a1.mStarted <;> cases hp : a1.mPaused <;>
    simp [notifyDriverSeekComplete, onPause, emit, sentCount, events, h1, h2, h3, hdrv, halive,
      hs, hp, count_events_ite, apply_ite (List.map Sent.event), apply_ite (List.count _)]

theorem seek_before_start_acknowledged_at_once_witness :
    Returns (onMessageReceived stockBuild sampleEnv (.kWhatSeek 5000000 true)
        (reached stockBuild prepared)) (fun a =>
      a.mDeferredActions = (reached stockBuild prepared).mDeferredActions
      ∧ sentCount (.driver .notifySeekComplete) a
          = sentCount (.driver .notifySeekComplete) (reached stockBuild prepared)
            + (if true = true then 1 else 0)
      ∧ (a.mStarted = true → a.mPaused = true ∧ a.mPausedByClient = true)) :=
  seek_before_start_acknowledged_at_once stockBuild sampleEnv (reached stockBuild prepared)
    5000000 true (by decide) (by decide) (by decide) rfl

/-! ## Playback-complete at the end of the streams -/

theorem notifyListener_playbackCompleteCount (b : Build) (env : Env) (msg e1 e2 : Int)
    (m : NuPlayer) (hdrv : m.mDriver = true) (halive : env.driverAlive = true) :
    playbackCompleteCount (notifyListener b env msg e1 e2 m)
      = playbackCompleteCount m + (if msg = MEDIA_PLAYBACK_COMPLETE then 1 else 0) := by
  unfold notifyListener notifyListenerParcel
  rw [if_neg (by simp [hdrv]), if_neg (by simp [halive])]
  by_cases h : msg = MEDIA_PLAYBACK_COMPLETE <;>
    simp [playbackCompleteCount, events, emit, List.countP_append, h]

theorem notifyListener_eos_frame (b : Build) (env : Env) (msg e1 e2 : Int) (m : NuPlayer) :
    (notifyListener b env msg e1 e2 m).mDriver = m.mDriver
    ∧ (notifyListener b env msg e1 e2 m).mAudioEOS = m.mAudioEOS
    ∧ (notifyListener b env msg e1 e2 m).mVideoEOS = m.mVideoEOS
    ∧ (notifyListener b env msg e1 e2 m).mAudioDecoder = m.mAudioDecoder
    ∧ (notifyListener b env msg e1 e2 m).mVideoDecoder = m.mVideoDecoder
    ∧ (notifyListener b env msg e1 e2 m).mSource = m.mSource
    ∧ (notifyListener b env msg e1 e2 m).mIsMtkPlayback = m.mIsMtkPlayback := by
  unfold notifyListener notifyListenerParcel
  split
  · simp
  split
  · simp
  simp [emit]

/-- What the EOS handler reads after it has set the flag: the driver reference, the two
EOS flags, the two decoder handles, the source and the MTK playback flag; and how often
playback-complete has been notified. -/
theorem eos_error_notice (b : Build) (env : Env) (finalResult : Int) (audio : Bool)
    (m : NuPlayer) (hdrv : m.mDriver = true) (halive : env.driverAlive = true) :
    ∀ m1, m1 = (if finalResult = ERROR_END_OF_STREAM then m
        else if b.MTK_AOSP_ENHANCEMENT = true then handleForRenderError1 b env finalResult audio m
        else notifyListener b env MEDIA_ERROR MEDIA_ERROR_UNKNOWN finalResult m) →
      m1.mDriver = m.mDriver ∧ m1.mAudioEOS = m.mAudioEOS ∧ m1.mVideoEOS = m.mVideoEOS
      ∧ m1.mAudioDecoder = m.mAudioDecoder ∧ m1.mVideoDecoder = m.mVideoDecoder
      ∧ m1.mSource = m.mSource ∧ m1.mIsMtkPlayback = m.mIsMtkPlayback
      ∧ m1.mAudioDecoderGeneration = m.mAudioDecoderGeneration
      ∧ m1.mVideoDecoderGeneration = m.mVideoDecoderGeneration
      ∧ playbackCompleteCount m1 = playbackCompleteCount m := by
  intro m1 h
  subst h
  split
  · simp
  have hs : ∀ m0 : NuPlayer, m0 = (if m.mSource ≠ none then emit (.source (.stopTrack audio)) m
      else m) → m0.mDriver = m.mDriver ∧ m0.mAudioEOS = m.mAudioEOS ∧ m0.mVideoEOS = m.mVideoEOS
      ∧ m0.mAudioDecoder = m.mAudioDecoder ∧ m0.mVideoDecoder = m.mVideoDecoder
      ∧ m0.mSource = m.mSource ∧ m0.mIsMtkPlayback = m.mIsMtkPlayback
      ∧ m0.mAudioDecoderGeneration = m.mAudioDecoderGeneration
      ∧ m0.mVideoDecoderGeneration = m.mVideoDecoderGeneration
      ∧ playbackCompleteCount m0 = playbackCompleteCount m := by
    intro m0 h0
    subst h0
    split <;> simp [emit, playbackCompleteCount, events, List.countP_append]
  have hn : ∀ (msg e1 e2 : Int) (m0 : NuPlayer), msg ≠ MEDIA_PLAYBACK_COMPLETE →
      m0.mDriver = true →
      (notifyListener b env msg e1 e2 m0).mDriver = m0.mDriver
      ∧ (notifyListener b env msg e1 e2 m0).mAudioEOS = m0.mAudioEOS
      ∧ (notifyListener b env msg e1 e2 m0).mVideoEOS = m0.mVideoEOS
      ∧ (notifyListener b env msg e1 e2 m0).mAudioDecoder = m0.mAudioDecoder
      ∧ (notifyListener b env msg e1 e2 m0).mVideoDecoder = m0.mVideoDecoder
      ∧ (notifyListener b env msg e1 e2 m0).mSource = m0.mSource
      ∧ (notifyListener b env msg e1 e2 m0).mIsMtkPlayback = m0.mIsMtkPlayback
      ∧ (notifyListener b env msg e1 e2 m0).mAudioDecoderGeneration = m0.mAudioDecoderGeneration
      ∧ (notifyListener b env msg e1 e2 m0).mVideoDecoderGeneration = m0.mVideoDecoderGeneration
      ∧ playbackCompleteCount (notifyListener b env msg e1 e2 m0) = playbackCompleteCount m0 := by
    intro msg e1 e2 m0 hmsg hd
    have h1 := notifyListener_playbackCompleteCount b env msg e1 e2 m0 hd halive
    rw [if_neg hmsg] at h1
    refine ⟨?_, ?_, ?_, ?_, ?_, ?_, ?_, ?_, ?_, h1⟩ <;>
      (unfold notifyListener notifyListenerParcel; split_ifs <;> simp [emit])
  split
  · unfold handleForRenderError1
    dsimp only
    obtain ⟨a1, a2, a3, a4, a5, a6, a7, a8, a9, a10⟩ := hs _ rfl
    split
    · obtain ⟨c1, c2, c3, c4, c5, c6, c7, c8, c9, c10⟩ :=
        hn MEDIA_INFO b.MEDIA_INFO_HAS_UNSUPPORT_AUDIO finalResult _ (by decide)
          (a1.trans hdrv)
      exact ⟨c1.trans a1, c2.trans a2, c3.trans a3, c4.trans a4, c5.trans a5, c6.trans a6,
        c7.trans a7, c8.trans a8, c9.trans a9, c10.trans a10⟩
    · obtain ⟨d1, d2, d3, d4, d5, d6, d7, d8, d9, d10⟩ :=
        hn MEDIA_SET_VIDEO_SIZE 0 0 _ (by decide) (a1.trans hdrv)
      obtain ⟨c1, c2, c3, c4, c5, c6, c7, c8, c9, c10⟩ :=
        hn MEDIA_INFO b.MEDIA_INFO_HAS_UNSUPPORT_VIDEO finalResult _ (by decide)
          ((d1.trans a1).trans hdrv)
      exact ⟨(c1.trans d1).trans a1, (c2.trans d2).trans a2, (c3.trans d3).trans a3,
        (c4.trans d4).trans a4, (c5.trans d5).trans a5, (c6.trans d6).trans a6,
        (c7.trans d7).trans a7, (c8.trans d8).trans a8, (c9.trans d9).trans a9,
        (c10.trans d10).trans a10⟩
  · exact hn MEDIA_ERROR MEDIA_ERROR_UNKNOWN finalResult m (by decide) hdrv

/-- C17 as stated fails in the vendor build: the driver has called setIsMtkPlayback(true),
playback is started, the audio track has reached its end, and the source answers that the
server cannot be reached; when the renderer then reports the end of the video stream, both
EOS flags are set and no playback-complete is notified. -/
theorem playback_complete_withheld_when_server_lost :
    run vendorBuild (playToAudioEOS.map (fun x => (unreachableServerEnv, x)))
        (setIsMtkPlayback true (NuPlayer.new 0))
      = .ok (mtkReached unreachableServerEnv playToAudioEOS)
    ∧ (mtkReached unreachableServerEnv playToAudioEOS).mRendererGeneration = 1
    ∧ playbackCompleteCount (mtkReached unreachableServerEnv playToAudioEOS) = 0
    ∧ ∃ a, onMessageReceived vendorBuild unreachableServerEnv
          (.kWhatRendererNotify 1 (.kWhatEOS false ERROR_END_OF_STREAM))
          (mtkReached unreachableServerEnv playToAudioEOS) = .ok a
        ∧ ((a.mAudioEOS = true ∨ a.mAudioDecoder = none)
            ∧ (a.mVideoEOS = true ∨ a.mVideoDecoder = none))
        ∧ playbackCompleteCount a = 0 :=
  ⟨rfl, by decide, by decide, _, rfl, by decide, by decide⟩

/-- C17 (amended): a renderer EOS notification of the current generation returns (the
driver being attached and alive, and a source set where the vendor build asks it); it
sets the EOS flag of the reported track, leaves the decoder handles alone, and notifies
playback-complete once if every track then has its EOS flag set or no decoder, unless
the vendor build, for an MTK playback ending with end-of-stream, is told by the source
that the server cannot be reached; otherwise it notifies no playback-complete, in
particular never while a track with a live decoder has not reached EOS. -/
theorem playback_complete_iff_all_tracks_ended (b : Build) (env : Env) (m : NuPlayer)
    (audio : Bool) (finalResult : Int)
    (hdrv : m.mDriver = true) (halive : env.driverAlive = true)
    (hsrc : b.MTK_AOSP_ENHANCEMENT = true → m.mIsMtkPlayback = true → m.mSource ≠ none) :
    Returns (onMessageReceived b env
        (.kWhatRendererNotify m.mRendererGeneration (.kWhatEOS audio finalResult)) m) (fun a =>
      (if audio = true then a.mAudioEOS = true else a.mVideoEOS = true)
      ∧ decoders a = decoders m
      ∧ playbackCompleteCount a = playbackCompleteCount m
          + (if allTracksEnded a ∧ ¬ serverLost b env m finalResult then 1 else 0)) := by
  rw [rendererNotify_current]
  simp only [onRendererNotify]
  have h0 := eos_error_notice b env finalResult audio
    (if audio = true then { m with mAudioEOS := true } else { m with mVideoEOS := true })
    (by split <;> exact hdrv) halive _ rfl
  generalize (if finalResult = ERROR_END_OF_STREAM then
      (if audio = true then { m with mAudioEOS := true } else { m with mVideoEOS := true })
    else if b.MTK_AOSP_ENHANCEMENT = true then handleForRenderError1 b env finalResult audio
      (if audio = true then { m with mAudioEOS := true } else { m with mVideoEOS := true })
    else notifyListener b env MEDIA_ERROR MEDIA_ERROR_UNKNOWN finalResult
      (if audio = true then { m with mAudioEOS := true } else { m with mVideoEOS := true }))
    = m1 at h0 ⊢
  obtain ⟨a1, a2, a3, a4, a5, a6, a7, a8, a9, a10⟩ := h0
  have hd1 : m1.mDriver = true := by rw [a1]; split <;> exact hdrv
  have hflag : (if audio = true then m1.mAudioEOS = true else m1.mVideoEOS = true) := by
    cases audio <;> simp [a2, a3]
  have hdec : decoders m1 = decoders m := by
    cases audio <;> simp [decoders, a4, a5, a8, a9]
  have hcnt : playbackCompleteCount m1 = playbackCompleteCount m := by
    rw [a10]; cases audio <;> rfl
  have hmtk : m1.mIsMtkPlayback = m.mIsMtkPlayback := by
    rw [a7]; cases audio <;> rfl
  have hsrc1 : m1.mSource = m.mSource := by
    rw [a6]; cases audio <;> rfl
  have hn := notifyListener_playbackCompleteCount b env MEDIA_PLAYBACK_COMPLETE 0 0 m1 hd1 halive
  obtain ⟨n1, n2, n3, n4, n5, -, -⟩ := notifyListener_eos_frame b env MEDIA_PLAYBACK_COMPLETE 0 0 m1
  have hgen : decoders (notifyListener b env MEDIA_PLAYBACK_COMPLETE 0 0 m1) = decoders m1 := by
    unfold notifyListener notifyListenerParcel
    split_ifs <;> simp [decoders, emit]
  have hall : allTracksEnded (notifyListener b env MEDIA_PLAYBACK_COMPLETE 0 0 m1)
      ↔ allTracksEnded m1 := by
    simp [allTracksEnded, n2, n3, n4, n5]
  have hflag2 : (if audio = true then
      (notifyListener b env MEDIA_PLAYBACK_COMPLETE 0 0 m1).mAudioEOS = true
      else (notifyListener b env MEDIA_PLAYBACK_COMPLETE 0 0 m1).mVideoEOS = true) := by
    rw [n2, n3]; exact hflag
  by_cases hc : (m1.mAudioEOS = true ∨ m1.mAudioDecoder = none)
      ∧ (m1.mVideoEOS = true ∨ m1.mVideoDecoder = none)
  · rw [if_pos hc]
    by_cases hv : b.MTK_AOSP_ENHANCEMENT = true ∧ m1.mIsMtkPlayback = true
        ∧ finalResult = ERROR_END_OF_STREAM
    · rw [if_pos hv, if_neg (by rw [hsrc1]; exact hsrc hv.1 (hmtk ▸ hv.2.1))]
      by_cases hl : env.sourceNotifyCanNotConnectServerIfPossible = true
      · rw [if_pos hl, returns_ok]
        refine ⟨hflag, hdec, ?_⟩
        rw [hcnt, if_neg]
        · rfl
        · simp [serverLost, hv.1, ← hmtk, hv.2.1, hv.2.2, hl]
      · rw [if_neg hl, returns_ok]
        refine ⟨hflag2, hgen.trans hdec, ?_⟩
        rw [hn, hcnt, if_pos rfl, if_pos]
        exact ⟨hall.2 hc, by simp [serverLost, hl]⟩
    · rw [if_neg hv, returns_ok]
      refine ⟨hflag2, hgen.trans hdec, ?_⟩
      rw [hn, hcnt, if_pos rfl, if_pos]
      refine ⟨hall.2 hc, ?_⟩
      rintro ⟨s1, s2, s3, -⟩
      exact hv ⟨s1, hmtk.trans s2, s3⟩
  · rw [if_neg hc, returns_ok]
    refine ⟨hflag, hdec, ?_⟩
    rw [hcnt, if_neg (fun h => hc h.1)]
    rfl

theorem playback_complete_iff_all_tracks_ended_witness :
    Returns (onMessageReceived stockBuild sampleEnv
        (.kWhatRendererNotify (reached stockBuild playToAudioEOS).mRendererGeneration
          (.kWhatEOS false ERROR_END_OF_STREAM)) (reached stockBuild playToAudioEOS)) (fun a =>
      (if false = true then a.mAudioEOS = true else a.mVideoEOS = true)
      ∧ decoders a = decoders (reached stockBuild playToAudioEOS)
      ∧ playbackCompleteCount a = playbackCompleteCount (reached stockBuild playToAudioEOS)
          + (if allTracksEnded a
              ∧ ¬ serverLost stockBuild sampleEnv (reached stockBuild playToAudioEOS)
                    ERROR_END_OF_STREAM then 1 else 0)) :=
  playback_complete_iff_all_tracks_ended stockBuild sampleEnv (reached stockBuild playToAudioEOS)
    false ERROR_END_OF_STREAM (by decide) rfl (by decide)

/-! ## Pausing and resuming on buffering -/

theorem notifyListener_bufferView (b : Build) (env : Env) (msg e1 e2 : Int) (m : NuPlayer) :
    bufferView (notifyListener b env msg e1 e2 m) = bufferView m
    ∧ (notifyListener b env msg e1 e2 m).mPausedForBuffering = m.mPausedForBuffering := by
  unfold notifyListener notifyListenerParcel
  split_ifs <;> simp [bufferView, pauseResumeSent, sentCount, events, emit]

theorem determineAudioModeChange_bufferView (env : Env) (m : NuPlayer) :
    Returns (determineAudioModeChange env m) (fun a => bufferView a = bufferView m
      ∧ a.mPausedForBuffering = m.mPausedForBuffering
      ∧ a.mAudioDecoderGeneration = m.mAudioDecoderGeneration) := by
  unfold determineAudioModeChange tryOpenAudioSinkForOffload
  simp only [returns_ite, returns_ok, returns_error]
  simp [bufferView, pauseResumeSent, sentCount, events, emit]
  intros
  split_ifs <;> simp_all

theorem instantiateDecoder_audio_bufferView (b : Build) (env : Env) (c : Bool) (m : NuPlayer)
    (hsrc : m.mSource ≠ none) :
    Returns (instantiateDecoder b env true c m) (fun r => bufferView r.2 = bufferView m
      ∧ r.2.mPausedForBuffering = m.mPausedForBuffering) := by
  unfold instantiateDecoder
  split
  · exact (returns_ok _ _).2 ⟨rfl, rfl⟩
  simp only [if_true]
  cases env.sourceAudioFormat with
  | none => exact (returns_ok _ _).2 ⟨rfl, rfl⟩
  | some format =>
    simp only [Bool.true_eq_false, and_false, if_false, if_true, and_true]
    rw [returns_ite]
    refine ⟨fun _ => (returns_ok _ _).2 ⟨rfl, rfl⟩, fun _ => ?_⟩
    rw [returns_ite]
    refine ⟨fun _ => (returns_ok _ _).2 ⟨rfl, rfl⟩, fun _ => ?_⟩
    refine returns_bind _ _ (fun a => bufferView a = bufferView m
      ∧ a.mPausedForBuffering = m.mPausedForBuffering) _ ?_ ?_
    · rw [returns_ite]
      refine ⟨fun _ => ?_, fun _ => (returns_ok _ _).2 ⟨rfl, rfl⟩⟩
      refine returns_mono _ _ _ (determineAudioModeChange_bufferView env _) ?_
      rintro a ⟨h1, h2, -⟩
      exact ⟨h1, h2⟩
    rintro a ⟨h1, h2⟩
    rw [pure_eq_ok, returns_ok]
    simp only [bufferView, pauseResumeSent, sentCount, events, Prod.mk.injEq] at h1 ⊢
    simp [emit, h1, h2]

theorem onPause_bufferSpec (m : NuPlayer) :
    (onPause m).mPaused = true
    ∧ (onPause m).mPausedForBuffering = m.mPausedForBuffering
    ∧ pauseResumeSent (onPause m) =
        (if m.mPaused = true then pauseResumeSent m
         else ((pauseResumeSent m).1 + (if m.mSource ≠ none then 1 else 0),
               (pauseResumeSent m).2.1 + (if m.mRenderer ≠ none then 1 else 0),
               (pauseResumeSent m).2.2)) := by
  unfold onPause
  by_cases hp : m.mPaused = true
  · simp [hp]
  · by_cases hs : m.mSource = none <;> by_cases hr : m.mRenderer = none <;>
      simp [hp, hs, hr, pauseResumeSent, sentCount, events, emit]

theorem onResume_bufferSpec (b : Build) (env : Env) (m : NuPlayer) (hsrc : m.mSource ≠ none) :
    Returns (onResume b env m) (fun a =>
      a.mPausedForBuffering = m.mPausedForBuffering
      ∧ (m.mResetting = false → a.mPaused = false)
      ∧ pauseResumeSent a =
        (if m.mPaused = true ∧ m.mResetting = false then
          ((pauseResumeSent m).1, (pauseResumeSent m).2.1, (pauseResumeSent m).2.2.1 + 1,
           (pauseResumeSent m).2.2.2 + (if m.mRenderer ≠ none then 1 else 0))
         else pauseResumeSent m)) := by
  unfold onResume
  by_cases hp : m.mPaused = false ∨ m.mResetting = true
  · rw [if_pos hp, returns_ok]
    refine ⟨rfl, fun h => ?_, ?_⟩
    · rcases hp with hp | hp
      · exact hp
      · rw [h] at hp; exact absurd hp (by decide)
    · rw [if_neg]
      rintro ⟨h1, h2⟩
      rcases hp with hp | hp
      · rw [h1] at hp; exact absurd hp (by decide)
      · rw [h2] at hp; exact absurd hp (by decide)
  · rw [if_neg hp]
    have hp1 : m.mPaused = true := by
      cases h : m.mPaused
      · exact absurd (Or.inl h) hp
      · rfl
    have hp2 : m.mResetting = false := by
      cases h : m.mResetting
      · rfl
      · exact absurd (Or.inr h) hp
    dsimp only
    rw [if_pos hsrc]
    refine returns_bind _ _ (fun a =>
      bufferView a = bufferView (emit (.source .resume) { m with mPaused := false })
      ∧ a.mPausedForBuffering = m.mPausedForBuffering) _ ?_ ?_
    · rw [returns_ite]
      refine ⟨fun _ => ?_, fun _ => (returns_ok _ _).2 ⟨rfl, rfl⟩⟩
      refine returns_bind _ _ _ _
        (instantiateDecoder_audio_bufferView b env true _ (by simpa [emit] using hsrc)) ?_
      rintro r ⟨h1, h2⟩
      exact (returns_ok _ _).2 ⟨h1, h2⟩
    rintro a ⟨h1, h2⟩
    rw [pure_eq_ok, returns_ok]
    simp only [bufferView, pauseResumeSent, sentCount, events, emit, Prod.mk.injEq] at h1
    obtain ⟨k1, k2, k3, k4, k5, k6, k7, k8, k9, k10⟩ := h1
    by_cases hr : m.mRenderer = none
    · simp [pauseResumeSent, sentCount, events, emit, hp1, hp2, hr, k1, k5, k7, k8, k9, k10, h2]
    · simp [pauseResumeSent, sentCount, events, emit, hp1, hp2, hr, k1, k5, k7, k8, k9, k10, h2]

theorem isRTSPSource_bufferView (b : Build) (env : Env) (m : NuPlayer) :
    ∀ q, q = (if b.MTK_AOSP_ENHANCEMENT = true then isRTSPSource env m else (false, m)) →
      bufferView q.2 = bufferView m ∧ q.2.mPausedForBuffering = m.mPausedForBuffering := by
  intro q hq
  subst hq
  unfold isRTSPSource
  split_ifs <;> exact ⟨rfl, rfl⟩

/-- C19 as stated fails in the vendor build with an RTSP source: playback is started,
the source reports that its buffer runs low, and the handler returns with
pausedForBuffering still false, playback not paused and no pause sent. -/
theorem rtsp_buffering_only_notifies :
    run vendorBuild (startPlayback.map (fun x => (rtspEnv, x))) (NuPlayer.new 0)
      = .ok (reachedWith rtspEnv vendorBuild startPlayback)
    ∧ (reachedWith rtspEnv vendorBuild startPlayback).mStarted = true
    ∧ (reachedWith rtspEnv vendorBuild startPlayback).mPaused = false
    ∧ (∃ a, onMessageReceived vendorBuild rtspEnv (.kWhatSourceNotify .kWhatPauseOnBufferingStart)
          (reachedWith rtspEnv vendorBuild startPlayback) = .ok a
        ∧ a.mPausedForBuffering = false ∧ a.mPaused = false
        ∧ pauseResumeSent a = pauseResumeSent (reachedWith rtspEnv vendorBuild startPlayback)) :=
  ⟨rfl, by decide, by decide, _, rfl, by decide, by decide, by decide⟩

/-- C19 (amended): in a started controller, unless the vendor build takes its RTSP
branch, pause-on-buffering-start returns with pausedForBuffering and paused set, and
sends pause to the source and to the renderer exactly when playback was not paused
before; resume-on-buffering-end clears pausedForBuffering, and when pausedByClient is
true it leaves paused as it is and sends no resume, while when pausedByClient is false
(and a source is set) it resumes: paused becomes false unless a reset is under way, and
resume goes to the source and the renderer if playback was paused. In the vendor build's
RTSP branch both handlers only notify: paused, pausedForBuffering and the pause and
resume calls stay as they are. -/
theorem buffering_pauses_and_resumes_unless_rtsp (b : Build) (env : Env) (m : NuPlayer)
    (hst : m.mStarted = true) :
    (rtspBuffering b env m = false →
      (∃ a, onMessageReceived b env (.kWhatSourceNotify .kWhatPauseOnBufferingStart) m = .ok a
        ∧ a.mPausedForBuffering = true ∧ a.mPaused = true
        ∧ pauseResumeSent a =
          (if m.mPaused = true then pauseResumeSent m
           else ((pauseResumeSent m).1 + (if m.mSource ≠ none then 1 else 0),
                 (pauseResumeSent m).2.1 + (if m.mRenderer ≠ none then 1 else 0),
                 (pauseResumeSent m).2.2)))
      ∧ (m.mPausedByClient = true →
          ∃ a, onMessageReceived b env (.kWhatSourceNotify .kWhatResumeOnBufferingEnd) m = .ok a
            ∧ a.mPausedForBuffering = false ∧ a.mPaused = m.mPaused
            ∧ pauseResumeSent a = pauseResumeSent m)
      ∧ (m.mPausedByClient = false → m.mSource ≠ none →
          ∃ a, onMessageReceived b env (.kWhatSourceNotify .kWhatResumeOnBufferingEnd) m = .ok a
            ∧ a.mPausedForBuffering = false ∧ (m.mResetting = false → a.mPaused = false)
            ∧ pauseResumeSent a =
              (if m.mPaused = true ∧ m.mResetting = false then
                ((pauseResumeSent m).1, (pauseResumeSent m).2.1, (pauseResumeSent m).2.2.1 + 1,
                 (pauseResumeSent m).2.2.2 + (if m.mRenderer ≠ none then 1 else 0))
               else pauseResumeSent m)))
    ∧ (rtspBuffering b env m = true →
      (∃ a, onMessageReceived b env (.kWhatSourceNotify .kWhatPauseOnBufferingStart) m = .ok a
        ∧ a.mPausedForBuffering = m.mPausedForBuffering ∧ a.mPaused = m.mPaused
        ∧ pauseResumeSent a = pauseResumeSent m)
      ∧ (∃ a, onMessageReceived b env (.kWhatSourceNotify .kWhatResumeOnBufferingEnd) m = .ok a
        ∧ a.mPausedForBuffering = m.mPausedForBuffering ∧ a.mPaused = m.mPaused
        ∧ pauseResumeSent a = pauseResumeSent m)) := by
  obtain ⟨q1, q2⟩ := isRTSPSource_bufferView b env m _ rfl
  unfold rtspBuffering
  simp only [onMessageReceived, onSourceNotify]
  generalize (if b.MTK_AOSP_ENHANCEMENT = true then isRTSPSource env m else (false, m)) = q
    at q1 q2 ⊢
  simp only [bufferView, Prod.mk.injEq] at q1
  obtain ⟨v1, v2, v3, v4, v5, v6, v7⟩ := q1
  refine ⟨fun hq => ⟨?_, fun hc => ?_, fun hc hsrc => ?_⟩, fun hq => ⟨?_, ?_⟩⟩
  · rw [if_neg (by simp [hq]), if_pos (v3.trans hst)]
    obtain ⟨p1, p2, p3⟩ := onPause_bufferSpec { q.2 with mPausedForBuffering := true }
    obtain ⟨n1, n2⟩ := notifyListener_bufferView b env MEDIA_INFO MEDIA_INFO_BUFFERING_START 0
      (onPause { q.2 with mPausedForBuffering := true })
    simp only [bufferView, Prod.mk.injEq] at n1
    refine ⟨_, rfl, n2.trans p2, n1.1.trans p1, ?_⟩
    rw [n1.2.2.2.2.2.2, p3, ← v7]
    simp only [v1, v5, v6]
    rfl
  · rw [if_neg (by simp [hq]), if_pos (v3.trans hst)]
    dsimp only
    rw [if_neg (by simp [v2, hc])]
    obtain ⟨n1, n2⟩ := notifyListener_bufferView b env MEDIA_INFO MEDIA_INFO_BUFFERING_END 0
      { q.2 with mPausedForBuffering := false }
    simp only [bufferView, Prod.mk.injEq] at n1
    refine ⟨_, rfl, n2, n1.1.trans v1, ?_⟩
    rw [n1.2.2.2.2.2.2, ← v7]
    rfl
  · rw [if_neg (by simp [hq]), if_pos (v3.trans hst)]
    dsimp only
    rw [if_pos (by simp [v2, hc])]
    obtain ⟨a, ha, r1, r2, r3⟩ := onResume_bufferSpec b env
      { q.2 with mPausedForBuffering := false } (by simpa [v6] using hsrc)
    obtain ⟨n1, n2⟩ := notifyListener_bufferView b env MEDIA_INFO MEDIA_INFO_BUFFERING_END 0 a
    simp only [bufferView, Prod.mk.injEq] at n1
    refine ⟨_, by rw [ha]; rfl, n2.trans r1, fun h => n1.1.trans (r2 (v4.trans h)), ?_⟩
    rw [n1.2.2.2.2.2.2, r3, ← v7]
    simp only [v1, v4, v5]
    rfl
  · rw [if_pos hq]
    obtain ⟨n1, n2⟩ := notifyListener_bufferView b env MEDIA_INFO MEDIA_INFO_BUFFERING_START 0 q.2
    simp only [bufferView, Prod.mk.injEq] at n1
    refine ⟨_, rfl, ?_, ?_, ?_⟩
    · split <;> simp [emit, n2, q2]
    · split <;> simp [emit, n1.1, v1]
    · rw [← v7, ← n1.2.2.2.2.2.2]
      split <;> simp [pauseResumeSent, sentCount, events, emit]
  · rw [if_pos hq]
    obtain ⟨n1, n2⟩ := notifyListener_bufferView b env MEDIA_INFO MEDIA_INFO_BUFFERING_END 0 q.2
    simp only [bufferView, Prod.mk.injEq] at n1
    refine ⟨_, rfl, ?_, ?_, ?_⟩
    · split <;> simp [emit, n2, q2]
    · split <;> simp [emit, n1.1, v1]
    · rw [← v7, ← n1.2.2.2.2.2.2]
      split <;> simp [pauseResumeSent, sentCount, events, emit]

theorem buffering_pauses_and_resumes_unless_rtsp_witness :
    (reached stockBuild startPlayback).mStarted = true
    ∧ ∃ a, onMessageReceived stockBuild sampleEnv
          (.kWhatSourceNotify .kWhatPauseOnBufferingStart) (reached stockBuild startPlayback)
            = .ok a
        ∧ a.mPausedForBuffering = true ∧ a.mPaused = true
        ∧ pauseResumeSent a =
          (if (reached stockBuild startPlayback).mPaused = true then
            pauseResumeSent (reached stockBuild startPlayback)
           else ((pauseResumeSent (reached stockBuild startPlayback)).1
                   + (if (reached stockBuild startPlayback).mSource ≠ none then 1 else 0),
                 (pauseResumeSent (reached stockBuild startPlayback)).2.1
                   + (if (reached stockBuild startPlayback).mRenderer ≠ none then 1 else 0),
                 (pauseResumeSent (reached stockBuild startPlayback)).2.2)) :=
  ⟨by decide,
   ((buffering_pauses_and_resumes_unless_rtsp stockBuild sampleEnv
      (reached stockBuild startPlayback) (by decide)).1 rfl).1⟩

/-! ## Audio offload and the playback rate -/

theorem determineAudioModeChange_offload (env : Env) (m : NuPlayer) :
    Post (determineAudioModeChange env m) (fun a =>
      a.mPlaybackSettings = m.mPlaybackSettings
      ∧ (a.mOffloadAudio = true → m.mOffloadAudio = true ∨ unityRate m)) := by
  unfold determineAudioModeChange tryOpenAudioSinkForOffload
  simp only [post_ite, post_ok, post_error]
  simp [unityRate, emit]
  tauto

theorem instantiateDecoder_offload (b : Build) (env : Env) (audio c : Bool) (m : NuPlayer) :
    Post (instantiateDecoder b env audio c m) (fun r =>
      r.2.mPlaybackSettings = m.mPlaybackSettings
      ∧ (r.2.mOffloadAudio = true → m.mOffloadAudio = true ∨ (c = true ∧ unityRate m))) := by
  unfold instantiateDecoder
  rw [post_ite]
  refine ⟨fun _ => (post_ok _ _).2 ⟨rfl, fun h => Or.inl h⟩, fun _ => ?_⟩
  rw [post_ite]
  refine ⟨fun _ => (post_error _ _).2 trivial, fun _ => ?_⟩
  cases (if audio then env.sourceAudioFormat else env.sourceVideoFormat) with
  | none => exact (post_ok _ _).2 ⟨rfl, fun h => Or.inl h⟩
  | some format =>
    dsimp only
    rw [post_ite]
    refine ⟨fun _ => (post_ok _ _).2 ⟨rfl, fun h => Or.inl h⟩, fun _ => ?_⟩
    rw [post_ite]
    refine ⟨fun _ => (post_ok _ _).2 ⟨rfl, fun h => Or.inl h⟩, fun _ => ?_⟩
    rw [post_ite]
    refine ⟨fun _ => (post_ok _ _).2 ⟨rfl, fun h => Or.inl h⟩, fun _ => ?_⟩
    rw [post_ite]
    refine ⟨fun _ => ?_, fun _ => ?_⟩
    · refine post_bind _ _ (fun a => a.mPlaybackSettings = m.mPlaybackSettings
        ∧ (a.mOffloadAudio = true → m.mOffloadAudio = true ∨ (c = true ∧ unityRate m))) _ ?_ ?_
      · rw [post_ite]
        refine ⟨fun hc => ?_, fun _ => (post_ok _ _).2 ⟨rfl, fun h => Or.inl h⟩⟩
        refine post_mono _ _ _ (determineAudioModeChange_offload env _) ?_
        rintro a ⟨h1, h2⟩
        refine ⟨h1, fun h => ?_⟩
        rcases h2 h with h3 | h3
        · exact Or.inl h3
        · exact Or.inr ⟨hc, h3⟩
      rintro a ⟨h1, h2⟩
      rw [pure_eq_ok, post_ok]
      simpa [emit] using ⟨h1, h2⟩
    · simp only [post_ite, post_ok, post_error]
      simp [emit]
      exact fun _ _ => ⟨fun _ _ h => Or.inl h, fun _ h => Or.inl h⟩

theorem onResume_offload (b : Build) (env : Env) (m : NuPlayer) :
    Post (onResume b env m) (fun a =>
      a.mPlaybackSettings = m.mPlaybackSettings
      ∧ (a.mOffloadAudio = true → m.mOffloadAudio = true ∨ unityRate m)) := by
  unfold onResume
  rw [post_ite]
  refine ⟨fun _ => (post_ok _ _).2 ⟨rfl, fun h => Or.inl h⟩, fun _ => ?_⟩
  dsimp only
  have e1 : (if m.mSource ≠ none then emit (.source .resume) { m with mPaused := false }
      else { m with mPaused := false }).mPlaybackSettings = m.mPlaybackSettings := by
    split <;> rfl
  have e2 : (if m.mSource ≠ none then emit (.source .resume) { m with mPaused := false }
      else { m with mPaused := false }).mOffloadAudio = m.mOffloadAudio := by
    split <;> rfl
  generalize (if m.mSource ≠ none then emit (.source .resume) { m with mPaused := false }
      else { m with mPaused := false }) = m0 at e1 e2 ⊢
  refine post_bind _ _ (fun a => a.mPlaybackSettings = m.mPlaybackSettings
    ∧ (a.mOffloadAudio = true → m.mOffloadAudio = true ∨ unityRate m)) _ ?_ ?_
  · rw [post_ite]
    refine ⟨fun _ => ?_, fun _ => ?_⟩
    · refine post_bind _ _ _ _ (instantiateDecoder_offload b env true true m0) ?_
      rintro r ⟨h1, h2⟩
      rw [pure_eq_ok, post_ok]
      refine ⟨h1.trans e1, fun h => ?_⟩
      rcases h2 h with h3 | ⟨-, h3⟩
      · exact Or.inl (e2 ▸ h3)
      · right
        simp only [unityRate] at h3 ⊢
        rw [← e1]
        exact h3
    · rw [pure_eq_ok, post_ok]
      exact ⟨e1, fun h => Or.inl (e2 ▸ h)⟩
  rintro a ⟨h1, h2⟩
  rw [pure_eq_ok, post_ok]
  split
  · exact ⟨h1, h2⟩
  · exact ⟨h1, h2⟩

theorem performSeek_offload (b : Build) (t : Int) (m : NuPlayer) :
    Post (performSeek b t m) (fun a => a.mPlaybackSettings = m.mPlaybackSettings
      ∧ a.mOffloadAudio = m.mOffloadAudio ∧ a.mRendererGeneration = m.mRendererGeneration
      ∧ a.mRenderer = m.mRenderer) := by
  unfold performSeek performSeek_l
  simp only [post_ite, post_ok, post_error, pure_eq_ok]
  refine ⟨fun _ => by simp, fun _ => ?_⟩
  by_cases hb : b.MTK_AOSP_ENHANCEMENT = true
  · simp only [hb, if_true]
    by_cases ht : t = -1
    · simp [ht, post_error]
    · by_cases hs : m.mSource = none
      · simp [ht, hs, post_error]
      · simp [ht, hs, post_ok, emit]
  · simp [hb, post_ok, emit]

theorem onStart_offload (b : Build) (env : Env) (p : Int) (m : NuPlayer) :
    Post (onStart b env p m) (fun a =>
      a.mPlaybackSettings = m.mPlaybackSettings
      ∧ (a.mOffloadAudio = true → unityRate m
          ∨ (0 < p ∧ a.mRendererGeneration = m.mRendererGeneration ∧ m.mOffloadAudio = true))) := by
  unfold onStart
  refine post_bind _ _ (fun a => a.mPlaybackSettings = m.mPlaybackSettings
      ∧ a.mOffloadAudio = m.mOffloadAudio ∧ a.mRendererGeneration = m.mRendererGeneration) _ ?_ ?_
  · simp only [post_ite, post_ok, pure_eq_ok, post_error]
    simp [emit]
  rintro a ⟨a1, a2, a3⟩
  refine post_bind _ _ (fun a => a.mPlaybackSettings = m.mPlaybackSettings
      ∧ a.mOffloadAudio = m.mOffloadAudio ∧ a.mRendererGeneration = m.mRendererGeneration) _ ?_ ?_
  · simp only [post_ite, post_ok, pure_eq_ok, post_error]
    refine ⟨fun _ => post_mono _ _ _ (performSeek_offload b p a) ?_, fun _ => ⟨a1, a2, a3⟩⟩
    rintro r ⟨r1, r2, r3, -⟩
    exact ⟨r1.trans a1, r2.trans a2, r3.trans a3⟩
  rintro a ⟨c1, c2, c3⟩
  simp only [post_ite, post_ok, pure_eq_ok, post_error]
  simp [unityRate, emit, notifyListener, notifyListenerParcel, postScanSources, isRTSPSource,
    isHttpLiveSource, c1, c2, c3]
  exact fun _ hp _ ho => Or.inr ⟨hp, ho⟩

/-- The part of restartAudio after the status has been settled, when it is called to
force non-offload mode: if a renderer is left, offload is switched off. -/
theorem restartAudio_tail_offload (b : Build) (env : Env) (t : Int) (n : Bool) (m : NuPlayer) :
    Post (if m.mRenderer = none then pure m
      else do
        let m ← closeAudioSink m
        let m := emit (.renderer (.flush true false)) m
        let m := if m.mVideoDecoder ≠ none then emit (.renderer (.flush false false)) m else m
        let m ← performSeek b t m
        let m := if true = true then
            { emit (.renderer .signalDisableOffloadAudio) m with mOffloadAudio := false }
          else m
        if n = true then do
          let r ← instantiateDecoder b env true (!true) m
          pure r.2
        else pure m) (fun a => a.mRenderer = none ∨ a.mOffloadAudio = false) := by
  rw [post_ite]
  refine ⟨fun h => (post_ok _ _).2 (Or.inl h), fun _ => ?_⟩
  refine post_bind _ _ (fun _ => True) _ (fun _ _ => trivial) ?_
  intro a _
  refine post_bind _ _ (fun _ => True) _ (fun _ _ => trivial) ?_
  intro a2 _
  simp only [if_true]
  rw [post_ite]
  refine ⟨fun _ => ?_, fun _ => (post_ok _ _).2 (Or.inr rfl)⟩
  refine post_bind _ _ _ _ (instantiateDecoder_offload b env true (!true) _) ?_
  rintro r ⟨-, h2⟩
  rw [pure_eq_ok, post_ok]
  right
  cases h : r.2.mOffloadAudio
  · rfl
  · rcases h2 h with h3 | ⟨h3, -⟩
    · exact absurd h3 (by simp)
    · exact absurd h3 (by simp)

theorem restartAudio_offload (b : Build) (env : Env) (t : Int) (n : Bool) (m : NuPlayer) :
    Post (restartAudio b env t true n m) (fun a => a.mRenderer = none ∨ a.mOffloadAudio = false) := by
  unfold restartAudio
  dsimp only
  refine post_bind _ _ (fun _ => True) _ (fun _ _ => trivial) ?_
  intro r _
  exact restartAudio_tail_offload b env t r.2 r.1

theorem onPause_offload (m : NuPlayer) : (onPause m).mOffloadAudio = m.mOffloadAudio := by
  unfold onPause
  split_ifs <;> simp [emit]

/-- C20: audio offload is only selected at unity speed and pitch. When onStart has
created the renderer (the renderer generation has moved on), and when
determineAudioModeChange runs with source, audio sink and renderer present (it then
returns), offloadAudio = true implies that the stored speed and pitch are 1; and after a
playback-rate change handled with a live renderer, whose new speed is neither 0 nor 1 or
whose pitch is not 1, offloadAudio is false. -/
theorem offload_only_at_unity_rate (b : Build) (env : Env) (m : NuPlayer) :
    (∀ p a, onStart b env p m = .ok a → a.mRendererGeneration ≠ m.mRendererGeneration →
      offloadAtUnity a)
    ∧ (m.mSource ≠ none → m.mAudioSink ≠ none → m.mRenderer ≠ none →
      Returns (determineAudioModeChange env m) offloadAtUnity)
    ∧ (∀ rate replyID, m.mRenderer ≠ none →
      ((rate.mSpeed ≠ 0 ∧ rate.mSpeed ≠ 1) ∨ rate.mPitch ≠ 1) →
      Post (onMessageReceived b env (.kWhatConfigPlayback rate replyID) m)
        (fun a => a.mOffloadAudio = false)) := by
  refine ⟨fun p a ha hg ho => ?_, fun h1 h2 h3 => ?_, fun rate replyID hR hrate => ?_⟩
  · obtain ⟨s1, s2⟩ := onStart_offload b env p m a ha
    rcases s2 ho with h | ⟨-, h, -⟩
    · simp only [unityRate] at h ⊢
      rw [s1]; exact h
    · exact absurd h hg
  · unfold determineAudioModeChange tryOpenAudioSinkForOffload
    simp only [returns_ite, returns_ok, returns_error]
    simp [offloadAtUnity, unityRate, emit, h1, h2, h3]
    constructor <;> intros <;> simp_all
  · simp only [onMessageReceived]
    refine post_bind _ _ (fun r => r.2.mOffloadAudio = false) _ ?_ ?_
    · rw [if_pos hR]
      refine post_bind _ _ (fun a => a.mRenderer = none ∨ a.mOffloadAudio = false) _ ?_ ?_
      · rw [post_ite]
        refine ⟨fun _ => ?_, fun hn => ?_⟩
        · dsimp only
          refine post_bind _ _ _ _ (restartAudio_offload b env _ true _) ?_
          intro a ha
          simp only [post_ite, post_ok, post_error, pure_eq_ok]
          refine ⟨fun _ => ⟨fun _ => trivial, fun _ => ?_⟩, fun _ => ha⟩
          simpa [emit] using ha
        · rw [pure_eq_ok, post_ok]
          right
          cases ho : m.mOffloadAudio
          · rfl
          · exact absurd ⟨ho, hrate⟩ hn
      intro a ha
      simp only [post_ite, post_ok, post_error, pure_eq_ok]
      refine ⟨fun _ => trivial, fun hr => ?_⟩
      simpa [emit] using ha.resolve_left hr
    intro r hr
    dsimp only
    refine post_bind _ _ (fun a => a.mOffloadAudio = false) _ ?_ ?_
    · rw [post_ite]
      refine ⟨fun _ => ?_, fun _ => (post_ok _ _).2 hr⟩
      rw [post_ite]
      refine ⟨fun _ => ?_, fun hs0 => ?_⟩
      · rw [pure_eq_ok, post_ok]
        exact (onPause_offload r.2).trans hr
      · have hnu : ¬ unityRate { r.2 with mPlaybackSettings := rate } := by
          rintro ⟨u1, u2⟩
          rcases hrate with ⟨-, h⟩ | h
          · exact h u1
          · exact h u2
        refine post_bind _ _ (fun a => a.mOffloadAudio = false) _ ?_ ?_
        · simp only [post_ite, post_ok, pure_eq_ok]
          refine ⟨fun _ => ⟨fun _ => ?_, fun _ => hr⟩, fun _ => ⟨fun _ => ?_, fun _ => hr⟩⟩
          · refine post_mono _ _ _ (onResume_offload b env _) ?_
            rintro a ⟨-, h2⟩
            cases ho : a.mOffloadAudio
            · rfl
            · rcases h2 ho with h | h
              · exact absurd (hr.symm.trans h) (by simp)
              · exact absurd h hnu
          · refine post_mono _ _ _ (onStart_offload b env (-1) _) ?_
            rintro a ⟨-, h2⟩
            cases ho : a.mOffloadAudio
            · rfl
            · rcases h2 ho with h | ⟨h, -⟩
              · exact absurd h hnu
              · exact absurd h (by decide)
        intro a ha
        rw [pure_eq_ok, post_ok]
        exact ha
    intro a ha
    rw [pure_eq_ok, post_ok]
    split <;> simpa [emit] using ha

theorem offload_only_at_unity_rate_witness :
    offloadPlayback.mOffloadAudio = true
    ∧ ∃ a, onMessageReceived stockBuild offloadEnv (.kWhatConfigPlayback doubleSpeed 7)
          offloadPlayback = .ok a ∧ a.mOffloadAudio = false :=
  ⟨by decide, _, rfl,
   (offload_only_at_unity_rate stockBuild offloadEnv offloadPlayback).2.2 doubleSpeed 7
     (by decide) (by decide) _ rfl⟩

/-! ## A seek waits behind the flush -/

theorem SeekFrame.frameRefl (t : Int) (m : NuPlayer) : SeekFrame t m m :=
  ⟨rfl, ⟨[], by simp⟩, fun h => h⟩

theorem SeekFrame.frameTrans {t : Int} {m a c : NuPlayer} (h1 : SeekFrame t m a)
    (h2 : SeekFrame t a c) : SeekFrame t m c := by
  obtain ⟨v1, ⟨p1, q1⟩, d1⟩ := h1
  obtain ⟨v2, ⟨p2, q2⟩, d2⟩ := h2
  exact ⟨v2.trans v1, ⟨p1 ++ p2, by rw [q2, q1, List.append_assoc]⟩, fun h => d2 (d1 h)⟩

theorem SeekFrame.frameOfView {t : Int} {m a : NuPlayer} (hv : seekView t a = seekView t m)
    (hq : a.mDeferredActions = m.mDeferredActions)
    (hd : DecodersNeedSource m → DecodersNeedSource a) : SeekFrame t m a :=
  ⟨hv, ⟨[], by simp [hq]⟩, hd⟩

/-- The same source and the same decoder handles. -/
theorem DecodersNeedSource.ofHandles {m a : NuPlayer} (hs : a.mSource = m.mSource)
    (ha : a.mAudioDecoder = m.mAudioDecoder) (hv : a.mVideoDecoder = m.mVideoDecoder) :
    DecodersNeedSource m → DecodersNeedSource a := by
  intro h hn
  rw [ha, hv]
  exact h (hs.symm.trans hn)

theorem DecodersNeedSource.ofMachine {t : Int} {m a : NuPlayer}
    (hv : seekView t a = seekView t m) (hm : machine a = machine m) :
    DecodersNeedSource m → DecodersNeedSource a := by
  simp only [seekView, machine, Prod.mk.injEq] at hv hm
  exact DecodersNeedSource.ofHandles hv.2.2 hm.2.2.2.2.2.2.1 hm.2.2.2.2.2.2.2

theorem SeekFrame.frameOfMachine {t : Int} {m a : NuPlayer}
    (hv : seekView t a = seekView t m) (hm : machine a = machine m) : SeekFrame t m a := by
  refine SeekFrame.frameOfView hv ?_ (DecodersNeedSource.ofMachine hv hm)
  simp only [machine, Prod.mk.injEq] at hm
  exact hm.2.2.2.1

theorem emit_seekView (t : Int) (e : Event) (m : NuPlayer) (h1 : isSeekTo e = false)
    (h2 : isResume e = false) : seekView t (emit e m) = seekView t m := by
  have h3 : seekMark t e = none := by
    unfold seekMark
    rw [if_neg, if_neg]
    · simp [h2]
    · intro h; rw [h] at h1; simp [isSeekTo] at h1
  simp [seekView, seeksWhileFlushing, seekResumeOrder, emit, List.filter_append,
    List.filterMap_append, h1, h3]

theorem notifyListenerParcel_seekView (t : Int) (b : Build) (env : Env) (msg e1 e2 : Int)
    (p : List Int) (m : NuPlayer) :
    seekView t (notifyListenerParcel b env msg e1 e2 p m) = seekView t m := by
  unfold notifyListenerParcel
  split
  · rfl
  split
  · rfl
  exact emit_seekView t _ _ rfl rfl

theorem notifyListener_seekView (t : Int) (b : Build) (env : Env) (msg e1 e2 : Int)
    (m : NuPlayer) : seekView t (notifyListener b env msg e1 e2 m) = seekView t m :=
  notifyListenerParcel_seekView t b env msg e1 e2 [] m

theorem finishResume_seekView (t : Int) (env : Env) (m : NuPlayer) :
    seekView t (finishResume env m) = seekView t m := by
  unfold finishResume notifyDriverSeekComplete
  split_ifs
  · exact emit_seekView t _ _ rfl rfl
  · rfl
  · rfl

theorem postScanSources_seekView (t : Int) (m : NuPlayer) :
    seekView t (postScanSources m) = seekView t m := by
  unfold postScanSources
  split_ifs
  · rfl
  · exact emit_seekView t _ _ rfl rfl

theorem performScanSources_seekView (t : Int) (m : NuPlayer) :
    seekView t (performScanSources m) = seekView t m := by
  unfold performScanSources
  split_ifs
  · rfl
  · exact postScanSources_seekView t m
  · rfl

theorem setVideoScalingMode_seekView (t : Int) (mode : Int) (m : NuPlayer) :
    seekView t (setVideoScalingMode mode m) = seekView t m := by
  unfold setVideoScalingMode
  dsimp only
  split_ifs
  · exact emit_seekView t _ _ rfl rfl
  · rfl

theorem performSetSurface_seekView (t : Int) (b : Build) (env : Env) (s : Option Surface)
    (m : NuPlayer) : seekView t (performSetSurface b env s m) = seekView t m := by
  unfold performSetSurface
  dsimp only
  split_ifs
  · exact emit_seekView t _ _ rfl rfl
  · rfl
  · rw [emit_seekView t (.driver .notifySetSurfaceComplete) _ rfl rfl]
    exact setVideoScalingMode_seekView t _ _
  · exact setVideoScalingMode_seekView t _ _

theorem handleForRenderError1_seekView (t : Int) (b : Build) (env : Env) (r : Int) (a : Bool)
    (m : NuPlayer) : seekView t (handleForRenderError1 b env r a m) = seekView t m := by
  unfold handleForRenderError1
  by_cases hs : m.mSource = none <;> cases a <;>
    simp [hs, notifyListener_seekView, emit_seekView, isSeekTo, isResume]

theorem closeAudioSink_seekView (t : Int) (m : NuPlayer) :
    Post (closeAudioSink m) (fun a => seekView t a = seekView t m
      ∧ a.mDeferredActions = m.mDeferredActions) := by
  simp only [closeAudioSink, post_ite, post_ok, post_error]
  exact ⟨fun _ => trivial, fun _ => ⟨emit_seekView t _ _ rfl rfl, rfl⟩⟩

theorem determineAudioModeChange_seekView (t : Int) (env : Env) (m : NuPlayer) :
    Post (determineAudioModeChange env m) (fun a => seekView t a = seekView t m) := by
  simp only [determineAudioModeChange, tryOpenAudioSinkForOffload, post_ite, post_ok, post_error]
  simp [seekView, seeksWhileFlushing, seekResumeOrder, seekMark, isSeekTo, isResume, emit,
    List.filter_append, List.filterMap_append, apply_ite (List.filter _),
    apply_ite (List.filterMap _)]

theorem handleForACodecError_seekView (t : Int) (b : Build) (env : Env) (audio : Bool)
    (e x : Option Int) (m : NuPlayer) :
    Post (handleForACodecError b env audio e x m) (fun a => seekView t a = seekView t m) := by
  unfold handleForACodecError
  cases e with
  | none => simp [post_error]
  | some e =>
    cases x with
    | none => simp [post_ok, notifyListener_seekView]
    | some x =>
      simp only [post_ite, post_ok, post_error]
      simp [seekView, seeksWhileFlushing, seekResumeOrder, seekMark, isSeekTo, isResume, emit,
        notifyListener, notifyListenerParcel, List.filter_append, List.filterMap_append,
        apply_ite (List.filter _), apply_ite (List.filterMap _)]

theorem updateVideoSize_seekView (t : Int) (b : Build) (env : Env) (i o : Option Format)
    (m : NuPlayer) :
    Post (updateVideoSize b env i o m) (fun a => seekView t a = seekView t m) := by
  intro a h
  unfold updateVideoSize at h
  cases i with
  | none =>
    simp only [Except.ok.injEq] at h
    subst h
    exact notifyListener_seekView _ _ _ _ _ _ _
  | some i =>
    simp only [bind_eq_ok] at h
    obtain ⟨r, hr, w, _, h⟩ := h
    have hr2 : seekView t r.2 = seekView t m := by
      cases o with
      | none =>
        simp only at hr
        split at hr
        · cases hr
        · cases hr
        · split_ifs at hr <;> cases hr <;> rfl
      | some o =>
        simp only at hr
        split_ifs at hr
        · simp only [bind_eq_ok, pure_eq_ok, Except.ok.injEq] at hr
          obtain ⟨_, _, rfl⟩ := hr
          rfl
        · simp only [bind_eq_ok, pure_eq_ok, Except.ok.injEq] at hr
          obtain ⟨_, _, rfl⟩ := hr
          rfl
    split_ifs at h <;> cases h <;> simp [notifyListener_seekView, hr2]

theorem instantiateDecoder_seekView (t : Int) (b : Build) (env : Env) (audio c : Bool)
    (m : NuPlayer) :
    Post (instantiateDecoder b env audio c m) (fun r => seekView t r.2 = seekView t m) := by
  unfold instantiateDecoder
  rw [post_ite]
  refine ⟨fun _ => (post_ok _ _).2 rfl, fun _ => ?_⟩
  rw [post_ite]
  refine ⟨fun _ => (post_error _ _).2 trivial, fun _ => ?_⟩
  cases (if audio then env.sourceAudioFormat else env.sourceVideoFormat) with
  | none => exact (post_ok _ _).2 rfl
  | some format =>
    dsimp only
    rw [post_ite]
    refine ⟨fun _ => (post_ok _ _).2 rfl, fun _ => ?_⟩
    rw [post_ite]
    refine ⟨fun _ => (post_ok _ _).2 rfl, fun _ => ?_⟩
    rw [post_ite]
    refine ⟨fun _ => (post_ok _ _).2 rfl, fun _ => ?_⟩
    rw [post_ite]
    refine ⟨fun _ => ?_, fun _ => ?_⟩
    · refine post_bind _ _ (fun a => seekView t a = seekView t m) _ ?_ ?_
      · rw [post_ite]
        refine ⟨fun _ => ?_, fun _ => (post_ok _ _).2 rfl⟩
        exact post_mono _ _ _ (determineAudioModeChange_seekView t env _) (fun _ h => h)
      intro a ha
      rw [pure_eq_ok, post_ok]
      rw [← ha]
      simp [seekView, seeksWhileFlushing, seekResumeOrder, seekMark, isSeekTo, isResume, emit,
        List.filter_append, List.filterMap_append]
    · simp only [post_ite, post_ok, post_error]
      simp [seekView, seeksWhileFlushing, seekResumeOrder, seekMark, isSeekTo, isResume, emit,
        List.filter_append, List.filterMap_append, apply_ite (List.filter _),
        apply_ite (List.filterMap _)]

theorem instantiateDecoder_seekFrame (t : Int) (b : Build) (env : Env) (audio c : Bool)
    (m : NuPlayer) :
    Post (instantiateDecoder b env audio c m) (fun r => SeekFrame t m r.2) := by
  intro r h
  have hv := instantiateDecoder_seekView t b env audio c m r h
  refine SeekFrame.frameOfView hv (instantiateDecoder_ordinary b env audio c m r h).2.2.2.1 ?_
  intro hd hn
  simp only [seekView, Prod.mk.injEq] at hv
  have hs : m.mSource = none := hv.2.2.symm.trans hn
  unfold instantiateDecoder at h
  by_cases h1 : getDecoder audio m ≠ none ∨ (audio = true ∧ m.mFlushingAudio = .SHUT_DOWN)
  · rw [if_pos h1] at h
    cases h
    exact hd hs
  · rw [if_neg h1, if_pos hs] at h
    cases h

theorem handleFlushComplete_seekFrame (t : Int) (audio isDecoder : Bool) (m : NuPlayer) :
    Post (handleFlushComplete audio isDecoder m) (SeekFrame t m) := by
  refine post_mono _ (fun a => seekView t a = seekView t m
    ∧ a.mDeferredActions = m.mDeferredActions
    ∧ a.mAudioDecoder = m.mAudioDecoder ∧ a.mVideoDecoder = m.mVideoDecoder) _ ?_ (fun a h => by
      have hs := h.1
      simp only [seekView, Prod.mk.injEq] at hs
      exact SeekFrame.frameOfView h.1 h.2.1
        (DecodersNeedSource.ofHandles hs.2.2 h.2.2.1 h.2.2.2))
  unfold handleFlushComplete
  dsimp only
  rw [post_ite]
  refine ⟨fun _ => (post_ok _ _).2 ⟨rfl, rfl, rfl, rfl⟩, fun _ => ?_⟩
  split <;>
    simp [post_ite, post_ok, post_error, seekView, seeksWhileFlushing, seekResumeOrder, seekMark,
      isSeekTo, isResume, emit, List.filter_append, List.filterMap_append,
      apply_ite (List.filter _), apply_ite (List.filterMap _), apply_ite NuPlayer.mAudioDecoder,
      apply_ite NuPlayer.mVideoDecoder]

theorem SeekFrame.orderExt {t : Int} {m a : NuPlayer} (h : SeekFrame t m a) : OrderExt t m a := by
  obtain ⟨hv, -⟩ := h
  simp only [seekView, Prod.mk.injEq] at hv
  exact ⟨[], by simp [hv.2.1]⟩

theorem SeekFrame.noBadSeek {t : Int} {m a : NuPlayer} (h : SeekFrame t m a) : NoBadSeek m a := by
  obtain ⟨hv, -⟩ := h
  simp only [seekView, Prod.mk.injEq] at hv
  exact hv.1

theorem OrderExt.extRefl (t : Int) (m : NuPlayer) : OrderExt t m m := ⟨[], by simp⟩

theorem OrderExt.extTrans {t : Int} {m a c : NuPlayer} (h1 : OrderExt t m a)
    (h2 : OrderExt t a c) : OrderExt t m c := by
  obtain ⟨n1, e1⟩ := h1
  obtain ⟨n2, e2⟩ := h2
  exact ⟨n1 ++ n2, by rw [e2, e1, List.append_assoc]⟩

theorem OrderExt.extOfView {t : Int} {m a : NuPlayer} (h : seekView t a = seekView t m) :
    OrderExt t m a := by
  simp only [seekView, Prod.mk.injEq] at h
  exact ⟨[], by simp [h.2.1]⟩

theorem NoBadSeek.cleanOfView {t : Int} {m a : NuPlayer} (h : seekView t a = seekView t m) :
    NoBadSeek m a := by
  simp only [seekView, Prod.mk.injEq] at h
  exact h.1

theorem flushDecoder_seekFrame (t : Int) (audio needShutdown : Bool) (m : NuPlayer) :
    SeekFrame t m (flushDecoder audio needShutdown m) := by
  unfold flushDecoder
  split
  · exact SeekFrame.frameRefl t m
  refine ⟨?_, ⟨if m.mScanSourcesPending = true then [.SimpleAction .performScanSources] else [],
    ?_⟩, ?_⟩
  · cases audio <;>
      simp [seekView, seeksWhileFlushing, seekResumeOrder, seekMark, isSeekTo, isResume, emit,
        List.filter_append, List.filterMap_append, apply_ite (List.filter _),
        apply_ite (List.filterMap _)]
  · cases audio <;> by_cases hp : m.mScanSourcesPending = true <;> simp [emit, hp]
  · refine DecodersNeedSource.ofHandles ?_ ?_ ?_ <;>
      cases audio <;> by_cases hp : m.mScanSourcesPending = true <;>
        simp [emit, hp, apply_ite NuPlayer.mSource, apply_ite NuPlayer.mAudioDecoder,
          apply_ite NuPlayer.mVideoDecoder]

theorem performDecoderFlush_seekFrame (t : Int) (audio video : FlushCommand) (m : NuPlayer) :
    SeekFrame t m (performDecoderFlush audio video m) := by
  unfold performDecoderFlush
  split
  · exact SeekFrame.frameRefl t m
  dsimp only
  split
  · split
    · exact (flushDecoder_seekFrame t _ _ m).frameTrans (flushDecoder_seekFrame t _ _ _)
    · exact flushDecoder_seekFrame t _ _ m
  · split
    · exact flushDecoder_seekFrame t _ _ m
    · exact SeekFrame.frameRefl t m

theorem performResumeDecoders_seek (t : Int) (b : Build) (env : Env) (n : Bool) (m : NuPlayer) :
    OrderExt t m (performResumeDecoders b env n m)
    ∧ NoBadSeek m (performResumeDecoders b env n m) := by
  unfold performResumeDecoders
  dsimp only
  have h : ∀ x : NuPlayer, x = (if n = true then
      (if m.mVideoDecoder = none then
        if b.MTK_AOSP_ENHANCEMENT = true ∧ m.mDataSourceType = .SOURCE_Http then
          { m with mResumePending := false }
        else finishResume env { m with mResumePending := true }
      else { m with mResumePending := true })
    else m) → seekView t x = seekView t m := by
    intro x hx
    subst hx
    split_ifs
    · rfl
    · exact finishResume_seekView t env _
    · rfl
    · rfl
  have h0 := h _ rfl
  generalize (if n = true then
      (if m.mVideoDecoder = none then
        if b.MTK_AOSP_ENHANCEMENT = true ∧ m.mDataSourceType = .SOURCE_Http then
          { m with mResumePending := false }
        else finishResume env { m with mResumePending := true }
      else { m with mResumePending := true })
    else m) = x at h0 ⊢
  simp only [seekView, Prod.mk.injEq] at h0
  obtain ⟨h1, h2, -⟩ := h0
  refine ⟨?_, ?_⟩
  · unfold OrderExt
    rw [← h2]
    split_ifs <;>
      simp [seekResumeOrder, seekMark, isSeekTo, isResume, emit, List.filterMap_append]
  · unfold NoBadSeek
    rw [← h1]
    split_ifs <;> simp [seeksWhileFlushing, isSeekTo, emit, List.filter_append]

theorem performSeek_seek (t : Int) (b : Build) (p : Int) (m : NuPlayer) :
    Post (performSeek b p m) (fun a =>
      a.mDeferredActions = m.mDeferredActions ∧ a.mSource = m.mSource
      ∧ seekResumeOrder t a = seekResumeOrder t m
          ++ (if p = t ∧ m.mSource ≠ none then [true] else [])
      ∧ (m.mFlushingAudio = .NONE → m.mFlushingVideo = .NONE → NoBadSeek m a)) := by
  intro a h
  rcases performSeek_ok b p m a h with ⟨hs, rfl⟩ | ⟨hs, rfl⟩
  · simp [hs, NoBadSeek]
  · refine ⟨rfl, rfl, ?_, fun ha hv => ?_⟩
    · by_cases hp : p = t
      · simp [seekResumeOrder, seekMark, List.filterMap_append, hp, hs]
      · simp [seekResumeOrder, seekMark, isResume, List.filterMap_append, hp]
    · simp [NoBadSeek, seeksWhileFlushing, List.filter_append, ha, hv, IsFlushingState]

theorem performReset_seek (t : Int) (env : Env) (m : NuPlayer) :
    Post (performReset env m) (fun a => OrderExt t m a ∧ NoBadSeek m a) := by
  simp only [performReset, post_ite, post_ok, post_error]
  refine ⟨fun _ => trivial, fun _ => ⟨fun _ => trivial, fun _ => ?_⟩⟩
  refine ⟨⟨[], ?_⟩, ?_⟩
  · simp [seekResumeOrder, seekMark, isSeekTo, isResume, emit, cancelPollDuration,
      List.filterMap_append, apply_ite (List.filterMap _)]
  · simp [NoBadSeek, seeksWhileFlushing, isSeekTo, emit, cancelPollDuration,
      List.filter_append, apply_ite (List.filter _)]

theorem execute_seek (t : Int) (b : Build) (env : Env) (action : Action) (m : NuPlayer) :
    Post (action.execute b env m) (fun a => OrderExt t m a
      ∧ (m.mFlushingAudio = .NONE → m.mFlushingVideo = .NONE → NoBadSeek m a)) := by
  cases action with
  | SeekAction p =>
    refine post_mono _ _ _ (performSeek_seek t b p m) ?_
    rintro a ⟨-, -, h3, h4⟩
    exact ⟨⟨_, h3⟩, h4⟩
  | ResumeDecoderAction n =>
    exact (post_ok _ _).2 ⟨(performResumeDecoders_seek t b env n m).1,
      fun _ _ => (performResumeDecoders_seek t b env n m).2⟩
  | SetSurfaceAction s =>
    exact (post_ok _ _).2 ⟨OrderExt.extOfView (performSetSurface_seekView t b env s m),
      fun _ _ => NoBadSeek.cleanOfView (performSetSurface_seekView t b env s m)⟩
  | FlushDecoderAction a v =>
    exact (post_ok _ _).2 ⟨(performDecoderFlush_seekFrame t a v m).orderExt,
      fun _ _ => (performDecoderFlush_seekFrame t a v m).noBadSeek⟩
  | PostMessageAction r =>
    exact (post_ok _ _).2 ⟨OrderExt.extOfView (emit_seekView t _ m rfl rfl),
      fun _ _ => NoBadSeek.cleanOfView (emit_seekView t _ m rfl rfl)⟩
  | SimpleAction f =>
    cases f with
    | performScanSources =>
      exact (post_ok _ _).2 ⟨OrderExt.extOfView (performScanSources_seekView t m),
        fun _ _ => NoBadSeek.cleanOfView (performScanSources_seekView t m)⟩
    | performReset =>
      exact post_mono _ _ _ (performReset_seek t env m) (fun a h => ⟨h.1, fun _ _ => h.2⟩)

theorem loop_noBadSeek (b : Build) (env : Env) :
    ∀ (n : Nat) (m : NuPlayer), Post (processDeferredActionsLoop b env n m) (NoBadSeek m) := by
  intro n
  induction n with
  | zero =>
    intro m
    unfold processDeferredActionsLoop
    simp only [post_ite, post_ok, post_error]
    exact ⟨fun _ => rfl, fun _ => trivial⟩
  | succ n ih =>
    intro m
    unfold processDeferredActionsLoop
    cases hq : m.mDeferredActions with
    | nil => exact (post_ok _ _).2 rfl
    | cons action rest =>
      simp only [post_ite, post_ok]
      refine ⟨fun _ => rfl, fun hf => ?_⟩
      simp only [not_or, not_not] at hf
      refine post_bind _ _ (NoBadSeek m) _ ?_ ?_
      · refine post_mono _ _ _ (execute_seek 0 b env action _) ?_
        rintro a ⟨-, h⟩
        exact h hf.1 hf.2
      · intro a ha
        exact post_mono _ _ _ (ih a) (fun _ h => Eq.trans h ha)

theorem processDeferredActions_noBadSeek (b : Build) (env : Env) (m : NuPlayer) :
    Post (processDeferredActions b env m) (NoBadSeek m) :=
  loop_noBadSeek b env _ m

theorem SeekFrame.frameOrdered {t : Int} {m a : NuPlayer} (h : SeekFrame t m a) (r0 : SeekStart)
    (ho : SeekOrdered t r0 m) : SeekOrdered t r0 a := by
  obtain ⟨hv, ⟨app, hq⟩, hd⟩ := h
  simp only [seekView, Prod.mk.injEq] at hv
  obtain ⟨-, v2, v3⟩ := hv
  rcases ho with ⟨o, oa, ov, early, o1, o2⟩ | ⟨pre, rest, early, o1, o2, o3, o4⟩
    | ⟨early, tail, o1, o2, o3⟩
  · have hn := hd (fun _ => ⟨oa, ov⟩) (v3.trans o)
    exact Or.inl ⟨v3.trans o, hn.1, hn.2, early, v2.trans o1, o2⟩
  · exact Or.inr (Or.inl ⟨pre, rest ++ app, early, by rw [hq, o1]; simp, v2.trans o2, o3, o4⟩)
  · exact Or.inr (Or.inr ⟨early, tail, v2.trans o1, o2, o3⟩)

/-- ResumeDecoders sends at most two signalResume calls and no seekTo, and without a
decoder it sends none. -/
theorem performResumeDecoders_order (t : Int) (b : Build) (env : Env) (n : Bool) (m : NuPlayer) :
    (performResumeDecoders b env n m).mSource = m.mSource
    ∧ ∃ new, seekResumeOrder t (performResumeDecoders b env n m) = seekResumeOrder t m ++ new
        ∧ new.count false ≤ 2
        ∧ (m.mAudioDecoder = none → m.mVideoDecoder = none → new = []) := by
  unfold performResumeDecoders
  dsimp only
  have h : ∀ x : NuPlayer, x = (if n = true then
      (if m.mVideoDecoder = none then
        if b.MTK_AOSP_ENHANCEMENT = true ∧ m.mDataSourceType = .SOURCE_Http then
          { m with mResumePending := false }
        else finishResume env { m with mResumePending := true }
      else { m with mResumePending := true })
    else m) → seekView t x = seekView t m ∧ machine x = machine m := by
    intro x hx
    subst hx
    split_ifs
    · exact ⟨rfl, rfl⟩
    · exact ⟨finishResume_seekView t env _, finishResume_machine env _⟩
    · exact ⟨rfl, rfl⟩
    · exact ⟨rfl, rfl⟩
  have h0 := h _ rfl
  generalize (if n = true then
      (if m.mVideoDecoder = none then
        if b.MTK_AOSP_ENHANCEMENT = true ∧ m.mDataSourceType = .SOURCE_Http then
          { m with mResumePending := false }
        else finishResume env { m with mResumePending := true }
      else { m with mResumePending := true })
    else m) = x at h0 ⊢
  simp only [seekView, machine, Prod.mk.injEq] at h0
  obtain ⟨⟨-, h2, h3⟩, -, -, -, -, -, -, h4, h5⟩ := h0
  rw [← h2, ← h3, ← h4, ← h5]
  by_cases hv : x.mVideoDecoder ≠ none
  · by_cases ha : (emit (.decoder false (.signalResume n)) x).mAudioDecoder ≠ none
    · rw [if_pos hv, if_pos ha]
      exact ⟨rfl, [false, false], by
        simp [seekResumeOrder, seekMark, isResume, emit, List.filterMap_append], by decide,
        fun _ h => absurd h hv⟩
    · rw [if_pos hv, if_neg ha]
      exact ⟨rfl, [false], by
        simp [seekResumeOrder, seekMark, isResume, emit, List.filterMap_append], by decide,
        fun _ h => absurd h hv⟩
  · by_cases ha : x.mAudioDecoder ≠ none
    · rw [if_neg hv, if_pos ha]
      exact ⟨rfl, [false], by
        simp [seekResumeOrder, seekMark, isResume, emit, List.filterMap_append], by decide,
        fun h _ => absurd h ha⟩
    · rw [if_neg hv, if_neg ha]
      exact ⟨rfl, [], by simp, by decide, fun _ _ => rfl⟩

/-- performReset releases the source, which it does only when there is no decoder, and
sends neither seekTo nor signalResume. -/
theorem performReset_order (t : Int) (env : Env) (m : NuPlayer) :
    Post (performReset env m) (fun a => a.mSource = none
      ∧ a.mAudioDecoder = none ∧ a.mVideoDecoder = none
      ∧ a.mDeferredActions = m.mDeferredActions
      ∧ seekResumeOrder t a = seekResumeOrder t m) := by
  intro a h
  have hm := performReset_machine env m a h
  simp only [machine, Prod.mk.injEq] at hm
  obtain ⟨-, -, -, hq, -, -, hda, hdv⟩ := hm
  have hnone : m.mAudioDecoder = none ∧ m.mVideoDecoder = none := by
    unfold performReset at h
    by_cases h1 : m.mAudioDecoder ≠ none
    · rw [if_pos h1] at h
      cases h
    by_cases h2 : m.mVideoDecoder ≠ none
    · rw [if_neg h1, if_pos h2] at h
      cases h
    exact ⟨not_not.1 h1, not_not.1 h2⟩
  refine ⟨?_, hda.trans hnone.1, hdv.trans hnone.2, hq, ?_⟩
  · clear hq hda hdv hnone
    revert a
    show Post (performReset env m) (fun a => a.mSource = none)
    simp only [performReset, post_ite, post_ok, post_error]
    refine ⟨fun _ => trivial, fun _ => ⟨fun _ => trivial, fun _ => ?_⟩⟩
    by_cases hs : m.mSource = none <;>
      simp [hs, emit, cancelPollDuration, apply_ite NuPlayer.mSource]
  · clear hq hda hdv hnone
    revert a
    show Post (performReset env m) (fun a => seekResumeOrder t a = seekResumeOrder t m)
    simp only [performReset, post_ite, post_ok, post_error]
    refine ⟨fun _ => trivial, fun _ => ⟨fun _ => trivial, fun _ => ?_⟩⟩
    simp [seekResumeOrder, seekMark, isSeekTo, isResume, emit, cancelPollDuration,
      List.filterMap_append, apply_ite (List.filterMap _)]

/-- What one action does to the source, to the decoders, to the queue and to the order of
calls. -/
theorem execute_order (t : Int) (b : Build) (env : Env) (action : Action) (m : NuPlayer) :
    Post (action.execute b env m) (fun a =>
      (DecodersNeedSource m → DecodersNeedSource a)
      ∧ (m.mSource = none → a.mSource = none)
      ∧ (∃ app, a.mDeferredActions = m.mDeferredActions ++ app)
      ∧ (action = .SeekAction t → a.mSource = none →
          a.mAudioDecoder = none ∧ a.mVideoDecoder = none)
      ∧ ∃ new, seekResumeOrder t a = seekResumeOrder t m ++ new
          ∧ new.count false ≤ (if isResumeAction action = true then 2 else 0)
          ∧ (m.mSource = none → DecodersNeedSource m → new = [])
          ∧ (action = .SeekAction t → a.mSource ≠ none → new = [true])) := by
  have hview : ∀ a : NuPlayer, SeekFrame t m a → action ≠ .SeekAction t →
      (DecodersNeedSource m → DecodersNeedSource a)
      ∧ (m.mSource = none → a.mSource = none)
      ∧ (∃ app, a.mDeferredActions = m.mDeferredActions ++ app)
      ∧ (action = .SeekAction t → a.mSource = none →
          a.mAudioDecoder = none ∧ a.mVideoDecoder = none)
      ∧ ∃ new, seekResumeOrder t a = seekResumeOrder t m ++ new
          ∧ new.count false ≤ (if isResumeAction action = true then 2 else 0)
          ∧ (m.mSource = none → DecodersNeedSource m → new = [])
          ∧ (action = .SeekAction t → a.mSource ≠ none → new = [true]) := by
    rintro a ⟨hv, hq, hd⟩ hne
    simp only [seekView, Prod.mk.injEq] at hv
    exact ⟨hd, fun h => hv.2.2.trans h, hq, fun h => absurd h hne, [], by simp [hv.2.1],
      by simp, fun _ _ => rfl, fun h => absurd h hne⟩
  cases action with
  | SeekAction p =>
    intro a h
    obtain ⟨h1, h2, h3, -⟩ := performSeek_seek t b p m a h
    have hm := performSeek_machine b p m a h
    simp only [machine, Prod.mk.injEq] at hm
    refine ⟨DecodersNeedSource.ofHandles h2 hm.2.2.2.2.2.2.1 hm.2.2.2.2.2.2.2,
      fun h => h2.trans h, ⟨[], by simp [h1]⟩, ?_,
      (if p = t ∧ m.mSource ≠ none then [true] else []), h3, by split_ifs <;> simp, ?_, ?_⟩
    · intro _ hs
      rw [h2] at hs
      rw [hm.2.2.2.2.2.2.1, hm.2.2.2.2.2.2.2]
      have h0 : performSeek b p m = .ok a := h
      unfold performSeek at h0
      rw [if_pos hs] at h0
      by_cases hc : m.mAudioDecoder ≠ none ∨ m.mVideoDecoder ≠ none
      · rw [if_pos hc] at h0
        cases h0
      · rw [not_or, not_not, not_not] at hc
        exact hc
    · intro hs _
      rw [if_neg (fun hc => hc.2 hs)]
    · intro hp hs
      have hp : p = t := by cases hp; rfl
      rw [h2] at hs
      rw [if_pos ⟨hp, hs⟩]
  | ResumeDecoderAction n =>
    obtain ⟨h1, new, h3, h4, h5⟩ := performResumeDecoders_order t b env n m
    have hm := performResumeDecoders_machine b env n m
    simp only [machine, Prod.mk.injEq] at hm
    exact (post_ok _ _).2 ⟨DecodersNeedSource.ofHandles h1 hm.2.2.2.2.2.2.1 hm.2.2.2.2.2.2.2,
      fun h => h1.trans h, ⟨[], by simp [hm.2.2.2.1]⟩, (fun h => by cases h), new, h3,
      by simpa [isResumeAction] using h4, fun hs hd => h5 (hd hs).1 (hd hs).2,
      fun h => by cases h⟩
  | SetSurfaceAction s =>
    exact (post_ok _ _).2 (hview _ (SeekFrame.frameOfMachine
      (performSetSurface_seekView t b env s m) (performSetSurface_machine b env s m)) (by simp))
  | FlushDecoderAction fa fv =>
    exact (post_ok _ _).2 (hview _ (performDecoderFlush_seekFrame t fa fv m) (by simp))
  | PostMessageAction r =>
    exact (post_ok _ _).2 (hview _ (SeekFrame.frameOfMachine (emit_seekView t _ m rfl rfl)
      (emit_machine _ m)) (by simp))
  | SimpleAction f =>
    cases f with
    | performScanSources =>
      exact (post_ok _ _).2 (hview _ (SeekFrame.frameOfMachine (performScanSources_seekView t m)
        (performScanSources_machine m)) (by simp))
    | performReset =>
      refine post_mono _ _ _ (performReset_order t env m) ?_
      rintro a ⟨h1, h2, h3, h4, h5⟩
      exact ⟨fun _ _ => ⟨h2, h3⟩, fun _ => h1, ⟨[], by simp [h4]⟩, (fun h => by cases h), [],
        by simp [h5], by simp, fun _ _ => rfl, fun h => by cases h⟩

theorem loop_ordered (t : Int) (b : Build) (env : Env) (r0 : SeekStart) :
    ∀ (n : Nat) (m : NuPlayer), SeekOrdered t r0 m →
      Post (processDeferredActionsLoop b env n m) (SeekOrdered t r0) := by
  intro n
  induction n with
  | zero =>
    intro m ho
    unfold processDeferredActionsLoop
    simp only [post_ite, post_ok, post_error]
    exact ⟨fun _ => ho, fun _ => trivial⟩
  | succ n ih =>
    intro m ho
    unfold processDeferredActionsLoop
    cases hq : m.mDeferredActions with
    | nil => exact (post_ok _ _).2 ho
    | cons action rest =>
      simp only [post_ite, post_ok]
      refine ⟨fun _ => ho, fun _ => ?_⟩
      refine post_bind _ _ (SeekOrdered t r0) _ ?_ (fun a ha => ih a ha)
      refine post_mono _ _ _ (execute_order t b env action { m with mDeferredActions := rest }) ?_
      rintro a ⟨hd, hs, ⟨app, hqa⟩, hdec, new, hn1, hn2, hn3, hn4⟩
      have hord : seekResumeOrder t a = seekResumeOrder t m ++ new := hn1
      rcases ho with ⟨o, oa, ov, early, o1, o2⟩ | ⟨pre, rest2, early, o1, o2, o3, o4⟩
        | ⟨early, tail, o1, o2, o3⟩
      · have hn := hd (fun _ => ⟨oa, ov⟩) (hs o)
        refine Or.inl ⟨hs o, hn.1, hn.2, early, ?_, o2⟩
        rw [hord, o1, hn3 o (fun _ => ⟨oa, ov⟩), List.append_nil]
      · rw [hq] at o1
        cases pre with
        | nil =>
          simp only [List.nil_append, List.cons.injEq] at o1
          obtain ⟨rfl, -⟩ := o1
          simp only [List.countP_nil, Nat.mul_zero, Nat.add_zero] at o3
          simp only [List.count_nil, Nat.add_zero] at o4
          by_cases hsrc : a.mSource = none
          · have hn := hdec rfl hsrc
            refine Or.inl ⟨hsrc, hn.1, hn.2, early ++ new,
              by rw [hord, o2, List.append_assoc], ?_⟩
            simp only [isResumeAction, Bool.false_eq_true, if_false] at hn2
            simp only [List.count_append]
            omega
          · have hnew := hn4 rfl hsrc
            exact Or.inr (Or.inr ⟨early, [], by rw [hord, o2, hnew], o3, o4⟩)
        | cons x pre2 =>
          simp only [List.cons_append, List.cons.injEq] at o1
          obtain ⟨rfl, rfl⟩ := o1
          have hcount : (early ++ new).count false + 2 * pre2.countP isResumeAction
              ≤ r0.resumes := by
            simp only [List.count_append, List.countP_cons] at o3 ⊢
            split_ifs at hn2 o3 <;> omega
          by_cases hx : action = .SeekAction t
          · by_cases hsrc : a.mSource = none
            · have hn := hdec hx hsrc
              exact Or.inl ⟨hsrc, hn.1, hn.2, early ++ new,
                by rw [hord, o2, List.append_assoc], by omega⟩
            · refine Or.inr (Or.inl ⟨pre2, rest2 ++ app, early ++ new, by simp [hqa],
                by rw [hord, o2, List.append_assoc], hcount, ?_⟩)
              have hnew := hn4 hx hsrc
              subst hx
              simp only [List.count_append, List.count_cons] at o4 ⊢
              simp [hnew] at o4 ⊢
              omega
          · refine Or.inr (Or.inl ⟨pre2, rest2 ++ app, early ++ new, by simp [hqa],
              by rw [hord, o2, List.append_assoc], hcount, ?_⟩)
            simp only [List.count_append, List.count_cons] at o4 ⊢
            have : (action == Action.SeekAction t) = false := by simpa using hx
            simp only [this] at o4
            simp at o4
            omega
      · exact Or.inr (Or.inr ⟨early, tail ++ new, by rw [hord, o1]; simp, o2, o3⟩)

theorem processDeferredActions_ordered (t : Int) (b : Build) (env : Env) (r0 : SeekStart)
    (m : NuPlayer) (ho : SeekOrdered t r0 m) :
    Post (processDeferredActions b env m) (SeekOrdered t r0) :=
  loop_ordered t b env r0 _ m ho

theorem Keeps.keepsRefl (t : Int) (m : NuPlayer) : Keeps t m m :=
  ⟨rfl, fun _ h => h⟩

theorem Keeps.keepsTrans {t : Int} {m a c : NuPlayer} (h1 : Keeps t m a) (h2 : Keeps t a c) :
    Keeps t m c :=
  ⟨Eq.trans h2.1 h1.1, fun r0 h => h2.2 r0 (h1.2 r0 h)⟩

theorem SeekFrame.keeps {t : Int} {m a : NuPlayer} (h : SeekFrame t m a) : Keeps t m a :=
  ⟨h.noBadSeek, fun r0 ho => h.frameOrdered r0 ho⟩

theorem Keeps.keepsOfView {t : Int} {m a : NuPlayer} (hv : seekView t a = seekView t m)
    (hq : a.mDeferredActions = m.mDeferredActions)
    (hd : DecodersNeedSource m → DecodersNeedSource a) : Keeps t m a :=
  (SeekFrame.frameOfView hv hq hd).keeps

theorem Keeps.keepsOfMachine {t : Int} {m a : NuPlayer} (hv : seekView t a = seekView t m)
    (hm : machine a = machine m) : Keeps t m a :=
  (SeekFrame.frameOfMachine hv hm).keeps

/-- What code that leaves the order of calls, the source, the queue and the decoder handles
alone establishes. -/
theorem Keeps.keepsOfHandles {t : Int} {m a : NuPlayer}
    (h : seekView t a = seekView t m ∧ a.mDeferredActions = m.mDeferredActions
      ∧ a.mAudioDecoder = m.mAudioDecoder ∧ a.mVideoDecoder = m.mVideoDecoder) :
    Keeps t m a := by
  have hs := h.1
  simp only [seekView, Prod.mk.injEq] at hs
  exact Keeps.keepsOfView h.1 h.2.1 (DecodersNeedSource.ofHandles hs.2.2 h.2.2.1 h.2.2.2)

theorem processDeferredActions_keeps (t : Int) (b : Build) (env : Env) (m : NuPlayer) :
    Post (processDeferredActions b env m) (Keeps t m) :=
  fun a h => ⟨processDeferredActions_noBadSeek b env m a h,
    fun r0 ho => processDeferredActions_ordered t b env r0 m ho a h⟩

/-- A drain after code that kept everything. -/
theorem drain_keeps (t : Int) (b : Build) (env : Env) (m m0 : NuPlayer) (h : Keeps t m m0) :
    Post (processDeferredActions b env m0) (Keeps t m) :=
  post_mono _ _ _ (processDeferredActions_keeps t b env m0) (fun _ h2 => h.keepsTrans h2)

theorem finishFlushIfPossible_keeps (t : Int) (b : Build) (env : Env) (m : NuPlayer) :
    Post (finishFlushIfPossible b env m) (Keeps t m) := by
  unfold finishFlushIfPossible
  rw [post_ite]
  refine ⟨fun _ => (post_ok _ _).2 (Keeps.keepsRefl t m), fun _ => ?_⟩
  rw [post_ite]
  refine ⟨fun _ => (post_ok _ _).2 (Keeps.keepsRefl t m), fun _ => ?_⟩
  refine post_bind _ _ (fun a => seekView t a = seekView t m
    ∧ a.mDeferredActions = m.mDeferredActions
    ∧ a.mAudioDecoder = m.mAudioDecoder ∧ a.mVideoDecoder = m.mVideoDecoder) _ ?_ ?_
  · simp only [post_ite, post_ok, post_error, pure_eq_ok]
    exact ⟨fun _ => ⟨fun _ => trivial, fun _ => ⟨emit_seekView t _ _ rfl rfl, rfl, rfl, rfl⟩⟩,
      fun _ => by simp⟩
  intro a ha
  exact drain_keeps t b env m _ (Keeps.keepsOfHandles ha)

theorem finish_keeps (t : Int) (b : Build) (env : Env) (m m0 : NuPlayer) (h : Keeps t m m0) :
    Post (finishFlushIfPossible b env m0) (Keeps t m) :=
  post_mono _ _ _ (finishFlushIfPossible_keeps t b env m0) (fun _ h2 => h.keepsTrans h2)

theorem flushComplete_keeps (t : Int) (b : Build) (env : Env) (audio isDecoder : Bool)
    (m : NuPlayer) :
    Post (handleFlushComplete audio isDecoder m >>= finishFlushIfPossible b env) (Keeps t m) :=
  post_bind _ _ _ _ (handleFlushComplete_seekFrame t audio isDecoder m)
    (fun a ha => finish_keeps t b env m a ha.keeps)

theorem KeepsOrder.orderRefl (t : Int) (m : NuPlayer) : KeepsOrder t m m :=
  fun _ h => h

theorem KeepsOrder.orderTrans {t : Int} {m a c : NuPlayer} (h1 : KeepsOrder t m a)
    (h2 : KeepsOrder t a c) : KeepsOrder t m c :=
  fun r0 h => h2 r0 (h1 r0 h)

theorem performSeek_keepsOrder (t : Int) (b : Build) (p : Int) (m : NuPlayer) :
    Post (performSeek b p m) (KeepsOrder t m) := by
  intro a h r0 ho
  obtain ⟨h1, h2, h3, -⟩ := performSeek_seek t b p m a h
  have hm := performSeek_machine b p m a h
  simp only [machine, Prod.mk.injEq] at hm
  rcases ho with ⟨o, oa, ov, early, o1, o2⟩ | ⟨pre, rest, early, o1, o2, o3, o4⟩
    | ⟨early, tail, o1, o2, o3⟩
  · refine Or.inl ⟨h2.trans o, hm.2.2.2.2.2.2.1.trans oa, hm.2.2.2.2.2.2.2.trans ov, early, ?_,
      o2⟩
    rw [h3, if_neg (fun hc => hc.2 o), List.append_nil, o1]
  · refine Or.inr (Or.inl ⟨pre, rest,
      early ++ (if p = t ∧ m.mSource ≠ none then [true] else []), by rw [h1, o1], by
        rw [h3, o2, List.append_assoc], ?_, ?_⟩)
    · split_ifs <;> simpa using o3
    · split_ifs <;> simp <;> omega
  · exact Or.inr (Or.inr ⟨early, tail ++ (if p = t ∧ m.mSource ≠ none then [true] else []), by
      rw [h3, o1]; simp, o2, o3⟩)

theorem shutdownCompleted_keeps (t : Int) (b : Build) (env : Env) (audio : Bool)
    (m : NuPlayer) :
    Post (onDecoderNotify b env audio .kWhatShutdownCompleted m) (Keeps t m) := by
  unfold onDecoderNotify
  cases audio
  · simp only [Bool.false_eq_true, if_false, post_ite, post_error]
    refine ⟨fun _ => trivial, fun _ => ?_⟩
    apply finish_keeps
    by_cases hb : b.MTK_AOSP_ENHANCEMENT = true
    · simp only [hb, if_true]
      exact Keeps.keepsOfView (emit_seekView t _ _ rfl rfl) rfl (fun h hs => ⟨(h hs).1, rfl⟩)
    · simp only [hb, if_false]
      exact Keeps.keepsOfView rfl rfl (fun h hs => ⟨(h hs).1, rfl⟩)
  · simp only [if_true, post_ite, post_error]
    refine ⟨fun _ => trivial, fun _ => ?_⟩
    apply finish_keeps
    exact Keeps.keepsOfView rfl rfl (fun h hs => ⟨rfl, (h hs).2⟩)

theorem decoderError_keeps (t : Int) (b : Build) (env : Env) (audio : Bool)
    (e1 e2 : Option Int) (m : NuPlayer) :
    Post (onDecoderNotify b env audio (.kWhatError e1 e2) m) (Keeps t m) := by
  unfold onDecoderNotify
  dsimp only
  refine post_bind _ _ (fun a => seekView t a = seekView t m
    ∧ a.mDeferredActions = m.mDeferredActions
    ∧ a.mAudioDecoder = m.mAudioDecoder ∧ a.mVideoDecoder = m.mVideoDecoder) _ ?_ ?_
  · simp only [post_ite, post_ok, post_error, pure_eq_ok]
    refine ⟨fun _ => ⟨fun _ => ⟨fun _ => trivial, fun _ => ⟨fun _ => ?_, fun _ => by simp⟩⟩,
      fun _ => ?_⟩, fun _ => by simp⟩
    · exact ⟨emit_seekView t _ _ rfl rfl, rfl, rfl, rfl⟩
    · exact ⟨emit_seekView t _ _ rfl rfl, rfl, rfl, rfl⟩
  intro a ha0
  have hma : Keeps t m a := Keeps.keepsOfHandles ha0
  refine post_bind _ _ (Keeps t m) _ ?_ ?_
  · have hframe : ∀ x : NuPlayer, seekView t x = seekView t a →
        (∃ app, x.mDeferredActions = a.mDeferredActions ++ app) →
        (DecodersNeedSource a → DecodersNeedSource x) → Keeps t m x :=
      fun x h1 h2 h3 => hma.keepsTrans (SeekFrame.keeps ⟨h1, h2, h3⟩)
    split
    · exact drain_keeps t b env m _ (hframe _ rfl ⟨_, rfl⟩ (fun h => h))
    · split
      · exact (post_ok _ _).2 (hframe _ rfl ⟨[], by simp⟩ (fun h => h))
      · exact (post_ok _ _).2 (hframe _ rfl ⟨[], by simp⟩ (fun h => h))
    · exact (post_ok _ _).2 hma
    · exact (post_ok _ _).2 hma
    · have hx : ∀ x : NuPlayer, x = (if audio = false ∧ a.mSource ≠ none
            ∧ a.mSourceFlags.FLAG_SECURE = true then
            { emit (.source .stop) a with mSourceStarted := false } else a) →
          seekView t x = seekView t a ∧ x.mDeferredActions = a.mDeferredActions
            ∧ (DecodersNeedSource a → DecodersNeedSource x) := by
        intro x hx
        subst hx
        split_ifs
        · exact ⟨emit_seekView t _ _ rfl rfl, rfl, fun h => h⟩
        · exact ⟨rfl, rfl, fun h => h⟩
      obtain ⟨x1, x2, x3⟩ := hx _ rfl
      generalize (if audio = false ∧ a.mSource ≠ none
            ∧ a.mSourceFlags.FLAG_SECURE = true then
            { emit (.source .stop) a with mSourceStarted := false } else a) = x at x1 x2 x3 ⊢
      simp only [post_ite, post_ok, post_error, pure_eq_ok]
      refine ⟨fun _ => trivial, fun _ => ⟨fun _ => ?_, fun _ => ?_⟩⟩
      · exact hframe _ ((emit_seekView t (.decoder audio .initiateShutdown) x rfl rfl).trans x1)
          ⟨[], by simp [emit, x2]⟩ x3
      · exact hframe _ ((emit_seekView t (.decoder audio .initiateShutdown) x rfl rfl).trans x1)
          ⟨[], by simp [emit, x2]⟩ x3
    · exact finish_keeps t b env m a hma
  intro a2 ha2
  rw [post_ite]
  refine ⟨fun _ => ?_, fun _ => ?_⟩
  · intro a3 h3
    exact ha2.keepsTrans (Keeps.keepsOfMachine (handleForACodecError_seekView t _ _ _ _ _ _ a3 h3)
      (handleForACodecError_machine b env audio e1 e2 a2 a3 h3))
  · exact (post_ok _ _).2 (ha2.keepsTrans (Keeps.keepsOfMachine
      (notifyListener_seekView t _ _ _ _ _ _) (notifyListener_machine _ _ _ _ _ _)))

theorem onDecoderNotify_keeps (t : Int) (b : Build) (env : Env) (audio : Bool)
    (what : DecoderWhat) (m : NuPlayer) :
    Post (onDecoderNotify b env audio what m) (Keeps t m) := by
  cases what with
  | kWhatInputDiscontinuity fc =>
    unfold onDecoderNotify
    refine drain_keeps t b env m _ (SeekFrame.keeps ⟨?_, ?_, ?_⟩)
    · split_ifs <;> rfl
    · cases fc
      · exact ⟨[.SimpleAction .performScanSources], by simp⟩
      · exact ⟨[.FlushDecoderAction
            (if audio = true then .FLUSH_CMD_SHUTDOWN else .FLUSH_CMD_NONE)
            (if audio = true then .FLUSH_CMD_NONE else .FLUSH_CMD_SHUTDOWN),
          .SimpleAction .performScanSources], by simp⟩
    · split_ifs <;> exact fun h => h
  | kWhatEOS err =>
    unfold onDecoderNotify
    simp only [post_ite, post_ok, post_error]
    exact ⟨fun _ => trivial, fun _ => Keeps.keepsOfMachine (emit_seekView t _ _ rfl rfl)
      (emit_machine _ _)⟩
  | kWhatFlushCompleted => exact flushComplete_keeps t b env audio true m
  | kWhatVideoSizeChanged format =>
    unfold onDecoderNotify
    simp only [post_ite, post_ok, post_error]
    refine ⟨fun _ => trivial, fun _ => ?_⟩
    intro a ha
    refine Keeps.keepsOfMachine ((updateVideoSize_seekView t _ _ _ _ _ a ha).trans
      (setVideoScalingMode_seekView t _ m)) ?_
    rw [updateVideoSize_machine _ _ _ _ _ a ha]
    simp [machine, setVideoScalingMode, emit]
  | kWhatShutdownCompleted => exact shutdownCompleted_keeps t b env audio m
  | kWhatResumeCompleted =>
    exact (post_ok _ _).2 (Keeps.keepsOfMachine (finishResume_seekView t env m)
      (finishResume_machine env m))
  | kWhatError e1 e2 => exact decoderError_keeps t b env audio e1 e2 m
  | other w => exact (post_ok _ _).2 (Keeps.keepsRefl t m)

theorem onRendererNotify_keeps (t : Int) (b : Build) (env : Env) (what : RendererWhat)
    (m : NuPlayer) (h1 : ∀ reason pos, what ≠ .kWhatAudioTearDown reason pos)
    (h2 : ∀ pos, what ≠ .kWhatRetryAudioOffload pos) :
    Post (onRendererNotify b env what m) (Keeps t m) := by
  cases what with
  | kWhatEOS audio finalResult =>
    refine post_mono _ (fun a => seekView t a = seekView t m
      ∧ a.mDeferredActions = m.mDeferredActions
      ∧ a.mAudioDecoder = m.mAudioDecoder ∧ a.mVideoDecoder = m.mVideoDecoder) _ ?_
      (fun _ h => Keeps.keepsOfHandles h)
    unfold onRendererNotify
    dsimp only
    simp only [post_ite, post_ok, post_error]
    cases audio <;>
      simp [seekView, seeksWhileFlushing, seekResumeOrder, seekMark, isSeekTo, isResume, emit,
        notifyListener, notifyListenerParcel, handleForRenderError1, List.filter_append,
        List.filterMap_append, apply_ite (List.filter _), apply_ite (List.filterMap _),
        apply_ite NuPlayer.mAudioDecoder, apply_ite NuPlayer.mVideoDecoder]
  | kWhatFlushComplete audio =>
    unfold onRendererNotify
    dsimp only
    rw [post_ite]
    refine ⟨fun _ => (post_ok _ _).2 (Keeps.keepsOfMachine (by split_ifs <;> rfl)
      (by split_ifs <;> rfl)), fun _ => ?_⟩
    refine post_mono _ _ _ (flushComplete_keeps t b env audio false _) (fun a ha => ?_)
    exact (Keeps.keepsOfMachine (by split_ifs <;> rfl) (by split_ifs <;> rfl)).keepsTrans ha
  | kWhatVideoRenderingStart =>
    exact (post_ok _ _).2 (Keeps.keepsOfMachine (notifyListener_seekView t _ _ _ _ _ m)
      (notifyListener_machine _ _ _ _ _ m))
  | kWhatMediaRenderingStart =>
    exact (post_ok _ _).2 (Keeps.keepsOfMachine (notifyListener_seekView t _ _ _ _ _ m)
      (notifyListener_machine _ _ _ _ _ m))
  | kWhatAudioTearDown reason pos => exact absurd rfl (h1 reason pos)
  | kWhatRetryAudioOffload positionUs => exact absurd rfl (h2 positionUs)
  | other w => exact (post_ok _ _).2 (Keeps.keepsRefl t m)

/-- The part of restartAudio after the status has been settled keeps the order. -/
theorem restartAudio_tail_keepsOrder (t : Int) (b : Build) (env : Env) (p : Int) (f n : Bool)
    (m : NuPlayer) :
    Post (if m.mRenderer = none then pure m
      else do
        let m ← closeAudioSink m
        let m := emit (.renderer (.flush true false)) m
        let m := if m.mVideoDecoder ≠ none then emit (.renderer (.flush false false)) m else m
        let m ← performSeek b p m
        let m := if f = true then
            { emit (.renderer .signalDisableOffloadAudio) m with mOffloadAudio := false }
          else m
        if n = true then do
          let r ← instantiateDecoder b env true (!f) m
          pure r.2
        else pure m) (KeepsOrder t m) := by
  rw [post_ite]
  refine ⟨fun _ => (post_ok _ _).2 (KeepsOrder.orderRefl t m), fun _ => ?_⟩
  refine post_bind _ _ (fun a => seekView t a = seekView t m ∧ machine a = machine m) _
    (fun a h => ⟨(closeAudioSink_seekView t m a h).1, closeAudioSink_machine m a h⟩) ?_
  rintro a ⟨hv, hm⟩
  have h0 : KeepsOrder t m (if (emit (.renderer (.flush true false)) a).mVideoDecoder ≠ none
      then emit (.renderer (.flush false false)) (emit (.renderer (.flush true false)) a)
      else emit (.renderer (.flush true false)) a) := by
    refine (Keeps.keepsOfMachine ?_ ?_).2
    · split_ifs
      · rw [emit_seekView t (.renderer (.flush false false)) _ rfl rfl,
          emit_seekView t (.renderer (.flush true false)) _ rfl rfl]
        exact hv
      · rw [emit_seekView t (.renderer (.flush true false)) _ rfl rfl]
        exact hv
    · split_ifs
      · rw [emit_machine, emit_machine]
        exact hm
      · rw [emit_machine]
        exact hm
  refine post_bind _ _ (KeepsOrder t m) _ ?_ ?_
  · exact post_mono _ _ _ (performSeek_keepsOrder t b p _) (fun _ h => h0.orderTrans h)
  intro a2 ha2
  have h2 : KeepsOrder t m (if f = true then
      { emit (.renderer .signalDisableOffloadAudio) a2 with mOffloadAudio := false }
      else a2) := by
    refine ha2.orderTrans (Keeps.keepsOfMachine ?_ ?_).2
    · split_ifs
      · exact emit_seekView t (.renderer .signalDisableOffloadAudio) a2 rfl rfl
      · rfl
    · split_ifs <;> rfl
  rw [post_ite]
  refine ⟨fun _ => ?_, fun _ => (post_ok _ _).2 h2⟩
  refine post_bind _ _ _ _ (instantiateDecoder_seekFrame t b env true (!f) _) ?_
  intro r hr
  exact (post_ok _ _).2 (h2.orderTrans hr.keeps.2)

theorem restartAudio_keepsOrder (t : Int) (b : Build) (env : Env) (p : Int) (f n : Bool)
    (m : NuPlayer) : Post (restartAudio b env p f n m) (KeepsOrder t m) := by
  unfold restartAudio
  dsimp only
  have h0 : Keeps t m (if m.mAudioDecoder ≠ none then
      { emit (.decoder true .pause) m with
        mAudioDecoder := none, mAudioDecoderGeneration := m.mAudioDecoderGeneration + 1 }
      else m) := by
    refine Keeps.keepsOfView ?_ ?_ ?_
    · split_ifs
      · exact emit_seekView t (.decoder true .pause) m rfl rfl
      · rfl
    · split_ifs <;> rfl
    · split_ifs
      · exact fun h hs => ⟨rfl, (h hs).2⟩
      · exact fun h => h
  generalize (if m.mAudioDecoder ≠ none then
      { emit (.decoder true .pause) m with
        mAudioDecoder := none, mAudioDecoderGeneration := m.mAudioDecoderGeneration + 1 }
      else m) = m1 at h0 ⊢
  refine post_bind _ _ (fun r => Keeps t m r.1) _ ?_ ?_
  · simp only [post_ite]
    refine ⟨fun _ => ?_, fun _ => ⟨fun _ => ?_, fun _ => (post_ok _ _).2 h0⟩⟩
    · refine post_bind _ _ (Keeps t m) _ ?_ (fun a ha => (post_ok _ _).2 ha)
      exact finish_keeps t b env m _ (h0.keepsTrans (Keeps.keepsOfView rfl rfl (fun h => h)))
    · refine post_bind _ _ (Keeps t m) _ ?_ (fun a ha => (post_ok _ _).2 ha)
      exact finish_keeps t b env m _ (h0.keepsTrans (Keeps.keepsOfView rfl rfl (fun h => h)))
  intro r hr
  exact post_mono _ _ _ (restartAudio_tail_keepsOrder t b env p f r.2 r.1)
    (fun _ h => hr.2.orderTrans h)

theorem retryAudioOffload_keepsOrder (t : Int) (b : Build) (env : Env) (p : Int)
    (m : NuPlayer) :
    Post (onRendererNotify b env (.kWhatRetryAudioOffload p) m) (KeepsOrder t m) := by
  unfold onRendererNotify
  rw [post_ite]
  refine ⟨fun _ => ?_, fun _ => (post_ok _ _).2 (KeepsOrder.orderRefl t m)⟩
  refine post_bind _ _ (fun a => seekView t a = seekView t m ∧ machine a = machine m) _
    (fun a h => ⟨(closeAudioSink_seekView t m a h).1, closeAudioSink_machine m a h⟩) ?_
  rintro a ⟨hv, hm⟩
  refine post_mono _ _ _ (performSeek_keepsOrder t b p _) (fun _ h => KeepsOrder.orderTrans ?_ h)
  simp only [machine, Prod.mk.injEq] at hm
  have hs := hv
  simp only [seekView, Prod.mk.injEq] at hs
  refine (Keeps.keepsOfView ?_ ?_ ?_).2
  · split_ifs
    · rw [emit_seekView t (.renderer (.flush false false)) _ rfl rfl,
        emit_seekView t (.renderer (.flush true false)) _ rfl rfl]
      exact hv
    · rw [emit_seekView t (.renderer (.flush true false)) _ rfl rfl]
      exact hv
  · split_ifs <;> simp [emit, hm.2.2.2.1]
  · intro h hn
    have hn2 : m.mSource = none := by
      rw [← hs.2.2]
      split_ifs at hn <;> exact hn
    refine ⟨by split_ifs <;> rfl, ?_⟩
    have hvd : a.mVideoDecoder = none := hm.2.2.2.2.2.2.2.trans (h hn2).2
    split_ifs <;> exact hvd

theorem audioTearDown_keepsOrder (t : Int) (b : Build) (env : Env) (reason : AudioTearDownReason)
    (pos : Option Int) (m : NuPlayer) :
    Post (onRendererNotify b env (.kWhatAudioTearDown reason pos) m) (KeepsOrder t m) := by
  unfold onRendererNotify
  rw [post_ite]
  refine ⟨fun _ => (post_ok _ _).2 (KeepsOrder.orderRefl t m), fun _ => ?_⟩
  dsimp only
  rw [post_ite]
  exact ⟨fun _ => restartAudio_keepsOrder t b env _ _ _ m,
    fun _ => restartAudio_keepsOrder t b env _ _ _ m⟩

/-- A notification of a decoder or of the renderer keeps the order of seekTo(t) and
signalResume. -/
theorem notification_keepsOrder (t : Int) (b : Build) (env : Env) (msg : Msg) (m : NuPlayer)
    (h : isNotification msg = true) :
    Post (onMessageReceived b env msg m) (KeepsOrder t m) := by
  cases msg <;> simp only [isNotification, Bool.false_eq_true] at h
  case kWhatDecoderNotify audio g reply what =>
    unfold onMessageReceived
    dsimp only
    rw [post_ite]
    refine ⟨fun _ => ?_, fun _ => fun a ha => (onDecoderNotify_keeps t b env audio what m a ha).2⟩
    cases reply with
    | none => exact (post_ok _ _).2 (KeepsOrder.orderRefl t m)
    | some r =>
      exact (post_ok _ _).2 (Keeps.keepsOfMachine
        (emit_seekView t (.postMessage r (some INFO_DISCONTINUITY)) m rfl rfl)
        (emit_machine _ m)).2
  case kWhatRendererNotify g what =>
    unfold onMessageReceived
    rw [post_ite]
    refine ⟨fun _ => (post_ok _ _).2 (KeepsOrder.orderRefl t m), fun _ => ?_⟩
    by_cases h1 : ∃ reason pos, what = .kWhatAudioTearDown reason pos
    · obtain ⟨reason, pos, rfl⟩ := h1
      exact audioTearDown_keepsOrder t b env reason pos m
    by_cases h2 : ∃ pos, what = .kWhatRetryAudioOffload pos
    · obtain ⟨pos, rfl⟩ := h2
      exact retryAudioOffload_keepsOrder t b env pos m
    exact fun a ha => (onRendererNotify_keeps t b env what m
      (fun reason pos hw => h1 ⟨reason, pos, hw⟩) (fun pos hw => h2 ⟨pos, hw⟩) a ha).2

/-- A notification of a decoder, or of the renderer other than a request to restart
audio, sends no seekTo while a track is flushing. -/
theorem notification_noBadSeek (b : Build) (env : Env) (msg : Msg) (m : NuPlayer)
    (h : isPlainNotification b msg = true) :
    Post (onMessageReceived b env msg m) (NoBadSeek m) := by
  cases msg <;> simp only [isPlainNotification, Bool.false_eq_true] at h
  case kWhatDecoderNotify audio g reply what =>
    unfold onMessageReceived
    dsimp only
    rw [post_ite]
    refine ⟨fun _ => ?_, fun _ => fun a ha => (onDecoderNotify_keeps 0 b env audio what m a ha).1⟩
    cases reply with
    | none => exact (post_ok _ _).2 rfl
    | some r =>
      exact (post_ok _ _).2 (Keeps.keepsOfMachine
        (emit_seekView 0 (.postMessage r (some INFO_DISCONTINUITY)) m rfl rfl)
        (emit_machine _ m)).1
  case kWhatRendererNotify g what =>
    unfold onMessageReceived
    rw [post_ite]
    refine ⟨fun _ => (post_ok _ _).2 rfl, fun _ => ?_⟩
    have h1 : ∀ reason pos, what ≠ .kWhatAudioTearDown reason pos := by
      intro reason pos hw
      subst hw
      simp [isPlainNotification] at h
    by_cases h2 : ∃ pos, what = .kWhatRetryAudioOffload pos
    · obtain ⟨pos, rfl⟩ := h2
      have hb : ¬ b.MTK_AUDIO_TUNNELING_SUPPORT = true := by
        simpa [isPlainNotification] using h
      unfold onRendererNotify
      dsimp only
      rw [if_neg hb]
      exact (post_ok _ _).2 rfl
    exact fun a ha => (onRendererNotify_keeps 0 b env what m h1
      (fun pos hw => h2 ⟨pos, hw⟩) a ha).1

theorem run_ordered (t : Int) (b : Build) (r0 : SeekStart) :
    ∀ (msgs : List (Env × Msg)) (m : NuPlayer),
      (∀ x ∈ msgs, isNotification x.2 = true) → SeekOrdered t r0 m →
      Post (run b msgs m) (SeekOrdered t r0) := by
  intro msgs
  induction msgs with
  | nil =>
    intro m _ ho
    exact (post_ok _ _).2 ho
  | cons x rest ih =>
    intro m hall ho
    obtain ⟨env, msg⟩ := x
    unfold run
    refine post_bind _ _ (SeekOrdered t r0) _ ?_ ?_
    · exact post_mono _ _ _ (notification_keepsOrder t b env msg m
        (hall (env, msg) (List.mem_cons_self _ _))) (fun _ h => h r0 ho)
    · intro a ha
      exact ih a (fun y hy => hall y (List.mem_cons_of_mem _ hy)) ha

theorem run_noBadSeek (b : Build) :
    ∀ (msgs : List (Env × Msg)) (m : NuPlayer),
      (∀ x ∈ msgs, isPlainNotification b x.2 = true) → Post (run b msgs m) (NoBadSeek m) := by
  intro msgs
  induction msgs with
  | nil =>
    intro m _
    exact (post_ok _ _).2 rfl
  | cons x rest ih =>
    intro m hall
    obtain ⟨env, msg⟩ := x
    unfold run
    refine post_bind _ _ (NoBadSeek m) _ ?_ ?_
    · exact notification_noBadSeek b env msg m (hall (env, msg) (List.mem_cons_self _ _))
    · intro a ha
      exact post_mono _ _ _ (ih a (fun y hy => hall y (List.mem_cons_of_mem _ hy)))
        (fun _ h => Eq.trans h ha)

/-- C4 as stated fails where audio is restarted, which seeks at once and not through the
queue. An audio tear-down that reports the position 5000000 while the flush of a seek to
5000000 is in flight sends seekTo(5000000) with the video status FLUSHING_DECODER. And
in a build with MTK_AUDIO_TUNNELING_SUPPORT a retry of audio offload that reports the
position 5000000 sends seekTo(5000000) with both statuses FLUSHING_DECODER. -/
theorem seek_issued_by_audio_restart_while_flushing :
    ((reached stockBuild startPlayback).mStarted = true
      ∧ run stockBuild [(sampleEnv, .kWhatSeek 5000000 true)] (reached stockBuild startPlayback)
          = .ok (reached stockBuild startAndSeek)
      ∧ seeksWhileFlushing (reached stockBuild startAndSeek) = []
      ∧ run stockBuild [(sampleEnv, audioTearDownAt)] (reached stockBuild startAndSeek)
          = .ok (reached stockBuild (startAndSeek ++ [audioTearDownAt]))
      ∧ (seeksWhileFlushing (reached stockBuild (startAndSeek ++ [audioTearDownAt]))).map
          (fun s => (s.event, s.flushingAudio, s.flushingVideo))
          = [(.source (.seekTo 5000000), .FLUSHED, .FLUSHING_DECODER)])
    ∧ ((reached tunnelBuild startPlayback).mStarted = true
      ∧ run tunnelBuild [(sampleEnv, .kWhatSeek 5000000 true)] (reached tunnelBuild startPlayback)
          = .ok (reached tunnelBuild startAndSeek)
      ∧ seeksWhileFlushing (reached tunnelBuild startAndSeek) = []
      ∧ run tunnelBuild [(sampleEnv, retryOffloadAt)] (reached tunnelBuild startAndSeek)
          = .ok (reached tunnelBuild (startAndSeek ++ [retryOffloadAt]))
      ∧ (seeksWhileFlushing (reached tunnelBuild (startAndSeek ++ [retryOffloadAt]))).map
          (fun s => (s.event, s.flushingAudio, s.flushingVideo))
          = [(.source (.seekTo 5000000), .FLUSHING_DECODER, .FLUSHING_DECODER)]) :=
  ⟨⟨by decide, rfl, by decide, rfl, by decide⟩, ⟨by decide, rfl, by decide, rfl, by decide⟩⟩

/-- C4 (amended): a seek handled while started appends FlushDecoders(FLUSH, FLUSH),
Seek(t), ResumeDecoders(needNotify) to the deferred queue in that order and then drains
the queue. In every run of decoder notifications and of renderer notifications other
than audio tear-down and, in a build with MTK_AUDIO_TUNNELING_SUPPORT, retry of audio
offload that follows, no seekTo is sent while a track is in FLUSHING_DECODER,
FLUSHING_DECODER_SHUTDOWN or SHUTTING_DOWN_DECODER. And in every run of decoder and
renderer notifications that follows, the ResumeDecoders of this seek does not run before
its Seek(t): either there is no source or Seek(t) still waits in the queue with
ResumeDecoders(needNotify) right behind it, and the signalResume calls sent since are at
most two for each ResumeDecoders action that was in the queue before the seek; or
seekTo(t) has been sent after at most that many signalResume calls and after the
seekTo(t) of every Seek(t) that was in the queue before. With no ResumeDecoders in the
queue before the seek, no signalResume is sent before seekTo(t). -/
theorem seek_waits_for_flush_and_precedes_resume (b : Build) (env : Env) (t : Int)
    (n : Bool) (m : NuPlayer) (hst : m.mStarted = true) :
    (∃ m1, m1.mDeferredActions = m.mDeferredActions ++
          [.FlushDecoderAction .FLUSH_CMD_FLUSH .FLUSH_CMD_FLUSH, .SeekAction t,
           .ResumeDecoderAction n]
        ∧ m1.trace = m.trace
        ∧ onMessageReceived b env (.kWhatSeek t n) m = processDeferredActions b env m1)
    ∧ (∀ msgs a, (∀ x ∈ msgs, isPlainNotification b x.2 = true) →
        run b ((env, .kWhatSeek t n) :: msgs) m = .ok a →
        seeksWhileFlushing a = seeksWhileFlushing m)
    ∧ (∀ msgs a, (∀ x ∈ msgs, isNotification x.2 = true) →
        run b ((env, .kWhatSeek t n) :: msgs) m = .ok a →
        ∃ new, seekResumeOrder t a = seekResumeOrder t m ++ new
          ∧ (((a.mSource = none
                ∨ ∃ pre rest, a.mDeferredActions
                    = pre ++ .SeekAction t :: .ResumeDecoderAction n :: rest)
              ∧ new.count false ≤ 2 * m.mDeferredActions.countP isResumeAction)
            ∨ ∃ early tail, new = early ++ true :: tail
                ∧ early.count false ≤ 2 * m.mDeferredActions.countP isResumeAction
                ∧ m.mDeferredActions.count (.SeekAction t) ≤ early.count true)) := by
  have hseek : ∃ m1, (m1.mDeferredActions = m.mDeferredActions ++
          [.FlushDecoderAction .FLUSH_CMD_FLUSH .FLUSH_CMD_FLUSH, .SeekAction t,
           .ResumeDecoderAction n]
        ∧ m1.trace = m.trace ∧ m1.mSource = m.mSource)
        ∧ onMessageReceived b env (.kWhatSeek t n) m = processDeferredActions b env m1 := by
    refine ⟨_, ?_, by
      simp only [onMessageReceived, hst, Bool.true_eq_false, if_false]
      rfl⟩
    split_ifs <;> simp
  obtain ⟨m1, ⟨hq, htr, hsrc1⟩, hm1⟩ := hseek
  have hbad : seeksWhileFlushing m1 = seeksWhileFlushing m := by
    simp only [seeksWhileFlushing, htr]
  have hord : seekResumeOrder t m1 = seekResumeOrder t m := by
    simp only [seekResumeOrder, htr]
  refine ⟨⟨m1, hq, htr, hm1⟩, fun msgs a hall hrun => ?_, fun msgs a hall hrun => ?_⟩
  · unfold run at hrun
    rw [hm1, bind_eq_ok] at hrun
    obtain ⟨a1, h1, h2⟩ := hrun
    have e1 := processDeferredActions_noBadSeek b env m1 a1 h1
    have e2 := run_noBadSeek b msgs a1 hall a h2
    exact (Eq.trans e2 e1).trans hbad
  · unfold run at hrun
    rw [hm1, bind_eq_ok] at hrun
    obtain ⟨a1, h1, h2⟩ := hrun
    have o1 : SeekOrdered t ⟨seekResumeOrder t m,
        2 * m.mDeferredActions.countP isResumeAction,
        m.mDeferredActions.count (.SeekAction t), n⟩ m1 := by
      refine Or.inr (Or.inl
        ⟨m.mDeferredActions ++ [.FlushDecoderAction .FLUSH_CMD_FLUSH .FLUSH_CMD_FLUSH], [], [],
          ?_, ?_, ?_, ?_⟩)
      · rw [hq]
        simp
      · rw [hord]
        simp
      · simp [List.countP_append, isResumeAction]
      · simp [List.count_append]
    have o2 := processDeferredActions_ordered t b env _ m1 o1 a1 h1
    have o3 := run_ordered t b _ msgs a1 hall o2 a h2
    rcases o3 with ⟨o, -, -, early, e1, e2⟩ | ⟨pre, rest, early, q, e1, e2, -⟩
      | ⟨early, tail, e1, e2, e3⟩
    · exact ⟨early, e1, Or.inl ⟨Or.inl o, e2⟩⟩
    · exact ⟨early, e1, Or.inl ⟨Or.inr ⟨pre, rest, q⟩, by
        simp only at e2
        omega⟩⟩
    · exact ⟨early ++ true :: tail, by rw [e1, List.append_assoc],
        Or.inr ⟨early, tail, rfl, e2, e3⟩⟩

theorem seek_waits_for_flush_and_precedes_resume_witness :
    (reached stockBuild startAndSeek).mStarted = true
    ∧ (reached stockBuild startAndSeek).mDeferredActions
        = [.SeekAction 5000000, .ResumeDecoderAction true]
    ∧ seekResumeOrder 7000000 (reached stockBuild (seekTwice ++ flushCompletions ++ flushCompletions))
        = seekResumeOrder 7000000 (reached stockBuild startAndSeek)
            ++ [false, false, true, false, false]
    ∧ ∃ new, seekResumeOrder 7000000
          (reached stockBuild (seekTwice ++ flushCompletions ++ flushCompletions))
        = seekResumeOrder 7000000 (reached stockBuild startAndSeek) ++ new
      ∧ ((((reached stockBuild (seekTwice ++ flushCompletions ++ flushCompletions)).mSource = none
            ∨ ∃ pre rest,
              (reached stockBuild (seekTwice ++ flushCompletions ++ flushCompletions)).mDeferredActions
                = pre ++ .SeekAction 7000000 :: .ResumeDecoderAction true :: rest)
          ∧ new.count false
              ≤ 2 * (reached stockBuild startAndSeek).mDeferredActions.countP isResumeAction)
        ∨ ∃ early tail, new = early ++ true :: tail
            ∧ early.count false
                ≤ 2 * (reached stockBuild startAndSeek).mDeferredActions.countP isResumeAction
            ∧ (reached stockBuild startAndSeek).mDeferredActions.count (.SeekAction 7000000)
                ≤ early.count true) :=
  ⟨by decide, by decide, by decide,
   (seek_waits_for_flush_and_precedes_resume stockBuild sampleEnv 7000000 true
      (reached stockBuild startAndSeek) (by decide)).2.2
      ((flushCompletions ++ flushCompletions).map (fun x => (sampleEnv, x)))
      (reached stockBuild (seekTwice ++ flushCompletions ++ flushCompletions)) (by decide) rfl⟩

/-! ## A reset and an audio restart -/

/-- C11: the reset message queues FlushDecoders(SHUTDOWN, SHUTDOWN) and performReset and
drains the queue; yet performReset can meet a live audio decoder. Playback is started,
the audio decoder fails and is shut down, and the client resets: the video decoder is
flushed for shutdown and performReset waits. If the video decoder now completes its
shutdown, the reset completes. If the renderer's audio tear-down is handled first,
restartAudio creates an audio decoder anew (generation 3) although a reset is under way,
and when the video decoder has shut down performReset stops at its first assertion, the
CHECK of line 2363. -/
theorem reset_meets_restarted_audio_decoder :
    (∀ b env m, onMessageReceived b env .kWhatReset m = processDeferredActions b env
        { m with mResetting := true,
                 mDeferredActions := m.mDeferredActions ++
                   [.FlushDecoderAction .FLUSH_CMD_SHUTDOWN .FLUSH_CMD_SHUTDOWN,
                    .SimpleAction .performReset] })
    ∧ run stockBuild (resetAfterAudioLoss.map (fun x => (sampleEnv, x))) (NuPlayer.new 0)
        = .ok (reached stockBuild resetAfterAudioLoss)
    ∧ (reached stockBuild resetAfterAudioLoss).mResetting = true
    ∧ (reached stockBuild resetAfterAudioLoss).mAudioDecoder = none
    ∧ (reached stockBuild resetAfterAudioLoss).mFlushingAudio = .NONE
    ∧ (reached stockBuild resetAfterAudioLoss).mFlushingVideo = .FLUSHING_DECODER_SHUTDOWN
    ∧ (reached stockBuild resetAfterAudioLoss).mDeferredActions = [.SimpleAction .performReset]
    ∧ (∃ a, run stockBuild (videoShutdownCompletes.map (fun x => (sampleEnv, x)))
          (reached stockBuild resetAfterAudioLoss) = .ok a
        ∧ a.mSource = none ∧ a.mResetting = false
        ∧ sentCount (.driver .notifyResetComplete) a = 1)
    ∧ (∃ a, onMessageReceived stockBuild sampleEnv audioTearDown
          (reached stockBuild resetAfterAudioLoss) = .ok a
        ∧ a.mResetting = true ∧ a.mAudioDecoder = some ⟨.Decoder, true, 3⟩
        ∧ a.mDeferredActions = [.SimpleAction .performReset])
    ∧ run stockBuild ((audioTearDown :: videoShutdownCompletes).map (fun x => (sampleEnv, x)))
        (reached stockBuild resetAfterAudioLoss) = .error (.check 2363)
    ∧ run vendorBuild
        ((resetAfterAudioLoss ++ audioTearDown :: videoShutdownCompletes).map
          (fun x => (sampleEnv, x))) (NuPlayer.new 0) = .error (.check 2363) :=
  ⟨fun _ _ _ => rfl, rfl, by decide, by decide, by decide, by decide, by decide,
   ⟨_, rfl, by decide, by decide, by decide⟩, ⟨_, rfl, by decide, by decide, by decide⟩,
   rfl, rfl⟩

/-! ## The steps of the flush machine, one by one -/

/-- C21: flushDecoder(track, needShutdown) with a non-empty decoder handle sets the
status of the track to FLUSHING_DECODER_SHUTDOWN if needShutdown and to FLUSHING_DECODER
otherwise and leaves the other status, signals one flush to that decoder and none to the
other, sets flushComplete[track][decoder] to false and flushComplete[track][renderer] to
true exactly when no renderer exists, adds 1 to scanSourcesGeneration, leaves the
pending flag false and, if a scan was pending, appends a scan-sources action to the
deferred queue; with an empty handle it returns the controller as it is. -/
theorem flushDecoder_effect (audio needShutdown : Bool) (m : NuPlayer) :
    (getDecoder audio m ≠ none →
      flushStatus audio (flushDecoder audio needShutdown m)
          = (if needShutdown = true then .FLUSHING_DECODER_SHUTDOWN else .FLUSHING_DECODER)
      ∧ flushStatus (!audio) (flushDecoder audio needShutdown m) = flushStatus (!audio) m
      ∧ sentCount (.decoder audio .signalFlush) (flushDecoder audio needShutdown m)
          = sentCount (.decoder audio .signalFlush) m + 1
      ∧ sentCount (.decoder (!audio) .signalFlush) (flushDecoder audio needShutdown m)
          = sentCount (.decoder (!audio) .signalFlush) m
      ∧ (flushDecoder audio needShutdown m).mFlushComplete.get audio true = false
      ∧ ((flushDecoder audio needShutdown m).mFlushComplete.get audio false = true
          ↔ m.mRenderer = none)
      ∧ (flushDecoder audio needShutdown m).mFlushComplete.get (!audio) true
          = m.mFlushComplete.get (!audio) true
      ∧ (flushDecoder audio needShutdown m).mFlushComplete.get (!audio) false
          = m.mFlushComplete.get (!audio) false
      ∧ (flushDecoder audio needShutdown m).mScanSourcesGeneration
          = m.mScanSourcesGeneration + 1
      ∧ (flushDecoder audio needShutdown m).mScanSourcesPending = false
      ∧ (flushDecoder audio needShutdown m).mDeferredActions = m.mDeferredActions
          ++ (if m.mScanSourcesPending = true then [.SimpleAction .performScanSources] else [])
      ∧ decoders (flushDecoder audio needShutdown m) = decoders m)
    ∧ (getDecoder audio m = none → flushDecoder audio needShutdown m = m) := by
  refine ⟨fun h => ?_, fun h => flushDecoder_of_none audio needShutdown m h⟩
  unfold flushDecoder
  rw [if_neg h]
  dsimp only
  refine ⟨?_, ?_, ?_, ?_, ?_, ?_, ?_, ?_, ?_, ?_, ?_, ?_⟩
  · cases audio <;> simp [flushStatus]
  · cases audio <;> simp [flushStatus, emit]
  · cases audio <;> simp [sentCount, events, emit, apply_ite (List.map Sent.event),
      apply_ite (List.count _)]
  · cases audio <;> simp [sentCount, events, emit, apply_ite (List.map Sent.event),
      apply_ite (List.count _)]
  · cases audio <;> simp [FlushComplete.get, FlushComplete.set, emit]
  · cases audio <;> simp [FlushComplete.get, FlushComplete.set, emit]
  · cases audio <;> simp [FlushComplete.get, FlushComplete.set, emit]
  · cases audio <;> simp [FlushComplete.get, FlushComplete.set, emit]
  · cases audio <;> simp [emit]
  · cases audio <;> simp [emit]
  · cases audio <;> cases hp : m.mScanSourcesPending <;> simp [emit, hp]
  · cases audio <;> simp [decoders, emit]

theorem flushDecoder_effect_witness :
    getDecoder true (reached stockBuild startPlayback) ≠ none
    ∧ flushStatus true (flushDecoder true false (reached stockBuild startPlayback))
        = (if false = true then .FLUSHING_DECODER_SHUTDOWN else .FLUSHING_DECODER)
    ∧ sentCount (.decoder true .signalFlush)
          (flushDecoder true false (reached stockBuild startPlayback))
        = sentCount (.decoder true .signalFlush) (reached stockBuild startPlayback) + 1 :=
  ⟨by decide,
   ((flushDecoder_effect true false (reached stockBuild startPlayback)).1 (by decide)).1,
   ((flushDecoder_effect true false (reached stockBuild startPlayback)).1 (by decide)).2.2.1⟩

/-- C23: handleFlushComplete(track, who) sets flushComplete[track][who]. If the other
bit of the track is still false, nothing else changes. If both bits are now true:
FLUSHING_DECODER becomes FLUSHED and nothing is sent; FLUSHING_DECODER_SHUTDOWN, the
decoder handle being set, becomes SHUTTING_DOWN_DECODER and one initiateShutdown goes to
the decoder of the track and none to the other; in any other status a renderer
completion changes nothing else and a decoder completion stops at the TRESPASS of line
1700. -/
theorem handleFlushComplete_effect (audio isDecoder : Bool) (m : NuPlayer) :
    (m.mFlushComplete.get audio (!isDecoder) = false →
      handleFlushComplete audio isDecoder m
        = .ok { m with mFlushComplete := m.mFlushComplete.set audio isDecoder true })
    ∧ (m.mFlushComplete.get audio (!isDecoder) = true →
      (flushStatus audio m = .FLUSHING_DECODER →
        ∃ a, handleFlushComplete audio isDecoder m = .ok a
          ∧ flushStatus audio a = .FLUSHED ∧ flushStatus (!audio) a = flushStatus (!audio) m
          ∧ a.mFlushComplete = m.mFlushComplete.set audio isDecoder true
          ∧ a.trace = m.trace ∧ decoders a = decoders m
          ∧ a.mDeferredActions = m.mDeferredActions)
      ∧ (flushStatus audio m = .FLUSHING_DECODER_SHUTDOWN → getDecoder audio m ≠ none →
        ∃ a, handleFlushComplete audio isDecoder m = .ok a
          ∧ flushStatus audio a = .SHUTTING_DOWN_DECODER
          ∧ flushStatus (!audio) a = flushStatus (!audio) m
          ∧ a.mFlushComplete = m.mFlushComplete.set audio isDecoder true
          ∧ sentCount (.decoder audio .initiateShutdown) a
              = sentCount (.decoder audio .initiateShutdown) m + 1
          ∧ sentCount (.decoder (!audio) .initiateShutdown) a
              = sentCount (.decoder (!audio) .initiateShutdown) m
          ∧ decoders a = decoders m ∧ a.mDeferredActions = m.mDeferredActions)
      ∧ (flushStatus audio m ≠ .FLUSHING_DECODER →
          flushStatus audio m ≠ .FLUSHING_DECODER_SHUTDOWN →
        handleFlushComplete audio isDecoder m
          = (if isDecoder = true then .error (.check 1700)
             else .ok { m with mFlushComplete := m.mFlushComplete.set audio isDecoder true }))) := by
  have hget : ∀ v, (m.mFlushComplete.set audio isDecoder true).get audio (!isDecoder) = v
      ↔ m.mFlushComplete.get audio (!isDecoder) = v := by
    intro v
    cases audio <;> cases isDecoder <;> simp [FlushComplete.get, FlushComplete.set]
  refine ⟨fun h => ?_, fun h => ⟨fun hs => ?_, fun hs hd => ?_, fun h1 h2 => ?_⟩⟩
  · unfold handleFlushComplete
    dsimp only
    rw [if_pos ((hget false).2 h)]
  · unfold handleFlushComplete
    dsimp only
    rw [if_neg (by rw [hget]; simp [h])]
    cases audio
    · simp only [flushStatus, Bool.false_eq_true, if_false] at hs
      simp [hs, flushStatus, decoders]
    · simp only [flushStatus, if_true] at hs
      simp [hs, flushStatus, decoders]
  · unfold handleFlushComplete
    dsimp only
    rw [if_neg (by rw [hget]; simp [h])]
    cases audio
    · simp only [flushStatus, Bool.false_eq_true, if_false] at hs
      simp only [getDecoder, Bool.false_eq_true, if_false] at hd
      by_cases hsec : m.mSource ≠ none ∧ m.mSourceFlags.FLAG_SECURE = true
      · simp [hs, hd, hsec, flushStatus, decoders, getDecoder, emit, sentCount, events]
      · simp [hs, hd, hsec, flushStatus, decoders, getDecoder, emit, sentCount, events]
    · simp only [flushStatus, if_true] at hs
      simp only [getDecoder, if_true] at hd
      simp [hs, hd, flushStatus, decoders, getDecoder, emit, sentCount, events]
  · unfold handleFlushComplete
    dsimp only
    rw [if_neg (by rw [hget]; simp [h])]
    cases audio
    · simp only [flushStatus, Bool.false_eq_true, if_false] at h1 h2
      cases hv : m.mFlushingVideo <;> simp [hv] at h1 h2 ⊢
    · simp only [flushStatus, if_true] at h1 h2
      cases hv : m.mFlushingAudio <;> simp [hv] at h1 h2 ⊢

/-- C24: a shutdown-completed notification of the current generation for a track in
SHUTTING_DOWN_DECODER clears the decoder handle of the track, adds 1 to its generation
counter and sets its status to SHUT_DOWN, and only then attempts finishFlushIfPossible;
the handle, generation and status of the other track, the completion bits and the
deferred queue are not written. For a track in any other status the handler stops at
its CHECK_EQ (line 1140 for audio, 1146 for video). -/
theorem shutdown_completed_clears_then_finishes (b : Build) (env : Env) (audio : Bool)
    (reply : Option AMessageId) (m : NuPlayer) :
    (flushStatus audio m = .SHUTTING_DOWN_DECODER →
      ∃ m1, onMessageReceived b env
            (.kWhatDecoderNotify audio (decoderGeneration audio m) reply .kWhatShutdownCompleted) m
          = finishFlushIfPossible b env m1
        ∧ getDecoder audio m1 = none
        ∧ decoderGeneration audio m1 = decoderGeneration audio m + 1
        ∧ flushStatus audio m1 = .SHUT_DOWN
        ∧ getDecoder (!audio) m1 = getDecoder (!audio) m
        ∧ decoderGeneration (!audio) m1 = decoderGeneration (!audio) m
        ∧ flushStatus (!audio) m1 = flushStatus (!audio) m
        ∧ m1.mFlushComplete = m.mFlushComplete
        ∧ m1.mDeferredActions = m.mDeferredActions)
    ∧ (flushStatus audio m ≠ .SHUTTING_DOWN_DECODER →
      onMessageReceived b env
          (.kWhatDecoderNotify audio (decoderGeneration audio m) reply .kWhatShutdownCompleted) m
        = .error (.check (if audio = true then 1140 else 1146))) := by
  rw [decoderNotify_current]
  unfold onDecoderNotify
  cases audio
  · simp only [Bool.false_eq_true, if_false, flushStatus]
    refine ⟨fun h => ?_, fun h => ?_⟩
    · rw [if_neg (by simp [h])]
      refine ⟨_, rfl, ?_⟩
      by_cases hb : b.MTK_AOSP_ENHANCEMENT = true <;>
        simp [hb, getDecoder, decoderGeneration, flushStatus, emit]
    · rw [if_pos (by simpa using h)]
  · simp only [if_true, flushStatus]
    refine ⟨fun h => ?_, fun h => ?_⟩
    · rw [if_neg (by simp [h])]
      refine ⟨_, rfl, ?_⟩
      simp [getDecoder, decoderGeneration, flushStatus]
    · rw [if_pos (by simpa using h)]

/-- Either flush status is outside NONE, FLUSHED and SHUT_DOWN: the condition under
which finishFlushIfPossible does nothing. -/
theorem finishFlush_blocked_eq (b : Build) (env : Env) (m : NuPlayer)
    (h : (m.mFlushingAudio ≠ .NONE ∧ m.mFlushingAudio ≠ .FLUSHED ∧ m.mFlushingAudio ≠ .SHUT_DOWN)
      ∨ (m.mFlushingVideo ≠ .NONE ∧ m.mFlushingVideo ≠ .FLUSHED
          ∧ m.mFlushingVideo ≠ .SHUT_DOWN)) :
    finishFlushIfPossible b env m = .ok m := by
  rcases h with h | h
  · exact finishFlushIfPossible_blocked b env true m (by simpa [flushStatus] using h)
  · exact finishFlushIfPossible_blocked b env false m (by simpa [flushStatus] using h)

/-- C25: if the audio or the video flush status is outside NONE, FLUSHED and SHUT_DOWN,
finishFlushIfPossible returns the controller as it is, so that no deferred action is
executed. Otherwise (the renderer being there where the vendor build sets its flag on
it) it is the drain of the deferred queue from a controller whose two statuses are NONE
and whose four completion bits are false, with the queue and the decoders as before: the
first queued action, if any, is executed on that controller. -/
theorem finishFlushIfPossible_resets_before_drain (b : Build) (env : Env) (m : NuPlayer) :
    (((m.mFlushingAudio ≠ .NONE ∧ m.mFlushingAudio ≠ .FLUSHED ∧ m.mFlushingAudio ≠ .SHUT_DOWN)
        ∨ (m.mFlushingVideo ≠ .NONE ∧ m.mFlushingVideo ≠ .FLUSHED
            ∧ m.mFlushingVideo ≠ .SHUT_DOWN)) →
      finishFlushIfPossible b env m = .ok m)
    ∧ (¬ ((m.mFlushingAudio ≠ .NONE ∧ m.mFlushingAudio ≠ .FLUSHED
            ∧ m.mFlushingAudio ≠ .SHUT_DOWN)
        ∨ (m.mFlushingVideo ≠ .NONE ∧ m.mFlushingVideo ≠ .FLUSHED
            ∧ m.mFlushingVideo ≠ .SHUT_DOWN)) →
      (b.MTK_AOSP_ENHANCEMENT = true ∧ m.mAudioDecoder ≠ none ∧ m.mFlushingAudio = .FLUSHED
          ∧ m.mVideoDecoder ≠ none ∧ m.mFlushingVideo = .FLUSHED → m.mRenderer ≠ none) →
      ∃ m1, finishFlushIfPossible b env m = processDeferredActions b env m1
        ∧ m1.mFlushingAudio = .NONE ∧ m1.mFlushingVideo = .NONE
        ∧ m1.mFlushComplete = ⟨false, false, false, false⟩
        ∧ m1.mDeferredActions = m.mDeferredActions ∧ decoders m1 = decoders m
        ∧ ∀ action rest, m.mDeferredActions = action :: rest →
            finishFlushIfPossible b env m
              = action.execute b env { m1 with mDeferredActions := rest }
                  >>= processDeferredActions b env) := by
  refine ⟨finishFlush_blocked_eq b env m, fun hn hR => ?_⟩
  rw [not_or] at hn
  have key : ∀ m1, finishFlushIfPossible b env m = processDeferredActions b env m1 →
      m1.mFlushingAudio = .NONE → m1.mFlushingVideo = .NONE →
      m1.mFlushComplete = ⟨false, false, false, false⟩ →
      m1.mDeferredActions = m.mDeferredActions → decoders m1 = decoders m →
      ∃ m1, finishFlushIfPossible b env m = processDeferredActions b env m1
        ∧ m1.mFlushingAudio = .NONE ∧ m1.mFlushingVideo = .NONE
        ∧ m1.mFlushComplete = ⟨false, false, false, false⟩
        ∧ m1.mDeferredActions = m.mDeferredActions ∧ decoders m1 = decoders m
        ∧ ∀ action rest, m.mDeferredActions = action :: rest →
            finishFlushIfPossible b env m
              = action.execute b env { m1 with mDeferredActions := rest }
                  >>= processDeferredActions b env := by
    intro m1 h1 h2 h3 h4 h5 h6
    refine ⟨m1, h1, h2, h3, h4, h5, h6, fun action rest hq => ?_⟩
    rw [h1]
    exact processDeferredActions_cons b env m1 action rest (h5.trans hq)
      (by simp [flushing, h2, h3])
  unfold finishFlushIfPossible at key ⊢
  rw [if_neg hn.1, if_neg hn.2] at key ⊢
  by_cases hc : b.MTK_AOSP_ENHANCEMENT = true ∧ m.mAudioDecoder ≠ none
      ∧ m.mFlushingAudio = .FLUSHED ∧ m.mVideoDecoder ≠ none ∧ m.mFlushingVideo = .FLUSHED
  · rw [if_pos hc, if_neg (hR hc)] at key ⊢
    simp only [pure_eq_ok, ok_bind] at key ⊢
    exact key _ rfl rfl rfl rfl (by simp [clearFlushComplete, emit])
      (by simp [decoders, clearFlushComplete, emit])
  · rw [if_neg hc] at key ⊢
    simp only [pure_eq_ok, ok_bind] at key ⊢
    exact key _ rfl rfl rfl rfl rfl rfl

/-! ## A decoder error outside a flush -/

/-- What holds of every executed action, from a controller with no flush in flight,
holds of the whole drain, if it is reflexive and transitive and blind to the removal of
the queue head. -/
theorem loop_invariant (b : Build) (env : Env) (R : NuPlayer → NuPlayer → Prop)
    (hrefl : ∀ m, R m m) (htrans : ∀ x y z, R x y → R y z → R x z)
    (hstep : ∀ (action : Action) (rest : List Action) (m : NuPlayer),
      m.mFlushingAudio = .NONE → m.mFlushingVideo = .NONE →
      m.mDeferredActions = action :: rest →
      Post (action.execute b env { m with mDeferredActions := rest }) (R m)) :
    ∀ (n : Nat) (m : NuPlayer), Post (processDeferredActionsLoop b env n m) (R m) := by
  intro n
  induction n with
  | zero =>
    intro m
    unfold processDeferredActionsLoop
    simp only [post_ite, post_ok, post_error]
    exact ⟨fun _ => hrefl m, fun _ => trivial⟩
  | succ n ih =>
    intro m
    unfold processDeferredActionsLoop
    cases hq : m.mDeferredActions with
    | nil => exact (post_ok _ _).2 (hrefl m)
    | cons action rest =>
      simp only [post_ite, post_ok]
      refine ⟨fun _ => hrefl m, fun hf => ?_⟩
      rw [not_or, not_not, not_not] at hf
      refine post_bind _ _ (R m) _ (hstep action rest m hf.1 hf.2 hq) ?_
      intro a ha
      exact post_mono _ _ _ (ih a) (fun _ h => htrans _ _ _ ha h)

theorem flushDecoder_shutdowns (k audio needShutdown : Bool) (m : NuPlayer) :
    shutdowns k (flushDecoder audio needShutdown m) = shutdowns k m := by
  unfold flushDecoder
  cases audio <;>
    simp [shutdowns, sentCount, events, emit, count_events_ite, apply_ite (List.map Sent.event),
      apply_ite (List.count _)]

theorem execute_shutdowns (b : Build) (env : Env) (k : Bool) (action : Action) (m : NuPlayer) :
    Post (action.execute b env m) (fun a => shutdowns k a = shutdowns k m) := by
  cases action with
  | SeekAction t =>
    intro a h
    rcases performSeek_ok b t m a h with ⟨_, rfl⟩ | ⟨_, rfl⟩ <;>
      simp [shutdowns, sentCount, events]
  | ResumeDecoderAction n =>
    simp only [Action.execute, post_ok]
    simp [performResumeDecoders, finishResume, notifyDriverSeekComplete, shutdowns, sentCount,
      events, emit, count_events_ite, apply_ite (List.map Sent.event), apply_ite (List.count _)]
  | SetSurfaceAction s =>
    simp only [Action.execute, post_ok]
    simp [performSetSurface, setVideoScalingMode, shutdowns, sentCount,
      events, emit, count_events_ite, apply_ite (List.map Sent.event), apply_ite (List.count _)]
  | FlushDecoderAction fa fv =>
    simp only [Action.execute, post_ok]
    unfold performDecoderFlush
    dsimp only
    split
    · rfl
    · split <;> split <;> simp [flushDecoder_shutdowns]
  | PostMessageAction x =>
    simp only [Action.execute, post_ok]
    simp [shutdowns, sentCount, events, emit]
  | SimpleAction f =>
    cases f
    · simp only [Action.execute, post_ok]
      simp [performScanSources, postScanSources, shutdowns, sentCount,
        events, emit, count_events_ite, apply_ite (List.map Sent.event), apply_ite (List.count _)]
    · simp only [Action.execute, performReset, cancelPollDuration, post_ite, post_ok, post_error]
      simp [shutdowns, sentCount,
        events, emit, count_events_ite, apply_ite (List.map Sent.event), apply_ite (List.count _)]

/-- A drain of the deferred queue sends no initiateShutdown. -/
theorem processDeferredActions_shutdowns (b : Build) (env : Env) (k : Bool) (m : NuPlayer) :
    Post (processDeferredActions b env m) (fun a => shutdowns k a = shutdowns k m) :=
  loop_invariant b env (fun m a => shutdowns k a = shutdowns k m) (fun _ => rfl)
    (fun _ _ _ h1 h2 => h2.trans h1)
    (fun action rest m _ _ _ =>
      post_mono _ _ _ (execute_shutdowns b env k action _)
        (fun _ h => h.trans (by simp [shutdowns, sentCount, events]))) _ m

theorem notifyListener_decoderSent (b : Build) (env : Env) (k : Bool) (c : DecoderCmd)
    (msg e1 e2 : Int) (m : NuPlayer) :
    sentCount (.decoder k c) (notifyListener b env msg e1 e2 m) = sentCount (.decoder k c) m := by
  simp [notifyListener, notifyListenerParcel, sentCount, events, emit, count_events_ite]

theorem handleForACodecError_decoderSent (b : Build) (env : Env) (audio k : Bool)
    (c : DecoderCmd) (e x : Option Int) (m : NuPlayer) :
    Post (handleForACodecError b env audio e x m) (fun a =>
      sentCount (.decoder k c) a = sentCount (.decoder k c) m) := by
  unfold handleForACodecError
  cases e with
  | none => simp [post_error]
  | some e =>
    cases x with
    | none => simp [post_ok, notifyListener_decoderSent]
    | some x =>
      simp only [post_ite, post_ok, post_error]
      simp [notifyListener, notifyListenerParcel, sentCount, events, emit, count_events_ite]
theorem decoderError_none_quiet (b : Build) (env : Env) (audio : Bool) (e1 e2 : Option Int)
    (m : NuPlayer) (hs : flushStatus audio m = .NONE) :
    Post (onDecoderNotify b env audio (.kWhatError e1 e2) m) (fun a =>
      decoders a = decoders m ∧ ∀ k, shutdowns k a = shutdowns k m) := by
  unfold onDecoderNotify
  dsimp only
  refine post_bind _ _ (fun a => machine a = machine m ∧ ∀ k, shutdowns k a = shutdowns k m)
    _ ?_ ?_
  · simp only [post_ite, post_ok, post_error, pure_eq_ok]
    simp [machine, shutdowns, sentCount, events, emit]
  rintro a ⟨ha, hka⟩
  have hsa : (if audio = true then a.mFlushingAudio else a.mFlushingVideo) = .NONE := by
    simp only [machine, Prod.mk.injEq] at ha
    cases audio
    · simpa [flushStatus, ha.2.1] using hs
    · simpa [flushStatus, ha.1] using hs
  rw [hsa]
  dsimp only
  refine post_bind _ _ (fun r => decoders r = decoders m ∧ ∀ k, shutdowns k r = shutdowns k m)
    _ ?_ ?_
  · intro r hr
    refine ⟨?_, fun k => ?_⟩
    · rw [processDeferredActions_decoders b env _ r hr]
      exact (machine_decoders ha : decoders a = decoders m)
    · rw [processDeferredActions_shutdowns b env k _ r hr, ← hka k]
      simp [shutdowns, sentCount, events]
  rintro r ⟨hd, hk⟩
  rw [post_ite]
  refine ⟨fun _ => ?_, fun _ => ?_⟩
  · intro x hx
    refine ⟨?_, fun k => ?_⟩
    · exact (machine_decoders (handleForACodecError_machine b env audio e1 e2 r x hx)).trans hd
    · exact (handleForACodecError_decoderSent b env audio k .initiateShutdown e1 e2 r x hx).trans
        (hk k)
  · rw [pure_eq_ok, post_ok]
    refine ⟨?_, fun k => ?_⟩
    · exact (machine_decoders (notifyListener_machine _ _ _ _ _ _)).trans hd
    · exact (notifyListener_decoderSent b env k .initiateShutdown _ _ _ r).trans (hk k)
theorem machine_flushStatus {m m1 : NuPlayer} (h : machine m1 = machine m) (k : Bool) :
    flushStatus k m1 = flushStatus k m := by
  simp only [machine, Prod.mk.injEq] at h
  cases k <;> simp [flushStatus, h.1, h.2.1]

/-- The flush of one track that a decoder error queues, executed with no flush in
flight and nothing else queued. -/
theorem performDecoderFlush_one (audio : Bool) (m : NuPlayer)
    (hs : flushStatus audio m = .NONE) (ho : flushStatus (!audio) m = .NONE)
    (hd : getDecoder audio m ≠ none) :
    flushStatus audio (performDecoderFlush
        (if audio = true then .FLUSH_CMD_SHUTDOWN else .FLUSH_CMD_NONE)
        (if audio = true then .FLUSH_CMD_NONE else .FLUSH_CMD_SHUTDOWN) m)
      = .FLUSHING_DECODER_SHUTDOWN
    ∧ flushStatus (!audio) (performDecoderFlush
        (if audio = true then .FLUSH_CMD_SHUTDOWN else .FLUSH_CMD_NONE)
        (if audio = true then .FLUSH_CMD_NONE else .FLUSH_CMD_SHUTDOWN) m) = .NONE
    ∧ sentCount (.decoder audio .signalFlush) (performDecoderFlush
        (if audio = true then .FLUSH_CMD_SHUTDOWN else .FLUSH_CMD_NONE)
        (if audio = true then .FLUSH_CMD_NONE else .FLUSH_CMD_SHUTDOWN) m)
      = sentCount (.decoder audio .signalFlush) m + 1
    ∧ sentCount (.decoder (!audio) .signalFlush) (performDecoderFlush
        (if audio = true then .FLUSH_CMD_SHUTDOWN else .FLUSH_CMD_NONE)
        (if audio = true then .FLUSH_CMD_NONE else .FLUSH_CMD_SHUTDOWN) m)
      = sentCount (.decoder (!audio) .signalFlush) m
    ∧ (performDecoderFlush
        (if audio = true then .FLUSH_CMD_SHUTDOWN else .FLUSH_CMD_NONE)
        (if audio = true then .FLUSH_CMD_NONE else .FLUSH_CMD_SHUTDOWN) m).mSource = m.mSource := by
  cases audio
  · simp only [getDecoder, flushStatus, Bool.false_eq_true, if_false, Bool.not_false,
      if_true] at hs ho hd ⊢
    simp [performDecoderFlush, flushDecoder, getDecoder, hd, hs, ho, sentCount, events, emit,
      count_events_ite, apply_ite (List.map Sent.event), apply_ite (List.count _)]
  · simp only [getDecoder, flushStatus, Bool.false_eq_true, if_false, Bool.not_true,
      if_true] at hs ho hd ⊢
    simp [performDecoderFlush, flushDecoder, getDecoder, hd, hs, ho, sentCount, events, emit,
      count_events_ite, apply_ite (List.map Sent.event), apply_ite (List.count _)]
theorem decoderError_none_flushes (b : Build) (env : Env) (audio : Bool) (e1 e2 : Option Int)
    (m : NuPlayer) (hs : flushStatus audio m = .NONE) (ho : flushStatus (!audio) m = .NONE)
    (hq : m.mDeferredActions = []) (hd : getDecoder audio m ≠ none)
    (hmtk : b.MTK_AOSP_ENHANCEMENT = true → m.mSource ≠ none ∧ e1 ≠ none) :
    Returns (onDecoderNotify b env audio (.kWhatError e1 e2) m) (fun a =>
      flushStatus audio a = .FLUSHING_DECODER_SHUTDOWN
      ∧ flushStatus (!audio) a = .NONE
      ∧ sentCount (.decoder audio .signalFlush) a = sentCount (.decoder audio .signalFlush) m + 1
      ∧ sentCount (.decoder (!audio) .signalFlush) a
          = sentCount (.decoder (!audio) .signalFlush) m) := by
  unfold onDecoderNotify
  dsimp only
  refine returns_bind _ _ (fun a => machine a = machine m ∧ a.mSource = m.mSource
    ∧ ∀ k, sentCount (.decoder k .signalFlush) a = sentCount (.decoder k .signalFlush) m) _ ?_ ?_
  · simp only [returns_ite, returns_ok, returns_error, pure_eq_ok]
    have he : ∀ x, machine (emit (.renderer x) m) = machine m
        ∧ (emit (.renderer x) m).mSource = m.mSource
        ∧ ∀ k, sentCount (.decoder k .signalFlush) (emit (.renderer x) m)
            = sentCount (.decoder k .signalFlush) m := by
      intro x
      simp [machine, sentCount, events, emit]
    exact ⟨fun h => ⟨fun _ => ⟨fun hn => (hmtk h.1).1 hn, fun _ => ⟨fun _ => he _,
      fun _ => by simp⟩⟩, fun _ => he _⟩, fun _ => by simp⟩
  rintro a ⟨ha, hsrc, hka⟩
  have hsa : (if audio = true then a.mFlushingAudio else a.mFlushingVideo) = .NONE :=
    (machine_flushStatus ha audio).trans hs
  have hqa : a.mDeferredActions = [] := by
    simp only [machine, Prod.mk.injEq] at ha
    rw [ha.2.2.2.1, hq]
  have hda : getDecoder audio a = getDecoder audio m := by
    simp only [machine, Prod.mk.injEq] at ha
    cases audio <;> simp [getDecoder, ha.2.2.2.2.2.2.1, ha.2.2.2.2.2.2.2]
  rw [hsa]
  dsimp only
  rw [hqa, List.nil_append]
  have hnf : ¬ flushing { a with mDeferredActions :=
      [.FlushDecoderAction
        (if audio = true then .FLUSH_CMD_SHUTDOWN else .FLUSH_CMD_NONE)
        (if audio = true then .FLUSH_CMD_NONE else .FLUSH_CMD_SHUTDOWN)] } := by
    have h1 := (machine_flushStatus ha true).trans
      (by cases audio <;> first | exact hs | exact ho : flushStatus true m = .NONE)
    have h2 := (machine_flushStatus ha false).trans
      (by cases audio <;> first | exact hs | exact ho : flushStatus false m = .NONE)
    simp only [flushStatus, if_true, Bool.false_eq_true, if_false] at h1 h2
    simp [flushing, h1, h2]
  rw [processDeferredActions_cons b env _ _ [] rfl hnf]
  simp only [Action.execute, ok_bind]
  obtain ⟨p1, p2, p3, p4, p5⟩ := performDecoderFlush_one audio
    { a with mDeferredActions := [] }
    ((machine_flushStatus ha audio).trans hs) ((machine_flushStatus ha (!audio)).trans ho)
    (by rw [← hda] at hd; exact hd)
  rw [processDeferredActions_of_flushing]
  swap
  · have := p1
    cases audio
    · simp only [flushStatus, Bool.false_eq_true, if_false] at this
      simp [flushing, this]
    · simp only [flushStatus, if_true] at this
      simp [flushing, this]
  simp only [ok_bind]
  rw [returns_ite]
  refine ⟨fun hb => ?_, fun _ => ?_⟩
  · obtain ⟨hsm, he⟩ := hmtk hb
    obtain ⟨e, rfl⟩ := Option.ne_none_iff_exists'.1 he
    have hr := handleForACodecError_returns b env audio audio e e2 _
      (by rw [p5]; exact hsrc ▸ hsm)
    obtain ⟨r, hr, _⟩ := hr
    refine ⟨r, hr, ?_⟩
    have hm := handleForACodecError_machine b env audio (some e) e2 _ r hr
    refine ⟨(machine_flushStatus hm audio).trans p1, (machine_flushStatus hm (!audio)).trans p2,
      ?_, ?_⟩
    · rw [handleForACodecError_decoderSent b env audio audio .signalFlush (some e) e2 _ r hr, p3,
        ← hka audio]
      simp [sentCount, events]
    · rw [handleForACodecError_decoderSent b env audio (!audio) .signalFlush (some e) e2 _ r hr,
        p4, ← hka (!audio)]
      simp [sentCount, events]
  · rw [pure_eq_ok, returns_ok]
    have hm := notifyListener_machine b env MEDIA_ERROR MEDIA_ERROR_UNKNOWN
      (if e1 = none ∨ e1 = some OK then UNKNOWN_ERROR else e1.getD 0)
      (performDecoderFlush
        (if audio = true then .FLUSH_CMD_SHUTDOWN else .FLUSH_CMD_NONE)
        (if audio = true then .FLUSH_CMD_NONE else .FLUSH_CMD_SHUTDOWN)
        { a with mDeferredActions := [] })
    refine ⟨(machine_flushStatus hm audio).trans p1, (machine_flushStatus hm (!audio)).trans p2,
      ?_, ?_⟩
    · rw [notifyListener_decoderSent, p3, ← hka audio]
      simp [sentCount, events]
    · rw [notifyListener_decoderSent, p4, ← hka (!audio)]
      simp [sentCount, events]
theorem decoderError_none_drains (b : Build) (env : Env) (audio : Bool) (e1 e2 : Option Int)
    (m : NuPlayer) (hs : flushStatus audio m = .NONE) :
    onDecoderNotify b env audio (.kWhatError e1 e2) m = .error (.nullDeref 1181)
    ∨ ∃ m1, machine m1 = machine m
        ∧ onDecoderNotify b env audio (.kWhatError e1 e2) m
          = (processDeferredActions b env
              { m1 with mDeferredActions := m.mDeferredActions ++
                [.FlushDecoderAction
                  (if audio = true then .FLUSH_CMD_SHUTDOWN else .FLUSH_CMD_NONE)
                  (if audio = true then .FLUSH_CMD_NONE else .FLUSH_CMD_SHUTDOWN)] }
            >>= fun m2 =>
              if b.MTK_AOSP_ENHANCEMENT = true then handleForACodecError b env audio e1 e2 m2
              else pure (notifyListener b env MEDIA_ERROR MEDIA_ERROR_UNKNOWN
                (if e1 = none ∨ e1 = some OK then UNKNOWN_ERROR else e1.getD 0) m2)) := by
  unfold onDecoderNotify
  dsimp only
  generalize hp : (if b.MTK_AOSP_ENHANCEMENT = true ∧ m.mRenderer ≠ none then _ else _
    : Except Fault NuPlayer) = p
  have hp2 : p = .error (.nullDeref 1181) ∨ ∃ m1, p = .ok m1 ∧ machine m1 = machine m := by
    rw [← hp]
    split_ifs <;> simp [machine, emit, pure_eq_ok]
  rcases hp2 with rfl | ⟨m1, rfl, hm⟩
  · left; rfl
  · right
    refine ⟨m1, hm, ?_⟩
    simp only [ok_bind]
    have hsa : (if audio = true then m1.mFlushingAudio else m1.mFlushingVideo) = .NONE :=
      (machine_flushStatus hm audio).trans hs
    have hq : m1.mDeferredActions = m.mDeferredActions := by
      simp only [machine, Prod.mk.injEq] at hm
      exact hm.2.2.2.1
    rw [hsa, hq]

/-- C26: a decoder error of the current generation that finds the failing track in
status NONE leaves the decoder handles and generations of both tracks as they are and
sends no initiateShutdown; unless the vendor build stops at the missing source (line
1181), the step is the drain of the deferred queue extended by a FlushDecoders action
with SHUTDOWN for the failing track and NONE for the other, followed by the error report.
If the other track is in NONE as well, the queue was empty and the failing track has its
decoder (in the vendor build also: a source is set and the message carries "err"), the
handler returns with the failing track in FLUSHING_DECODER_SHUTDOWN, one more signalFlush
sent to its decoder, none to the other, and the other track still in NONE. -/
theorem decoder_error_at_none_queues_shutdown_flush (b : Build) (env : Env) (audio : Bool)
    (reply : Option AMessageId) (e1 e2 : Option Int) (m : NuPlayer)
    (hs : flushStatus audio m = .NONE) :
    Post (onMessageReceived b env
        (.kWhatDecoderNotify audio (decoderGeneration audio m) reply (.kWhatError e1 e2)) m)
      (fun a => decoders a = decoders m ∧ ∀ k, shutdowns k a = shutdowns k m)
    ∧ (onMessageReceived b env
          (.kWhatDecoderNotify audio (decoderGeneration audio m) reply (.kWhatError e1 e2)) m
        = .error (.nullDeref 1181)
      ∨ ∃ m1, machine m1 = machine m
          ∧ onMessageReceived b env
              (.kWhatDecoderNotify audio (decoderGeneration audio m) reply (.kWhatError e1 e2)) m
            = (processDeferredActions b env
                { m1 with mDeferredActions := m.mDeferredActions ++
                  [.FlushDecoderAction
                    (if audio = true then .FLUSH_CMD_SHUTDOWN else .FLUSH_CMD_NONE)
                    (if audio = true then .FLUSH_CMD_NONE else .FLUSH_CMD_SHUTDOWN)] }
              >>= fun m2 =>
                if b.MTK_AOSP_ENHANCEMENT = true then handleForACodecError b env audio e1 e2 m2
                else pure (notifyListener b env MEDIA_ERROR MEDIA_ERROR_UNKNOWN
                  (if e1 = none ∨ e1 = some OK then UNKNOWN_ERROR else e1.getD 0) m2)))
    ∧ (flushStatus (!audio) m = .NONE → m.mDeferredActions = [] → getDecoder audio m ≠ none →
        (b.MTK_AOSP_ENHANCEMENT = true → m.mSource ≠ none ∧ e1 ≠ none) →
        ∃ a, onMessageReceived b env
              (.kWhatDecoderNotify audio (decoderGeneration audio m) reply (.kWhatError e1 e2)) m
            = .ok a
          ∧ flushStatus audio a = .FLUSHING_DECODER_SHUTDOWN
          ∧ flushStatus (!audio) a = .NONE
          ∧ sentCount (.decoder audio .signalFlush) a
              = sentCount (.decoder audio .signalFlush) m + 1
          ∧ sentCount (.decoder (!audio) .signalFlush) a
              = sentCount (.decoder (!audio) .signalFlush) m) := by
  rw [decoderNotify_current]
  exact ⟨decoderError_none_quiet b env audio e1 e2 m hs,
    decoderError_none_drains b env audio e1 e2 m hs,
    fun ho hq hd hmtk => decoderError_none_flushes b env audio e1 e2 m hs ho hq hd hmtk⟩

theorem decoder_error_at_none_queues_shutdown_flush_witness :
    flushStatus false (reached stockBuild startPlayback) = .NONE
    ∧ ∃ a, onMessageReceived stockBuild sampleEnv
          (.kWhatDecoderNotify false (decoderGeneration false (reached stockBuild startPlayback))
            none (.kWhatError (some (-1)) none)) (reached stockBuild startPlayback) = .ok a
        ∧ flushStatus false a = .FLUSHING_DECODER_SHUTDOWN
        ∧ flushStatus (!false) a = .NONE
        ∧ sentCount (.decoder false .signalFlush) a
            = sentCount (.decoder false .signalFlush) (reached stockBuild startPlayback) + 1
        ∧ sentCount (.decoder (!false) .signalFlush) a
            = sentCount (.decoder (!false) .signalFlush) (reached stockBuild startPlayback) :=
  ⟨by decide,
   (decoder_error_at_none_queues_shutdown_flush stockBuild sampleEnv false none (some (-1)) none
      (reached stockBuild startPlayback) (by decide)).2.2 (by decide) (by decide) (by decide)
      (by decide)⟩

/-! ## The drain terminates -/

theorem flushDecoder_appends (audio needShutdown : Bool) (m : NuPlayer) :
    ∃ app, (flushDecoder audio needShutdown m).mDeferredActions = m.mDeferredActions ++ app
      ∧ ∀ x ∈ app, x = .SimpleAction .performScanSources := by
  unfold flushDecoder
  by_cases hd : getDecoder audio m = none
  · exact ⟨[], by simp [hd], by simp⟩
  · rw [if_neg hd]
    by_cases hp : m.mScanSourcesPending = true
    · exact ⟨[.SimpleAction .performScanSources], by cases audio <;> simp [hp, emit], by simp⟩
    · exact ⟨[], by cases audio <;> simp [hp, emit], by simp⟩

theorem performDecoderFlush_appends (audio video : FlushCommand) (m : NuPlayer) :
    ∃ app, (performDecoderFlush audio video m).mDeferredActions = m.mDeferredActions ++ app
      ∧ ∀ x ∈ app, x = .SimpleAction .performScanSources := by
  have two : ∀ (k1 k2 n1 n2 : Bool), ∃ app,
      (flushDecoder k2 n2 (flushDecoder k1 n1 m)).mDeferredActions = m.mDeferredActions ++ app
      ∧ ∀ x ∈ app, x = .SimpleAction .performScanSources := by
    intro k1 k2 n1 n2
    obtain ⟨p, hp, hp2⟩ := flushDecoder_appends k1 n1 m
    obtain ⟨q, hq, hq2⟩ := flushDecoder_appends k2 n2 (flushDecoder k1 n1 m)
    refine ⟨p ++ q, by rw [hq, hp, List.append_assoc], fun x hx => ?_⟩
    rcases List.mem_append.1 hx with h | h
    · exact hp2 x h
    · exact hq2 x h
  unfold performDecoderFlush
  dsimp only
  split
  · exact ⟨[], by simp, by simp⟩
  · split <;> split
    · exact two _ _ _ _
    · exact flushDecoder_appends _ _ _
    · exact flushDecoder_appends _ _ _
    · exact ⟨[], by simp, by simp⟩

/-- What executing one action does to the deferred queue: nothing, unless the action
starts a flush, which may append postponed scans. -/
theorem execute_appends (b : Build) (env : Env) (action : Action) (m a : NuPlayer)
    (h : action.execute b env m = .ok a) :
    a.mDeferredActions = m.mDeferredActions
    ∨ (flushing a ∧ ∃ app, a.mDeferredActions = m.mDeferredActions ++ app
        ∧ ∀ x ∈ app, x = .SimpleAction .performScanSources) := by
  by_cases hf : ∃ fa fv, action = .FlushDecoderAction fa fv
  · obtain ⟨fa, fv, rfl⟩ := hf
    simp only [Action.execute, Except.ok.injEq] at h
    subst h
    rcases performDecoderFlush_queue fa fv m with h | h
    · left; rw [h]
    · exact Or.inr ⟨h, performDecoderFlush_appends fa fv m⟩
  · left
    cases action with
    | SeekAction t =>
      rcases performSeek_ok b t m a h with ⟨_, rfl⟩ | ⟨_, rfl⟩ <;> rfl
    | ResumeDecoderAction n =>
      simp only [Action.execute, Except.ok.injEq] at h
      subst h
      simp [performResumeDecoders, finishResume, notifyDriverSeekComplete, emit]
    | SetSurfaceAction s =>
      simp only [Action.execute, Except.ok.injEq] at h
      subst h
      simp [performSetSurface, setVideoScalingMode, emit]
    | FlushDecoderAction fa fv => exact absurd ⟨fa, fv, rfl⟩ hf
    | PostMessageAction msg =>
      simp only [Action.execute, Except.ok.injEq] at h
      subst h
      rfl
    | SimpleAction f =>
      cases f with
      | performScanSources =>
        simp only [Action.execute, Except.ok.injEq] at h
        subst h
        simp [performScanSources, postScanSources, emit]
      | performReset =>
        simp only [Action.execute] at h
        unfold performReset at h
        split_ifs at h
        simp only [Except.ok.injEq] at h
        subst h
        simp [cancelPollDuration, emit]

/-- No action runs the drain: none returns the fault with which the drain would run
out of iterations. -/
theorem execute_no_fuel (b : Build) (env : Env) (action : Action) (m : NuPlayer) :
    action.execute b env m ≠ .error .fuel := by
  cases action with
  | SeekAction t =>
    simp only [Action.execute, performSeek, performSeek_l]
    split_ifs <;> simp [bind, Except.bind, pure, Except.pure]
  | ResumeDecoderAction n => simp [Action.execute]
  | SetSurfaceAction s => simp [Action.execute]
  | FlushDecoderAction fa fv => simp [Action.execute]
  | PostMessageAction msg => simp [Action.execute]
  | SimpleAction f =>
    cases f with
    | performScanSources => simp [Action.execute]
    | performReset =>
      simp only [Action.execute, performReset]
      split_ifs <;> simp

theorem loop_no_fuel (b : Build) (env : Env) :
    ∀ (n : Nat) (m : NuPlayer), m.mDeferredActions.length ≤ n →
      processDeferredActionsLoop b env n m ≠ .error .fuel := by
  intro n
  induction n with
  | zero =>
    intro m h
    rw [loop_of_nil b env 0 m (List.length_eq_zero.mp (Nat.le_zero.mp h))]
    simp
  | succ n ih =>
    intro m h
    by_cases hf : flushing m
    · rw [loop_of_flushing b env _ m hf]; simp
    · cases hq : m.mDeferredActions with
      | nil => rw [loop_of_nil b env _ m hq]; simp
      | cons action rest =>
        have hf2 : ¬ (m.mFlushingAudio ≠ .NONE ∨ m.mFlushingVideo ≠ .NONE) := hf
        simp only [processDeferredActionsLoop, hq, if_neg hf2]
        cases hx : action.execute b env { m with mDeferredActions := rest } with
        | error e =>
          intro he
          apply execute_no_fuel b env action { m with mDeferredActions := rest }
          rw [hx]
          exact he
        | ok m1 =>
          simp only [ok_bind]
          rcases execute_queue b env action _ m1 hx with hlen | hfl
          · apply ih
            rw [hlen]
            rw [hq] at h
            simp only [List.length_cons] at h
            exact Nat.le_of_succ_le_succ h
          · rw [loop_of_flushing b env _ m1 hfl]; simp

/-- C29: processDeferredActions is total and its bound is never reached: it never ends
with the fault of a loop that ran out of iterations, and any bound that is at least the
queue length gives the same result. An iteration with work to do and no flush in flight
removes the first action and executes it; executing an action leaves the deferred queue
as it is, or appends only postponed scans and leaves a flush status that is not NONE, at
which the next test stops the loop; and no action ends with the fault of the loop, which
no action runs. -/
theorem processDeferredActions_terminates (b : Build) (env : Env) (m : NuPlayer) :
    processDeferredActions b env m ≠ .error .fuel
    ∧ (∀ n, m.mDeferredActions.length ≤ n →
        processDeferredActionsLoop b env n m = processDeferredActions b env m)
    ∧ (∀ action rest, m.mDeferredActions = action :: rest → ¬ flushing m →
        processDeferredActions b env m =
          action.execute b env { m with mDeferredActions := rest }
            >>= processDeferredActions b env)
    ∧ (∀ (action : Action) (rest : List Action) (a : NuPlayer),
        action.execute b env { m with mDeferredActions := rest } = .ok a →
        (a.mDeferredActions = rest ∧ a.mDeferredActions.length < (action :: rest).length)
        ∨ (flushing a ∧ processDeferredActions b env a = .ok a
            ∧ ∃ app, a.mDeferredActions = rest ++ app
              ∧ ∀ x ∈ app, x = .SimpleAction .performScanSources))
    ∧ (∀ action : Action, action.execute b env m ≠ .error .fuel) := by
  refine ⟨loop_no_fuel b env _ m (le_refl _),
    fun n hn => loop_fuel b env _ _ m hn (le_refl _),
    fun action rest hq hf => processDeferredActions_cons b env m action rest hq hf,
    fun action rest a h => ?_, fun action => execute_no_fuel b env action m⟩
  rcases execute_appends b env action _ a h with h1 | ⟨h1, h2⟩
  · exact Or.inl ⟨h1, by rw [h1]; simp⟩
  · exact Or.inr ⟨h1, processDeferredActions_of_flushing b env a h1, h2⟩

/-! ## The retry of a scan that would block -/

/-- C28: the scan of the stock code path retries when instantiateDecoder answers
-EWOULDBLOCK and feedMoreTSData succeeds, the helper onScanSources of the vendor path does
not. After start, with the formats of both tracks not ready, instantiateDecoder answers
-EWOULDBLOCK for either track in both builds. Handling the posted scan message of the
current generation, the stock build posts the same message again with a delay of 100 ms
and leaves scanSourcesPending true; the vendor build, whose helper compares the answer
with EWOULDBLOCK, posts nothing, leaves scanSourcesPending false and reports
MEDIA_ERROR to the client. -/
theorem scan_helper_misses_would_block :
    run stockBuild (started.map (fun x => (sampleEnv, x))) (NuPlayer.new 0)
        = .ok (reached stockBuild started)
    ∧ run vendorBuild (started.map (fun x => (sampleEnv, x))) (NuPlayer.new 0)
        = .ok (reached vendorBuild started)
    ∧ (reached stockBuild started).mScanSourcesGeneration = 0
    ∧ (reached vendorBuild started).mScanSourcesGeneration = 0
    ∧ wouldBlockEnv.sourceFeedMoreTSData = OK
    ∧ (∀ audio, instantiateDecoder stockBuild wouldBlockEnv audio true
          { reached stockBuild started with mScanSourcesPending := false }
        = .ok (-EWOULDBLOCK, { reached stockBuild started with mScanSourcesPending := false }))
    ∧ (∀ audio, instantiateDecoder vendorBuild wouldBlockEnv audio true
          { reached vendorBuild started with mScanSourcesPending := false,
                                              mHaveSanSources := true }
        = .ok (-EWOULDBLOCK, { reached vendorBuild started with mScanSourcesPending := false,
                                                                 mHaveSanSources := true }))
    ∧ (∃ a, onMessageReceived stockBuild wouldBlockEnv (.kWhatScanSources 0)
          (reached stockBuild started) = .ok a
        ∧ a.mScanSourcesPending = true
        ∧ sentCount (.post (.kWhatScanSources 0) 100000) a
            = sentCount (.post (.kWhatScanSources 0) 100000) (reached stockBuild started) + 1)
    ∧ (∃ a, onMessageReceived vendorBuild wouldBlockEnv (.kWhatScanSources 0)
          (reached vendorBuild started) = .ok a
        ∧ a.mScanSourcesPending = false
        ∧ sentCount (.post (.kWhatScanSources 0) 100000) a
            = sentCount (.post (.kWhatScanSources 0) 100000) (reached vendorBuild started)
        ∧ sentCount (.driver (.notifyListener MEDIA_ERROR MEDIA_ERROR_UNKNOWN 0 [])) a
            = sentCount (.driver (.notifyListener MEDIA_ERROR MEDIA_ERROR_UNKNOWN 0 []))
                (reached vendorBuild started) + 1) :=
  ⟨rfl, rfl, by decide, by decide, by decide,
   fun audio => by cases audio <;> rfl, fun audio => by cases audio <;> rfl,
   ⟨_, rfl, by decide, by decide⟩, ⟨_, rfl, by decide, by decide, by decide⟩⟩

/-! ## A playback-rate change during a reset -/

/-- C30: a playback-rate change can meet a renderer that its own audio restart has
released. With offload playback started, a reset queued and the video decoder shut down,
the controller has a renderer, is not paused, the audio track is in
FLUSHING_DECODER_SHUTDOWN and performReset waits in the queue. The rate change to double
speed calls restartAudio, which completes the flush, drains the queue and so runs
performReset: restartAudio returns with the renderer handle empty, and the handler stops
at the renderer resume of line 864. -/
theorem config_playback_meets_released_renderer :
    run stockBuild (resetWithVideoDown.map (fun x => (offloadEnv, x))) (NuPlayer.new 0)
        = .ok (reachedWith offloadEnv stockBuild resetWithVideoDown)
    ∧ (reachedWith offloadEnv stockBuild resetWithVideoDown).mRenderer ≠ none
    ∧ (reachedWith offloadEnv stockBuild resetWithVideoDown).mPaused = false
    ∧ (reachedWith offloadEnv stockBuild resetWithVideoDown).mOffloadAudio = true
    ∧ flushStatus true (reachedWith offloadEnv stockBuild resetWithVideoDown)
        = .FLUSHING_DECODER_SHUTDOWN
    ∧ flushStatus false (reachedWith offloadEnv stockBuild resetWithVideoDown) = .SHUT_DOWN
    ∧ (reachedWith offloadEnv stockBuild resetWithVideoDown).mDeferredActions
        = [.SimpleAction .performReset]
    ∧ (∃ a, restartAudio stockBuild offloadEnv
          ((getCurrentPosition offloadEnv
              (reachedWith offloadEnv stockBuild resetWithVideoDown)).getD
            (reachedWith offloadEnv stockBuild resetWithVideoDown).mPreviousSeekTimeUs)
          true true
          (emit (.renderer .pause)
            { reachedWith offloadEnv stockBuild resetWithVideoDown with
              mPlaybackSettings := doubleSpeed }) = .ok a
        ∧ a.mRenderer = none ∧ a.mDeferredActions = [] ∧ a.mPaused = false)
    ∧ onMessageReceived stockBuild offloadEnv (.kWhatConfigPlayback doubleSpeed 7)
          (reachedWith offloadEnv stockBuild resetWithVideoDown) = .error (.nullDeref 864)
    ∧ onMessageReceived vendorBuild offloadEnv (.kWhatConfigPlayback doubleSpeed 7)
          (reachedWith offloadEnv vendorBuild resetWithVideoDown) = .error (.nullDeref 864) :=
  ⟨rfl, by decide, by decide, by decide, by decide, by decide, by decide,
   ⟨_, rfl, by decide, by decide, by decide⟩, rfl, rfl⟩

/-! ## Every flushDecoder call finds its track in NONE -/

theorem Calm.calmRefl (m : NuPlayer) : Calm m m := ⟨fun h => h, rfl⟩

theorem Calm.calmTrans {m a c : NuPlayer} (h1 : Calm m a) (h2 : Calm a c) : Calm m c :=
  ⟨fun h => h2.1 (h1.1 h), h2.2.trans h1.2⟩

theorem Calm.of_status {m a : NuPlayer} (h1 : a.mFlushingAudio = m.mFlushingAudio)
    (h2 : a.mFlushingVideo = m.mFlushingVideo) (hv : badFlushCalls a = badFlushCalls m) :
    Calm m a :=
  ⟨fun h => by unfold NothingToFinish at h ⊢; rw [h1, h2]; exact h, hv⟩

theorem Calm.of_machine {m a : NuPlayer} (h : machine a = machine m)
    (hv : badFlushCalls a = badFlushCalls m) : Calm m a := by
  simp only [machine, Prod.mk.injEq] at h
  exact Calm.of_status h.1 h.2.1 hv

theorem Calm.of_ordinary {m a : NuPlayer} (h : Ordinary m a)
    (hv : badFlushCalls a = badFlushCalls m) : Calm m a :=
  Calm.of_status h.1 h.2.1 hv

/-- After code that leaves nothing to finish and adds no bad flush call. -/
theorem Calm.of_finished {m a : NuPlayer} (h : NothingToFinish a)
    (hv : badFlushCalls a = badFlushCalls m) : Calm m a :=
  ⟨fun _ => h, hv⟩

theorem emit_flushCalls (e : Event) (m : NuPlayer) (h : isFlushCall e = false) :
    badFlushCalls (emit e m) = badFlushCalls m := by
  have h2 : ∀ a v c, isBadFlushCall ⟨e, a, v, c⟩ = false := by
    intro a v c
    cases e <;> first | rfl | skip
    case decoder k c2 => cases c2 <;> first | rfl | simp [isFlushCall] at h
    case logFlushDecoderInState k s => simp [isFlushCall] at h
  simp [badFlushCalls, emit, List.filter_append, h2]

theorem notifyListenerParcel_flushCalls (b : Build) (env : Env) (msg e1 e2 : Int)
    (p : List Int) (m : NuPlayer) :
    badFlushCalls (notifyListenerParcel b env msg e1 e2 p m) = badFlushCalls m := by
  unfold notifyListenerParcel
  split
  · rfl
  split
  · rfl
  exact emit_flushCalls _ _ rfl

theorem notifyListener_flushCalls (b : Build) (env : Env) (msg e1 e2 : Int)
    (m : NuPlayer) : badFlushCalls (notifyListener b env msg e1 e2 m) = badFlushCalls m :=
  notifyListenerParcel_flushCalls b env msg e1 e2 [] m

theorem finishResume_flushCalls (env : Env) (m : NuPlayer) :
    badFlushCalls (finishResume env m) = badFlushCalls m := by
  unfold finishResume notifyDriverSeekComplete
  split_ifs
  · exact emit_flushCalls _ _ rfl
  · rfl
  · rfl

theorem postScanSources_flushCalls (m : NuPlayer) :
    badFlushCalls (postScanSources m) = badFlushCalls m := by
  unfold postScanSources
  split_ifs
  · rfl
  · exact emit_flushCalls _ _ rfl

theorem performScanSources_flushCalls (m : NuPlayer) :
    badFlushCalls (performScanSources m) = badFlushCalls m := by
  unfold performScanSources
  split_ifs
  · rfl
  · exact postScanSources_flushCalls m
  · rfl

theorem setVideoScalingMode_flushCalls (mode : Int) (m : NuPlayer) :
    badFlushCalls (setVideoScalingMode mode m) = badFlushCalls m := by
  unfold setVideoScalingMode
  dsimp only
  split_ifs
  · exact emit_flushCalls _ _ rfl
  · rfl

theorem performSetSurface_flushCalls (b : Build) (env : Env) (s : Option Surface)
    (m : NuPlayer) : badFlushCalls (performSetSurface b env s m) = badFlushCalls m := by
  unfold performSetSurface
  dsimp only
  split_ifs
  · exact emit_flushCalls _ _ rfl
  · rfl
  · rw [emit_flushCalls (.driver .notifySetSurfaceComplete) _ rfl]
    exact setVideoScalingMode_flushCalls _ _
  · exact setVideoScalingMode_flushCalls _ _

theorem handleForRenderError1_flushCalls (b : Build) (env : Env) (r : Int) (a : Bool)
    (m : NuPlayer) : badFlushCalls (handleForRenderError1 b env r a m) = badFlushCalls m := by
  unfold handleForRenderError1
  by_cases hs : m.mSource = none <;> cases a <;>
    simp [hs, notifyListener_flushCalls, emit_flushCalls, isFlushCall]

theorem closeAudioSink_flushCalls (m : NuPlayer) :
    Post (closeAudioSink m) (fun a => badFlushCalls a = badFlushCalls m) := by
  simp only [closeAudioSink, post_ite, post_ok, post_error]
  exact ⟨fun _ => trivial, fun _ => emit_flushCalls _ _ rfl⟩

theorem determineAudioModeChange_flushCalls (env : Env) (m : NuPlayer) :
    Post (determineAudioModeChange env m) (fun a => badFlushCalls a = badFlushCalls m) := by
  simp only [determineAudioModeChange, tryOpenAudioSinkForOffload, post_ite, post_ok, post_error]
  simp [badFlushCalls, isBadFlushCall, emit, List.filter_append, apply_ite (List.filter _)]

theorem handleForACodecError_flushCalls (b : Build) (env : Env) (audio : Bool)
    (e x : Option Int) (m : NuPlayer) :
    Post (handleForACodecError b env audio e x m) (fun a => badFlushCalls a = badFlushCalls m) := by
  unfold handleForACodecError
  cases e with
  | none => simp [post_error]
  | some e =>
    cases x with
    | none => simp [post_ok, notifyListener_flushCalls]
    | some x =>
      simp only [post_ite, post_ok, post_error]
      simp [badFlushCalls, isBadFlushCall, emit, notifyListener, notifyListenerParcel,
        List.filter_append, apply_ite (List.filter _)]

theorem updateVideoSize_flushCalls (b : Build) (env : Env) (i o : Option Format)
    (m : NuPlayer) :
    Post (updateVideoSize b env i o m) (fun a => badFlushCalls a = badFlushCalls m) := by
  intro a h
  unfold updateVideoSize at h
  cases i with
  | none =>
    simp only [Except.ok.injEq] at h
    subst h
    exact notifyListener_flushCalls _ _ _ _ _ _
  | some i =>
    simp only [bind_eq_ok] at h
    obtain ⟨r, hr, w, _, h⟩ := h
    have hr2 : badFlushCalls r.2 = badFlushCalls m := by
      cases o with
      | none =>
        simp only at hr
        split at hr
        · cases hr
        · cases hr
        · split_ifs at hr <;> cases hr <;> rfl
      | some o =>
        simp only at hr
        split_ifs at hr
        · simp only [bind_eq_ok, pure_eq_ok, Except.ok.injEq] at hr
          obtain ⟨_, _, rfl⟩ := hr
          rfl
        · simp only [bind_eq_ok, pure_eq_ok, Except.ok.injEq] at hr
          obtain ⟨_, _, rfl⟩ := hr
          rfl
    split_ifs at h <;> cases h <;> simp [notifyListener_flushCalls, hr2]

theorem instantiateDecoder_flushCalls (b : Build) (env : Env) (audio c : Bool)
    (m : NuPlayer) :
    Post (instantiateDecoder b env audio c m) (fun r => badFlushCalls r.2 = badFlushCalls m) := by
  unfold instantiateDecoder
  rw [post_ite]
  refine ⟨fun _ => (post_ok _ _).2 rfl, fun _ => ?_⟩
  rw [post_ite]
  refine ⟨fun _ => (post_error _ _).2 trivial, fun _ => ?_⟩
  cases (if audio then env.sourceAudioFormat else env.sourceVideoFormat) with
  | none => exact (post_ok _ _).2 rfl
  | some format =>
    dsimp only
    rw [post_ite]
    refine ⟨fun _ => (post_ok _ _).2 rfl, fun _ => ?_⟩
    rw [post_ite]
    refine ⟨fun _ => (post_ok _ _).2 rfl, fun _ => ?_⟩
    rw [post_ite]
    refine ⟨fun _ => (post_ok _ _).2 rfl, fun _ => ?_⟩
    rw [post_ite]
    refine ⟨fun _ => ?_, fun _ => ?_⟩
    · refine post_bind _ _ (fun a => badFlushCalls a = badFlushCalls m) _ ?_ ?_
      · rw [post_ite]
        refine ⟨fun _ => ?_, fun _ => (post_ok _ _).2 rfl⟩
        exact post_mono _ _ _ (determineAudioModeChange_flushCalls env _) (fun _ h => h)
      intro a ha
      rw [pure_eq_ok, post_ok]
      rw [← ha]
      simp [badFlushCalls, isBadFlushCall, emit, List.filter_append]
    · simp only [post_ite, post_ok, post_error]
      simp [badFlushCalls, isBadFlushCall, emit, List.filter_append, apply_ite (List.filter _)]

/-- A call of flushDecoder for a track in NONE is no bad flush call. -/
theorem flushDecoder_flushCalls (audio needShutdown : Bool) (m : NuPlayer)
    (h : flushStatus audio m = .NONE) :
    badFlushCalls (flushDecoder audio needShutdown m) = badFlushCalls m := by
  unfold flushDecoder
  split
  · rfl
  cases audio
  · simp only [flushStatus, Bool.false_eq_true, if_false] at h
    simp [badFlushCalls, isBadFlushCall, emit, List.filter_append, apply_ite (List.filter _), h]
  · simp only [flushStatus, if_true] at h
    simp [badFlushCalls, isBadFlushCall, emit, List.filter_append, apply_ite (List.filter _), h]

/-- A call of flushDecoder on a live decoder for a track outside NONE is recorded as a
bad flush call. -/
theorem flushDecoder_off_none_recorded (audio needShutdown : Bool) (m : NuPlayer)
    (hd : getDecoder audio m ≠ none) (h : flushStatus audio m ≠ .NONE) :
    (badFlushCalls (flushDecoder audio needShutdown m)).length
      = (badFlushCalls m).length + 2 := by
  unfold flushDecoder
  rw [if_neg hd]
  cases audio
  · simp only [flushStatus, Bool.false_eq_true, if_false] at h
    simp [badFlushCalls, isBadFlushCall, emit, List.filter_append, apply_ite (List.filter _), h]
  · simp only [flushStatus, if_true] at h
    simp [badFlushCalls, isBadFlushCall, emit, List.filter_append, apply_ite (List.filter _), h]

theorem performSeek_flushCalls (b : Build) (t : Int) (m : NuPlayer) :
    Post (performSeek b t m) (fun a => badFlushCalls a = badFlushCalls m) := by
  intro a h
  rcases performSeek_ok b t m a h with ⟨_, rfl⟩ | ⟨_, rfl⟩
  · rfl
  · simp [badFlushCalls, isBadFlushCall, List.filter_append]

theorem performReset_flushCalls (env : Env) (m : NuPlayer) :
    Post (performReset env m) (fun a => badFlushCalls a = badFlushCalls m) := by
  simp only [performReset, post_ite, post_ok, post_error]
  refine ⟨fun _ => trivial, fun _ => ⟨fun _ => trivial, fun _ => ?_⟩⟩
  simp [badFlushCalls, isBadFlushCall, emit, cancelPollDuration, List.filter_append,
    apply_ite (List.filter _)]

theorem performResumeDecoders_flushCalls (b : Build) (env : Env) (n : Bool) (m : NuPlayer) :
    badFlushCalls (performResumeDecoders b env n m) = badFlushCalls m := by
  simp [performResumeDecoders, finishResume, notifyDriverSeekComplete, badFlushCalls,
    isBadFlushCall, emit, List.filter_append, apply_ite (List.filter _)]

theorem nothingToFinish_of_none {m : NuPlayer} (h1 : m.mFlushingAudio = .NONE)
    (h2 : m.mFlushingVideo = .NONE) : NothingToFinish m := Or.inl ⟨h1, h2⟩

theorem flushDecoder_status (audio needShutdown : Bool) (m : NuPlayer) :
    flushStatus (!audio) (flushDecoder audio needShutdown m) = flushStatus (!audio) m
    ∧ (flushDecoder audio needShutdown m = m
      ∨ IsFlushingState (flushStatus audio (flushDecoder audio needShutdown m)) = true) := by
  unfold flushDecoder
  split
  · exact ⟨rfl, Or.inl rfl⟩
  · cases audio <;> cases needShutdown <;> simp [flushStatus, IsFlushingState, emit]

/-- The flush action, executed with both flush statuses NONE, makes no bad flush call,
and leaves nothing to finish. -/
theorem performDecoderFlush_calm (audio video : FlushCommand) (m : NuPlayer)
    (h1 : m.mFlushingAudio = .NONE) (h2 : m.mFlushingVideo = .NONE) :
    NothingToFinish (performDecoderFlush audio video m)
    ∧ badFlushCalls (performDecoderFlush audio video m) = badFlushCalls m := by
  have ha : ∀ n, NothingToFinish (flushDecoder true n m)
      ∧ badFlushCalls (flushDecoder true n m) = badFlushCalls m
      ∧ (flushDecoder true n m).mFlushingVideo = .NONE := by
    intro n
    obtain ⟨s1, s2⟩ := flushDecoder_status true n m
    simp only [flushStatus, Bool.not_true, Bool.false_eq_true, if_false, if_true] at s1 s2
    refine ⟨?_, flushDecoder_flushCalls true n m (by simpa [flushStatus] using h1),
      s1.trans h2⟩
    rcases s2 with s2 | s2
    · rw [s2]; exact nothingToFinish_of_none h1 h2
    · exact Or.inr (Or.inl s2)
  have hv : ∀ n (x : NuPlayer), x.mFlushingVideo = .NONE →
      (NothingToFinish x) → NothingToFinish (flushDecoder false n x)
      ∧ badFlushCalls (flushDecoder false n x) = badFlushCalls x := by
    intro n x hx hn
    obtain ⟨s1, s2⟩ := flushDecoder_status false n x
    simp only [flushStatus, Bool.not_false, Bool.false_eq_true, if_false, if_true] at s1 s2
    refine ⟨?_, flushDecoder_flushCalls false n x (by simpa [flushStatus] using hx)⟩
    rcases s2 with s2 | s2
    · rw [s2]; exact hn
    · exact Or.inr (Or.inr s2)
  unfold performDecoderFlush
  dsimp only
  split
  · exact ⟨nothingToFinish_of_none h1 h2, rfl⟩
  · split
    · split
      · obtain ⟨a1, a2, a3⟩ := ha (decide (audio = .FLUSH_CMD_SHUTDOWN))
        obtain ⟨v1, v2⟩ := hv (decide (video = .FLUSH_CMD_SHUTDOWN)) _ a3 a1
        exact ⟨v1, v2.trans a2⟩
      · obtain ⟨a1, a2, _⟩ := ha (decide (audio = .FLUSH_CMD_SHUTDOWN))
        exact ⟨a1, a2⟩
    · split
      · exact hv _ m h2 (nothingToFinish_of_none h1 h2)
      · exact ⟨nothingToFinish_of_none h1 h2, rfl⟩

theorem execute_calm (b : Build) (env : Env) (action : Action) (m : NuPlayer)
    (h1 : m.mFlushingAudio = .NONE) (h2 : m.mFlushingVideo = .NONE) :
    Post (action.execute b env m) (fun a =>
      NothingToFinish a ∧ badFlushCalls a = badFlushCalls m) := by
  have key : ∀ a : NuPlayer, machine a = machine m → badFlushCalls a = badFlushCalls m →
      NothingToFinish a ∧ badFlushCalls a = badFlushCalls m := by
    intro a hm hv
    exact ⟨(Calm.of_machine hm hv).1 (nothingToFinish_of_none h1 h2), hv⟩
  cases action with
  | SeekAction t =>
    intro a h
    exact key a (performSeek_machine b t m a h) (performSeek_flushCalls b t m a h)
  | ResumeDecoderAction n =>
    exact (post_ok _ _).2 (key _ (performResumeDecoders_machine b env n m)
      (performResumeDecoders_flushCalls b env n m))
  | SetSurfaceAction s =>
    exact (post_ok _ _).2 (key _ (performSetSurface_machine b env s m)
      (performSetSurface_flushCalls b env s m))
  | FlushDecoderAction fa fv => exact (post_ok _ _).2 (performDecoderFlush_calm fa fv m h1 h2)
  | PostMessageAction r =>
    exact (post_ok _ _).2 (key _ (emit_machine _ m) (emit_flushCalls _ m rfl))
  | SimpleAction f =>
    cases f with
    | performScanSources =>
      exact (post_ok _ _).2 (key _ (performScanSources_machine m)
        (performScanSources_flushCalls m))
    | performReset =>
      intro a h
      exact key a (performReset_machine env m a h) (performReset_flushCalls env m a h)

/-- A drain of the deferred queue makes no flushDecoder call for a track outside NONE. -/
theorem processDeferredActions_calm (b : Build) (env : Env) (m : NuPlayer) :
    Post (processDeferredActions b env m) (Calm m) :=
  loop_invariant b env Calm Calm.calmRefl (fun _ _ _ h1 h2 => h1.calmTrans h2)
    (fun action rest m h1 h2 _ =>
      post_mono _ _ _ (execute_calm b env action { m with mDeferredActions := rest } h1 h2)
        (fun _ h => Calm.of_finished h.1 h.2)) _ m

/-- A drain after code that was calm. -/
theorem drain_calm (b : Build) (env : Env) (m m0 : NuPlayer) (h : Calm m m0) :
    Post (processDeferredActions b env m0) (Calm m) :=
  post_mono _ _ _ (processDeferredActions_calm b env m0) (fun _ h2 => h.calmTrans h2)

/-- After finishFlushIfPossible there is nothing to finish, whatever there was before. -/
theorem finishFlushIfPossible_calm (b : Build) (env : Env) (m : NuPlayer) :
    Post (finishFlushIfPossible b env m) (fun a =>
      NothingToFinish a ∧ badFlushCalls a = badFlushCalls m) := by
  unfold finishFlushIfPossible
  rw [post_ite]
  refine ⟨fun h => (post_ok _ _).2 ⟨Or.inr (Or.inl ?_), rfl⟩, fun _ => ?_⟩
  · obtain ⟨h1, h2, h3⟩ := h
    cases hs : m.mFlushingAudio <;> simp_all [IsFlushingState]
  rw [post_ite]
  refine ⟨fun h => (post_ok _ _).2 ⟨Or.inr (Or.inr ?_), rfl⟩, fun _ => ?_⟩
  · obtain ⟨h1, h2, h3⟩ := h
    cases hs : m.mFlushingVideo <;> simp_all [IsFlushingState]
  refine post_bind _ _ (fun a => badFlushCalls a = badFlushCalls m) _ ?_ ?_
  · simp only [post_ite, post_ok, post_error, pure_eq_ok]
    exact ⟨fun _ => ⟨fun _ => trivial, fun _ => emit_flushCalls _ _ rfl⟩, fun _ => by simp⟩
  intro a ha
  intro r hr
  have := processDeferredActions_calm b env _ r hr
  refine ⟨this.1 (nothingToFinish_of_none rfl rfl), this.2.trans ?_⟩
  simpa [badFlushCalls, clearFlushComplete] using ha

theorem finish_calm (b : Build) (env : Env) (m m0 : NuPlayer)
    (h : badFlushCalls m0 = badFlushCalls m) :
    Post (finishFlushIfPossible b env m0) (Calm m) :=
  post_mono _ _ _ (finishFlushIfPossible_calm b env m0)
    (fun _ h2 => Calm.of_finished h2.1 (h2.2.trans h))

theorem handleFlushComplete_flushCalls (audio isDecoder : Bool) (m : NuPlayer) :
    Post (handleFlushComplete audio isDecoder m) (fun a => badFlushCalls a = badFlushCalls m) := by
  unfold handleFlushComplete
  dsimp only
  rw [post_ite]
  refine ⟨fun _ => (post_ok _ _).2 rfl, fun _ => ?_⟩
  split <;>
    simp [post_ite, post_ok, post_error, badFlushCalls, isBadFlushCall, emit,
      List.filter_append, apply_ite (List.filter _)]

theorem flushComplete_calm (b : Build) (env : Env) (audio isDecoder : Bool) (m : NuPlayer) :
    Post (handleFlushComplete audio isDecoder m >>= finishFlushIfPossible b env) (Calm m) :=
  post_bind _ _ _ _ (handleFlushComplete_flushCalls audio isDecoder m)
    (fun a ha => finish_calm b env m a ha)

theorem shutdownCompleted_calm (b : Build) (env : Env) (audio : Bool) (m : NuPlayer) :
    Post (onDecoderNotify b env audio .kWhatShutdownCompleted m) (Calm m) := by
  unfold onDecoderNotify
  cases audio
  · simp only [Bool.false_eq_true, if_false, post_ite, post_error]
    refine ⟨fun _ => trivial, fun _ => ?_⟩
    apply finish_calm
    by_cases hb : b.MTK_AOSP_ENHANCEMENT = true
    · simp only [hb, if_true]
      exact emit_flushCalls _ _ rfl
    · simp only [hb, if_false]
      rfl
  · simp only [if_true, post_ite, post_error]
    refine ⟨fun _ => trivial, fun _ => ?_⟩
    apply finish_calm
    rfl

theorem decoderError_calm (b : Build) (env : Env) (audio : Bool) (e1 e2 : Option Int)
    (m : NuPlayer) :
    Post (onDecoderNotify b env audio (.kWhatError e1 e2) m) (Calm m) := by
  unfold onDecoderNotify
  dsimp only
  refine post_bind _ _ (fun a => machine a = machine m
    ∧ badFlushCalls a = badFlushCalls m) _ ?_ ?_
  · simp only [post_ite, post_ok, post_error, pure_eq_ok]
    refine ⟨fun _ => ⟨fun _ => ⟨fun _ => trivial, fun _ => ⟨fun _ => ?_, fun _ => by simp⟩⟩,
      fun _ => ?_⟩, fun _ => by simp⟩
    · exact ⟨emit_machine _ _, emit_flushCalls _ _ rfl⟩
    · exact ⟨emit_machine _ _, emit_flushCalls _ _ rfl⟩
  rintro a ⟨hm, hv⟩
  have hma : Calm m a := Calm.of_machine hm hv
  refine post_bind _ _ (Calm m) _ ?_ ?_
  · split
    · exact drain_calm b env m _ (hma.calmTrans (Calm.of_status rfl rfl rfl))
    · split
      · exact (post_ok _ _).2 (Calm.of_finished
          (Or.inr (Or.inl (by simp [IsFlushingState]))) hv)
      · exact (post_ok _ _).2 (Calm.of_finished
          (Or.inr (Or.inr (by simp [IsFlushingState]))) hv)
    · exact (post_ok _ _).2 hma
    · exact (post_ok _ _).2 hma
    · have hx : ∀ x : NuPlayer, x = (if audio = false ∧ a.mSource ≠ none
            ∧ a.mSourceFlags.FLAG_SECURE = true then
            { emit (.source .stop) a with mSourceStarted := false } else a) →
          badFlushCalls x = badFlushCalls a := by
        intro x hx
        subst hx
        split_ifs
        · exact emit_flushCalls _ _ rfl
        · rfl
      have x1 := hx _ rfl
      generalize (if audio = false ∧ a.mSource ≠ none
            ∧ a.mSourceFlags.FLAG_SECURE = true then
            { emit (.source .stop) a with mSourceStarted := false } else a) = x at x1 ⊢
      simp only [post_ite, post_ok, post_error, pure_eq_ok]
      refine ⟨fun _ => trivial, fun _ => ⟨fun _ => ?_, fun _ => ?_⟩⟩
      · refine Calm.of_finished (Or.inr (Or.inl (by simp [IsFlushingState]))) ?_
        exact ((emit_flushCalls (.decoder audio .initiateShutdown) x rfl).trans x1).trans hv
      · refine Calm.of_finished (Or.inr (Or.inr (by simp [IsFlushingState]))) ?_
        exact ((emit_flushCalls (.decoder audio .initiateShutdown) x rfl).trans x1).trans hv
    · exact finish_calm b env m a hv
  intro a2 ha2
  rw [post_ite]
  refine ⟨fun _ => ?_, fun _ => ?_⟩
  · intro a3 h3
    exact ha2.calmTrans (Calm.of_machine (handleForACodecError_machine b env audio e1 e2 a2 a3 h3)
      (handleForACodecError_flushCalls _ _ _ _ _ _ a3 h3))
  · exact (post_ok _ _).2 (ha2.calmTrans (Calm.of_machine (notifyListener_machine _ _ _ _ _ _)
      (notifyListener_flushCalls _ _ _ _ _ _)))

theorem onDecoderNotify_calm (b : Build) (env : Env) (audio : Bool) (what : DecoderWhat)
    (m : NuPlayer) : Post (onDecoderNotify b env audio what m) (Calm m) := by
  cases what with
  | kWhatInputDiscontinuity fc =>
    unfold onDecoderNotify
    refine drain_calm b env m _ (Calm.of_status ?_ ?_ ?_) <;> split_ifs <;> rfl
  | kWhatEOS err =>
    unfold onDecoderNotify
    simp only [post_ite, post_ok, post_error]
    exact ⟨fun _ => trivial,
      fun _ => Calm.of_machine (emit_machine _ _) (emit_flushCalls _ _ rfl)⟩
  | kWhatFlushCompleted => exact flushComplete_calm b env audio true m
  | kWhatVideoSizeChanged format =>
    unfold onDecoderNotify
    simp only [post_ite, post_ok, post_error]
    refine ⟨fun _ => trivial, fun _ => ?_⟩
    intro a ha
    refine Calm.of_machine ((updateVideoSize_machine _ _ _ _ _ a ha).trans ?_)
      ((updateVideoSize_flushCalls _ _ _ _ _ a ha).trans (setVideoScalingMode_flushCalls _ m))
    simp [machine, setVideoScalingMode, emit]
  | kWhatShutdownCompleted => exact shutdownCompleted_calm b env audio m
  | kWhatResumeCompleted =>
    exact (post_ok _ _).2 (Calm.of_machine (finishResume_machine env m)
      (finishResume_flushCalls env m))
  | kWhatError e1 e2 => exact decoderError_calm b env audio e1 e2 m
  | other w => exact (post_ok _ _).2 (Calm.calmRefl m)

/-- The part of restartAudio after the status has been settled is calm. -/
theorem restartAudio_tail_calm (b : Build) (env : Env) (p : Int) (f n : Bool)
    (m : NuPlayer) :
    Post (if m.mRenderer = none then pure m
      else do
        let m ← closeAudioSink m
        let m := emit (.renderer (.flush true false)) m
        let m := if m.mVideoDecoder ≠ none then emit (.renderer (.flush false false)) m else m
        let m ← performSeek b p m
        let m := if f = true then
            { emit (.renderer .signalDisableOffloadAudio) m with mOffloadAudio := false }
          else m
        if n = true then do
          let r ← instantiateDecoder b env true (!f) m
          pure r.2
        else pure m) (Calm m) := by
  rw [post_ite]
  refine ⟨fun _ => (post_ok _ _).2 (Calm.calmRefl m), fun _ => ?_⟩
  refine post_bind _ _ (Calm m) _ ?_ ?_
  · intro a ha
    exact Calm.of_machine (closeAudioSink_machine m a ha) (closeAudioSink_flushCalls m a ha)
  intro a ha
  have h0 : Calm m (if (emit (.renderer (.flush true false)) a).mVideoDecoder ≠ none
      then emit (.renderer (.flush false false)) (emit (.renderer (.flush true false)) a)
      else emit (.renderer (.flush true false)) a) := by
    refine ha.calmTrans (Calm.of_status ?_ ?_ ?_)
    · split_ifs <;> rfl
    · split_ifs <;> rfl
    · split_ifs
      · rw [emit_flushCalls (.renderer (.flush false false)) _ rfl,
          emit_flushCalls (.renderer (.flush true false)) _ rfl]
      · rw [emit_flushCalls (.renderer (.flush true false)) _ rfl]
  refine post_bind _ _ (Calm m) _ ?_ ?_
  · intro a1 h1
    exact h0.calmTrans (Calm.of_machine (performSeek_machine b p _ a1 h1)
      (performSeek_flushCalls b p _ a1 h1))
  intro a2 ha2
  have h2 : Calm m (if f = true then
      { emit (.renderer .signalDisableOffloadAudio) a2 with mOffloadAudio := false }
      else a2) := by
    refine ha2.calmTrans (Calm.of_status ?_ ?_ ?_)
    · split_ifs <;> rfl
    · split_ifs <;> rfl
    · split_ifs
      · exact emit_flushCalls (.renderer .signalDisableOffloadAudio) a2 rfl
      · rfl
  rw [post_ite]
  refine ⟨fun _ => ?_, fun _ => (post_ok _ _).2 h2⟩
  refine post_bind _ _ (fun r => Calm m r.2) _ ?_ (fun r hr => (post_ok _ _).2 hr)
  intro r hr
  exact h2.calmTrans (Calm.of_ordinary (instantiateDecoder_ordinary b env true (!f) _ r hr)
    (instantiateDecoder_flushCalls b env true (!f) _ r hr))

theorem restartAudio_calm (b : Build) (env : Env) (p : Int) (f n : Bool)
    (m : NuPlayer) : Post (restartAudio b env p f n m) (Calm m) := by
  unfold restartAudio
  dsimp only
  have h0 : Calm m (if m.mAudioDecoder ≠ none then
      { emit (.decoder true .pause) m with
        mAudioDecoder := none, mAudioDecoderGeneration := m.mAudioDecoderGeneration + 1 }
      else m) := by
    refine Calm.of_status ?_ ?_ ?_
    · split_ifs <;> rfl
    · split_ifs <;> rfl
    · split_ifs
      · exact emit_flushCalls (.decoder true .pause) m rfl
      · rfl
  generalize (if m.mAudioDecoder ≠ none then
      { emit (.decoder true .pause) m with
        mAudioDecoder := none, mAudioDecoderGeneration := m.mAudioDecoderGeneration + 1 }
      else m) = m1 at h0 ⊢
  refine post_bind _ _ (fun r => Calm m r.1) _ ?_ ?_
  · simp only [post_ite]
    refine ⟨fun _ => ?_, fun _ => ⟨fun _ => ?_, fun _ => (post_ok _ _).2 h0⟩⟩
    · refine post_bind _ _ (Calm m) _ ?_ (fun a ha => (post_ok _ _).2 ha)
      exact finish_calm b env m _ h0.2
    · refine post_bind _ _ (Calm m) _ ?_ (fun a ha => (post_ok _ _).2 ha)
      exact finish_calm b env m _ h0.2
  intro r hr
  exact post_mono _ _ _ (restartAudio_tail_calm b env p f r.2 r.1)
    (fun _ h => hr.calmTrans h)

theorem onRendererNotify_calm (b : Build) (env : Env) (what : RendererWhat) (m : NuPlayer) :
    Post (onRendererNotify b env what m) (Calm m) := by
  cases what with
  | kWhatEOS audio finalResult =>
    refine post_mono _ (fun a => machine a = machine m
      ∧ badFlushCalls a = badFlushCalls m) _ ?_ (fun _ h => Calm.of_machine h.1 h.2)
    unfold onRendererNotify
    dsimp only
    simp only [post_ite, post_ok, post_error]
    cases audio <;>
      simp [machine, badFlushCalls, isBadFlushCall, emit, notifyListener, notifyListenerParcel,
        handleForRenderError1, List.filter_append, apply_ite (List.filter _)]
  | kWhatFlushComplete audio =>
    unfold onRendererNotify
    dsimp only
    rw [post_ite]
    refine ⟨fun _ => (post_ok _ _).2 (Calm.of_status (by split_ifs <;> rfl)
      (by split_ifs <;> rfl) (by split_ifs <;> rfl)), fun _ => ?_⟩
    refine post_mono _ _ _ (flushComplete_calm b env audio false _) (fun a ha => ?_)
    exact (Calm.of_status (by split_ifs <;> rfl) (by split_ifs <;> rfl)
      (by split_ifs <;> rfl)).calmTrans ha
  | kWhatVideoRenderingStart =>
    exact (post_ok _ _).2 (Calm.of_machine (notifyListener_machine _ _ _ _ _ m)
      (notifyListener_flushCalls _ _ _ _ _ m))
  | kWhatMediaRenderingStart =>
    exact (post_ok _ _).2 (Calm.of_machine (notifyListener_machine _ _ _ _ _ m)
      (notifyListener_flushCalls _ _ _ _ _ m))
  | kWhatAudioTearDown reason pos =>
    unfold onRendererNotify
    rw [post_ite]
    refine ⟨fun _ => (post_ok _ _).2 (Calm.calmRefl m), fun _ => ?_⟩
    dsimp only
    rw [post_ite]
    exact ⟨fun _ => restartAudio_calm b env _ _ _ m, fun _ => restartAudio_calm b env _ _ _ m⟩
  | kWhatRetryAudioOffload p =>
    unfold onRendererNotify
    rw [post_ite]
    refine ⟨fun _ => ?_, fun _ => (post_ok _ _).2 (Calm.calmRefl m)⟩
    refine post_bind _ _ (Calm m) _ ?_ ?_
    · intro a ha
      exact Calm.of_machine (closeAudioSink_machine m a ha) (closeAudioSink_flushCalls m a ha)
    intro a ha
    intro a1 h1
    refine (ha.calmTrans (Calm.of_status ?_ ?_ ?_)).calmTrans
      (Calm.of_machine (performSeek_machine b p _ a1 h1) (performSeek_flushCalls b p _ a1 h1))
    · split_ifs <;> rfl
    · split_ifs <;> rfl
    · split_ifs
      · rw [emit_flushCalls (.renderer (.flush false false)) _ rfl,
          emit_flushCalls (.renderer (.flush true false)) _ rfl]
        rfl
      · rw [emit_flushCalls (.renderer (.flush true false)) _ rfl]
        rfl
  | other w => exact (post_ok _ _).2 (Calm.calmRefl m)

theorem onPause_flushCalls (m : NuPlayer) : badFlushCalls (onPause m) = badFlushCalls m := by
  simp [onPause, badFlushCalls, isBadFlushCall, emit, List.filter_append,
    apply_ite (List.filter _)]

theorem schedulePollDuration_flushCalls (m : NuPlayer) :
    badFlushCalls (schedulePollDuration m) = badFlushCalls m := by
  simp [schedulePollDuration, badFlushCalls, isBadFlushCall, emit, List.filter_append]

theorem finishPrepare_flushCalls (b : Build) (env : Env) (err : Int) (m : NuPlayer) :
    Post (finishPrepare b env err m) (fun a => badFlushCalls a = badFlushCalls m) := by
  unfold finishPrepare
  cases hd : env.sourceDuration <;>
  · simp only [post_ite, post_ok, post_error]
    simp [badFlushCalls, isBadFlushCall, emit, notifyListener, notifyListenerParcel,
      List.filter_append, apply_ite (List.filter _)]

theorem onResume_flushCalls (b : Build) (env : Env) (m : NuPlayer) :
    Post (onResume b env m) (fun a => badFlushCalls a = badFlushCalls m) := by
  unfold onResume
  rw [post_ite]
  refine ⟨fun _ => (post_ok _ _).2 rfl, fun _ => ?_⟩
  dsimp only
  refine post_bind _ _ (fun a => badFlushCalls a = badFlushCalls m) _ ?_ ?_
  · rw [post_ite]
    constructor
    · intro _
      refine post_bind _ _ (fun r => badFlushCalls r.2 = badFlushCalls m) _ ?_ ?_
      · exact post_mono _ _ _ (instantiateDecoder_flushCalls _ _ _ _ _)
          (fun r hr => hr.trans (by
            simp [badFlushCalls, isBadFlushCall, emit, List.filter_append,
              apply_ite (List.filter _)]))
      · intro r hr
        exact (post_ok _ _).2 hr
    · intro _
      refine (post_ok _ _).2 ?_
      simp [badFlushCalls, isBadFlushCall, emit, List.filter_append, apply_ite (List.filter _)]
  · intro a ha
    refine (post_ok _ _).2 (Eq.trans ?_ ha)
    simp [badFlushCalls, isBadFlushCall, emit, List.filter_append, apply_ite (List.filter _)]

theorem onInstantiateSecureDecoders_flushCalls (b : Build) (env : Env) (m : NuPlayer) :
    Post (onInstantiateSecureDecoders b env m)
      (fun r => badFlushCalls r.2 = badFlushCalls m) := by
  unfold onInstantiateSecureDecoders
  rw [post_ite]
  refine ⟨fun _ => (post_ok _ _).2 rfl, fun _ => ?_⟩
  rw [post_ite]
  refine ⟨fun _ => (post_ok _ _).2 rfl, fun _ => ?_⟩
  refine post_bind _ _ (fun r => badFlushCalls r.2 = badFlushCalls m) _ ?_ ?_
  · rw [post_ite]
    exact ⟨fun _ => instantiateDecoder_flushCalls _ _ _ _ _, fun _ => (post_ok _ _).2 rfl⟩
  · intro r hr
    rw [post_ite]
    refine ⟨fun _ => (post_ok _ _).2 hr, fun _ => ?_⟩
    dsimp only
    rw [post_ite]
    exact ⟨fun _ => post_mono _ _ _ (instantiateDecoder_flushCalls _ _ _ _ _)
              (fun r2 hr2 => hr2.trans hr),
           fun _ => (post_ok _ _).2 hr⟩

theorem onStart_flushCalls (b : Build) (env : Env) (t : Int) (m : NuPlayer) :
    Post (onStart b env t m) (fun a => badFlushCalls a = badFlushCalls m) := by
  unfold onStart
  refine post_bind _ _ (fun a => badFlushCalls a = badFlushCalls m) _ ?_ ?_
  · simp only [post_ite, post_ok, pure_eq_ok, post_error]
    simp [badFlushCalls, isBadFlushCall, emit, List.filter_append, apply_ite (List.filter _)]
  intro a ha
  refine post_bind _ _ (fun a => badFlushCalls a = badFlushCalls m) _ ?_ ?_
  · simp only [post_ite, post_ok, pure_eq_ok, post_error]
    exact ⟨fun _ => post_mono _ _ _ (performSeek_flushCalls b t a) (fun _ h => h.trans ha),
           fun _ => ha⟩
  intro a2 ha2
  simp only [post_ite, post_ok, pure_eq_ok, post_error]
  simp [badFlushCalls, isBadFlushCall, emit, notifyListener, notifyListenerParcel,
    postScanSources, isRTSPSource, isHttpLiveSource, List.filter_append,
    apply_ite (List.filter _)] at ha2 ⊢
  simp [ha2]

theorem onScanSources_flushCalls (b : Build) (env : Env) (m : NuPlayer) :
    Post (onScanSources b env m) (fun r => badFlushCalls r.2 = badFlushCalls m) := by
  unfold onScanSources
  dsimp only
  refine post_bind _ _ (fun r => badFlushCalls r.2 = badFlushCalls m) _ ?_ ?_
  · rw [post_ite]
    exact ⟨fun _ => post_mono _ _ _ (instantiateDecoder_flushCalls _ _ _ _ _)
              (fun r hr => hr.trans rfl),
           fun _ => (post_ok _ _).2 rfl⟩
  intro r1 hr1
  refine post_bind _ _ (fun r => badFlushCalls r.2 = badFlushCalls m) _ ?_ ?_
  · rw [post_ite]
    exact ⟨fun _ => post_mono _ _ _ (instantiateDecoder_flushCalls _ _ _ _ _)
              (fun r hr => hr.trans hr1),
           fun _ => (post_ok _ _).2 hr1⟩
  intro r2 hr2
  refine post_mono _ (fun r => badFlushCalls r.2 = badFlushCalls r2.2) _ ?_
    (fun r h => h.trans hr2)
  simp only [post_ite, post_ok, pure_eq_ok, post_error]
  simp [badFlushCalls, isBadFlushCall, emit, notifyListener, notifyListenerParcel,
    schedulePollDuration, List.filter_append, apply_ite (List.filter _)]

theorem scanSource_l_flushCalls (b : Build) (env : Env) (g : Int) (m : NuPlayer) :
    Post (scanSource_l b env g m) (fun a => badFlushCalls a = badFlushCalls m) := by
  unfold scanSource_l
  refine post_bind _ _ (fun r => badFlushCalls r.2 = badFlushCalls m) _
    (onScanSources_flushCalls b env m) ?_
  intro r hr
  refine post_mono _ (fun a => badFlushCalls a = badFlushCalls r.2) _ ?_
    (fun a h => h.trans hr)
  simp only [post_ite, post_ok, pure_eq_ok, post_error]
  simp [badFlushCalls, isBadFlushCall, emit, notifyListener, notifyListenerParcel,
    List.filter_append, apply_ite (List.filter _)]

theorem scanSources_flushCalls (b : Build) (env : Env) (g : Int) (m : NuPlayer) :
    Post (scanSources b env g m) (fun a => badFlushCalls a = badFlushCalls m) := by
  unfold scanSources
  dsimp only
  refine post_bind _ _ (fun r => badFlushCalls r.2 = badFlushCalls m) _ ?_ ?_
  · rw [post_ite]
    exact ⟨fun _ => instantiateDecoder_flushCalls _ _ _ _ _, fun _ => (post_ok _ _).2 rfl⟩
  intro r1 hr1
  refine post_bind _ _ (fun r => badFlushCalls r.2 = badFlushCalls m) _ ?_ ?_
  · rw [post_ite]
    exact ⟨fun _ => post_mono _ _ _ (instantiateDecoder_flushCalls _ _ _ _ _)
              (fun r hr => hr.trans hr1),
           fun _ => (post_ok _ _).2 hr1⟩
  intro r2 hr2
  refine post_mono _ (fun a => badFlushCalls a = badFlushCalls r2.2) _ ?_
    (fun a h => h.trans hr2)
  simp only [post_ite, post_ok, pure_eq_ok, post_error]
  simp [badFlushCalls, isBadFlushCall, emit, notifyListener, notifyListenerParcel,
    schedulePollDuration, List.filter_append, apply_ite (List.filter _)]

theorem onSourcePrepard_flushCalls (b : Build) (env : Env) (err : Int) (m : NuPlayer) :
    Post (onSourcePrepard b env err m) (fun a => badFlushCalls a = badFlushCalls m) := by
  unfold onSourcePrepard
  refine post_bind _ _ (fun r => badFlushCalls r.2 = badFlushCalls m) _ ?_ ?_
  · unfold tyrToChangeDataSourceForLocalSdp
    cases env.sourceVideoFormat <;>
    · simp only [post_ite, post_ok, post_error]
      simp [badFlushCalls]
  intro r hr
  dsimp only
  simp only [post_ite, post_ok, pure_eq_ok]
  refine ⟨fun _ => by
    simpa [badFlushCalls, isBadFlushCall, emit, List.filter_append] using hr,
    fun _ => ⟨fun _ => hr, fun _ => ?_⟩⟩
  exact ⟨fun _ => post_mono _ _ _ (finishPrepare_flushCalls _ _ _ _) (fun _ h => h.trans hr),
    fun _ => ⟨fun _ => post_mono _ _ _ (finishPrepare_flushCalls _ _ _ _) (fun _ h => h.trans hr),
              fun _ => post_mono _ _ _ (finishPrepare_flushCalls _ _ _ _) (fun _ h => h.trans hr)⟩⟩

theorem writeTrackInfo_flushCalls (f : Option TrackInfo) (m : NuPlayer) :
    Post (writeTrackInfo f m) (fun a => badFlushCalls a = badFlushCalls m) := by
  unfold writeTrackInfo
  cases f with
  | none => simp [post_ok]
  | some f =>
    cases hf : f.trackType with
    | none => simp [hf, post_ok]
    | some t =>
      cases hs : f.subtitleFlags <;>
      · simp only [hf, hs, post_ite, post_ok, post_error]
        simp [badFlushCalls, isBadFlushCall, emit, List.filter_append]

theorem writeTrackInfos_flushCalls (info : Nat → Option TrackInfo) (l : List Nat)
    (m : NuPlayer) :
    Post (l.foldlM (fun m i => writeTrackInfo (info i) m) m)
      (fun a => badFlushCalls a = badFlushCalls m) := by
  induction l generalizing m with
  | nil => simp [post_ok, List.foldlM]
  | cons i l ih =>
    rw [List.foldlM_cons]
    refine post_bind _ _ (fun a => badFlushCalls a = badFlushCalls m) _
      (writeTrackInfo_flushCalls _ _) ?_
    intro a ha
    exact post_mono _ _ _ (ih a) (fun _ h => h.trans ha)

theorem onSourceNotify_ext_flushCalls (b : Build) (env : Env) (what : SourceWhat)
    (m : NuPlayer) :
    Post (onSourceNotify_ext b env what m) (fun a => badFlushCalls a = badFlushCalls m) := by
  unfold onSourceNotify_ext
  cases what <;>
  · simp only [post_ite, post_ok, post_error]
    try simp [badFlushCalls, isBadFlushCall, emit, notifyListener, notifyListenerParcel,
      notifyDriverSeekComplete, List.filter_append, apply_ite (List.filter _)]

theorem onClosedCaptionNotify_flushCalls (b : Build) (env : Env) (what : CCWhat)
    (m : NuPlayer) :
    Post (onClosedCaptionNotify b env what m) (fun a => badFlushCalls a = badFlushCalls m) := by
  unfold onClosedCaptionNotify
  cases what <;>
  · simp only [post_ite, post_ok, post_error]
    try simp [badFlushCalls, isBadFlushCall, emit, notifyListener, notifyListenerParcel,
      sendSubtitleData, List.filter_append, apply_ite (List.filter _)]

theorem Calm.of_view {m a : NuPlayer} (h : calmView a = calmView m) : Calm m a := by
  simp only [calmView, Prod.mk.injEq] at h
  exact Calm.of_status h.1 h.2.1 h.2.2

theorem calmView_of_machine {m a : NuPlayer} (h : machine a = machine m)
    (hv : badFlushCalls a = badFlushCalls m) : calmView a = calmView m := by
  simp only [machine, Prod.mk.injEq] at h
  simp [calmView, h.1, h.2.1, hv]

theorem onSourceNotify_calm (b : Build) (env : Env) (what : SourceWhat) (m : NuPlayer) :
    Post (onSourceNotify b env what m) (Calm m) := by
  have hext : ∀ w, Post (if b.MTK_AOSP_ENHANCEMENT = true then onSourceNotify_ext b env w m
      else .error (.check 2726)) (Calm m) := by
    intro w
    simp only [post_ite, post_error]
    exact ⟨fun _ a ha => Calm.of_machine (onSourceNotify_ext_machine b env w m a ha)
      (onSourceNotify_ext_flushCalls b env w m a ha), fun _ => trivial⟩
  have hn : ∀ msg e1 e2 (x : NuPlayer), Calm x (notifyListener b env msg e1 e2 x) :=
    fun msg e1 e2 x => Calm.of_machine (notifyListener_machine b env msg e1 e2 x)
      (notifyListener_flushCalls b env msg e1 e2 x)
  cases what with
  | kWhatInstantiateSecureDecoders reply =>
    unfold onSourceNotify
    simp only [post_ite, post_ok]
    refine ⟨fun _ => Calm.calmRefl m, fun _ => ?_⟩
    refine post_bind _ _ (fun r => Calm m r.2) _ ?_ ?_
    · intro r hr
      exact Calm.of_ordinary (onInstantiateSecureDecoders_ordinary b env m r hr)
        (onInstantiateSecureDecoders_flushCalls b env m r hr)
    intro r hr
    exact (post_ok _ _).2 (hr.calmTrans (Calm.of_machine (emit_machine _ _)
      (emit_flushCalls _ _ rfl)))
  | kWhatPrepared err =>
    unfold onSourceNotify
    simp only [post_ite, post_ok]
    refine ⟨fun _ => Calm.calmRefl m, fun _ => ?_⟩
    refine post_bind _ _ (Calm m) _ ?_ ?_
    · simp only [post_ite, post_ok, pure_eq_ok]
      exact ⟨fun _ => drain_calm b env m _ (Calm.of_status rfl rfl rfl),
        fun _ => Calm.of_status rfl rfl rfl⟩
    intro a ha
    refine post_mono _ (fun r => calmView r = calmView a) _ ?_
      (fun r hr => ha.calmTrans (Calm.of_view hr))
    simp only [post_ite, post_ok, post_error, pure_eq_ok]
    refine ⟨fun _ r hr => calmView_of_machine (onSourcePrepard_machine b env err a r hr)
      (onSourcePrepard_flushCalls b env err a r hr),
      fun _ => ⟨fun _ => ⟨fun _ => trivial, fun _ => ?_⟩, fun _ => by simp⟩⟩
    cases env.sourceDuration <;>
      simp [calmView, badFlushCalls, isBadFlushCall, emit, List.filter_append]
  | kWhatFlagsChanged flags =>
    refine (post_ok _ _).2 (Calm.of_view ?_)
    simp [calmView, badFlushCalls, isBadFlushCall, emit, cancelPollDuration,
      schedulePollDuration, List.filter_append, apply_ite (List.filter _)]
  | kWhatVideoSizeChanged format =>
    unfold onSourceNotify
    exact fun a ha => Calm.of_machine (updateVideoSize_machine _ _ _ _ _ a ha)
      (updateVideoSize_flushCalls _ _ _ _ _ a ha)
  | kWhatBufferingUpdate p => exact (post_ok _ _).2 (hn _ _ _ m)
  | kWhatPauseOnBufferingStart =>
    unfold onSourceNotify
    dsimp only
    have hq : calmView (if b.MTK_AOSP_ENHANCEMENT = true then isRTSPSource env m
        else (false, m)).2 = calmView m := by
      by_cases hb : b.MTK_AOSP_ENHANCEMENT = true <;>
        simp [hb, calmView, badFlushCalls, isRTSPSource]
    generalize (if b.MTK_AOSP_ENHANCEMENT = true then isRTSPSource env m else (false, m)) = q
      at hq ⊢
    simp only [post_ite, post_ok]
    refine ⟨fun _ => Calm.of_view (Eq.trans ?_ hq), fun _ => Calm.of_view (Eq.trans ?_ hq)⟩
    · simp [calmView, badFlushCalls, isBadFlushCall, emit, notifyListener, notifyListenerParcel,
        List.filter_append, apply_ite (List.filter _)]
    · simp [calmView, badFlushCalls, isBadFlushCall, emit, notifyListener, notifyListenerParcel,
        onPause, List.filter_append, apply_ite (List.filter _)]
  | kWhatResumeOnBufferingEnd =>
    unfold onSourceNotify
    dsimp only
    have hq : calmView (if b.MTK_AOSP_ENHANCEMENT = true then isRTSPSource env m
        else (false, m)).2 = calmView m := by
      by_cases hb : b.MTK_AOSP_ENHANCEMENT = true <;>
        simp [hb, calmView, badFlushCalls, isRTSPSource]
    generalize (if b.MTK_AOSP_ENHANCEMENT = true then isRTSPSource env m else (false, m)) = q
      at hq ⊢
    simp only [post_ite, post_ok]
    refine ⟨fun _ => Calm.of_view (Eq.trans ?_ hq), fun _ => ?_⟩
    · simp [calmView, badFlushCalls, isBadFlushCall, emit, notifyListener, notifyListenerParcel,
        List.filter_append, apply_ite (List.filter _)]
    · refine post_bind _ _ (Calm m) _ ?_ ?_
      · simp only [post_ite, post_ok, pure_eq_ok]
        refine ⟨fun _ => ⟨fun _ => ?_, fun _ => Calm.of_view (Eq.trans ?_ hq)⟩,
          fun _ => Calm.of_view hq⟩
        · intro r hr
          refine (Calm.of_view (Eq.trans ?_ hq)).calmTrans (Calm.of_ordinary
            (onResume_ordinary b env _ r hr) (onResume_flushCalls b env _ r hr))
          simp [calmView, badFlushCalls]
        · simp [calmView, badFlushCalls]
      · intro a ha
        exact (post_ok _ _).2 (ha.calmTrans (hn _ _ _ a))
  | kWhatCacheStats bw => exact (post_ok _ _).2 (hn _ _ _ m)
  | kWhatSubtitleData i t d =>
    refine (post_ok _ _).2 (Calm.of_view ?_)
    simp [calmView, badFlushCalls, isBadFlushCall, emit, sendSubtitleData, notifyListenerParcel,
      List.filter_append, apply_ite (List.filter _)]
  | kWhatTimedMetaData t =>
    unfold onSourceNotify
    cases t <;>
    · refine (post_ok _ _).2 (Calm.of_view ?_)
      simp [calmView, badFlushCalls, isBadFlushCall, emit, notifyListener, notifyListenerParcel,
        List.filter_append, apply_ite (List.filter _)]
  | kWhatTimedTextData g t s =>
    unfold onSourceNotify
    simp only [post_ite, post_ok]
    refine ⟨fun _ => Calm.calmRefl m, fun _ => ⟨fun _ => Calm.calmRefl m,
      fun _ => ⟨fun _ => Calm.of_view ?_, fun _ => hn _ _ _ m⟩⟩⟩
    simp [calmView, badFlushCalls, isBadFlushCall, emit, List.filter_append]
  | kWhatQueueDecoderShutdown a v r =>
    exact drain_calm b env m _ (Calm.of_status rfl rfl rfl)
  | kWhatDrmNoLicense => exact (post_ok _ _).2 (hn _ _ _ m)
  | kWhatDurationUpdate d => exact hext _
  | kWhatSourceError e => exact hext _
  | kWhatBufferNotify r => exact hext _
  | kWhatSeekDone => exact hext _
  | kWhatPicture => exact hext _
  | other w => exact hext _

theorem setVideoSurface_calm (b : Build) (env : Env) (surface : Option Surface) (m : NuPlayer) :
    Post (onMessageReceived b env (.kWhatSetVideoSurface surface) m) (Calm m) := by
  unfold onMessageReceived
  dsimp only
  simp only [post_ite, post_ok]
  refine ⟨fun _ => Calm.of_machine (performSetSurface_machine _ _ _ _)
      (performSetSurface_flushCalls _ _ _ _), fun _ =>
    ⟨fun _ => Calm.of_machine ((performSetSurface_machine _ _ _ _).trans ?_)
      ((performSetSurface_flushCalls _ _ _ _).trans ?_), fun _ => ?_⟩⟩
  · simp [machine, emit]
  · simp [badFlushCalls, isBadFlushCall, emit, List.filter_append, apply_ite (List.filter _)]
  · refine drain_calm b env m _ (Calm.of_view ?_)
    simp [calmView, badFlushCalls, isBadFlushCall, emit, List.filter_append,
      apply_ite (List.filter _)]

theorem configPlayback_calm (b : Build) (env : Env) (rate : AudioPlaybackRate)
    (replyID : AMessageId) (m : NuPlayer) :
    Post (onMessageReceived b env (.kWhatConfigPlayback rate replyID) m) (Calm m) := by
  have hq : ∀ {x a : NuPlayer}, Ordinary x a → badFlushCalls a = badFlushCalls x → Calm x a :=
    fun h hv => Calm.of_ordinary h hv
  unfold onMessageReceived
  dsimp only
  refine post_bind _ _ (fun r => Calm m r.2) _ ?_ ?_
  · rw [post_ite]
    refine ⟨fun _ => ?_, fun _ => (post_ok _ _).2 (Calm.calmRefl m)⟩
    refine post_bind _ _ (Calm m) _ ?_ ?_
    · rw [post_ite]
      refine ⟨fun _ => ?_, fun _ => (post_ok _ _).2 (Calm.calmRefl m)⟩
      refine post_bind _ _ (Calm m) _ ?_ ?_
      · refine post_mono _ _ _ (restartAudio_calm b env _ true true _) (fun a ha => ?_)
        refine (Calm.of_view ?_).calmTrans ha
        simp [calmView, badFlushCalls, isBadFlushCall, emit, List.filter_append,
          apply_ite (List.filter _)]
      · intro a ha
        simp only [post_ite, post_ok, post_error, pure_eq_ok]
        exact ⟨fun _ => ⟨fun _ => trivial, fun _ => ha.calmTrans
          (Calm.of_machine (emit_machine _ a) (emit_flushCalls _ a rfl))⟩, fun _ => ha⟩
    · intro a ha
      simp only [post_ite, post_ok, post_error, pure_eq_ok]
      exact ⟨fun _ => trivial, fun _ => ha.calmTrans
        (Calm.of_machine (emit_machine _ a) (emit_flushCalls _ a rfl))⟩
  intro r hr
  refine post_bind _ _ (Calm r.2) _ ?_ ?_
  · simp only [post_ite, post_ok, pure_eq_ok]
    refine ⟨fun _ => ⟨fun _ => Calm.of_view ?_, fun _ => ?_⟩, fun _ => Calm.calmRefl _⟩
    · simp [calmView, badFlushCalls, isBadFlushCall, onPause, emit, List.filter_append,
        apply_ite (List.filter _)]
    · refine post_bind _ _ (Calm r.2) _ ?_ ?_
      · simp only [post_ite, post_ok, pure_eq_ok]
        refine ⟨fun _ => ⟨fun _ => ?_, fun _ => Calm.of_view ?_⟩,
          fun _ => ⟨fun _ => ?_, fun _ => Calm.of_view ?_⟩⟩
        · intro a ha
          exact (Calm.of_view (by simp [calmView, badFlushCalls])).calmTrans
            (hq (onResume_ordinary b env _ a ha) (onResume_flushCalls b env _ a ha))
        · simp [calmView, badFlushCalls]
        · intro a ha
          exact (Calm.of_view (by simp [calmView, badFlushCalls])).calmTrans
            (hq (onStart_ordinary b env _ _ a ha) (onStart_flushCalls b env _ _ a ha))
        · simp [calmView, badFlushCalls]
      · intro a ha
        exact (post_ok _ _).2 (ha.calmTrans (Calm.of_view (by simp [calmView, badFlushCalls])))
  · intro a ha
    refine (post_ok _ _).2 (hr.calmTrans (ha.calmTrans (Calm.of_view ?_)))
    simp [calmView, badFlushCalls, isBadFlushCall, emit, List.filter_append,
      apply_ite (List.filter _)]

/-- Handling one message adds no flushDecoder call for a track outside NONE, and leaves
nothing to finish if nothing was left before. -/
theorem onMessageReceived_calm (b : Build) (env : Env) (msg : Msg) (m : NuPlayer) :
    Post (onMessageReceived b env msg m) (Calm m) := by
  have hq : ∀ {x a : NuPlayer}, Ordinary x a → badFlushCalls a = badFlushCalls x → Calm x a :=
    fun h hv => Calm.of_ordinary h hv
  cases msg with
  | kWhatSetDataSource source result =>
    refine post_mono _ (fun a => calmView a = calmView m) _ ?_ (fun _ h => Calm.of_view h)
    unfold onMessageReceived
    simp only [post_ite, post_ok, post_error]
    simp [calmView, badFlushCalls, isBadFlushCall, emit, List.filter_append,
      apply_ite (List.filter _)]
  | kWhatPrepare =>
    unfold onMessageReceived
    simp only [post_ite, post_ok, post_error]
    refine ⟨fun _ => ⟨fun _ => Calm.calmRefl m, fun _ => ⟨fun _ => ?_,
      fun _ => Calm.of_view ?_⟩⟩, fun _ => ⟨fun _ => trivial, fun _ => Calm.of_view ?_⟩⟩
    · intro a ha
      exact (Calm.of_view (by simp [calmView, badFlushCalls])).calmTrans
        (Calm.of_machine (finishPrepare_machine _ _ _ _ a ha)
          (finishPrepare_flushCalls _ _ _ _ a ha))
    · simp [calmView, badFlushCalls, isBadFlushCall, emit, List.filter_append,
        apply_ite (List.filter _)]
    · simp [calmView, badFlushCalls, isBadFlushCall, emit, List.filter_append,
        apply_ite (List.filter _)]
  | kWhatGetTrackInfo replyID =>
    unfold onMessageReceived
    dsimp only
    refine post_bind _ _ (Calm m) _ ?_ ?_
    · intro a ha
      exact (Calm.of_machine (emit_machine (.parcelWriteInt32 _) m)
          (emit_flushCalls _ m rfl)).calmTrans
        (Calm.of_machine (writeTrackInfos_machine _ _ _ a ha)
          (writeTrackInfos_flushCalls _ _ _ a ha))
    intro a ha
    refine post_bind _ _ (Calm m) _ ?_ ?_
    · intro a1 h1
      exact ha.calmTrans (Calm.of_machine (writeTrackInfos_machine _ _ _ a1 h1)
          (writeTrackInfos_flushCalls _ _ _ a1 h1))
    intro a2 ha2
    exact (post_ok _ _).2 (ha2.calmTrans
      (Calm.of_machine (emit_machine _ a2) (emit_flushCalls _ a2 rfl)))
  | kWhatGetSelectedTrack t replyID =>
    refine post_mono _ (fun a => calmView a = calmView m) _ ?_ (fun _ h => Calm.of_view h)
    unfold onMessageReceived
    simp only [post_ite, post_ok, post_error]
    simp [calmView, badFlushCalls, isBadFlushCall, emit, List.filter_append,
      apply_ite (List.filter _)]
  | kWhatSelectTrack trackIndex select timeUs replyID =>
    refine post_mono _ (fun a => calmView a = calmView m) _ ?_ (fun _ h => Calm.of_view h)
    unfold onMessageReceived
    dsimp only
    simp only [post_ite, post_ok, post_error]
    simp [calmView, badFlushCalls, isBadFlushCall, emit, List.filter_append,
      apply_ite (List.filter _)]
  | kWhatPollDuration generation =>
    refine post_mono _ (fun a => calmView a = calmView m) _ ?_ (fun _ h => Calm.of_view h)
    unfold onMessageReceived
    simp only [post_ite, post_ok, post_error]
    cases env.sourceDuration <;>
      simp [calmView, badFlushCalls, isBadFlushCall, emit, List.filter_append,
        apply_ite (List.filter _)]
  | kWhatSetVideoSurface surface => exact setVideoSurface_calm b env surface m
  | kWhatSetAudioSink sink =>
    exact (post_ok _ _).2 (Calm.of_view (by simp [calmView, badFlushCalls]))
  | kWhatStart =>
    unfold onMessageReceived
    refine post_bind _ _ (Calm m) _ ?_ ?_
    · simp only [post_ite, post_ok, pure_eq_ok]
      refine ⟨fun _ => ⟨fun _ => ?_, fun _ => Calm.calmRefl m⟩,
        fun _ a ha => hq (onStart_ordinary b env _ m a ha) (onStart_flushCalls b env _ m a ha)⟩
      refine post_bind _ _ (Calm m) _ ?_ (fun a ha r hr => ha.calmTrans
        (hq (onResume_ordinary b env a r hr) (onResume_flushCalls b env a r hr)))
      simp only [post_ite, post_ok, pure_eq_ok]
      refine ⟨fun _ => ?_, fun _ => Calm.calmRefl m⟩
      refine post_bind _ _ (fun r => Calm m r.2) _ ?_ (fun r hr => (post_ok _ _).2 hr)
      exact fun r hr => hq (onScanSources_ordinary b env m r hr)
        (onScanSources_flushCalls b env m r hr)
    · intro a ha
      exact (post_ok _ _).2 (ha.calmTrans (Calm.of_view (by simp [calmView, badFlushCalls])))
  | kWhatConfigPlayback rate replyID => exact configPlayback_calm b env rate replyID m
  | kWhatGetPlaybackSettings replyID =>
    refine (post_ok _ _).2 (Calm.of_view ?_)
    simp [calmView, badFlushCalls, isBadFlushCall, emit, List.filter_append,
      apply_ite (List.filter _)]
  | kWhatConfigSync sync videoFpsHint replyID =>
    refine (post_ok _ _).2 (Calm.of_view ?_)
    simp [calmView, badFlushCalls, isBadFlushCall, emit, List.filter_append,
      apply_ite (List.filter _)]
  | kWhatGetSyncSettings replyID =>
    refine (post_ok _ _).2 (Calm.of_view ?_)
    simp [calmView, badFlushCalls, isBadFlushCall, emit, List.filter_append,
      apply_ite (List.filter _)]
  | kWhatScanSources generation =>
    unfold onMessageReceived
    dsimp only
    simp only [post_ite, post_ok]
    refine ⟨fun _ => Calm.calmRefl m, fun _ => ⟨fun _ => ?_, fun _ => ?_⟩⟩
    · refine post_bind _ _ (Calm m) _ ?_ ?_
      · intro a ha
        exact (Calm.of_view (by simp [calmView, badFlushCalls])).calmTrans
          (hq (scanSource_l_ordinary b env generation _ a ha)
            (scanSource_l_flushCalls b env generation _ a ha))
      · intro a ha
        refine post_mono _ (fun r => calmView r = calmView a) _ ?_
          (fun r hr => ha.calmTrans (Calm.of_view hr))
        simp only [post_ite, post_ok, pure_eq_ok]
        simp [calmView, badFlushCalls, isBadFlushCall, emit, notifyListener,
          notifyListenerParcel, List.filter_append, apply_ite (List.filter _)]
    · intro a ha
      exact (Calm.of_view (by simp [calmView, badFlushCalls])).calmTrans
        (hq (scanSources_ordinary b env generation _ a ha)
          (scanSources_flushCalls b env generation _ a ha))
  | kWhatDecoderNotify audio g reply what =>
    unfold onMessageReceived
    dsimp only
    rw [post_ite]
    refine ⟨fun _ => ?_, fun _ => onDecoderNotify_calm b env audio what m⟩
    cases reply with
    | none => exact (post_ok _ _).2 (Calm.calmRefl m)
    | some r =>
      exact (post_ok _ _).2 (Calm.of_machine (emit_machine _ m) (emit_flushCalls _ m rfl))
  | kWhatRendererNotify g what =>
    unfold onMessageReceived
    rw [post_ite]
    exact ⟨fun _ => (post_ok _ _).2 (Calm.calmRefl m), fun _ => onRendererNotify_calm b env what m⟩
  | kWhatMoreDataQueued => exact (post_ok _ _).2 (Calm.calmRefl m)
  | kWhatReset =>
    exact drain_calm b env m _ (Calm.of_status rfl rfl rfl)
  | kWhatSeek seekTimeUs needNotify =>
    unfold onMessageReceived
    dsimp only
    rw [post_ite]
    refine ⟨fun _ => ?_, fun _ => drain_calm b env m _ (Calm.of_view ?_)⟩
    · refine post_bind _ _ (Calm m) _ ?_ ?_
      · exact fun a ha => hq (onStart_ordinary b env seekTimeUs m a ha)
          (onStart_flushCalls b env seekTimeUs m a ha)
      intro a ha
      refine (post_ok _ _).2 (ha.calmTrans (Calm.of_view ?_))
      simp [calmView, badFlushCalls, isBadFlushCall, emit, onPause, notifyDriverSeekComplete,
        List.filter_append, apply_ite (List.filter _)]
    · simp [calmView, badFlushCalls]
  | kWhatPause =>
    refine (post_ok _ _).2 (Calm.of_view ?_)
    simp [calmView, badFlushCalls, isBadFlushCall, emit, onPause, List.filter_append,
      apply_ite (List.filter _)]
  | kWhatSourceNotify what => exact onSourceNotify_calm b env what m
  | kWhatClosedCaptionNotify what =>
    exact fun a ha => Calm.of_machine (onClosedCaptionNotify_machine b env what m a ha)
      (onClosedCaptionNotify_flushCalls b env what m a ha)

theorem run_calm (b : Build) :
    ∀ (msgs : List (Env × Msg)) (m : NuPlayer), Post (run b msgs m) (Calm m) := by
  intro msgs
  induction msgs with
  | nil => intro m; exact (post_ok _ _).2 (Calm.calmRefl m)
  | cons x rest ih =>
    intro m
    obtain ⟨env, msg⟩ := x
    unfold run
    refine post_bind _ _ (Calm m) _ (onMessageReceived_calm b env msg m) ?_
    intro a ha
    exact post_mono _ _ _ (ih a) (fun _ h => ha.calmTrans h)

/-- C22: in every state that a run of messages reaches from a controller that has sent
nothing yet (the fresh controller is one), no call of flushDecoder on a live decoder has
found its track outside NONE: the trace holds no ALOGE line of flushDecoder, and every
signalFlush in it was sent while the flush status of its track was NONE. (A call for a
track outside NONE would be recorded: it adds two entries to the bad flush calls.) -/
theorem flushDecoder_called_only_at_none (b : Build) (msgs : List (Env × Msg))
    (m0 a : NuPlayer) (h0 : m0.trace = []) (h : run b msgs m0 = .ok a) :
    badFlushCalls a = []
    ∧ (∀ s ∈ a.trace, (∀ k st, s.event ≠ .logFlushDecoderInState k st)
        ∧ (s.event = .decoder true .signalFlush → s.flushingAudio = .NONE)
        ∧ (s.event = .decoder false .signalFlush → s.flushingVideo = .NONE))
    ∧ (∀ (audio needShutdown : Bool) (m : NuPlayer), getDecoder audio m ≠ none →
        flushStatus audio m ≠ .NONE →
        (badFlushCalls (flushDecoder audio needShutdown m)).length
          = (badFlushCalls m).length + 2) := by
  have h1 : badFlushCalls a = [] := by
    rw [(run_calm b msgs _ a h).2]
    simp [badFlushCalls, h0]
  refine ⟨h1, fun s hs => ?_, fun audio n m hd hn => flushDecoder_off_none_recorded audio n m hd hn⟩
  have hb : isBadFlushCall s = false := by
    by_contra hc
    have : s ∈ badFlushCalls a := List.mem_filter.2 ⟨hs, by simpa using hc⟩
    rw [h1] at this
    exact List.not_mem_nil _ this
  refine ⟨fun k st he => ?_, fun he => ?_, fun he => ?_⟩
  · simp [isBadFlushCall, he] at hb
  · simpa [isBadFlushCall, he] using hb
  · simpa [isBadFlushCall, he] using hb

theorem flushDecoder_called_only_at_none_witness :
    run stockBuild (startAndSeek.map (fun x => (sampleEnv, x))) (NuPlayer.new 0)
        = .ok (reached stockBuild startAndSeek)
    ∧ sentCount (.decoder true .signalFlush) (reached stockBuild startAndSeek) = 1
    ∧ sentCount (.decoder false .signalFlush) (reached stockBuild startAndSeek) = 1
    ∧ badFlushCalls (reached stockBuild startAndSeek) = [] :=
  ⟨rfl, by decide, by decide,
   (flushDecoder_called_only_at_none stockBuild (startAndSeek.map (fun x => (sampleEnv, x)))
      (NuPlayer.new 0) (reached stockBuild startAndSeek) rfl rfl).1⟩

/-! ## A decoder error after the shutdown has begun -/

/-- With nothing to finish, a track in SHUT_DOWN has the other track in a status at
which finishFlushIfPossible returns at once. -/
theorem finishFlush_of_shut_down (b : Build) (env : Env) (audio : Bool) (m : NuPlayer)
    (hj : NothingToFinish m) (hs : flushStatus audio m = .SHUT_DOWN) :
    finishFlushIfPossible b env m = .ok m := by
  apply finishFlushIfPossible_blocked b env (!audio) m
  cases audio
  · simp only [flushStatus, Bool.false_eq_true, if_false] at hs
    simp only [flushStatus, Bool.not_false, if_true]
    rcases hj with ⟨_, h2⟩ | h | h
    · rw [hs] at h2; cases h2
    · cases hx : m.mFlushingAudio <;> simp_all [IsFlushingState]
    · rw [hs] at h; simp [IsFlushingState] at h
  · simp only [flushStatus, if_true] at hs
    simp only [flushStatus, Bool.not_true, Bool.false_eq_true, if_false]
    rcases hj with ⟨h1, _⟩ | h | h
    · rw [hs] at h1; cases h1
    · rw [hs] at h; simp [IsFlushingState] at h
    · cases hx : m.mFlushingVideo <;> simp_all [IsFlushingState]

theorem decoderError_terminal (b : Build) (env : Env) (audio : Bool) (e1 e2 : Option Int)
    (m : NuPlayer) (hj : NothingToFinish m)
    (hs : flushStatus audio m = .SHUTTING_DOWN_DECODER ∨ flushStatus audio m = .SHUT_DOWN) :
    Post (onDecoderNotify b env audio (.kWhatError e1 e2) m) (fun a =>
      machine a = machine m
      ∧ ∀ k c, sentCount (.decoder k c) a = sentCount (.decoder k c) m) := by
  unfold onDecoderNotify
  dsimp only
  refine post_bind _ _ (fun a => machine a = machine m
    ∧ ∀ k c, sentCount (.decoder k c) a = sentCount (.decoder k c) m) _ ?_ ?_
  · simp only [post_ite, post_ok, post_error, pure_eq_ok]
    simp [machine, sentCount, events, emit]
  rintro a ⟨ha, hka⟩
  have hja : NothingToFinish a := by
    simp only [machine, Prod.mk.injEq] at ha
    unfold NothingToFinish at hj ⊢
    rw [ha.1, ha.2.1]
    exact hj
  refine post_bind _ _ (fun r => machine r = machine m
    ∧ ∀ k c, sentCount (.decoder k c) r = sentCount (.decoder k c) m) _ ?_ ?_
  · rcases hs with hs | hs
    · have hsa : (if audio = true then a.mFlushingAudio else a.mFlushingVideo)
          = .SHUTTING_DOWN_DECODER := (machine_flushStatus ha audio).trans hs
      rw [hsa]
      exact (post_ok _ _).2 ⟨ha, hka⟩
    · have hsa : (if audio = true then a.mFlushingAudio else a.mFlushingVideo)
          = .SHUT_DOWN := (machine_flushStatus ha audio).trans hs
      rw [hsa]
      dsimp only
      rw [finishFlush_of_shut_down b env audio a hja ((machine_flushStatus ha audio).trans hs)]
      exact (post_ok _ _).2 ⟨ha, hka⟩
  rintro r ⟨hr, hkr⟩
  rw [post_ite]
  refine ⟨fun _ => ?_, fun _ => ?_⟩
  · intro x hx
    exact ⟨(handleForACodecError_machine b env audio e1 e2 r x hx).trans hr, fun k c =>
      (handleForACodecError_decoderSent b env audio k c e1 e2 r x hx).trans (hkr k c)⟩
  · rw [pure_eq_ok, post_ok]
    exact ⟨(notifyListener_machine _ _ _ _ _ _).trans hr, fun k c =>
      (notifyListener_decoderSent b env k c _ _ _ r).trans (hkr k c)⟩

theorem decoderError_terminal_returns (b : Build) (env : Env) (audio : Bool)
    (e1 e2 : Option Int) (m : NuPlayer) (hj : NothingToFinish m)
    (hs : flushStatus audio m = .SHUTTING_DOWN_DECODER ∨ flushStatus audio m = .SHUT_DOWN)
    (hmtk : b.MTK_AOSP_ENHANCEMENT = true → m.mSource ≠ none ∧ e1 ≠ none) :
    ∃ a, onDecoderNotify b env audio (.kWhatError e1 e2) m = .ok a := by
  have hr : Returns (onDecoderNotify b env audio (.kWhatError e1 e2) m) (fun _ => True) := by
    unfold onDecoderNotify
    dsimp only
    refine returns_bind _ _ (fun a => machine a = machine m ∧ a.mSource = m.mSource) _ ?_ ?_
    · simp only [returns_ite, returns_ok, returns_error, pure_eq_ok]
      have he : ∀ x, machine (emit (.renderer x) m) = machine m
          ∧ (emit (.renderer x) m).mSource = m.mSource := by
        intro x
        simp [machine, emit]
      exact ⟨fun h => ⟨fun _ => ⟨fun hn => (hmtk h.1).1 hn, fun _ => ⟨fun _ => he _,
        fun _ => by simp⟩⟩, fun _ => he _⟩, fun _ => by simp⟩
    rintro a ⟨ha, hsrc⟩
    have hja : NothingToFinish a := by
      simp only [machine, Prod.mk.injEq] at ha
      unfold NothingToFinish at hj ⊢
      rw [ha.1, ha.2.1]
      exact hj
    refine returns_bind _ _ (fun r => r.mSource = m.mSource) _ ?_ ?_
    · rcases hs with hs | hs
      · have hsa : (if audio = true then a.mFlushingAudio else a.mFlushingVideo)
            = .SHUTTING_DOWN_DECODER := (machine_flushStatus ha audio).trans hs
        rw [hsa]
        exact (returns_ok _ _).2 hsrc
      · have hsa : (if audio = true then a.mFlushingAudio else a.mFlushingVideo)
            = .SHUT_DOWN := (machine_flushStatus ha audio).trans hs
        rw [hsa]
        dsimp only
        rw [finishFlush_of_shut_down b env audio a hja
          ((machine_flushStatus ha audio).trans hs)]
        exact (returns_ok _ _).2 hsrc
    intro r hr
    rw [returns_ite]
    refine ⟨fun hb => ?_, fun _ => (returns_ok _ _).2 trivial⟩
    obtain ⟨hsm, he⟩ := hmtk hb
    obtain ⟨e, rfl⟩ := Option.ne_none_iff_exists'.1 he
    exact returns_mono _ _ _ (handleForACodecError_returns b env audio audio e e2 r
      (by rw [hr]; exact hsm)) (fun _ _ => trivial)
  obtain ⟨a, ha, _⟩ := hr
  exact ⟨a, ha⟩

/-- C27: in a state that a run of messages reaches from a controller with both flush
statuses NONE (the fresh controller is one), a decoder error of the current generation
for a track in SHUTTING_DOWN_DECODER or SHUT_DOWN, if the handler returns, leaves both
flush statuses, the completion bits, the deferred queue and the decoder handles and
generations as they are (nothing is taken from the queue), and sends no command at all
to either decoder; the handler returns (in the vendor build: when a source is set and
the message carries "err"). In a reached state a track in SHUT_DOWN always has the other
track in FLUSHING_DECODER, FLUSHING_DECODER_SHUTDOWN or SHUTTING_DOWN_DECODER, so that
the finishFlushIfPossible of the SHUT_DOWN case returns at once. -/
theorem decoder_error_after_shutdown_ignored (b : Build) (msgs : List (Env × Msg))
    (env : Env) (audio : Bool) (reply : Option AMessageId) (e1 e2 : Option Int)
    (m0 m : NuPlayer) (h0 : m0.mFlushingAudio = .NONE ∧ m0.mFlushingVideo = .NONE)
    (hrun : run b msgs m0 = .ok m)
    (hs : flushStatus audio m = .SHUTTING_DOWN_DECODER ∨ flushStatus audio m = .SHUT_DOWN) :
    Post (onMessageReceived b env
        (.kWhatDecoderNotify audio (decoderGeneration audio m) reply (.kWhatError e1 e2)) m)
      (fun a => machine a = machine m
        ∧ ∀ k c, sentCount (.decoder k c) a = sentCount (.decoder k c) m)
    ∧ ((b.MTK_AOSP_ENHANCEMENT = true → m.mSource ≠ none ∧ e1 ≠ none) →
        ∃ a, onMessageReceived b env
          (.kWhatDecoderNotify audio (decoderGeneration audio m) reply (.kWhatError e1 e2)) m
          = .ok a)
    ∧ (flushStatus audio m = .SHUT_DOWN → IsFlushingState (flushStatus (!audio) m) = true) := by
  have hj : NothingToFinish m :=
    (run_calm b msgs _ m hrun).1 (nothingToFinish_of_none h0.1 h0.2)
  rw [decoderNotify_current]
  refine ⟨decoderError_terminal b env audio e1 e2 m hj hs,
    fun hmtk => decoderError_terminal_returns b env audio e1 e2 m hj hs hmtk, fun h => ?_⟩
  cases audio
  · simp only [flushStatus, Bool.false_eq_true, if_false] at h
    simp only [flushStatus, Bool.not_false, if_true]
    rcases hj with ⟨_, h2⟩ | hx | hx
    · rw [h] at h2; cases h2
    · exact hx
    · rw [h] at hx; simp [IsFlushingState] at hx
  · simp only [flushStatus, if_true] at h
    simp only [flushStatus, Bool.not_true, Bool.false_eq_true, if_false]
    rcases hj with ⟨h1, _⟩ | hx | hx
    · rw [h] at h1; cases h1
    · rw [h] at hx; simp [IsFlushingState] at hx
    · exact hx

theorem decoder_error_after_shutdown_ignored_witness :
    run stockBuild (videoShutDown.map (fun x => (sampleEnv, x))) (NuPlayer.new 0)
        = .ok (reached stockBuild videoShutDown)
    ∧ flushStatus false (reached stockBuild videoShutDown) = .SHUT_DOWN
    ∧ flushStatus true (reached stockBuild videoShutDown) = .FLUSHING_DECODER
    ∧ ∃ a, onMessageReceived stockBuild sampleEnv
        (.kWhatDecoderNotify false (decoderGeneration false (reached stockBuild videoShutDown))
          none (.kWhatError (some (-1)) none)) (reached stockBuild videoShutDown) = .ok a :=
  ⟨rfl, by decide, by decide,
   (decoder_error_after_shutdown_ignored stockBuild (videoShutDown.map (fun x => (sampleEnv, x)))
      sampleEnv false none (some (-1)) none (NuPlayer.new 0) (reached stockBuild videoShutDown)
      ⟨rfl, rfl⟩ rfl (Or.inr (by decide))).2.1 (by decide)⟩

/-! ## Pause flags across a reset and a rate change -/

/-- C31: performReset leaves pausedForBuffering as it finds it. After playback has
started and the source has reported a low buffer, a reset runs to its end: the controller
is not started and pausedForBuffering is still true. In the session that follows, with a
new source, the flag is still set: a client pause followed by start sends no resume to
the renderer and leaves the controller paused, where the same pause and start in a first
session resume playback. -/
theorem reset_keeps_paused_for_buffering :
    run stockBuild (bufferThenReset.map (fun x => (sampleEnv, x))) (NuPlayer.new 0)
        = .ok (reached stockBuild bufferThenReset)
    ∧ (reached stockBuild (startPlayback ++ [.kWhatSourceNotify .kWhatPauseOnBufferingStart])).mStarted
        = true
    ∧ (reached stockBuild bufferThenReset).mStarted = false
    ∧ (reached stockBuild bufferThenReset).mPausedForBuffering = true
    ∧ (reached stockBuild bufferThenReset).mSource = none
    ∧ sentCount (.driver .notifyResetComplete) (reached stockBuild bufferThenReset) = 1
    ∧ run stockBuild ((bufferThenReset ++ secondSession ++ pauseThenStart).map
          (fun x => (sampleEnv, x))) (NuPlayer.new 0)
        = .ok (reached stockBuild (bufferThenReset ++ secondSession ++ pauseThenStart))
    ∧ (reached stockBuild (bufferThenReset ++ secondSession ++ pauseThenStart)).mStarted = true
    ∧ (reached stockBuild (bufferThenReset ++ secondSession ++ pauseThenStart)).mPaused = true
    ∧ (reached stockBuild (bufferThenReset ++ secondSession ++ pauseThenStart)).mPausedForBuffering
        = true
    ∧ sentCount (.renderer .resume)
        (reached stockBuild (bufferThenReset ++ secondSession ++ pauseThenStart)) = 0
    ∧ (reached stockBuild (startPlayback ++ pauseThenStart)).mPaused = false
    ∧ sentCount (.renderer .resume) (reached stockBuild (startPlayback ++ pauseThenStart)) = 1 :=
  ⟨rfl, by decide, by decide, by decide, by decide, by decide, rfl, by decide, by decide,
   by decide, by decide, by decide, by decide⟩

/-- C32: a rate change with speed 0 that also makes offload impossible loses the stored
speed. In offload playback at speed 1 the rate change to speed 0 and pitch 2 is accepted
by the renderer; the controller is paused by the client afterwards, but the stored
playback speed is 0, not 1: the handler has stored the whole new rate before it restarts
audio, and then keeps the speed it finds stored. Without offload the same rate change
keeps the speed 1 and stores the pitch 2. -/
theorem zero_speed_rate_change_loses_stored_speed :
    run stockBuild (startPlayback.map (fun x => (offloadEnv, x))) (NuPlayer.new 0)
        = .ok offloadPlayback
    ∧ offloadPlayback.mRenderer ≠ none ∧ offloadPlayback.mOffloadAudio = true
    ∧ offloadPlayback.mPlaybackSettings = ⟨1, 1, 0, 0⟩
    ∧ offloadEnv.rendererSetPlaybackSettings = OK
    ∧ (∃ a, onMessageReceived stockBuild offloadEnv (.kWhatConfigPlayback pauseWithPitch 7)
          offloadPlayback = .ok a
        ∧ a.mPaused = true ∧ a.mPausedByClient = true
        ∧ a.mPlaybackSettings = ⟨0, 2, 0, 0⟩)
    ∧ (∃ a, onMessageReceived stockBuild sampleEnv (.kWhatConfigPlayback pauseWithPitch 7)
          (reached stockBuild startPlayback) = .ok a
        ∧ a.mPaused = true ∧ a.mPausedByClient = true
        ∧ a.mPlaybackSettings = ⟨1, 2, 0, 0⟩) :=
  ⟨rfl, by decide, by decide, by decide, by decide, ⟨_, rfl, by decide, by decide, by decide⟩,
   ⟨_, rfl, by decide, by decide, by decide⟩⟩

/-- C38: in the build without the vendor enhancement updateVideoSize divides by
sar-height without a test: for an input format with sar-width 1 and sar-height 0 the
division of line 2089 is a division by zero and no size is reported. The vendor build
tests both values for being positive and reports the size without scaling. -/
theorem updateVideoSize_divides_by_zero_sar_height :
    zeroSarFormat.sarWidth = some 1 ∧ zeroSarFormat.sarHeight = some 0
    ∧ updateVideoSize stockBuild sampleEnv (some zeroSarFormat) none
        (reached stockBuild startPlayback) = .error (.divideByZero 2089)
    ∧ onMessageReceived stockBuild sampleEnv
        (.kWhatSourceNotify (.kWhatVideoSizeChanged zeroSarFormat))
        (reached stockBuild startPlayback) = .error (.divideByZero 2089)
    ∧ (∃ a, updateVideoSize vendorBuild sampleEnv (some zeroSarFormat) none
          (reached vendorBuild startPlayback) = .ok a
        ∧ sentCount (.driver (.notifyListener MEDIA_SET_VIDEO_SIZE 640 480 [])) a
          = sentCount (.driver (.notifyListener MEDIA_SET_VIDEO_SIZE 640 480 []))
              (reached vendorBuild startPlayback) + 1) :=
  ⟨rfl, rfl, rfl, rfl, ⟨_, rfl, by decide⟩⟩

/-! ## Track indices -/

theorem toInt32_of_fits (x : Int) (h : fitsInt32 x) : toInt32 x = x := by
  unfold fitsInt32 at h
  unfold toInt32
  omega

/-- The product of the width and sar-width is taken in int32_t: a width of 4096 with the
sample aspect ratio 1000000 : 1000000 is reported as -198 x 2160, where the reference
size is 4096 x 2160. -/
theorem updateVideoSize_wraps_in_int32 :
    (∃ a, updateVideoSize stockBuild sampleEnv (some largeSarFormat) none
        (reached stockBuild startPlayback) = .ok a
      ∧ events a = events (reached stockBuild startPlayback)
          ++ [.driver (.notifyListener MEDIA_SET_VIDEO_SIZE (-198) 2160 [])])
    ∧ referenceVideoSize (some largeSarFormat) none = (4096, 2160) :=
  ⟨⟨_, rfl, by decide⟩, by decide⟩

/-- C37, as stated, fails in the vendor build, which computes the size in its own way.
For an output format of 640 x 480 with width-ratio 2 it reports 1280 x 480, the
reference size is 640 x 480. For a sample aspect ratio of 0 : 1 it does not scale and
reports 640 x 480, the reference size is 0 x 480. With MTK_CLEARMOTION_SUPPORT, once the
source has reported the size 640 x 480, an output format cropped to 320 x 240 that
carries NotUpdateVideoSize is reported as 640 x 480, the reference size is 320 x 240. -/
theorem vendor_video_size_differs_from_reference :
    ((∃ a, updateVideoSize vendorBuild sampleEnv (some sampleFormat) (some wideOutputFormat)
          (reached vendorBuild startPlayback) = .ok a
      ∧ events a = events (reached vendorBuild startPlayback)
          ++ [.driver (.notifyListener MEDIA_SET_VIDEO_SIZE 1280 480 [])])
      ∧ referenceVideoSize (some sampleFormat) (some wideOutputFormat) = (640, 480))
    ∧ ((∃ a, updateVideoSize vendorBuild sampleEnv (some zeroSarWidthFormat) none
          (reached vendorBuild startPlayback) = .ok a
      ∧ events a = events (reached vendorBuild startPlayback)
          ++ [.driver (.notifyListener MEDIA_SET_VIDEO_SIZE 640 480 [])])
      ∧ referenceVideoSize (some zeroSarWidthFormat) none = (0, 480))
    ∧ (run clearMotionBuild (sizeReported.map (fun x => (sampleEnv, x))) (NuPlayer.new 0)
          = .ok (reached clearMotionBuild sizeReported)
      ∧ (∃ a, updateVideoSize clearMotionBuild sampleEnv (some sampleFormat)
            (some keepSizeOutputFormat) (reached clearMotionBuild sizeReported) = .ok a
        ∧ events a = events (reached clearMotionBuild sizeReported)
            ++ [.driver (.notifyListener MEDIA_SET_VIDEO_SIZE 640 480 [])])
      ∧ referenceVideoSize (some sampleFormat) (some keepSizeOutputFormat) = (320, 240)) :=
  ⟨⟨⟨_, rfl, by decide⟩, by decide⟩, ⟨⟨_, rfl, by decide⟩, by decide⟩,
   ⟨rfl, ⟨_, rfl, by decide⟩, by decide⟩⟩

/-- C37, amended: updateVideoSize calls notifyListener for MEDIA_SET_VIDEO_SIZE with the
size of the reference definition, in either build, when the formats carry the keys the
code asserts (width, height and crop of an output format; width and height of the input
format when there is no output format), no result of the reference computation leaves
the range of int32_t, and the inputs stay off the paths on which the builds compute
otherwise: in the build without MTK_AOSP_ENHANCEMENT sar-height is not 0 where both
sample-aspect-ratio keys are present; in the vendor build width-ratio and height-ratio
are absent or 1, the remembered container size is not forced (MTK_CLEARMOTION_SUPPORT
with NotUpdateVideoSize and a positive container size), and both sample-aspect-ratio
values are positive where both are present. The call leaves the controller as it is but
for the container size the vendor build remembers, and with a live driver attached, in a
build or a playback without revision of notifications, it is the one event sent. -/
theorem updateVideoSize_reports_reference_size (b : Build) (env : Env)
    (inputFormat outputFormat : Option Format) (m : NuPlayer)
    (hout : ∀ o, outputFormat = some o → o.width ≠ none ∧ o.height ≠ none ∧ o.crop ≠ none)
    (hin : ∀ i, inputFormat = some i → outputFormat = none → i.width ≠ none ∧ i.height ≠ none)
    (hcrop : ∀ o l t r bo, outputFormat = some o → o.crop = some (l, t, r, bo) →
      fitsInt32 (r - l) ∧ fitsInt32 (r - l + 1) ∧ fitsInt32 (bo - t) ∧ fitsInt32 (bo - t + 1))
    (hfit : ∀ i sw sh, inputFormat = some i → i.sarWidth = some sw → i.sarHeight = some sh →
      fitsInt32 ((referenceBaseSize i outputFormat).1 * sw)
        ∧ fitsInt32 (Int.tdiv ((referenceBaseSize i outputFormat).1 * sw) sh))
    (hsar : ∀ i sw sh, inputFormat = some i → i.sarWidth = some sw → i.sarHeight = some sh →
      if b.MTK_AOSP_ENHANCEMENT = true then 0 < sw ∧ 0 < sh else sh ≠ 0)
    (hratio : b.MTK_AOSP_ENHANCEMENT = true → ∀ o, outputFormat = some o →
      o.widthRatio.getD 1 = 1 ∧ o.heightRatio.getD 1 = 1)
    (hclear : b.MTK_AOSP_ENHANCEMENT = true → b.MTK_CLEARMOTION_SUPPORT = true →
      ∀ o, outputFormat = some o →
        ¬ (o.NotUpdateVideoSize.getD 0 > 0 ∧ m.m_i4ContainerWidth > 0
            ∧ m.m_i4ContainerHeight > 0)) :
    ∃ m1, updateVideoSize b env inputFormat outputFormat m
        = .ok (notifyListener b env MEDIA_SET_VIDEO_SIZE
            (referenceVideoSize inputFormat outputFormat).1
            (referenceVideoSize inputFormat outputFormat).2 m1)
      ∧ { m1 with m_i4ContainerWidth := m.m_i4ContainerWidth,
                  m_i4ContainerHeight := m.m_i4ContainerHeight } = m
      ∧ (m.mDriver = true → env.driverAlive = true →
          b.MTK_AOSP_ENHANCEMENT = false ∨ m.mIsMtkPlayback = false →
          events (notifyListener b env MEDIA_SET_VIDEO_SIZE
              (referenceVideoSize inputFormat outputFormat).1
              (referenceVideoSize inputFormat outputFormat).2 m1)
            = events m ++ [.driver (.notifyListener MEDIA_SET_VIDEO_SIZE
                (referenceVideoSize inputFormat outputFormat).1
                (referenceVideoSize inputFormat outputFormat).2 [])]) := by
  have hev : ∀ (m1 : NuPlayer) (w h : Int), m1.mDriver = m.mDriver →
      m1.mIsMtkPlayback = m.mIsMtkPlayback → events m1 = events m →
      m.mDriver = true → env.driverAlive = true →
      b.MTK_AOSP_ENHANCEMENT = false ∨ m.mIsMtkPlayback = false →
      events (notifyListener b env MEDIA_SET_VIDEO_SIZE w h m1)
        = events m ++ [.driver (.notifyListener MEDIA_SET_VIDEO_SIZE w h [])] := by
    intro m1 w h e1 e2 e3 hd ha hr
    rcases hr with hr | hr
    · simp [notifyListener, notifyListenerParcel, e1, hd, ha, hr, events, emit] at e3 ⊢
      exact e3
    · by_cases hb : b.MTK_AOSP_ENHANCEMENT = true
      · simp [notifyListener, notifyListenerParcel, reviseNotifyErrorCode, e1, e2, hd, ha, hr,
          hb, events, emit] at e3 ⊢
        exact e3
      · simp [notifyListener, notifyListenerParcel, e1, hd, ha, hb, events, emit] at e3 ⊢
        exact e3
  cases inputFormat with
  | none => exact ⟨m, rfl, rfl, hev m 0 0 rfl rfl rfl⟩
  | some i =>
    have hs := hsar i
    have hf := hfit i
    have hsw : ∀ (base : Int) (sw sh : Int), fitsInt32 (base * sw) →
        fitsInt32 (Int.tdiv (base * sw) sh) →
        toInt32 (Int.tdiv (toInt32 (base * sw)) sh) = Int.tdiv (base * sw) sh := by
      intro base sw sh f1 f2
      rw [toInt32_of_fits _ f1, toInt32_of_fits _ f2]
    cases outputFormat with
    | some o =>
      obtain ⟨hw, hh, hc⟩ := hout o rfl
      obtain ⟨⟨l, t, r, bo⟩, hc⟩ := Option.ne_none_iff_exists'.1 hc
      obtain ⟨c1, c2, c3, c4⟩ := hcrop o l t r bo rfl hc
      have hcs : ∀ line, cropSize o line = .ok (r - l + 1, bo - t + 1) := by
        intro line
        simp [cropSize, hc, toInt32_of_fits, c1, c2, c3, c4]
      have hbase : referenceBaseSize i (some o) = (r - l + 1, bo - t + 1) := by
        simp [referenceBaseSize, hc]
      rw [hbase] at hf
      have hstage : (if o.width = none then (.error (.check 2030) : Except Fault _)
          else if o.height = none then .error (.check 2031)
          else if b.MTK_AOSP_ENHANCEMENT = true then do
            let d ← updataVideoSize_ext b o m
            pure ((toInt32 (d.1 * o.widthRatio.getD 1),
                   toInt32 (d.2 * o.heightRatio.getD 1)), m)
          else do
            let d ← cropSize o 2039
            pure (d, m)) = .ok ((r - l + 1, bo - t + 1), m) := by
        rw [if_neg hw, if_neg hh]
        by_cases hb : b.MTK_AOSP_ENHANCEMENT = true
        · obtain ⟨r1, r2⟩ := hratio hb o rfl
          have hext : updataVideoSize_ext b o m = .ok (r - l + 1, bo - t + 1) := by
            unfold updataVideoSize_ext
            rw [if_neg hw, if_neg hh]
            by_cases hcm : b.MTK_CLEARMOTION_SUPPORT = true
            · have := hclear hb hcm o rfl
              rw [if_pos hcm]
              split_ifs with x1 x2
              · exact absurd ⟨x1, x2⟩ this
              · exact hcs _
              · exact hcs _
            · rw [if_neg hcm]; exact hcs _
          rw [if_pos hb, hext]
          simp [r1, r2, pure_eq_ok, ok_bind, toInt32_of_fits, c2, c4]
        · rw [if_neg hb, hcs]
          rfl
      refine ⟨m, ?_, rfl, hev m _ _ rfl rfl rfl⟩
      unfold updateVideoSize referenceVideoSize
      simp only [hstage, hbase, ok_bind]
      cases hsw1 : i.sarWidth with
      | none => simp [pure_eq_ok, ok_bind]; split_ifs <;> rfl
      | some sw =>
        cases hsh1 : i.sarHeight with
        | none => simp [pure_eq_ok, ok_bind]; split_ifs <;> rfl
        | some sh =>
          obtain ⟨f1, f2⟩ := hf sw sh rfl hsw1 hsh1
          have h0 := hs sw sh rfl hsw1 hsh1
          by_cases hb : b.MTK_AOSP_ENHANCEMENT = true
          · rw [if_pos hb] at h0
            simp [hb, h0, hsw _ _ _ f1 f2, pure_eq_ok, ok_bind]
            split_ifs <;> rfl
          · rw [if_neg hb] at h0
            simp [hb, h0, hsw _ _ _ f1 f2, pure_eq_ok, ok_bind]
            split_ifs <;> rfl
    | none =>
      obtain ⟨hw, hh⟩ := hin i rfl rfl
      obtain ⟨w, hw⟩ := Option.ne_none_iff_exists'.1 hw
      obtain ⟨h, hh⟩ := Option.ne_none_iff_exists'.1 hh
      have hbase : referenceBaseSize i none = (w, h) := by
        simp [referenceBaseSize, hw, hh]
      rw [hbase] at hf
      by_cases hb : b.MTK_AOSP_ENHANCEMENT = true
      · refine ⟨{ m with m_i4ContainerWidth := w, m_i4ContainerHeight := h }, ?_, rfl,
          hev _ _ _ rfl rfl rfl⟩
        unfold updateVideoSize referenceVideoSize
        simp only [hbase]
        cases hsw1 : i.sarWidth with
        | none => simp [hw, hh, hb, pure_eq_ok, ok_bind]; split_ifs <;> rfl
        | some sw =>
          cases hsh1 : i.sarHeight with
          | none => simp [hw, hh, hb, pure_eq_ok, ok_bind]; split_ifs <;> rfl
          | some sh =>
            obtain ⟨f1, f2⟩ := hf sw sh rfl hsw1 hsh1
            have h0 := hs sw sh rfl hsw1 hsh1
            rw [if_pos hb] at h0
            simp [hw, hh, hb, h0, hsw _ _ _ f1 f2, pure_eq_ok, ok_bind]
            split_ifs <;> rfl
      · refine ⟨m, ?_, rfl, hev _ _ _ rfl rfl rfl⟩
        unfold updateVideoSize referenceVideoSize
        simp only [hbase]
        cases hsw1 : i.sarWidth with
        | none => simp [hw, hh, hb, pure_eq_ok, ok_bind]; split_ifs <;> rfl
        | some sw =>
          cases hsh1 : i.sarHeight with
          | none => simp [hw, hh, hb, pure_eq_ok, ok_bind]; split_ifs <;> rfl
          | some sh =>
            obtain ⟨f1, f2⟩ := hf sw sh rfl hsw1 hsh1
            have h0 := hs sw sh rfl hsw1 hsh1
            rw [if_neg hb] at h0
            simp [hw, hh, hb, h0, hsw _ _ _ f1 f2, pure_eq_ok, ok_bind]
            split_ifs <;> rfl

/-- Witness of C37: an input rotated by 90 degrees with the sample aspect ratio 4 : 3
and an output cropped to 320 x 240 is reported as 240 x 426, in the build without the
vendor enhancement and in the vendor build. -/
theorem updateVideoSize_reports_reference_size_witness :
    referenceVideoSize (some rotatedFormat) (some croppedOutputFormat) = (240, 426)
    ∧ (∃ m1, updateVideoSize stockBuild sampleEnv (some rotatedFormat)
          (some croppedOutputFormat) (reached stockBuild startPlayback)
        = .ok (notifyListener stockBuild sampleEnv MEDIA_SET_VIDEO_SIZE
            (referenceVideoSize (some rotatedFormat) (some croppedOutputFormat)).1
            (referenceVideoSize (some rotatedFormat) (some croppedOutputFormat)).2 m1)
      ∧ { m1 with m_i4ContainerWidth := (reached stockBuild startPlayback).m_i4ContainerWidth,
                  m_i4ContainerHeight := (reached stockBuild startPlayback).m_i4ContainerHeight }
          = reached stockBuild startPlayback)
    ∧ (∃ m1, updateVideoSize vendorBuild sampleEnv (some rotatedFormat)
          (some croppedOutputFormat) (reached vendorBuild startPlayback)
        = .ok (notifyListener vendorBuild sampleEnv MEDIA_SET_VIDEO_SIZE
            (referenceVideoSize (some rotatedFormat) (some croppedOutputFormat)).1
            (referenceVideoSize (some rotatedFormat) (some croppedOutputFormat)).2 m1)
      ∧ { m1 with m_i4ContainerWidth := (reached vendorBuild startPlayback).m_i4ContainerWidth,
                  m_i4ContainerHeight := (reached vendorBuild startPlayback).m_i4ContainerHeight }
          = reached vendorBuild startPlayback) := by
  refine ⟨by decide, ?_, ?_⟩
  · obtain ⟨m1, h1, h2, -⟩ := updateVideoSize_reports_reference_size stockBuild sampleEnv
      (some rotatedFormat) (some croppedOutputFormat) (reached stockBuild startPlayback)
      (by intro o ho; cases ho; decide) (by intro i _ ho; cases ho)
      (by intro o l t r bo ho hc; cases ho; cases hc; decide)
      (by intro i sw sh hi h1 h2; cases hi; cases h1; cases h2; decide)
      (by intro i sw sh hi h1 h2; cases hi; cases h1; cases h2; decide)
      (by intro hb; cases hb) (by intro hb; cases hb)
    exact ⟨m1, h1, h2⟩
  · obtain ⟨m1, h1, h2, -⟩ := updateVideoSize_reports_reference_size vendorBuild sampleEnv
      (some rotatedFormat) (some croppedOutputFormat) (reached vendorBuild startPlayback)
      (by intro o ho; cases ho; decide) (by intro i _ ho; cases ho)
      (by intro o l t r bo ho hc; cases ho; cases hc; decide)
      (by intro i sw sh hi h1 h2; cases hi; cases h1; cases h2; decide)
      (by intro i sw sh hi h1 h2; cases hi; cases h1; cases h2; decide)
      (by intro _ o ho; cases ho; decide) (by intro _ hc; cases hc)
    exact ⟨m1, h1, h2⟩

/-! ## HTTP live URLs -/

theorem tolower_eq_iff (c d : Char) : tolower c = tolower d ↔ c.toLower = d.toLower := by
  unfold tolower
  constructor
  · intro h
    have h1 : c.toLower.toNat = d.toLower.toNat := by exact_mod_cast h
    exact Char.ext (UInt32.ext h1)
  · intro h; rw [h]

theorem strncasecmp_eq_zero_iff (p : List Char) (hp : ∀ c ∈ p, tolower c ≠ 0) (url : List Char) :
    strncasecmp p url p.length = 0
      ↔ (url.take p.length).map Char.toLower = p.map Char.toLower := by
  induction p generalizing url with
  | nil => simp [strncasecmp]
  | cons c p ih =>
    have hc : tolower c ≠ 0 := hp c (List.mem_cons_self _ _)
    cases url with
    | nil => simp [strncasecmp, hc]
    | cons d u =>
      have ih1 := ih (fun x hx => hp x (List.mem_cons_of_mem _ hx)) u
      simp only [List.length_cons, strncasecmp, List.take_succ_cons, List.map_cons,
        List.cons.injEq]
      by_cases h : tolower c = tolower d
      · rw [if_neg (not_not.2 h), ih1]
        have := (tolower_eq_iff c d).1 h
        constructor
        · intro h2; exact ⟨this.symm, h2⟩
        · intro h2; exact h2.2
      · rw [if_pos h]
        constructor
        · intro h2; exact absurd (sub_eq_zero.1 h2) h
        · intro h2; exact absurd ((tolower_eq_iff c d).2 h2.1.symm) h

theorem strncasecmp_comm (s1 s2 : List Char) (n : Nat) :
    strncasecmp s1 s2 n = 0 ↔ strncasecmp s2 s1 n = 0 := by
  induction n generalizing s1 s2 with
  | zero => simp [strncasecmp]
  | succ n ih =>
    cases s1 with
    | nil => cases s2 <;> simp [strncasecmp]
    | cons c s1 =>
      cases s2 with
      | nil => simp [strncasecmp]
      | cons d s2 =>
        simp only [strncasecmp]
        by_cases h : tolower c = tolower d
        · rw [if_neg (not_not.2 h), if_neg (not_not.2 h.symm)]; exact ih s1 s2
        · rw [if_pos h, if_pos (fun h2 => h h2.symm)]
          constructor
          · intro h2; exact absurd (sub_eq_zero.1 h2) h
          · intro h2; exact absurd (sub_eq_zero.1 h2).symm h

theorem strcasecmp_eq_zero_iff (p : List Char) (s : List Char) (hl : s.length = p.length) :
    strcasecmp p s = 0 ↔ s.map Char.toLower = p.map Char.toLower := by
  induction p generalizing s with
  | nil =>
    cases s with
    | nil => simp [strcasecmp]
    | cons d u => simp at hl
  | cons c p ih =>
    cases s with
    | nil => simp at hl
    | cons d u =>
      have ih1 := ih u (by simpa using hl)
      simp only [strcasecmp, List.map_cons, List.cons.injEq]
      by_cases h : tolower c = tolower d
      · rw [if_neg (not_not.2 h), ih1]
        have := (tolower_eq_iff c d).1 h
        constructor
        · intro h2; exact ⟨this.symm, h2⟩
        · intro h2; exact h2.2
      · rw [if_pos h]
        constructor
        · intro h2; exact absurd (sub_eq_zero.1 h2) h
        · intro h2; exact absurd ((tolower_eq_iff c d).2 h2.1.symm) h

theorem strstr_isSome_iff (hay needle : List Char) :
    (strstr hay needle).isSome = true ↔ ContainsString needle hay := by
  induction hay with
  | nil =>
    unfold strstr ContainsString
    by_cases h : needle = []
    · subst h; simp
    · simp [h]
  | cons c s ih =>
    unfold strstr
    by_cases h : (c :: s).take needle.length = needle
    · rw [if_pos h]
      simp only [Option.isSome_some, true_iff]
      exact ⟨[], (c :: s).drop needle.length, by
        rw [List.nil_append]; nth_rewrite 1 [← h]; exact (List.take_append_drop _ _).symm⟩
    · rw [if_neg h, ih]
      constructor
      · rintro ⟨f, r, hfr⟩
        exact ⟨c :: f, r, by rw [hfr]; simp⟩
      · rintro ⟨f, r, hfr⟩
        cases f with
        | nil =>
          exfalso; apply h
          rw [hfr]; simp
        | cons x f =>
          simp only [List.cons_append, List.cons.injEq] at hfr
          exact ⟨f, r, hfr.2⟩

theorem startsWithNoCase_iff (p url : List Char) :
    StartsWithNoCase p url ↔ (url.take p.length).map Char.toLower = p.map Char.toLower := by
  constructor
  · rintro ⟨head, rest, rfl, h⟩
    have hl : head.length = p.length := by simpa using congrArg List.length h
    rw [← hl, List.take_left]; exact h
  · intro h
    exact ⟨url.take p.length, url.drop p.length, (List.take_append_drop _ _).symm, h⟩

theorem endsWithNoCase_iff (p url : List Char) :
    EndsWithNoCase p url ↔ p.length ≤ url.length
      ∧ (url.drop (url.length - p.length)).map Char.toLower = p.map Char.toLower := by
  constructor
  · rintro ⟨front, tail, rfl, h⟩
    have hl : tail.length = p.length := by simpa using congrArg List.length h
    refine ⟨by simp [hl], ?_⟩
    have : (front ++ tail).length - p.length = front.length := by simp [hl]
    rw [this, List.drop_left]; exact h
  · rintro ⟨_, h⟩
    exact ⟨url.take (url.length - p.length), url.drop (url.length - p.length),
      (List.take_append_drop _ _).symm, h⟩

/-- C39: IsHTTPLiveURL(url) is true exactly when url starts, without regard to case, with
http://, https:// or file:// and either ends, without regard to case, with .m3u8 or
contains m3u8 in this case; a url for which it is true is given an HTTP live source by
setDataSourceAsync in either build, whatever the RTSP and SDP tests say, as for
http://a/m3u8.sdp, which passes the SDP test too. -/
theorem IsHTTPLiveURL_iff (url : List Char) :
    (IsHTTPLiveURL url = true ↔
      (StartsWithNoCase "http://".toList url ∨ StartsWithNoCase "https://".toList url
          ∨ StartsWithNoCase "file://".toList url)
        ∧ (EndsWithNoCase ".m3u8".toList url ∨ ContainsString "m3u8".toList url))
    ∧ (IsHTTPLiveURL url = true → ∀ (b : Build) (err : Int) (m : NuPlayer),
        (setDataSourceAsync b url err m).2 = .kWhatSetDataSource (some .HTTPLiveSource) none)
    ∧ IsHTTPLiveURL "http://a/m3u8.sdp".toList = true
    ∧ IsRtspSDP "http://a/m3u8.sdp".toList = true := by
  refine ⟨?_, ?_, by decide, by decide⟩
  · have h1 := strncasecmp_eq_zero_iff "http://".toList (by decide) url
    have h2 := strncasecmp_eq_zero_iff "https://".toList (by decide) url
    have h3 := strncasecmp_eq_zero_iff "file://".toList (by decide) url
    have l1 : "http://".toList.length = 7 := rfl
    have l2 : "https://".toList.length = 8 := rfl
    have l3 : "file://".toList.length = 7 := rfl
    have l4 : ".m3u8".toList.length = 5 := rfl
    rw [l1] at h1; rw [l2] at h2; rw [l3] at h3
    rw [startsWithNoCase_iff, startsWithNoCase_iff, startsWithNoCase_iff, endsWithNoCase_iff,
      ← strstr_isSome_iff, l1, l2, l3, l4, ← h1, ← h2, ← h3]
    unfold IsHTTPLiveURL strlen
    by_cases hs : strncasecmp "http://".toList url 7 = 0
        ∨ strncasecmp "https://".toList url 8 = 0 ∨ strncasecmp "file://".toList url 7 = 0
    · rw [if_pos hs]
      simp only [hs, true_and]
      by_cases hl : 5 ≤ url.length
      · have h5 := strcasecmp_eq_zero_iff ".m3u8".toList (url.drop (url.length - 5))
          (by rw [List.length_drop, l4]; omega)
        rw [← h5]
        by_cases he : strcasecmp ".m3u8".toList (url.drop (url.length - 5)) = 0
        · simp [hl, he]
        · by_cases hc : (strstr url "m3u8".toList).isSome = true <;> simp [hl, he, hc]
      · by_cases hc : (strstr url "m3u8".toList).isSome = true <;> simp [hl, hc]
    · rw [if_neg hs]
      constructor
      · intro h; cases h
      · intro h; exact absurd h.1 hs
  · intro h b err m
    unfold setDataSourceAsync
    simp [h]

/-! ## Rewriting a well-formed sequence of NAL units -/

theorem store_append (pfx back : List Nat) (index v : Nat) (hi : index = pfx.length)
    (hb : 0 < back.length) :
    store (pfx ++ back) index v = .ok ((pfx ++ [v]) ++ back.drop 1) := by
  subst hi
  unfold store
  rw [if_pos (by simp; omega)]
  cases back with
  | nil => simp at hb
  | cons b bs => simp

theorem memcpy_append (bytes : List Nat) : ∀ (pfx back : List Nat) (index : Nat),
    index = pfx.length → bytes.length ≤ back.length →
    memcpy (pfx ++ back) index bytes = .ok ((pfx ++ bytes) ++ back.drop bytes.length) := by
  induction bytes with
  | nil => intro pfx back index _ _; simp [memcpy]
  | cons v bytes ih =>
    intro pfx back index hi hb
    rw [memcpy, store_append pfx back index v hi (by simp at hb; omega), ok_bind,
      ih (pfx ++ [v]) (back.drop 1) (index + 1) (by simp [hi]) (by simp at hb ⊢; omega)]
    simp [Nat.add_comm]

theorem bigEndian_length (n k : Nat) : (bigEndian n k).length = n := by
  induction n with
  | zero => rfl
  | succ n ih => simp [bigEndian, ih]

theorem nalLengthAt_bigEndian (n k : Nat) (rest : List Nat) (h1 : 1 ≤ n) (h4 : n ≤ 4)
    (hk : k < 256 ^ n) : nalLengthAt n (bigEndian n k ++ rest) = some k := by
  have e8 : ∀ a b : Nat, b < 256 → a <<< 8 ||| b = a * 256 + b := by
    intro a b hb
    have h := Nat.mul_add_lt_is_or (show b < 2 ^ 8 from hb) a
    rw [Nat.shiftLeft_eq, Nat.mul_comm a, ← h]
  have e16 : ∀ a b : Nat, b < 65536 → a <<< 16 ||| b = a * 65536 + b := by
    intro a b hb
    have h := Nat.mul_add_lt_is_or (show b < 2 ^ 16 from hb) a
    rw [Nat.shiftLeft_eq, Nat.mul_comm a, ← h]
  have e24 : ∀ a b : Nat, b < 16777216 → a <<< 24 ||| b = a * 16777216 + b := by
    intro a b hb
    have h := Nat.mul_add_lt_is_or (show b < 2 ^ 24 from hb) a
    rw [Nat.shiftLeft_eq, Nat.mul_comm a, ← h]
  interval_cases n
  · simp only [bigEndian, nalLengthAt, pow_zero, pow_one] at hk ⊢
    simp; omega
  · simp only [bigEndian, nalLengthAt, U16_AT, pow_zero, pow_one] at hk ⊢
    simp only [List.cons_append, List.getD_cons_zero, List.getD_cons_succ, Option.some.injEq]
    rw [e8 _ _ (by omega)]; omega
  · simp only [bigEndian, nalLengthAt, U16_AT, pow_zero, pow_one] at hk ⊢
    simp only [List.cons_append, List.getD_cons_zero, List.getD_cons_succ, Option.some.injEq,
      List.drop_succ_cons, List.drop_zero]
    rw [e8 _ _ (by omega), e16 _ _ (by omega)]; omega
  · simp only [bigEndian, nalLengthAt, U32_AT, pow_zero, pow_one] at hk ⊢
    simp only [List.cons_append, List.getD_cons_zero, List.getD_cons_succ, Option.some.injEq]
    rw [Nat.lor_assoc, Nat.lor_assoc]
    rw [e8 _ _ (by omega), e16 _ _ (by omega), e24 _ _ (by omega)]
    omega

theorem startCoded_length (units : List (List Nat)) :
    (startCoded units).length
      = ((units.filter (fun u => decide (u ≠ []))).map (fun u => 4 + u.length)).sum := by
  induction units with
  | nil => rfl
  | cons u units ih =>
    unfold startCoded
    by_cases hu : u = []
    · simp [hu, ih]
    · simp [hu, ih]; omega

theorem nalLoop_lengthFramed (bits n : Nat) (h1 : 1 ≤ n) (h4 : n ≤ 4)
    (decrypted front : List Nat) (rl : Nat) (hd : decrypted.length < 2 ^ bits) :
    ∀ (units : List (List Nat)) (pre out back : List Nat) (fuel srcOffset dstOffset : Nat)
      (data : List Nat),
      decrypted = pre ++ lengthFramed n units → srcOffset = pre.length →
      dstOffset = out.length → data = (front ++ out) ++ back →
      (∀ u ∈ units, u.length < 256 ^ n) → units.length < fuel →
      data.length < 2 ^ bits → (startCoded units).length ≤ back.length →
      nalLoop bits n decrypted fuel srcOffset dstOffset ⟨data, front.length, rl⟩
        = .ok (OK, some ⟨(front ++ (out ++ startCoded units))
              ++ back.drop (startCoded units).length,
            front.length, dstOffset + (startCoded units).length⟩) := by
  intro units
  induction units with
  | nil =>
    intro pre out back fuel srcOffset dstOffset data hdec hs hdst hdata _ hf _ _
    cases fuel with
    | zero => simp at hf
    | succ f =>
      have hl : srcOffset = decrypted.length := by rw [hs, hdec]; simp [lengthFramed]
      rw [nalLoop]
      simp [hl, MediaBuffer.set_range, startCoded, hdata]
  | cons u units ih =>
    intro pre out back fuel srcOffset dstOffset data hdec hs hdst hdata hlen hf hcap hfit
    cases fuel with
    | zero => simp at hf
    | succ f =>
      have hu : u.length < 256 ^ n := hlen u (List.mem_cons_self _ _)
      have hl : decrypted.length
          = srcOffset + n + u.length + (lengthFramed n units).length := by
        rw [hs, hdec]; simp [lengthFramed, bigEndian_length]; omega
      have hdrop : decrypted.drop srcOffset
          = bigEndian n u.length ++ (u ++ lengthFramed n units) := by
        rw [hs, hdec, List.drop_left]; simp [lengthFramed]
      have hw1 : size_t bits (srcOffset + n) = srcOffset + n := Nat.mod_eq_of_lt (by omega)
      have hw2 : size_t bits (srcOffset + n + u.length) = srcOffset + n + u.length :=
        Nat.mod_eq_of_lt (by omega)
      have hlen2 : ∀ x ∈ units, x.length < 256 ^ n :=
        fun x hx => hlen x (List.mem_cons_of_mem _ hx)
      have hf2 : units.length < f := by simp at hf; omega
      rw [nalLoop]
      simp only [hw1, hdrop, nalLengthAt_bigEndian n u.length _ h1 h4 hu, hw2]
      rw [if_neg (by omega), if_neg (by omega), if_neg (by omega)]
      by_cases hu0 : u = []
      · subst hu0
        rw [if_pos List.length_nil]
        have := ih (pre ++ bigEndian n 0) out back f (srcOffset + n) dstOffset data
          (by rw [hdec]; simp [lengthFramed]) (by simp [bigEndian_length, hs]) hdst hdata
          hlen2 hf2 hcap (by simpa [startCoded] using hfit)
        simpa [startCoded] using this
      · have hne : u.length ≠ 0 := fun h => hu0 (List.length_eq_zero.1 h)
        have hsc : (startCoded (u :: units)).length
            = 4 + u.length + (startCoded units).length := by
          simp [startCoded, hu0]; omega
        have hdl : data.length = front.length + out.length + back.length := by
          rw [hdata]; simp; omega
        have hpay : ((decrypted.drop (srcOffset + n)).take u.length) = u := by
          rw [hs, hdec]
          have : pre.length + n = (pre ++ bigEndian n u.length).length := by
            simp [bigEndian_length]
          rw [this]
          simp only [lengthFramed, ← List.append_assoc]
          rw [List.append_assoc (pre ++ bigEndian n u.length)]
          rw [List.drop_left, List.take_left]
        rw [if_neg hne, if_neg (by unfold SIZE_MAX MediaBuffer.size; simp only; omega)]
        simp only [hpay]
        have hb0 : 4 + u.length ≤ back.length := by omega
        rw [hdata, store_append (front ++ out) back _ 0 (by simp [hdst]) (by omega), ok_bind,
          store_append ((front ++ out) ++ [0]) (back.drop 1) _ 0 (by simp [hdst])
            (by simp; omega), ok_bind,
          store_append (((front ++ out) ++ [0]) ++ [0]) ((back.drop 1).drop 1) _ 0
            (by simp [hdst]) (by simp; omega), ok_bind,
          store_append ((((front ++ out) ++ [0]) ++ [0]) ++ [0]) (((back.drop 1).drop 1).drop 1)
            _ 1 (by simp [hdst]) (by simp; omega), ok_bind,
          memcpy_append u (((((front ++ out) ++ [0]) ++ [0]) ++ [0]) ++ [1])
            ((((back.drop 1).drop 1).drop 1).drop 1) _ (by simp [hdst])
            (by simp; omega), ok_bind]
        have := ih (pre ++ bigEndian n u.length ++ u) (out ++ [0, 0, 0, 1] ++ u)
          (back.drop (4 + u.length)) f (srcOffset + n + u.length) (dstOffset + 4 + u.length)
          ((((((front ++ out) ++ [0]) ++ [0]) ++ [0]) ++ [1]) ++ u
            ++ ((((back.drop 1).drop 1).drop 1).drop 1).drop u.length)
          (by rw [hdec]; simp [lengthFramed])
          (by simp [bigEndian_length, hs]; omega)
          (by simp [hdst]; omega)
          (by simp [List.drop_drop, Nat.add_comm])
          hlen2 hf2 (by simp at hcap ⊢; rw [hdata] at hcap; simp at hcap; omega)
          (by simp; omega)
        rw [this]
        simp [startCoded, hu0, List.drop_drop, hsc]
        constructor
        · congr 1; omega
        · omega

/-- C34: for an AVC track read without NAL fragments, with n = 1 + (avcC[4] & 3) bytes
in a length field, a decrypted payload that is a sequence of NAL units, each after its
length in n big-endian bytes, and a buffer that has room for the output from its range
offset on: the constructor gives the length size n, which lies in 1..4, and read returns
OK with the buffer, whose range starts where it started, has the sum over the non-empty
units of 4 + length as its length and holds, for each non-empty unit in order, the bytes
00 00 00 01 and the unit; the capacity and the bytes before the range are unchanged. -/
theorem read_rewrites_length_framed_units (bits : Nat) (avcC : List Nat)
    (units : List (List Nat)) (buffer : MediaBuffer)
    (havc : 7 ≤ avcC.length) (hver : avcC.getD 0 0 = 1)
    (hunits : ∀ u ∈ units, u.length < 256 ^ (1 + (avcC.getD 4 0 &&& 3)))
    (hd : (lengthFramed (1 + (avcC.getD 4 0 &&& 3)) units).length < 2 ^ bits)
    (hcap : buffer.size < 2 ^ bits)
    (hfit : buffer.range_offset + (startCoded units).length ≤ buffer.size) :
    ∃ s, DRMSource.new (some true) (some avcC) = .ok s
      ∧ s.mNALLengthSize = 1 + (avcC.getD 4 0 &&& 3)
      ∧ 1 ≤ s.mNALLengthSize ∧ s.mNALLengthSize ≤ 4
      ∧ ∃ b, DRMSource.read bits s (OK, some buffer)
            (OK, lengthFramed s.mNALLengthSize units) = .ok (OK, some b)
        ∧ b.range_offset = buffer.range_offset
        ∧ b.range_length
            = ((units.filter (fun u => decide (u ≠ []))).map (fun u => 4 + u.length)).sum
        ∧ (b.data.drop b.range_offset).take b.range_length = startCoded units
        ∧ b.size = buffer.size
        ∧ b.data.take b.range_offset = buffer.data.take buffer.range_offset := by
  have h3 : avcC.getD 4 0 &&& 3 ≤ 3 := Nat.and_le_right
  refine ⟨⟨true, 1 + (avcC.getD 4 0 &&& 3), false⟩, ?_, rfl, Nat.le_add_right 1 _,
    Nat.add_le_add_left h3 1, ?_⟩
  · unfold DRMSource.new
    dsimp only
    rw [if_neg (not_not.2 havc), if_neg (not_not.2 hver)]
  obtain ⟨data, off, rl⟩ := buffer
  simp only [MediaBuffer.size] at hcap hfit
  have hoff : (data.take off).length = off := by simp; omega
  have hloop := nalLoop_lengthFramed bits (1 + (avcC.getD 4 0 &&& 3)) (by omega) (by omega)
    (lengthFramed (1 + (avcC.getD 4 0 &&& 3)) units) (data.take off) rl hd units [] []
    (data.drop off) ((lengthFramed (1 + (avcC.getD 4 0 &&& 3)) units).length + 1) 0 0 data
    (by simp) rfl rfl (by simp) hunits ?_ hcap (by simp; omega)
  · rw [hoff] at hloop
    simp only [List.nil_append, Nat.zero_add] at hloop
    refine ⟨⟨data.take off ++ startCoded units
        ++ (data.drop off).drop (startCoded units).length, off, (startCoded units).length⟩,
      ?_, rfl, ?_, ?_, ?_, ?_⟩
    · unfold DRMSource.read
      dsimp only
      rw [if_neg (by decide), if_neg (by decide), if_pos ⟨rfl, rfl⟩]
      exact hloop
    · exact startCoded_length units
    · dsimp only
      rw [List.append_assoc, List.drop_left' hoff, List.take_left]
    · simp [MediaBuffer.size]; omega
    · dsimp only
      rw [List.append_assoc, List.take_left' hoff]
  · have : ∀ us : List (List Nat),
        us.length ≤ (lengthFramed (1 + (avcC.getD 4 0 &&& 3)) us).length := by
      intro us
      induction us with
      | nil => simp
      | cons u us ih =>
        simp only [lengthFramed, List.length_append, bigEndian_length, List.length_cons]
        omega
    have := this units
    omega

/-- Witness of C34: three units, the second empty, with length fields of two bytes, in a
buffer of capacity 16 whose range starts at offset 3. -/
theorem read_rewrites_length_framed_units_witness :
    ∃ s, DRMSource.new (some true) (some sampleAvcC) = .ok s
      ∧ s.mNALLengthSize = 1 + (sampleAvcC.getD 4 0 &&& 3)
      ∧ 1 ≤ s.mNALLengthSize ∧ s.mNALLengthSize ≤ 4
      ∧ ∃ b, DRMSource.read 64 s (OK, some ⟨List.replicate 16 9, 3, 9⟩)
            (OK, lengthFramed s.mNALLengthSize sampleUnits) = .ok (OK, some b)
        ∧ b.range_offset = 3
        ∧ b.range_length
            = ((sampleUnits.filter (fun u => decide (u ≠ []))).map (fun u => 4 + u.length)).sum
        ∧ (b.data.drop b.range_offset).take b.range_length = startCoded sampleUnits
        ∧ b.size = 16
        ∧ b.data.take b.range_offset = (List.replicate 16 9).take 3 :=
  read_rewrites_length_framed_units 64 sampleAvcC sampleUnits ⟨List.replicate 16 9, 3, 9⟩
    (by decide) (by decide) (by decide) (by decide) (by decide) (by decide)

/-! ## NAL rewriting in DRMSource::read -/

/-- C35: a decrypted payload that ends inside a length field fails the CHECK of line
326. With length fields of two bytes (avcC[4] = 0xfd), the payload 00 01 aa 00 holds one
complete unit and one more byte: read does not return, the assertion fires. A declared
length that runs past the end (00 05 aa 00) is rejected with ERROR_MALFORMED and the
buffer is left as it was. -/
theorem read_asserts_on_truncated_length_field :
    DRMSource.new (some true) (some [1, 66, 0, 30, 253, 225, 0]) = .ok twoByteLengths
    ∧ DRMSource.read 64 twoByteLengths (OK, some roomyBuffer) (OK, [0, 1, 170, 0])
        = .error (.check 326)
    ∧ DRMSource.read 32 twoByteLengths (OK, some roomyBuffer) (OK, [0, 1, 170, 0])
        = .error (.check 326)
    ∧ DRMSource.read 64 twoByteLengths (OK, some roomyBuffer) (OK, [0, 5, 170, 0])
        = .ok (ERROR_MALFORMED, some roomyBuffer) :=
  ⟨rfl, rfl, rfl, rfl⟩

/-- C36: the test for room compares the output with the capacity of the buffer and
leaves the range offset out. For a buffer of capacity 10 whose range starts at offset 6,
and length fields of one byte (avcC[4] = 0xfc), the payload 01 aa 01 bb gives an output
of 10 bytes: the test passes, and the fifth byte is stored at index 10, outside the
buffer; no ERROR_MALFORMED is returned. With the range at offset 0 the same payload is
rewritten inside the buffer. -/
theorem read_stores_past_capacity_at_offset :
    DRMSource.new (some true) (some [1, 66, 0, 30, 252, 225, 0]) = .ok oneByteLengths
    ∧ tightBuffer.size = 10 ∧ tightBuffer.range_offset = 6 ∧ tightBuffer.range_length = 4
    ∧ DRMSource.read 64 oneByteLengths (OK, some tightBuffer) (OK, [1, 170, 1, 187])
        = .error (.outOfBounds 10)
    ∧ DRMSource.read 32 oneByteLengths (OK, some tightBuffer) (OK, [1, 170, 1, 187])
        = .error (.outOfBounds 10)
    ∧ DRMSource.read 64 oneByteLengths (OK, some frontBuffer) (OK, [1, 170, 1, 187])
        = .ok (OK, some ⟨[0, 0, 0, 1, 170, 0, 0, 0, 1, 187], 0, 10⟩) :=
  ⟨rfl, rfl, rfl, rfl, rfl, rfl, rfl⟩

/-! ## The writer thread of ADPCMWriter -/

/-- C40: threadFunc divides by the estimated duration without a test. When the source is
at its end at the first read, and when stop() is seen before the first turn of the loop,
the estimated duration is still 0 and the bit-rate computation of line 399 is a division
by zero; this holds for every writer whose estimated duration is 0. After one block has
been written the same finalisation returns OK. A sample rate of 0 or a block alignment
of 0 in the meta data, which addSource takes without a test, makes lines 342 and 343
divide by zero at the first buffer. -/
theorem threadFunc_divides_by_zero_estimated_duration :
    sampleWriter.threadFunc false endAtOnce = .error (.divideByZero 399)
    ∧ sampleWriter.threadFunc false [] = .error (.divideByZero 399)
    ∧ (∀ (w : ADPCMWriter) (sp : Bool), w.mEstimatedDurationUs = 0 →
        w.threadFunc sp endAtOnce = .error (.divideByZero 399)
        ∧ w.threadFunc sp [] = .error (.divideByZero 399))
    ∧ (∃ w, sampleWriter.threadFunc false oneBlock = .ok (some OK, w)
        ∧ w.mEstimatedDurationUs = 63125 ∧ w.mReachedEOS = true)
    ∧ (zeroRateWriter.threadFunc false oneBlock
        = .error (.divideByZero 342))
    ∧ (zeroAlignWriter.threadFunc false oneBlock
        = .error (.divideByZero 343)) := by
  refine ⟨rfl, rfl, ?_, ⟨_, rfl, by decide, by decide⟩, rfl, rfl⟩
  intro w sp h
  constructor
  · simp [ADPCMWriter.threadFunc, ADPCMWriter.threadLoop, endAtOnce, ADPCMWriter.op, h,
      ok_bind]
    split_ifs <;> simp [h]
  · simp [ADPCMWriter.threadFunc, ADPCMWriter.threadLoop, ADPCMWriter.op, h, ok_bind]
    split_ifs <;> simp [h]

/-! ## A track that is shutting down keeps its decoder -/

theorem Held.heldRefl (k : Bool) (m : NuPlayer) : Held k m m := fun h => h

theorem Held.heldTrans {k : Bool} {m a c : NuPlayer} (h1 : Held k m a) (h2 : Held k a c) :
    Held k m c := fun h => h2 (h1 h)

/-- The status and the handle of the track are the same. -/
theorem Held.heldOfSame {k : Bool} {m a : NuPlayer} (hs : flushStatus k a = flushStatus k m)
    (hd : getDecoder k a = getDecoder k m) : Held k m a := by
  intro h hsd
  rw [hd]
  exact h (hs.symm.trans hsd)

/-- The track is not in SHUTTING_DOWN_DECODER afterwards. -/
theorem Held.heldOfIdle {k : Bool} {m a : NuPlayer}
    (hs : flushStatus k a ≠ .SHUTTING_DOWN_DECODER) : Held k m a :=
  fun _ h => absurd h hs

/-- The track has its decoder afterwards. -/
theorem Held.heldOfHandle {k : Bool} {m a : NuPlayer} (hd : getDecoder k a ≠ none) : Held k m a :=
  fun _ _ => hd

theorem Firm.firmRefl (b : Build) (m : NuPlayer) : Firm b m m :=
  ⟨fun _ => Held.heldRefl _ m, Held.heldRefl _ m⟩

theorem Firm.firmTrans {b : Build} {m a c : NuPlayer} (h1 : Firm b m a) (h2 : Firm b a c) :
    Firm b m c :=
  ⟨fun hb => (h1.1 hb).heldTrans (h2.1 hb), h1.2.heldTrans h2.2⟩

theorem Firm.firmOfHeld {b : Build} {m a : NuPlayer} (h : ∀ k, Held k m a) : Firm b m a :=
  ⟨fun _ => h true, h false⟩

theorem Tame.tameRefl (m : NuPlayer) : Tame m m := ⟨rfl, fun _ h => h⟩

theorem Tame.tameTrans {m a c : NuPlayer} (h1 : Tame m a) (h2 : Tame a c) : Tame m c :=
  ⟨h2.1.trans h1.1, fun k h => h1.2 k (h2.2 k h)⟩

theorem Tame.tameOfSame {m a : NuPlayer} (hd : decoders a = decoders m)
    (ha : a.mFlushingAudio = m.mFlushingAudio) (hv : a.mFlushingVideo = m.mFlushingVideo) :
    Tame m a := by
  refine ⟨hd, fun k hk => ?_⟩
  cases k
  · simpa [flushStatus, hv] using hk
  · simpa [flushStatus, ha] using hk

theorem Tame.tameOfMachine {m a : NuPlayer} (h : machine a = machine m) : Tame m a := by
  refine Tame.tameOfSame (machine_decoders h) ?_ ?_ <;>
    simp only [machine, Prod.mk.injEq] at h
  · exact h.1
  · exact h.2.1

theorem Tame.tameHeld {m a : NuPlayer} (h : Tame m a) (k : Bool) : Held k m a := by
  intro hi hs
  have hd := h.1
  simp only [decoders, Prod.mk.injEq] at hd
  have := hi (h.2 k hs)
  cases k
  · simpa [getDecoder, hd.2.2.2] using this
  · simpa [getDecoder, hd.2.2.1] using this

theorem Tame.tameFirm {b : Build} {m a : NuPlayer} (h : Tame m a) : Firm b m a :=
  Firm.firmOfHeld h.tameHeld

theorem Grows.growsRefl (m : NuPlayer) : Grows m m := ⟨Ordinary.refl m, fun _ h => h⟩

theorem Grows.growsTrans {m a c : NuPlayer} (h1 : Grows m a) (h2 : Grows a c) : Grows m c :=
  ⟨h1.1.trans h2.1, fun k h => h2.2 k (h1.2 k h)⟩

theorem Grows.growsOfMachine {m a : NuPlayer} (h : machine a = machine m) : Grows m a := by
  refine ⟨Ordinary.of_eq h, fun k hk => ?_⟩
  simp only [machine, Prod.mk.injEq] at h
  cases k
  · simpa [getDecoder, h.2.2.2.2.2.2.2] using hk
  · simpa [getDecoder, h.2.2.2.2.2.2.1] using hk

theorem Grows.growsHeld {m a : NuPlayer} (h : Grows m a) (k : Bool) : Held k m a := by
  intro hi hs
  refine h.2 k (hi ?_)
  obtain ⟨h1, h2, -⟩ := h.1
  cases k
  · simpa [flushStatus, h2] using hs
  · simpa [flushStatus, h1] using hs

theorem Grows.growsFirm {b : Build} {m a : NuPlayer} (h : Grows m a) : Firm b m a :=
  Firm.firmOfHeld h.growsHeld

theorem instantiateDecoder_grows (b : Build) (env : Env) (audio c : Bool) (m : NuPlayer) :
    Post (instantiateDecoder b env audio c m) (fun r => Grows m r.2) := by
  intro r h
  refine ⟨instantiateDecoder_ordinary b env audio c m r h, fun k hk => ?_⟩
  unfold instantiateDecoder at h
  by_cases h1 : getDecoder audio m ≠ none ∨ (audio = true ∧ m.mFlushingAudio = .SHUT_DOWN)
  · rw [if_pos h1] at h
    cases h; exact hk
  rw [if_neg h1] at h
  by_cases h2 : m.mSource = none
  · rw [if_pos h2] at h; cases h
  rw [if_neg h2] at h
  cases hf : (if audio = true then env.sourceAudioFormat else env.sourceVideoFormat) with
  | none =>
    rw [hf] at h
    cases h; exact hk
  | some format =>
    rw [hf] at h
    dsimp only at h
    by_cases h3 : format.err.isSome ∧ format.err ≠ some 0
    · rw [if_pos h3] at h
      cases h; exact hk
    rw [if_neg h3] at h
    by_cases h4 : b.MTK_AOSP_ENHANCEMENT = true ∧ m.mDebugDisableTrackId = 1 ∧ audio = true
    · rw [if_pos h4] at h
      cases h; exact hk
    rw [if_neg h4] at h
    by_cases h5 : b.MTK_AOSP_ENHANCEMENT = true ∧ m.mDebugDisableTrackId = 2 ∧ audio = false
    · rw [if_pos h5] at h
      cases h; exact hk
    rw [if_neg h5] at h
    by_cases ha : audio = true
    · rw [if_pos ha] at h
      subst ha
      simp only [bind_eq_ok, pure_eq_ok, Except.ok.injEq] at h
      obtain ⟨m2, hm2, rfl⟩ := h
      have hk2 : machine m2 =
          machine { m with mAudioDecoderGeneration := m.mAudioDecoderGeneration + 1 } := by
        split_ifs at hm2
        · exact determineAudioModeChange_machine env _ m2 hm2
        · cases hm2; rfl
      simp only [machine, Prod.mk.injEq] at hk2
      obtain ⟨-, -, -, -, -, -, -, k8⟩ := hk2
      cases k
      · simpa [getDecoder, emit, k8] using hk
      · simp [getDecoder, emit]
    · rw [if_neg ha] at h
      have ha : audio = false := by simpa using ha
      subst ha
      by_cases h6 : format.mime = false
      · rw [if_pos h6] at h; cases h
      rw [if_neg h6] at h
      split_ifs at h <;> cases h <;> cases k <;> first
        | (simp [getDecoder, emit]; done)
        | simpa [getDecoder, emit] using hk

theorem onResume_grows (b : Build) (env : Env) (m : NuPlayer) :
    Post (onResume b env m) (Grows m) := by
  unfold onResume
  rw [post_ite]
  refine ⟨fun _ => (post_ok _ _).2 (Grows.growsRefl m), fun _ => ?_⟩
  dsimp only
  refine post_bind _ _ (Grows m) _ ?_ ?_
  · rw [post_ite]
    constructor
    · intro _
      refine post_bind _ _ (fun r => Grows m r.2) _ ?_ ?_
      · exact post_mono _ _ _ (instantiateDecoder_grows _ _ _ _ _)
          (fun r hr => (Grows.growsOfMachine (by simp [machine, emit])).growsTrans hr)
      · intro r hr
        exact (post_ok _ _).2 hr
    · intro _
      exact (post_ok _ _).2 (Grows.growsOfMachine (by simp [machine, emit]))
  · intro a ha
    exact (post_ok _ _).2 (ha.growsTrans (Grows.growsOfMachine (by simp [machine, emit])))

theorem onInstantiateSecureDecoders_grows (b : Build) (env : Env) (m : NuPlayer) :
    Post (onInstantiateSecureDecoders b env m) (fun r => Grows m r.2) := by
  unfold onInstantiateSecureDecoders
  rw [post_ite]
  refine ⟨fun _ => (post_ok _ _).2 (Grows.growsRefl m), fun _ => ?_⟩
  rw [post_ite]
  refine ⟨fun _ => (post_ok _ _).2 (Grows.growsRefl m), fun _ => ?_⟩
  refine post_bind _ _ (fun r => Grows m r.2) _ ?_ ?_
  · rw [post_ite]
    exact ⟨fun _ => instantiateDecoder_grows _ _ _ _ _,
           fun _ => (post_ok _ _).2 (Grows.growsRefl m)⟩
  · intro r hr
    rw [post_ite]
    refine ⟨fun _ => (post_ok _ _).2 hr, fun _ => ?_⟩
    dsimp only
    rw [post_ite]
    exact ⟨fun _ => post_mono _ _ _ (instantiateDecoder_grows _ _ _ _ _)
              (fun r2 hr2 => hr.growsTrans hr2),
           fun _ => (post_ok _ _).2 hr⟩

theorem onStart_grows (b : Build) (env : Env) (t : Int) (m : NuPlayer) :
    Post (onStart b env t m) (Grows m) := by
  unfold onStart
  refine post_bind _ _ (fun a => machine a = machine m) _ ?_ ?_
  · simp only [post_ite, post_ok, pure_eq_ok, post_error]
    simp [machine, emit]
  intro a ha
  refine post_bind _ _ (fun a => machine a = machine m) _ ?_ ?_
  · simp only [post_ite, post_ok, pure_eq_ok, post_error]
    exact ⟨fun _ => post_mono _ _ _ (performSeek_machine b t a) (fun _ h => h.trans ha),
           fun _ => ha⟩
  intro a2 ha2
  refine post_mono _ (fun a => machine a = machine m) _ ?_ (fun _ h => Grows.growsOfMachine h)
  simp only [post_ite, post_ok, pure_eq_ok, post_error]
  simp [machine, emit, notifyListener, notifyListenerParcel, postScanSources, isRTSPSource,
    isHttpLiveSource] at ha2 ⊢
  simp [ha2]

theorem onScanSources_grows (b : Build) (env : Env) (m : NuPlayer) :
    Post (onScanSources b env m) (fun r => Grows m r.2) := by
  unfold onScanSources
  dsimp only
  refine post_bind _ _ (fun r => Grows m r.2) _ ?_ ?_
  · rw [post_ite]
    exact ⟨fun _ => post_mono _ _ _ (instantiateDecoder_grows _ _ _ _ _)
              (fun r hr => (Grows.growsOfMachine (by simp [machine])).growsTrans hr),
           fun _ => (post_ok _ _).2 (Grows.growsOfMachine (by simp [machine]))⟩
  intro r1 hr1
  refine post_bind _ _ (fun r => Grows m r.2) _ ?_ ?_
  · rw [post_ite]
    exact ⟨fun _ => post_mono _ _ _ (instantiateDecoder_grows _ _ _ _ _)
              (fun r hr => hr1.growsTrans hr),
           fun _ => (post_ok _ _).2 hr1⟩
  intro r2 hr2
  refine post_mono _ (fun r => machine r.2 = machine r2.2) _ ?_
    (fun r h => hr2.growsTrans (Grows.growsOfMachine h))
  simp only [post_ite, post_ok, pure_eq_ok, post_error]
  simp [machine, emit, notifyListener, notifyListenerParcel, schedulePollDuration]

theorem scanSource_l_grows (b : Build) (env : Env) (g : Int) (m : NuPlayer) :
    Post (scanSource_l b env g m) (Grows m) := by
  unfold scanSource_l
  refine post_bind _ _ (fun r => Grows m r.2) _ (onScanSources_grows b env m) ?_
  intro r hr
  refine post_mono _ (fun a => machine a = machine r.2) _ ?_
    (fun a h => hr.growsTrans (Grows.growsOfMachine h))
  simp only [post_ite, post_ok, pure_eq_ok, post_error]
  simp [machine, emit, notifyListener, notifyListenerParcel]

theorem scanSources_grows (b : Build) (env : Env) (g : Int) (m : NuPlayer) :
    Post (scanSources b env g m) (Grows m) := by
  unfold scanSources
  dsimp only
  refine post_bind _ _ (fun r => Grows m r.2) _ ?_ ?_
  · rw [post_ite]
    exact ⟨fun _ => instantiateDecoder_grows _ _ _ _ _,
           fun _ => (post_ok _ _).2 (Grows.growsRefl m)⟩
  intro r1 hr1
  refine post_bind _ _ (fun r => Grows m r.2) _ ?_ ?_
  · rw [post_ite]
    exact ⟨fun _ => post_mono _ _ _ (instantiateDecoder_grows _ _ _ _ _)
              (fun r hr => hr1.growsTrans hr),
           fun _ => (post_ok _ _).2 hr1⟩
  intro r2 hr2
  refine post_mono _ (fun a => machine a = machine r2.2) _ ?_
    (fun a h => hr2.growsTrans (Grows.growsOfMachine h))
  simp only [post_ite, post_ok, pure_eq_ok, post_error]
  simp [machine, emit, notifyListener, notifyListenerParcel, schedulePollDuration]

/-- The part of restartAudio after the status has been settled: closing the sink,
flushing the renderer, seeking, and creating the decoder anew. -/
theorem restartAudio_tail_grows (b : Build) (env : Env) (t : Int) (f n : Bool) (m : NuPlayer) :
    Post (if m.mRenderer = none then pure m
      else do
        let m ← closeAudioSink m
        let m := emit (.renderer (.flush true false)) m
        let m := if m.mVideoDecoder ≠ none then emit (.renderer (.flush false false)) m else m
        let m ← performSeek b t m
        let m := if f = true then
            { emit (.renderer .signalDisableOffloadAudio) m with mOffloadAudio := false }
          else m
        if n = true then do
          let r ← instantiateDecoder b env true (!f) m
          pure r.2
        else pure m) (Grows m) := by
  rw [post_ite]
  refine ⟨fun _ => (post_ok _ _).2 (Grows.growsRefl m), fun _ => ?_⟩
  refine post_bind _ _ (fun a => machine a = machine m) _ (closeAudioSink_machine m) ?_
  intro a ha
  refine post_bind _ _ (fun a => machine a = machine m) _ ?_ ?_
  · refine post_mono _ _ _ (performSeek_machine b t _) (fun r hr => hr.trans ?_)
    simpa [machine, emit] using ha
  intro a2 ha2
  rw [post_ite]
  refine ⟨fun _ => ?_, fun _ => ?_⟩
  · refine post_bind _ _ (fun r => Grows m r.2) _ ?_ (fun r hr => (post_ok _ _).2 hr)
    refine post_mono _ _ _ (instantiateDecoder_grows _ _ _ _ _) (fun r hr => ?_)
    refine (Grows.growsOfMachine ?_).growsTrans hr
    simpa [machine, emit] using ha2
  · refine (post_ok _ _).2 (Grows.growsOfMachine ?_)
    simpa [machine, emit] using ha2

theorem flushDecoder_tame (audio needShutdown : Bool) (m : NuPlayer) :
    Tame m (flushDecoder audio needShutdown m) := by
  refine ⟨flushDecoder_decoders audio needShutdown m, fun k => ?_⟩
  unfold flushDecoder
  split
  · exact fun h => h
  · cases audio <;> cases k <;> cases needShutdown <;> simp [flushStatus, emit]

theorem performDecoderFlush_tame (audio video : FlushCommand) (m : NuPlayer) :
    Tame m (performDecoderFlush audio video m) := by
  unfold performDecoderFlush
  split
  · exact Tame.tameRefl m
  · dsimp only
    split
    · split
      · exact (flushDecoder_tame _ _ m).tameTrans (flushDecoder_tame _ _ _)
      · exact flushDecoder_tame _ _ m
    · split
      · exact flushDecoder_tame _ _ m
      · exact Tame.tameRefl m

theorem execute_tame (b : Build) (env : Env) (action : Action) (m : NuPlayer) :
    Post (action.execute b env m) (Tame m) := by
  cases action with
  | SeekAction t =>
    exact post_mono _ _ _ (performSeek_machine b t m) (fun _ h => Tame.tameOfMachine h)
  | ResumeDecoderAction n =>
    exact (post_ok _ _).2 (Tame.tameOfMachine (performResumeDecoders_machine b env n m))
  | SetSurfaceAction s =>
    exact (post_ok _ _).2 (Tame.tameOfMachine (performSetSurface_machine b env s m))
  | FlushDecoderAction a v => exact (post_ok _ _).2 (performDecoderFlush_tame a v m)
  | PostMessageAction r => exact (post_ok _ _).2 (Tame.tameOfMachine (emit_machine _ m))
  | SimpleAction f =>
    cases f with
    | performScanSources => exact (post_ok _ _).2 (Tame.tameOfMachine (performScanSources_machine m))
    | performReset =>
      exact post_mono _ _ _ (performReset_machine env m) (fun _ h => Tame.tameOfMachine h)

theorem processDeferredActions_tame (b : Build) (env : Env) (m : NuPlayer) :
    Post (processDeferredActions b env m) (Tame m) :=
  loop_invariant b env Tame Tame.tameRefl (fun _ _ _ h1 h2 => h1.tameTrans h2)
    (fun action _ _ _ _ _ => post_mono _ _ _ (execute_tame b env action _)
      (fun _ h => Tame.tameTrans (Tame.tameOfSame rfl rfl rfl) h)) _ m

/-- Appending to the deferred queue and draining it. -/
theorem drain_firm (b : Build) (env : Env) (m m0 : NuPlayer)
    (hd : decoders m0 = decoders m) (ha : m0.mFlushingAudio = m.mFlushingAudio)
    (hv : m0.mFlushingVideo = m.mFlushingVideo) :
    Post (processDeferredActions b env m0) (Firm b m) :=
  post_mono _ _ _ (processDeferredActions_tame b env m0)
    (fun _ h => ((Tame.tameOfSame hd ha hv).tameTrans h).tameFirm)

theorem finishFlushIfPossible_tame (b : Build) (env : Env) (m : NuPlayer) :
    Post (finishFlushIfPossible b env m) (Tame m) := by
  unfold finishFlushIfPossible
  simp only [post_ite, post_ok]
  refine ⟨fun _ => Tame.tameRefl m, fun _ => ⟨fun _ => Tame.tameRefl m, fun _ => ?_⟩⟩
  refine post_bind _ _ (fun a => decoders a = decoders m) _ ?_ ?_
  · simp only [post_ite, post_ok, post_error, pure_eq_ok]
    simp [decoders, emit]
  · intro a ha
    refine post_mono _ _ _ (processDeferredActions_tame b env _)
      (fun r hr => Tame.tameTrans ⟨?_, ?_⟩ hr)
    · simpa [decoders, clearFlushComplete] using ha
    · intro k hk
      cases k <;> simp [flushStatus, clearFlushComplete] at hk

theorem finish_firm (b : Build) (env : Env) (m m0 : NuPlayer) (h : Firm b m m0) :
    Post (finishFlushIfPossible b env m0) (Firm b m) :=
  post_mono _ _ _ (finishFlushIfPossible_tame b env m0) (fun _ h2 => h.firmTrans (h2.tameFirm))

/-- A flush completion moves a track to SHUTTING_DOWN_DECODER only when it has a decoder
to shut down. -/
theorem handleFlushComplete_held (audio isDecoder k : Bool) (m : NuPlayer) :
    Post (handleFlushComplete audio isDecoder m) (Held k m) := by
  unfold handleFlushComplete
  dsimp only
  cases audio
  · cases isDecoder <;> cases k <;> cases hv : m.mFlushingVideo <;>
      simp [Held, ShuttingDownHasDecoder, flushStatus, emit, getDecoder, FlushComplete.get,
        FlushComplete.set, hv, post_ok, post_error, post_ite]
  · cases isDecoder <;> cases k <;> cases ha : m.mFlushingAudio <;>
      simp [Held, ShuttingDownHasDecoder, flushStatus, emit, getDecoder, FlushComplete.get,
        FlushComplete.set, ha, post_ok, post_error, post_ite]

theorem flushComplete_firm (b : Build) (env : Env) (audio isDecoder : Bool) (m : NuPlayer) :
    Post (handleFlushComplete audio isDecoder m >>= finishFlushIfPossible b env) (Firm b m) :=
  post_bind _ _ (Firm b m) _
    (fun a h => Firm.firmOfHeld (fun k => handleFlushComplete_held audio isDecoder k m a h))
    (fun a ha => finish_firm b env m a ha)

/-- The part of restartAudio that settles the audio flush status: the audio track is not
in SHUTTING_DOWN_DECODER afterwards. -/
theorem restartAudio_stage_tame (b : Build) (env : Env) (n : Bool) (m : NuPlayer) :
    Post (if m.mFlushingAudio = .FLUSHING_DECODER then do
        let m := { m with mFlushComplete := m.mFlushComplete.set true true true,
                          mFlushingAudio := .FLUSHED }
        let m ← finishFlushIfPossible b env m
        pure (m, n)
      else if m.mFlushingAudio = .FLUSHING_DECODER_SHUTDOWN
          ∨ m.mFlushingAudio = .SHUTTING_DOWN_DECODER then do
        let m := { m with mFlushComplete := m.mFlushComplete.set true true true,
                          mFlushingAudio := .SHUT_DOWN }
        let m ← finishFlushIfPossible b env m
        pure (m, false)
      else pure (m, n))
      (fun r => decoders r.1 = decoders m
        ∧ (flushStatus false r.1 = .SHUTTING_DOWN_DECODER →
            flushStatus false m = .SHUTTING_DOWN_DECODER)
        ∧ flushStatus true r.1 ≠ .SHUTTING_DOWN_DECODER) := by
  simp only [post_ite]
  refine ⟨fun _ => ?_, fun _ => ⟨fun _ => ?_, fun hn => ?_⟩⟩
  · refine post_bind _ _ (fun a => decoders a = decoders m
        ∧ (flushStatus false a = .SHUTTING_DOWN_DECODER →
            flushStatus false m = .SHUTTING_DOWN_DECODER)
        ∧ flushStatus true a ≠ .SHUTTING_DOWN_DECODER) _ ?_
      (fun a ha => (post_ok _ _).2 ha)
    intro a ha
    obtain ⟨h1, h2⟩ := finishFlushIfPossible_tame b env _ a ha
    refine ⟨by simpa [decoders] using h1, fun h => ?_, fun h => ?_⟩
    · simpa [flushStatus] using h2 false h
    · simpa [flushStatus] using h2 true h
  · refine post_bind _ _ (fun a => decoders a = decoders m
        ∧ (flushStatus false a = .SHUTTING_DOWN_DECODER →
            flushStatus false m = .SHUTTING_DOWN_DECODER)
        ∧ flushStatus true a ≠ .SHUTTING_DOWN_DECODER) _ ?_
      (fun a ha => (post_ok _ _).2 ha)
    intro a ha
    obtain ⟨h1, h2⟩ := finishFlushIfPossible_tame b env _ a ha
    refine ⟨by simpa [decoders] using h1, fun h => ?_, fun h => ?_⟩
    · simpa [flushStatus] using h2 false h
    · simpa [flushStatus] using h2 true h
  · refine (post_ok _ _).2 ⟨rfl, fun h => h, fun h => hn (Or.inr ?_)⟩
    simpa [flushStatus] using h

theorem restartAudio_firm (b : Build) (env : Env) (t : Int) (f n : Bool) (m : NuPlayer) :
    Post (restartAudio b env t f n m) (fun a => ∀ k, Held k m a) := by
  unfold restartAudio
  dsimp only
  refine post_bind _ _ _ _ (restartAudio_stage_tame b env n _) ?_
  rintro r ⟨hd, hv, ha⟩
  refine post_mono _ _ _ (restartAudio_tail_grows b env t f r.2 r.1) (fun a hg k => ?_)
  refine Held.heldTrans ?_ (hg.growsHeld k)
  cases k
  · intro hi hs
    have hs2 := hv hs
    have h1 : flushStatus false m = .SHUTTING_DOWN_DECODER := by
      simp only [flushStatus, Bool.false_eq_true, if_false] at hs2 ⊢
      split_ifs at hs2 <;> exact hs2
    have h2 := hi h1
    simp only [decoders, Prod.mk.injEq] at hd
    simp only [getDecoder, Bool.false_eq_true, if_false] at h2 ⊢
    rw [hd.2.2.2]
    split_ifs <;> exact h2
  · exact Held.heldOfIdle ha

theorem shutdownCompleted_firm (b : Build) (env : Env) (audio : Bool) (m : NuPlayer) :
    Post (onDecoderNotify b env audio .kWhatShutdownCompleted m) (Firm b m) := by
  unfold onDecoderNotify
  cases audio
  · simp only [Bool.false_eq_true, if_false, post_ite, post_error]
    refine ⟨fun _ => trivial, fun _ => ?_⟩
    apply finish_firm
    refine Firm.firmOfHeld (fun k => ?_)
    cases k
    · refine Held.heldOfIdle ?_
      split_ifs <;> simp [flushStatus, emit]
    · refine Held.heldOfSame ?_ ?_ <;> split_ifs <;> simp [flushStatus, getDecoder, emit]
  · simp only [if_true, post_ite, post_error]
    refine ⟨fun _ => trivial, fun _ => ?_⟩
    apply finish_firm
    refine Firm.firmOfHeld (fun k => ?_)
    cases k
    · exact Held.heldOfSame (by simp [flushStatus]) (by simp [getDecoder])
    · exact Held.heldOfIdle (by simp [flushStatus])

theorem Firm.firmOfSame {b : Build} {m a : NuPlayer} (hd : decoders a = decoders m)
    (ha : a.mFlushingAudio = m.mFlushingAudio) (hv : a.mFlushingVideo = m.mFlushingVideo) :
    Firm b m a :=
  (Tame.tameOfSame hd ha hv).tameFirm

theorem decoderError_firm (b : Build) (env : Env) (audio : Bool) (e1 e2 : Option Int)
    (m : NuPlayer) :
    Post (onDecoderNotify b env audio (.kWhatError e1 e2) m) (Firm b m) := by
  unfold onDecoderNotify
  dsimp only
  refine post_bind _ _ (fun a => machine a = machine m) _ ?_ ?_
  · simp only [post_ite, post_ok, post_error, pure_eq_ok]
    simp [machine, emit]
  intro a ha
  have hma : Firm b m a := (Tame.tameOfMachine ha).tameFirm
  refine post_bind _ _ (Firm b m) _ ?_ ?_
  · cases audio
    · simp only [Bool.false_eq_true, if_false]
      cases hs : a.mFlushingVideo
      · exact post_mono _ _ _ (drain_firm b env a _ (by simp [decoders]) (by simp [hs])
          (by simp [hs])) (fun _ h => hma.firmTrans h)
      · refine (post_ok _ _).2 (hma.firmTrans (Firm.firmOfHeld (fun k => ?_)))
        cases k
        · exact Held.heldOfIdle (by simp [flushStatus])
        · exact Held.heldOfSame (by simp [flushStatus]) (by simp [getDecoder])
      · exact (post_ok _ _).2 hma
      · exact (post_ok _ _).2 hma
      · simp only [post_ite, post_ok, post_error, pure_eq_ok]
        refine ⟨fun _ => trivial, fun hd => hma.firmTrans (Firm.firmOfHeld (fun k => ?_))⟩
        cases k
        · refine Held.heldOfHandle ?_
          revert hd
          split_ifs <;> simp [getDecoder, emit]
        · refine Held.heldOfSame ?_ ?_ <;> split_ifs <;> simp [flushStatus, getDecoder, emit]
      · exact finish_firm b env m a hma
    · simp only [if_true]
      cases hs : a.mFlushingAudio
      · exact post_mono _ _ _ (drain_firm b env a _ (by simp [decoders]) (by simp [hs])
          (by simp [hs])) (fun _ h => hma.firmTrans h)
      · refine (post_ok _ _).2 (hma.firmTrans (Firm.firmOfHeld (fun k => ?_)))
        cases k
        · exact Held.heldOfSame (by simp [flushStatus]) (by simp [getDecoder])
        · exact Held.heldOfIdle (by simp [flushStatus])
      · exact (post_ok _ _).2 hma
      · exact (post_ok _ _).2 hma
      · simp only [post_ite, post_ok, post_error, pure_eq_ok]
        refine ⟨fun _ => trivial, fun hd => hma.firmTrans (Firm.firmOfHeld (fun k => ?_))⟩
        cases k
        · refine Held.heldOfSame ?_ ?_ <;> simp [flushStatus, getDecoder, emit]
        · refine Held.heldOfHandle ?_
          revert hd
          simp [getDecoder, emit]
      · exact finish_firm b env m a hma
  intro a2 ha2
  rw [post_ite]
  refine ⟨fun _ => ?_, fun _ => ?_⟩
  · exact post_mono _ _ _ (handleForACodecError_machine _ _ _ _ _ _)
      (fun _ h => ha2.firmTrans ((Tame.tameOfMachine h).tameFirm))
  · exact (post_ok _ _).2 (ha2.firmTrans
      ((Tame.tameOfMachine (notifyListener_machine _ _ _ _ _ _)).tameFirm))

theorem onDecoderNotify_firm (b : Build) (env : Env) (audio : Bool) (what : DecoderWhat)
    (m : NuPlayer) :
    Post (onDecoderNotify b env audio what m) (Firm b m) := by
  cases what with
  | kWhatInputDiscontinuity fc =>
    unfold onDecoderNotify
    exact drain_firm b env m _ (by simp [decoders]) (by simp) (by simp)
  | kWhatEOS err =>
    unfold onDecoderNotify
    simp only [post_ite, post_ok, post_error]
    exact ⟨fun _ => trivial, fun _ => (Tame.tameOfMachine (emit_machine _ m)).tameFirm⟩
  | kWhatFlushCompleted => exact flushComplete_firm b env audio true m
  | kWhatVideoSizeChanged format =>
    unfold onDecoderNotify
    simp only [post_ite, post_ok, post_error]
    refine ⟨fun _ => trivial, fun _ => ?_⟩
    refine post_mono _ _ _ (updateVideoSize_machine _ _ _ _ _)
      (fun _ hm => (Tame.tameOfMachine (hm.trans ?_)).tameFirm)
    simp [machine, setVideoScalingMode, emit]
  | kWhatShutdownCompleted => exact shutdownCompleted_firm b env audio m
  | kWhatResumeCompleted =>
    exact (post_ok _ _).2 ((Tame.tameOfMachine (finishResume_machine env m)).tameFirm)
  | kWhatError e1 e2 => exact decoderError_firm b env audio e1 e2 m
  | other w => exact (post_ok _ _).2 (Firm.firmRefl b m)

theorem onRendererNotify_firm (b : Build) (env : Env) (what : RendererWhat) (m : NuPlayer) :
    Post (onRendererNotify b env what m) (Firm b m) := by
  cases what with
  | kWhatEOS audio finalResult =>
    refine post_mono _ (fun a => machine a = machine m) _ ?_
      (fun _ hm => (Tame.tameOfMachine hm).tameFirm)
    unfold onRendererNotify
    dsimp only
    simp only [post_ite, post_ok, post_error]
    cases audio <;>
      simp [machine, emit, notifyListener, notifyListenerParcel, handleForRenderError1]
  | kWhatFlushComplete audio =>
    unfold onRendererNotify
    dsimp only
    have h0 : Firm b m (if audio = true then { m with mAudioEOS := false }
        else { m with mVideoEOS := false }) :=
      Firm.firmOfSame (by cases audio <;> simp [decoders]) (by cases audio <;> simp)
        (by cases audio <;> simp)
    rw [post_ite]
    exact ⟨fun _ => (post_ok _ _).2 h0,
      fun _ => post_mono _ _ _ (flushComplete_firm b env audio false _)
        (fun _ h => h0.firmTrans h)⟩
  | kWhatVideoRenderingStart =>
    exact (post_ok _ _).2 ((Tame.tameOfMachine (notifyListener_machine _ _ _ _ _ m)).tameFirm)
  | kWhatMediaRenderingStart =>
    exact (post_ok _ _).2 ((Tame.tameOfMachine (notifyListener_machine _ _ _ _ _ m)).tameFirm)
  | kWhatAudioTearDown reason pos =>
    unfold onRendererNotify
    dsimp only
    rw [post_ite]
    refine ⟨fun _ => (post_ok _ _).2 (Firm.firmRefl b m), fun _ => ?_⟩
    rw [post_ite]
    exact ⟨fun _ => post_mono _ _ _ (restartAudio_firm b env _ _ _ m)
        (fun _ h => Firm.firmOfHeld h),
      fun _ => post_mono _ _ _ (restartAudio_firm b env _ _ _ m)
        (fun _ h => Firm.firmOfHeld h)⟩
  | kWhatRetryAudioOffload positionUs =>
    unfold onRendererNotify
    rw [post_ite]
    refine ⟨fun hb => ?_, fun _ => (post_ok _ _).2 (Firm.firmRefl b m)⟩
    refine post_bind _ _ (fun a => machine a = machine m) _ (closeAudioSink_machine m) ?_
    intro a ha
    refine post_mono _ _ _ (performSeek_machine b positionUs _) (fun r hr => ?_)
    simp only [machine, emit, Prod.mk.injEq] at ha hr
    simp at hr
    obtain ⟨-, h2, -, -, -, -, -, h8⟩ := ha
    obtain ⟨-, k2, -, -, -, -, -, k8⟩ := hr
    refine ⟨fun hn => ?_, Held.heldOfSame ?_ ?_⟩
    · rw [hb] at hn
      cases hn
    · simp [flushStatus, k2, h2]
    · simp [getDecoder, k8, h8]
  | other w => exact (post_ok _ _).2 (Firm.firmRefl b m)

theorem decoderNotify_firm (b : Build) (env : Env) (audio : Bool) (g : Int)
    (reply : Option AMessageId) (what : DecoderWhat) (m : NuPlayer) :
    Post (onMessageReceived b env (.kWhatDecoderNotify audio g reply what) m) (Firm b m) := by
  unfold onMessageReceived
  dsimp only
  rw [post_ite]
  refine ⟨fun _ => ?_, fun _ => onDecoderNotify_firm b env audio what m⟩
  cases reply with
  | none => exact (post_ok _ _).2 (Firm.firmRefl b m)
  | some r =>
    exact (post_ok _ _).2 ((Tame.tameOfMachine
      (emit_machine (.postMessage r (some INFO_DISCONTINUITY)) m)).tameFirm)

theorem rendererNotify_firm (b : Build) (env : Env) (g : Int) (what : RendererWhat)
    (m : NuPlayer) :
    Post (onMessageReceived b env (.kWhatRendererNotify g what) m) (Firm b m) := by
  unfold onMessageReceived
  dsimp only
  rw [post_ite]
  exact ⟨fun _ => (post_ok _ _).2 (Firm.firmRefl b m), fun _ => onRendererNotify_firm b env what m⟩

theorem configPlayback_firm (b : Build) (env : Env) (rate : AudioPlaybackRate)
    (replyID : AMessageId) (m : NuPlayer) :
    Post (onMessageReceived b env (.kWhatConfigPlayback rate replyID) m) (Firm b m) := by
  have hm : ∀ {x a : NuPlayer}, machine a = machine x → Firm b x a :=
    fun h => (Tame.tameOfMachine h).tameFirm
  unfold onMessageReceived
  dsimp only
  refine post_bind _ _ (fun r => Firm b m r.2) _ ?_ ?_
  · rw [post_ite]
    refine ⟨fun _ => ?_, fun _ => (post_ok _ _).2 (Firm.firmRefl b m)⟩
    refine post_bind _ _ (Firm b m) _ ?_ ?_
    · rw [post_ite]
      refine ⟨fun _ => ?_, fun _ => (post_ok _ _).2 (Firm.firmRefl b m)⟩
      refine post_bind _ _ (Firm b m) _ ?_ ?_
      · refine post_mono _ _ _ (restartAudio_firm b env _ true true _) (fun a ha => ?_)
        have h0 : Firm b m (if m.mPaused = false then
            emit (.renderer .pause) { m with mPlaybackSettings := rate }
            else { m with mPlaybackSettings := rate }) :=
          Firm.firmOfSame (by simp [decoders, emit]) (by simp [emit]) (by simp [emit])
        exact h0.firmTrans (Firm.firmOfHeld ha)
      · intro a ha
        simp only [post_ite, post_ok, post_error, pure_eq_ok]
        exact ⟨fun _ => ⟨fun _ => trivial, fun _ => ha.firmTrans (hm (emit_machine _ a))⟩,
          fun _ => ha⟩
    · intro a ha
      simp only [post_ite, post_ok, post_error, pure_eq_ok]
      exact ⟨fun _ => trivial, fun _ => ha.firmTrans (hm (emit_machine _ a))⟩
  intro r hr
  refine post_bind _ _ (Grows r.2) _ ?_ ?_
  · simp only [post_ite, post_ok, pure_eq_ok]
    refine ⟨fun _ => ⟨fun _ => Grows.growsOfMachine ?_, fun _ => ?_⟩, fun _ => Grows.growsRefl _⟩
    · simp [machine, onPause, emit]
    · refine post_bind _ _ (Grows r.2) _ ?_ ?_
      · simp only [post_ite, post_ok, pure_eq_ok]
        refine ⟨fun _ => ⟨fun _ => ?_, fun _ => Grows.growsOfMachine ?_⟩,
          fun _ => ⟨fun _ => ?_, fun _ => Grows.growsOfMachine ?_⟩⟩
        · exact post_mono _ _ _ (onResume_grows b env _)
            (fun a ha => (Grows.growsOfMachine (by simp [machine])).growsTrans ha)
        · simp [machine]
        · exact post_mono _ _ _ (onStart_grows b env _ _)
            (fun a ha => (Grows.growsOfMachine (by simp [machine])).growsTrans ha)
        · simp [machine]
      · intro a ha
        exact (post_ok _ _).2 (ha.growsTrans (Grows.growsOfMachine (by simp [machine])))
  · intro a ha
    refine (post_ok _ _).2 (hr.firmTrans ((ha.growsTrans (Grows.growsOfMachine ?_)).growsFirm))
    simp [machine, emit]

theorem onSourceNotify_firm (b : Build) (env : Env) (what : SourceWhat) (m : NuPlayer) :
    Post (onSourceNotify b env what m) (Firm b m) := by
  have hext : ∀ w, Post (if b.MTK_AOSP_ENHANCEMENT = true then onSourceNotify_ext b env w m
      else .error (.check 2726)) (Firm b m) := by
    intro w
    simp only [post_ite, post_error]
    exact ⟨fun _ => post_mono _ _ _ (onSourceNotify_ext_machine b env w m)
      (fun _ hm => (Tame.tameOfMachine hm).tameFirm), fun _ => trivial⟩
  have hm : ∀ {a : NuPlayer}, machine a = machine m → Firm b m a :=
    fun h => (Tame.tameOfMachine h).tameFirm
  cases what with
  | kWhatInstantiateSecureDecoders reply =>
    unfold onSourceNotify
    simp only [post_ite, post_ok]
    refine ⟨fun _ => Firm.firmRefl b m, fun _ => ?_⟩
    refine post_bind _ _ _ _ (onInstantiateSecureDecoders_grows b env m) ?_
    intro r hr
    exact (post_ok _ _).2 (hr.growsTrans (Grows.growsOfMachine (emit_machine _ _))).growsFirm
  | kWhatPrepared err =>
    unfold onSourceNotify
    simp only [post_ite, post_ok]
    refine ⟨fun _ => Firm.firmRefl b m, fun _ => ?_⟩
    refine post_bind _ _ (Firm b m) _ ?_ ?_
    · simp only [post_ite, post_ok, pure_eq_ok]
      exact ⟨fun _ => drain_firm b env m _ (by simp [decoders]) (by simp) (by simp),
        fun _ => Firm.firmOfSame (by simp [decoders]) (by simp) (by simp)⟩
    intro a ha
    refine post_mono _ (fun r => machine r = machine a) _ ?_ (fun r hr => ha.firmTrans (Tame.tameOfMachine hr).tameFirm)
    simp only [post_ite, post_ok, post_error, pure_eq_ok]
    refine ⟨fun _ => onSourcePrepard_machine b env err a, fun _ => ⟨fun _ => ⟨fun _ => trivial, fun _ => ?_⟩, fun _ => trivial⟩⟩
    cases env.sourceDuration <;> simp [machine, emit]
  | kWhatFlagsChanged flags =>
    refine (post_ok _ _).2 (hm ?_)
    simp [machine, emit, cancelPollDuration, schedulePollDuration]
  | kWhatVideoSizeChanged format =>
    unfold onSourceNotify
    exact post_mono _ _ _ (updateVideoSize_machine _ _ _ _ _) (fun _ h => hm h)
  | kWhatBufferingUpdate p => exact (post_ok _ _).2 (hm (notifyListener_machine _ _ _ _ _ m))
  | kWhatPauseOnBufferingStart =>
    unfold onSourceNotify
    dsimp only
    have hq : machine (if b.MTK_AOSP_ENHANCEMENT = true then isRTSPSource env m
        else (false, m)).2 = machine m := by
      by_cases hb : b.MTK_AOSP_ENHANCEMENT = true <;> simp [hb, machine, isRTSPSource]
    generalize (if b.MTK_AOSP_ENHANCEMENT = true then isRTSPSource env m else (false, m)) = q
      at hq ⊢
    simp only [post_ite, post_ok]
    refine ⟨fun _ => hm (Eq.trans ?_ hq), fun _ => hm (Eq.trans ?_ hq)⟩
    · simp [machine, emit, notifyListener, notifyListenerParcel]
    · simp [machine, emit, notifyListener, notifyListenerParcel, onPause]
  | kWhatResumeOnBufferingEnd =>
    unfold onSourceNotify
    dsimp only
    have hq : machine (if b.MTK_AOSP_ENHANCEMENT = true then isRTSPSource env m
        else (false, m)).2 = machine m := by
      by_cases hb : b.MTK_AOSP_ENHANCEMENT = true <;> simp [hb, machine, isRTSPSource]
    generalize (if b.MTK_AOSP_ENHANCEMENT = true then isRTSPSource env m else (false, m)) = q
      at hq ⊢
    simp only [post_ite, post_ok]
    refine ⟨fun _ => hm (Eq.trans ?_ hq), fun _ => ?_⟩
    · simp [machine, emit, notifyListener, notifyListenerParcel]
    · refine post_bind _ _ (Grows m) _ ?_ ?_
      · simp only [post_ite, post_ok, pure_eq_ok]
        refine ⟨fun _ => ⟨fun _ => ?_, fun _ => Grows.growsOfMachine (Eq.trans ?_ hq)⟩,
          fun _ => Grows.growsOfMachine hq⟩
        · refine post_mono _ _ _ (onResume_grows b env _)
            (fun r hr => (Grows.growsOfMachine (Eq.trans ?_ hq)).growsTrans hr)
          simp [machine]
        · simp [machine]
      · intro a ha
        exact (post_ok _ _).2 (ha.growsTrans (Grows.growsOfMachine (notifyListener_machine _ _ _ _ _ a))).growsFirm
  | kWhatCacheStats bw => exact (post_ok _ _).2 (hm (notifyListener_machine _ _ _ _ _ m))
  | kWhatSubtitleData i t d =>
    refine (post_ok _ _).2 (hm ?_)
    simp [machine, emit, sendSubtitleData, notifyListenerParcel]
  | kWhatTimedMetaData t =>
    unfold onSourceNotify
    cases t <;>
    · refine (post_ok _ _).2 (hm ?_)
      simp [machine, emit, notifyListener, notifyListenerParcel]
  | kWhatTimedTextData g t s =>
    unfold onSourceNotify
    simp only [post_ite, post_ok]
    refine ⟨fun _ => Firm.firmRefl b m, fun _ => ⟨fun _ => Firm.firmRefl b m, fun _ => ⟨fun _ => hm ?_, fun _ => hm ?_⟩⟩⟩
    · simp [machine, emit]
    · simp [machine, emit, notifyListener, notifyListenerParcel]
  | kWhatQueueDecoderShutdown a v r =>
    exact drain_firm b env m _ (by simp [decoders]) (by simp) (by simp)
  | kWhatDrmNoLicense => exact (post_ok _ _).2 (hm (notifyListener_machine _ _ _ _ _ m))
  | kWhatDurationUpdate d => exact hext _
  | kWhatSourceError e => exact hext _
  | kWhatBufferNotify r => exact hext _
  | kWhatSeekDone => exact hext _
  | kWhatPicture => exact hext _
  | other w => exact hext _

theorem setVideoSurface_firm (b : Build) (env : Env) (surface : Option Surface) (m : NuPlayer) :
    Post (onMessageReceived b env (.kWhatSetVideoSurface surface) m) (Firm b m) := by
  have hm : ∀ {a : NuPlayer}, machine a = machine m → Firm b m a :=
    fun h => (Tame.tameOfMachine h).tameFirm
  unfold onMessageReceived
  dsimp only
  simp only [post_ite, post_ok]
  refine ⟨fun _ => hm (performSetSurface_machine _ _ _ _), fun _ =>
    ⟨fun _ => hm ((performSetSurface_machine _ _ _ _).trans ?_), fun _ => ?_⟩⟩
  · simp [machine, emit]
  · exact drain_firm b env m _ (by simp [decoders, emit]) (by simp [emit]) (by simp [emit])

theorem otherMessages_firm (b : Build) (env : Env) (msg : Msg) (m : NuPlayer)
    (h1 : ∀ a g r w, msg ≠ .kWhatDecoderNotify a g r w)
    (h2 : ∀ g w, msg ≠ .kWhatRendererNotify g w)
    (h3 : ∀ r i, msg ≠ .kWhatConfigPlayback r i) :
    Post (onMessageReceived b env msg m) (Firm b m) := by
  have hm : ∀ {a : NuPlayer}, machine a = machine m → Firm b m a :=
    fun h => (Tame.tameOfMachine h).tameFirm
  cases msg with
  | kWhatSetDataSource source result =>
    refine post_mono _ (fun a => machine a = machine m) _ ?_ (fun _ h => hm h)
    unfold onMessageReceived
    simp only [post_ite, post_ok, post_error]
    simp [machine, emit]
  | kWhatPrepare =>
    unfold onMessageReceived
    simp only [post_ite, post_ok, post_error]
    refine ⟨fun _ => ⟨fun _ => Firm.firmRefl b m, fun _ => ⟨fun _ => ?_, fun _ => hm ?_⟩⟩,
      fun _ => ⟨fun _ => trivial, fun _ => hm ?_⟩⟩
    · refine post_mono _ _ _ (finishPrepare_machine _ _ _ _) (fun _ h => hm (h.trans ?_))
      simp [machine]
    · simp [machine, emit]
    · simp [machine, emit]
  | kWhatGetTrackInfo replyID =>
    unfold onMessageReceived
    dsimp only
    refine post_bind _ _ (fun a => machine a = machine m) _ ?_ ?_
    · exact post_mono _ _ _ (writeTrackInfos_machine _ _ _) (fun _ h => h.trans (emit_machine _ m))
    intro a ha
    refine post_bind _ _ (fun a => machine a = machine m) _ ?_ ?_
    · exact post_mono _ _ _ (writeTrackInfos_machine _ _ _) (fun _ h => h.trans ha)
    intro a2 ha2
    exact (post_ok _ _).2 (hm ((emit_machine _ a2).trans ha2))
  | kWhatGetSelectedTrack t replyID =>
    refine post_mono _ (fun a => machine a = machine m) _ ?_ (fun _ h => hm h)
    unfold onMessageReceived
    simp only [post_ite, post_ok, post_error]
    simp [machine, emit]
  | kWhatSelectTrack trackIndex select timeUs replyID =>
    refine post_mono _ (fun a => machine a = machine m) _ ?_ (fun _ h => hm h)
    unfold onMessageReceived
    dsimp only
    simp only [post_ite, post_ok, post_error]
    simp [machine, emit]
  | kWhatPollDuration generation =>
    refine post_mono _ (fun a => machine a = machine m) _ ?_ (fun _ h => hm h)
    unfold onMessageReceived
    simp only [post_ite, post_ok, post_error]
    cases env.sourceDuration <;> simp [machine, emit]
  | kWhatSetVideoSurface surface => exact setVideoSurface_firm b env surface m
  | kWhatSetAudioSink sink => exact (post_ok _ _).2 (hm (by simp [machine]))
  | kWhatStart =>
    unfold onMessageReceived
    refine post_bind _ _ (Grows m) _ ?_ ?_
    · simp only [post_ite, post_ok, pure_eq_ok]
      refine ⟨fun _ => ⟨fun _ => ?_, fun _ => Grows.growsRefl m⟩, fun _ => onStart_grows b env _ m⟩
      refine post_bind _ _ (Grows m) _ ?_ (fun a ha => post_mono _ _ _ (onResume_grows b env a)
        (fun _ h => ha.growsTrans h))
      simp only [post_ite, post_ok, pure_eq_ok]
      refine ⟨fun _ => ?_, fun _ => Grows.growsRefl m⟩
      exact post_bind _ _ _ _ (onScanSources_grows b env m) (fun r hr => (post_ok _ _).2 hr)
    · intro a ha
      exact (post_ok _ _).2 (ha.growsTrans (Grows.growsOfMachine (by simp [machine]))).growsFirm
  | kWhatConfigPlayback rate replyID => exact absurd rfl (h3 rate replyID)
  | kWhatGetPlaybackSettings replyID =>
    refine (post_ok _ _).2 (hm ?_)
    simp [machine, emit]
  | kWhatConfigSync sync videoFpsHint replyID =>
    refine (post_ok _ _).2 (hm ?_)
    simp [machine, emit]
  | kWhatGetSyncSettings replyID =>
    refine (post_ok _ _).2 (hm ?_)
    simp [machine, emit]
  | kWhatScanSources generation =>
    unfold onMessageReceived
    dsimp only
    simp only [post_ite, post_ok]
    refine ⟨fun _ => Firm.firmRefl b m, fun _ => ⟨fun _ => ?_, fun _ => ?_⟩⟩
    · refine post_bind _ _ (Grows m) _ ?_ ?_
      · exact post_mono _ _ _ (scanSource_l_grows b env generation _)
          (fun _ h => (Grows.growsOfMachine (by simp [machine])).growsTrans h)
      · intro a ha
        refine post_mono _ (fun r => machine r = machine a) _ ?_
          (fun r hr => (ha.growsTrans (Grows.growsOfMachine hr)).growsFirm)
        simp only [post_ite, post_ok, pure_eq_ok]
        simp [machine, emit, notifyListener, notifyListenerParcel]
    · exact post_mono _ _ _ (scanSources_grows b env generation _)
        (fun _ h => ((Grows.growsOfMachine (by simp [machine])).growsTrans h).growsFirm)
  | kWhatDecoderNotify audio g reply what => exact absurd rfl (h1 audio g reply what)
  | kWhatRendererNotify g what => exact absurd rfl (h2 g what)
  | kWhatMoreDataQueued => exact (post_ok _ _).2 (Firm.firmRefl b m)
  | kWhatReset =>
    exact drain_firm b env m _ (by simp [decoders]) (by simp) (by simp)
  | kWhatSeek seekTimeUs needNotify =>
    unfold onMessageReceived
    dsimp only
    rw [post_ite]
    refine ⟨fun _ => ?_, fun _ => drain_firm b env m _ (by simp [decoders]) (by simp) (by simp)⟩
    refine post_bind _ _ _ _ (onStart_grows b env seekTimeUs m) ?_
    intro a ha
    refine (post_ok _ _).2 (ha.growsTrans (Grows.growsOfMachine ?_)).growsFirm
    simp [machine, emit, onPause, notifyDriverSeekComplete]
  | kWhatPause =>
    refine (post_ok _ _).2 (hm ?_)
    simp [machine, emit, onPause]
  | kWhatSourceNotify what => exact onSourceNotify_firm b env what m
  | kWhatClosedCaptionNotify what =>
    exact post_mono _ _ _ (onClosedCaptionNotify_machine b env what m) (fun _ h => hm h)

/-- What one message can do to a track that is shutting down: it keeps its decoder, in a
build with MTK_AUDIO_TUNNELING_SUPPORT the video track at least. -/
theorem onMessageReceived_firm (b : Build) (env : Env) (msg : Msg) (m : NuPlayer) :
    Post (onMessageReceived b env msg m) (Firm b m) := by
  by_cases h1 : ∃ a g r w, msg = .kWhatDecoderNotify a g r w
  · obtain ⟨a, g, r, w, rfl⟩ := h1
    exact decoderNotify_firm b env a g r w m
  by_cases h2 : ∃ g w, msg = .kWhatRendererNotify g w
  · obtain ⟨g, w, rfl⟩ := h2
    exact rendererNotify_firm b env g w m
  by_cases h3 : ∃ r i, msg = .kWhatConfigPlayback r i
  · obtain ⟨r, i, rfl⟩ := h3
    exact configPlayback_firm b env r i m
  exact otherMessages_firm b env msg m (fun a g r w h => h1 ⟨a, g, r, w, h⟩)
    (fun g w h => h2 ⟨g, w, h⟩) (fun r i h => h3 ⟨r, i, h⟩)

theorem run_firm (b : Build) :
    ∀ (msgs : List (Env × Msg)) (m : NuPlayer), Post (run b msgs m) (Firm b m) := by
  intro msgs
  induction msgs with
  | nil => intro m; exact (post_ok _ _).2 (Firm.firmRefl b m)
  | cons x rest ih =>
    intro m
    unfold run
    refine post_bind _ _ (Firm b m) _ (onMessageReceived_firm b x.1 x.2 m) ?_
    intro a ha
    exact post_mono _ _ _ (ih a) (fun _ h => ha.firmTrans h)

/-- C14 (amended): in every state that a run of messages reaches from the fresh player,
instantiateDecoder returns OK and leaves the controller as it is, creating no decoder and
keeping handle and generation counter, whenever the audio track is in SHUT_DOWN, the
video track is in SHUTTING_DOWN_DECODER, or the audio track is in SHUTTING_DOWN_DECODER
and the build is without MTK_AUDIO_TUNNELING_SUPPORT. -/
theorem instantiateDecoder_noop_while_shutting_down (b : Build) (debugDisableTrack : Int)
    (msgs : List (Env × Msg)) (a : NuPlayer) (env : Env) (audio checkAudioModeChange : Bool)
    (hrun : run b msgs (NuPlayer.new debugDisableTrack) = .ok a)
    (hs : (audio = true ∧ flushStatus audio a = .SHUT_DOWN)
      ∨ (flushStatus audio a = .SHUTTING_DOWN_DECODER
          ∧ (audio = true → b.MTK_AUDIO_TUNNELING_SUPPORT = false))) :
    instantiateDecoder b env audio checkAudioModeChange a = .ok (OK, a) := by
  unfold instantiateDecoder
  refine if_pos ?_
  rcases hs with ⟨ha, hs⟩ | ⟨hs, hb⟩
  · right
    subst ha
    exact ⟨rfl, by simpa [flushStatus] using hs⟩
  · left
    have hf := run_firm b msgs (NuPlayer.new debugDisableTrack) a hrun
    have h0 : ∀ k, ShuttingDownHasDecoder k (NuPlayer.new debugDisableTrack) := by
      intro k hk
      cases k <;> simp [flushStatus, NuPlayer.new] at hk
    cases audio
    · exact hf.2 (h0 false) hs
    · exact hf.1 (hb rfl) (h0 true) hs

theorem instantiateDecoder_noop_while_shutting_down_witness :
    run stockBuild (audioShuttingDown.map (fun x => (sampleEnv, x))) (NuPlayer.new 0)
        = .ok (reached stockBuild audioShuttingDown)
    ∧ flushStatus true (reached stockBuild audioShuttingDown) = .SHUTTING_DOWN_DECODER
    ∧ instantiateDecoder stockBuild sampleEnv true true (reached stockBuild audioShuttingDown)
        = .ok (OK, reached stockBuild audioShuttingDown) :=
  ⟨rfl, by decide,
   instantiateDecoder_noop_while_shutting_down stockBuild 0
     (audioShuttingDown.map (fun x => (sampleEnv, x))) (reached stockBuild audioShuttingDown)
     sampleEnv true true rfl (Or.inr ⟨by decide, fun _ => by decide⟩)⟩

end android
